import Mathlib

/-!
Shallow embedding of `Programming Assignments/Dynamic Programming/policy_iteration.py`.

Machine floats are modelled as exact rationals (ℚ).  Numpy arrays are modelled
as Lean lists; the in-place element updates of the Python code (`V[s] = v`,
`policy[s] = ...`) become `List.set`.  The unbounded `while True:` loops are
given explicit fuel and return `Option`, `none` meaning the fuel ran out.
-/

/-- One transition tuple `(prob, next_state, reward, done)` of `env.P[s][a]`. -/
abbrev TransTuple := ℚ × Nat × ℚ × Bool

/-- The OpenAI-gym style environment interface the script consumes:
`env.nS`, `env.nA` and the transition table `env.P`. -/
structure Env where
  nS : Nat
  nA : Nat
  P : Nat → Nat → List TransTuple

/-- The inner two loops of one state's "full backup" in `policy_eval`:
`v = 0`, then `for a, action_prob in enumerate(policy[s]): for prob,
next_state, reward, done in env.P[s][a]: v += action_prob * prob *
(reward + discount_factor * V[next_state])`. -/
def stateBackup (env : Env) (discount_factor : ℚ) (V : List ℚ) (row : List ℚ)
    (s : Nat) : ℚ :=
  row.enum.foldl
    (fun v pa =>
      (env.P s pa.1).foldl
        (fun v t => v + pa.2 * t.1 * (t.2.2.1 + discount_factor * V.getD t.2.1 0))
        v)
    0

/-- The `for s in range(env.nS)` loop of one sweep of `policy_eval`, carried
over an explicit list of remaining states: computes `v`, updates
`delta = max(delta, abs(v - V[s]))` and writes `V[s] = v` in place. -/
def sweepAux (policy : List (List ℚ)) (env : Env) (discount_factor : ℚ) :
    List Nat → List ℚ → ℚ → List ℚ × ℚ
  | [], V, delta => (V, delta)
  | s :: rest, V, delta =>
    sweepAux policy env discount_factor rest
      (V.set s (stateBackup env discount_factor V (policy.getD s []) s))
      (max delta |stateBackup env discount_factor V (policy.getD s []) s - V.getD s 0|)

/-- One full sweep of `policy_eval`'s `while True:` body, returning the
updated value vector and the sweep's `delta`. -/
def sweep (policy : List (List ℚ)) (env : Env) (discount_factor : ℚ)
    (V : List ℚ) : List ℚ × ℚ :=
  sweepAux policy env discount_factor (List.range env.nS) V 0

/-- The `while True:` loop of `policy_eval`, with fuel: sweep, then stop as
soon as `delta < theta`. -/
def policyEvalLoop (policy : List (List ℚ)) (env : Env)
    (discount_factor theta : ℚ) : Nat → List ℚ → Option (List ℚ)
  | 0, _ => none
  | fuel + 1, V =>
    if (sweep policy env discount_factor V).2 < theta then
      some (sweep policy env discount_factor V).1
    else
      policyEvalLoop policy env discount_factor theta fuel
        (sweep policy env discount_factor V).1

/-- Python `policy_eval(policy, env, discount_factor=1.0, theta=0.00001)`:
start from `V = np.zeros(env.nS)` and sweep until `delta < theta`. -/
def policy_eval (policy : List (List ℚ)) (env : Env) (discount_factor theta : ℚ)
    (fuel : Nat) : Option (List ℚ) :=
  policyEvalLoop policy env discount_factor theta fuel (List.replicate env.nS 0)

/-- The Python defaults `discount_factor=1.0, theta=0.00001` of `policy_eval`. -/
def defaultTheta : ℚ := 1 / 100000

/-- Python `one_step_lookahead(state, V)`: `A = np.zeros(env.nA)`, then
`A[a] += prob * (reward + discount_factor * V[next_state])` over
`env.P[state][a]`. -/
def one_step_lookahead (env : Env) (discount_factor : ℚ) (state : Nat)
    (V : List ℚ) : List ℚ :=
  (List.range env.nA).map (fun a =>
    (env.P state a).foldl
      (fun acc t => acc + t.1 * (t.2.2.1 + discount_factor * V.getD t.2.1 0)) 0)

/-- Tail of `np.argmax`: scan the remaining entries, replacing the current
best only on a strictly larger value (so the first maximum wins). -/
def argmaxAux : List ℚ → Nat → ℚ → Nat → Nat
  | [], _, _, best => best
  | x :: xs, i, bv, best =>
    if bv < x then argmaxAux xs (i + 1) x i else argmaxAux xs (i + 1) bv best

/-- Model of `np.argmax` on a rational vector: index of the first maximal
entry (0 on the empty list, where numpy would raise). -/
def argmax : List ℚ → Nat
  | [] => 0
  | x :: xs => argmaxAux xs 1 x 0

/-- Model of `np.eye(n)[i]`: the one-hot row of length `n` with a 1 in
position `i`. -/
def eyeRow (n i : Nat) : List ℚ :=
  (List.range n).map (fun j => if j = i then 1 else 0)

/-- The `for s in range(env.nS)` loop of one improvement round of
`policy_improvement`: record `old_action = np.argmax(policy[s])`, compute
`best_a = np.argmax(one_step_lookahead(s, V))`, clear `policy_stable` if they
differ, and write `policy[s] = np.eye(env.nA)[best_a]` in place. -/
def improveSweep (env : Env) (discount_factor : ℚ) (V : List ℚ) :
    List Nat → List (List ℚ) → Bool → List (List ℚ) × Bool
  | [], policy, stable => (policy, stable)
  | s :: rest, policy, stable =>
    improveSweep env discount_factor V rest
      (policy.set s (eyeRow env.nA (argmax (one_step_lookahead env discount_factor s V))))
      (if argmax (policy.getD s []) ≠ argmax (one_step_lookahead env discount_factor s V)
        then false else stable)

/-- The `while True:` loop of `policy_improvement`, with fuel.  Note the
evaluation call is `policy_eval(policy, env)` — the module-level function with
its defaults `discount_factor=1.0, theta=0.00001`; neither the `policy_eval_fn`
parameter nor the loop's `discount_factor` reaches it. -/
def policyImproveLoop (env : Env) (discount_factor : ℚ) (evalFuel : Nat) :
    Nat → List (List ℚ) → Option (List (List ℚ) × List ℚ)
  | 0, _ => none
  | fuel + 1, policy =>
    match policy_eval policy env 1 defaultTheta evalFuel with
    | none => none
    | some V =>
      if (improveSweep env discount_factor V (List.range env.nS) policy true).2 then
        some ((improveSweep env discount_factor V (List.range env.nS) policy true).1, V)
      else
        policyImproveLoop env discount_factor evalFuel fuel
          (improveSweep env discount_factor V (List.range env.nS) policy true).1

/-- The initial `policy = np.ones([env.nS, env.nA]) / env.nA`. -/
def uniformPolicy (nS nA : Nat) : List (List ℚ) :=
  List.replicate nS (List.replicate nA ((1 : ℚ) / (nA : ℚ)))

/-- Python `policy_improvement(env, policy_eval_fn=policy_eval,
discount_factor=1.0)`.  The `policy_eval_fn` parameter is bound, exactly as in
the source, but the body never uses it: the loop calls the module-level
`policy_eval` directly. -/
def policy_improvement (env : Env)
    (policy_eval_fn : List (List ℚ) → Env → ℚ → Option (List ℚ))
    (discount_factor : ℚ) (evalFuel fuel : Nat) :
    Option (List (List ℚ) × List ℚ) :=
  policyImproveLoop env discount_factor evalFuel fuel (uniformPolicy env.nS env.nA)

/-- Modelled from the spec: the 4x4 deterministic absorbing grid of §8
(`lib/envs/gridworld.py`, which the script imports as `GridworldEnv()`, is not
part of the repository snapshot).  States are indexed row-major, actions are
0=up, 1=right, 2=down, 3=left, moves that would leave the grid stay in place.
This returns the successor state of a move. -/
def gridNext (s a : Nat) : Nat :=
  if a = 0 then (if s < 4 then s else s - 4)
  else if a = 1 then (if s % 4 = 3 then s else s + 1)
  else if a = 2 then (if 12 ≤ s then s else s + 4)
  else (if s % 4 = 0 then s else s - 1)

/-- Modelled from the spec: the 4x4 deterministic absorbing grid environment
with unit step cost — every move from a non-terminal state is deterministic
with reward -1, the terminal corners (states 0 and 15, the two corners the
expected layout `[0,-1,...,-1,0]` assigns value 0) self-loop with reward 0. -/
def gridworldEnv : Env :=
  Env.mk 16 4 (fun s a =>
    if s = 0 ∨ s = 15 then [(1, s, 0, true)]
    else [(1, gridNext s a, -1, decide (gridNext s a = 0 ∨ gridNext s a = 15))])

/-- The golden value layout `expected_v` of the script's regression test. -/
def expected_v : List ℚ :=
  [0, -1, -2, -3, -1, -2, -3, -2, -2, -3, -2, -1, -3, -2, -1, 0]

/-- The optimal deterministic policy the loop computes on `gridworldEnv`. -/
def gridPolicy : List (List ℚ) :=
  [[1, 0, 0, 0], [0, 0, 0, 1], [0, 0, 0, 1], [0, 0, 1, 0],
   [1, 0, 0, 0], [1, 0, 0, 0], [1, 0, 0, 0], [0, 0, 1, 0],
   [1, 0, 0, 0], [1, 0, 0, 0], [0, 1, 0, 0], [0, 0, 1, 0],
   [1, 0, 0, 0], [0, 1, 0, 0], [0, 1, 0, 0], [1, 0, 0, 0]]

/-- Intermediate vectors of the first policy evaluation on the grid:
`gridV k` is the value vector after `k` in-place sweeps from the all-zero
start under the uniform policy (computed once and certified sweep by sweep
below). -/

def gridV0 : List ℚ :=
  [(0 : ℚ), (0 : ℚ), (0 : ℚ), (0 : ℚ), (0 : ℚ), (0 : ℚ), (0 : ℚ), (0 : ℚ), (0 : ℚ), (0 : ℚ), (0 : ℚ), (0 : ℚ), (0 : ℚ), (0 : ℚ), (0 : ℚ), (0 : ℚ)]

def gridV1 : List ℚ :=
  [(0 : ℚ), (-1 : ℚ), (-5 : ℚ)/4, (-21 : ℚ)/16, (-1 : ℚ), (-3 : ℚ)/2, (-27 : ℚ)/16, (-7 : ℚ)/4, (-5 : ℚ)/4, (-27 : ℚ)/16, (-59 : ℚ)/32, (-243 : ℚ)/128, (-21 : ℚ)/16, (-7 : ℚ)/4, (-243 : ℚ)/128, (0 : ℚ)]

def gridV2 : List ℚ :=
  [(0 : ℚ), (-31 : ℚ)/16, (-163 : ℚ)/64, (-699 : ℚ)/256, (-31 : ℚ)/16, (-45 : ℚ)/16, (-829 : ℚ)/256, (-1743 : ℚ)/512, (-163 : ℚ)/64, (-829 : ℚ)/256, (-1827 : ℚ)/512, (-3295 : ℚ)/1024, (-699 : ℚ)/256, (-1743 : ℚ)/512, (-3295 : ℚ)/1024, (0 : ℚ)]

def gridV3 : List ℚ :=
  [(0 : ℚ), (-723 : ℚ)/256, (-3927 : ℚ)/1024, (-17101 : ℚ)/4096, (-723 : ℚ)/256, (-129 : ℚ)/32, (-19291 : ℚ)/4096, (-19975 : ℚ)/4096, (-3927 : ℚ)/1024, (-19291 : ℚ)/4096, (-40663 : ℚ)/8192, (-139741 : ℚ)/32768, (-17101 : ℚ)/4096, (-19975 : ℚ)/4096, (-139741 : ℚ)/32768, (0 : ℚ)]

def gridV4 : List ℚ :=
  [(0 : ℚ), (-15043 : ℚ)/4096, (-83527 : ℚ)/16384, (-365771 : ℚ)/65536, (-15043 : ℚ)/4096, (-21263 : ℚ)/4096, (-395341 : ℚ)/65536, (-811169 : ℚ)/131072, (-83527 : ℚ)/16384, (-395341 : ℚ)/65536, (-805895 : ℚ)/131072, (-675079 : ℚ)/131072, (-365771 : ℚ)/65536, (-811169 : ℚ)/131072, (-675079 : ℚ)/131072, (0 : ℚ)]

def gridV5 : List ℚ :=
  [(0 : ℚ), (-294287 : ℚ)/65536, (-1651651 : ℚ)/262144, (-7248733 : ℚ)/1048576, (-294287 : ℚ)/65536, (-205175 : ℚ)/32768, (-7575755 : ℚ)/1048576, (-3863597 : ℚ)/524288, (-1651651 : ℚ)/262144, (-7575755 : ℚ)/1048576, (-15073539 : ℚ)/2097152, (-49717799 : ℚ)/8388608, (-7248733 : ℚ)/1048576, (-3863597 : ℚ)/524288, (-49717799 : ℚ)/8388608, (0 : ℚ)]

def gridV6 : List ℚ :=
  [(0 : ℚ), (-5518775 : ℚ)/1048576, (-31144171 : ℚ)/4194304, (-136820027 : ℚ)/16777216, (-5518775 : ℚ)/1048576, (-7595841 : ℚ)/1048576, (-139360605 : ℚ)/16777216, (-283180099 : ℚ)/33554432, (-31144171 : ℚ)/4194304, (-139360605 : ℚ)/16777216, (-272350635 : ℚ)/33554432, (-444309829 : ℚ)/67108864, (-136820027 : ℚ)/16777216, (-283180099 : ℚ)/33554432, (-444309829 : ℚ)/67108864, (0 : ℚ)]

def gridV7 : List ℚ :=
  [(0 : ℚ), (-100379851 : ℚ)/16777216, (-568246031 : ℚ)/67108864, (-2497601901 : ℚ)/268435456, (-100379851 : ℚ)/16777216, (-34161861 : ℚ)/4194304, (-2494332731 : ℚ)/268435456, (-2527089141 : ℚ)/268435456, (-568246031 : ℚ)/67108864, (-2494332731 : ℚ)/268435456, (-4808442959 : ℚ)/536870912, (-15564583521 : ℚ)/2147483648, (-2497601901 : ℚ)/268435456, (-2527089141 : ℚ)/268435456, (-15564583521 : ℚ)/2147483648, (0 : ℚ)]

def gridV8 : List ℚ :=
  [(0 : ℚ), (-1784790667 : ℚ)/268435456, (-10123451247 : ℚ)/1073741824, (-44507590315 : ℚ)/4294967296, (-1784790667 : ℚ)/268435456, (-2407997155 : ℚ)/268435456, (-43775649645 : ℚ)/4294967296, (-88512851221 : ℚ)/8589934592, (-10123451247 : ℚ)/1073741824, (-43775649645 : ℚ)/4294967296, (-83494751279 : ℚ)/8589934592, (-33578209369 : ℚ)/4294967296, (-44507590315 : ℚ)/4294967296, (-88512851221 : ℚ)/8589934592, (-33578209369 : ℚ)/4294967296, (0 : ℚ)]

def gridV9 : List ℚ :=
  [(0 : ℚ), (-31189569831 : ℚ)/4294967296, (-177146483963 : ℚ)/17179869184, (-778952385661 : ℚ)/68719476736, (-31189569831 : ℚ)/4294967296, (-20888788517 : ℚ)/2147483648, (-756991473835 : ℚ)/68719476736, (-95505497691 : ℚ)/8589934592, (-177146483963 : ℚ)/17179869184, (-756991473835 : ℚ)/68719476736, (-1431681777211 : ℚ)/137438953472, (-4584028253963 : ℚ)/549755813888, (-778952385661 : ℚ)/68719476736, (-95505497691 : ℚ)/8589934592, (-4584028253963 : ℚ)/549755813888, (0 : ℚ)]

def gridV10 : List ℚ :=
  [(0 : ℚ), (-537734548159 : ℚ)/68719476736, (-3057142250451 : ℚ)/274877906944, (-13444448889627 : ℚ)/1099511627776, (-537734548159 : ℚ)/68719476736, (-716082487733 : ℚ)/68719476736, (-12940523309693 : ℚ)/1099511627776, (-26087889461399 : ℚ)/2199023255552, (-3057142250451 : ℚ)/274877906944, (-12940523309693 : ℚ)/1099511627776, (-24307603073171 : ℚ)/2199023255552, (-38763849286315 : ℚ)/4398046511104, (-13444448889627 : ℚ)/1099511627776, (-26087889461399 : ℚ)/2199023255552, (-38763849286315 : ℚ)/4398046511104, (0 : ℚ)]

def gridV11 : List ℚ :=
  [(0 : ℚ), (-9171922021795 : ℚ)/1099511627776, (-52183509734023 : ℚ)/4398046511104, (-229507065818253 : ℚ)/17592186044416, (-9171922021795 : ℚ)/1099511627776, (-759733393345 : ℚ)/68719476736, (-219189618021659 : ℚ)/17592186044416, (-220705985213507 : ℚ)/17592186044416, (-52183509734023 : ℚ)/4398046511104, (-219189618021659 : ℚ)/17592186044416, (-409429387255751 : ℚ)/35184372088832, (-1301689640328613 : ℚ)/140737488355328, (-229507065818253 : ℚ)/17592186044416, (-220705985213507 : ℚ)/17592186044416, (-1301689640328613 : ℚ)/140737488355328, (0 : ℚ)]

def gridV12 : List ℚ :=
  [(0 : ℚ), (-155086321039699 : ℚ)/17592186044416, (-882885787993367 : ℚ)/70368744177664, (-3883241232104075 : ℚ)/281474976710656, (-155086321039699 : ℚ)/17592186044416, (-204730155575095 : ℚ)/17592186044416, (-3684964102369933 : ℚ)/281474976710656, (-7414390142694985 : ℚ)/562949953421312, (-882885787993367 : ℚ)/70368744177664, (-3684964102369933 : ℚ)/281474976710656, (-6851293336448471 : ℚ)/562949953421312, (-5431060463535789 : ℚ)/562949953421312, (-3883241232104075 : ℚ)/281474976710656, (-7414390142694985 : ℚ)/562949953421312, (-5431060463535789 : ℚ)/562949953421312, (0 : ℚ)]

def gridV13 : List ℚ :=
  [(0 : ℚ), (-2603626671163199 : ℚ)/281474976710656, (-14829275064453299 : ℚ)/1125899906842624, (-65227584834046365 : ℚ)/4503599627370496, (-2603626671163199 : ℚ)/281474976710656, (-1712885181738611 : ℚ)/140737488355328, (-61567323104019595 : ℚ)/4503599627370496, (-30946613912174267 : ℚ)/2251799813685248, (-14829275064453299 : ℚ)/1125899906842624, (-61567323104019595 : ℚ)/4503599627370496, (-114023006067046899 : ℚ)/9007199254740992, (-360735226151280559 : ℚ)/36028797018963968, (-65227584834046365 : ℚ)/4503599627370496, (-30946613912174267 : ℚ)/2251799813685248, (-360735226151280559 : ℚ)/36028797018963968, (0 : ℚ)]

def gridV14 : List ℚ :=
  [(0 : ℚ), (-43450462830385479 : ℚ)/4503599627370496, (-247576869535746619 : ℚ)/18014398509481984, (-1089028053543439611 : ℚ)/72057594037927936, (-43450462830385479 : ℚ)/4503599627370496, (-57012492594573033 : ℚ)/4503599627370496, (-1023303357383454621 : ℚ)/72057594037927936, (-2056161942285371819 : ℚ)/144115188075855872, (-247576869535746619 : ℚ)/18014398509481984, (-1023303357383454621 : ℚ)/72057594037927936, (-1888888997761871611 : ℚ)/144115188075855872, (-2982226298477894577 : ℚ)/288230376151711744, (-1089028053543439611 : ℚ)/72057594037927936, (-2056161942285371819 : ℚ)/144115188075855872, (-2982226298477894577 : ℚ)/288230376151711744, (0 : ℚ)]

def gridV15 : List ℚ :=
  [(0 : ℚ), (-721486285273508603 : ℚ)/72057594037927936, (-4112355550495101055 : ℚ)/288230376151711744, (-18089825368020208557 : ℚ)/1152921504606846976, (-721486285273508603 : ℚ)/72057594037927936, (-236113103841602387 : ℚ)/18014398509481984, (-16933188596662073083 : ℚ)/1152921504606846976, (-17003225178826055601 : ℚ)/1152921504606846976, (-4112355550495101055 : ℚ)/288230376151711744, (-16933188596662073083 : ℚ)/1152921504606846976, (-31167936799787345343 : ℚ)/2305843009213693952, (-98255569582117388969 : ℚ)/9223372036854775808, (-18089825368020208557 : ℚ)/1152921504606846976, (-17003225178826055601 : ℚ)/1152921504606846976, (-98255569582117388969 : ℚ)/9223372036854775808, (0 : ℚ)]

def gridV16 : List ℚ :=
  [(0 : ℚ), (-11929031857661620635 : ℚ)/1152921504606846976, (-68013154042751694399 : ℚ)/4611686018427387904, (-299191401775927136875 : ℚ)/18446744073709551616, (-11929031857661620635 : ℚ)/1152921504606846976, (-15584031731768693835 : ℚ)/1152921504606846976, (-279144799358414934445 : ℚ)/18446744073709551616, (-560342959727315972669 : ℚ)/36893488147419103232, (-68013154042751694399 : ℚ)/4611686018427387904, (-279144799358414934445 : ℚ)/18446744073709551616, (-512549426670068815615 : ℚ)/36893488147419103232, (-50421519291110336159 : ℚ)/4611686018427387904, (-299191401775927136875 : ℚ)/18446744073709551616, (-560342959727315972669 : ℚ)/36893488147419103232, (-50421519291110336159 : ℚ)/4611686018427387904, (0 : ℚ)]

def gridV17 : List ℚ :=
  [(0 : ℚ), (-196512152474182503895 : ℚ)/18446744073709551616, (-1120687946074369559275 : ℚ)/73786976294838206464, (-4930052984915771425469 : ℚ)/295147905179352825856, (-196512152474182503895 : ℚ)/18446744073709551616, (-128137609995004135393 : ℚ)/9223372036854775808, (-4586721504008525044843 : ℚ)/295147905179352825856, (-1150442938880706066829 : ℚ)/73786976294838206464, (-1120687946074369559275 : ℚ)/73786976294838206464, (-4586721504008525044843 : ℚ)/295147905179352825856, (-8403994548998292210731 : ℚ)/590295810358705651712, (-26422675770740886380563 : ℚ)/2361183241434822606848, (-4930052984915771425469 : ℚ)/295147905179352825856, (-1150442938880706066829 : ℚ)/73786976294838206464, (-26422675770740886380563 : ℚ)/2361183241434822606848, (0 : ℚ)]

def gridV18 : List ℚ :=
  [(0 : ℚ), (-3226985341110485483855 : ℚ)/295147905179352825856, (-18407103235049671494691 : ℚ)/1180591620717411303424, (-80976980619336785181403 : ℚ)/4722366482869645213696, (-3226985341110485483855 : ℚ)/295147905179352825856, (-4202001327738858090205 : ℚ)/295147905179352825856, (-75152551148962630559933 : ℚ)/4722366482869645213696, (-150746348664812478817151 : ℚ)/9444732965739290427392, (-18407103235049671494691 : ℚ)/1180591620717411303424, (-75152551148962630559933 : ℚ)/4722366482869645213696, (-137442635656183693748451 : ℚ)/9444732965739290427392, (-215829309633458439898711 : ℚ)/18889465931478580854784, (-80976980619336785181403 : ℚ)/4722366482869645213696, (-150746348664812478817151 : ℚ)/9444732965739290427392, (-215829309633458439898711 : ℚ)/18889465931478580854784, (0 : ℚ)]

def gridV19 : List ℚ :=
  [(0 : ℚ), (-52845416393316691004627 : ℚ)/4722366482869645213696, (-301492827033293373579511 : ℚ)/18889465931478580854784, (-1326359233043526936084173 : ℚ)/75557863725914323419136, (-52845416393316691004627 : ℚ)/4722366482869645213696, (-8590168781751163249497 : ℚ)/590295810358705651712, (-1228314060417237266113755 : ℚ)/75557863725914323419136, (-1231548194054188771501631 : ℚ)/75557863725914323419136, (-301492827033293373579511 : ℚ)/18889465931478580854784, (-1228314060417237266113755 : ℚ)/75557863725914323419136, (-2242747026402899672546871 : ℚ)/151115727451828646838272, (-7036940801386259322092909 : ℚ)/604462909807314587353088, (-1326359233043526936084173 : ℚ)/75557863725914323419136, (-1231548194054188771501631 : ℚ)/75557863725914323419136, (-7036940801386259322092909 : ℚ)/604462909807314587353088, (0 : ℚ)]

def gridV20 : List ℚ :=
  [(0 : ℚ), (-863317757348511685001059 : ℚ)/75557863725914323419136, (-4926193813846106675193575 : ℚ)/302231454903657293676544, (-21672186274025706424579659 : ℚ)/1208925819614629174706176, (-863317757348511685001059 : ℚ)/75557863725914323419136, (-1121373772608788798976543 : ℚ)/75557863725914323419136, (-20032301552918445476906189 : ℚ)/1208925819614629174706176, (-40159421906521103794261233 : ℚ)/2417851639229258349412352, (-4926193813846106675193575 : ℚ)/302231454903657293676544, (-20032301552918445476906189 : ℚ)/1208925819614629174706176, (-36524034794920222470504359 : ℚ)/2417851639229258349412352, (-28625656615975849237696659 : ℚ)/2417851639229258349412352, (-21672186274025706424579659 : ℚ)/1208925819614629174706176, (-40159421906521103794261233 : ℚ)/2417851639229258349412352, (-28625656615975849237696659 : ℚ)/2417851639229258349412352, (0 : ℚ)]

def gridV21 : List ℚ :=
  [(0 : ℚ), (-14073885753289937785810159 : ℚ)/1208925819614629174706176, (-80318852114077033086895011 : ℚ)/4835703278458516698824704, (-353357999233158958867353565 : ℚ)/19342813113834066795298816, (-14073885753289937785810159 : ℚ)/1208925819614629174706176, (-9131009736359410403032175 : ℚ)/604462909807314587353088, (-326076656521669035635982411 : ℚ)/19342813113834066795298816, (-163385817048767485742524297 : ℚ)/9671406556917033397649408, (-80318852114077033086895011 : ℚ)/4835703278458516698824704, (-326076656521669035635982411 : ℚ)/19342813113834066795298816, (-593767535677143963128153315 : ℚ)/38685626227668133590597632, (-1860063814638500028263787575 : ℚ)/154742504910672534362390528, (-353357999233158958867353565 : ℚ)/19342813113834066795298816, (-163385817048767485742524297 : ℚ)/9671406556917033397649408, (-1860063814638500028263787575 : ℚ)/154742504910672534362390528, (0 : ℚ)]

def gridV22 : List ℚ :=
  [(0 : ℚ), (-229005286131946134249691863 : ℚ)/19342813113834066795298816, (-1307086602798418528281803147 : ℚ)/77371252455336267181195264, (-5750522142875175153885607099 : ℚ)/309485009821345068724781056, (-229005286131946134249691863 : ℚ)/19342813113834066795298816, (-296883784440641651738135953 : ℚ)/19342813113834066795298816, (-5298728358126758016155629021 : ℚ)/309485009821345068724781056, (-10617832157562436522614356499 : ℚ)/618970019642690137449562112, (-1307086602798418528281803147 : ℚ)/77371252455336267181195264, (-5298728358126758016155629021 : ℚ)/309485009821345068724781056, (-9637826007046448210132766283 : ℚ)/618970019642690137449562112, (-15085896750866822697800260765 : ℚ)/1237940039285380274899124224, (-5750522142875175153885607099 : ℚ)/309485009821345068724781056, (-10617832157562436522614356499 : ℚ)/618970019642690137449562112, (-15085896750866822697800260765 : ℚ)/1237940039285380274899124224, (0 : ℚ)]

def gridV23 : List ℚ :=
  [(0 : ℚ), (-3720127894910114740957895467 : ℚ)/309485009821345068724781056, (-21235664846391102299025468399 : ℚ)/1237940039285380274899124224, (-93427266461658897674935535085 : ℚ)/4951760157141521099596496896, (-3720127894910114740957895467 : ℚ)/309485009821345068724781056, (-1204728284084945361820385825 : ℚ)/77371252455336267181195264, (-85974393878109518653242384059 : ℚ)/4951760157141521099596496896, (-86123736308075320924669950445 : ℚ)/4951760157141521099596496896, (-21235664846391102299025468399 : ℚ)/1237940039285380274899124224, (-85974393878109518653242384059 : ℚ)/4951760157141521099596496896, (-156221501195859851643636420911 : ℚ)/9903520314283042199192993792, (-488770229076077243872150383089 : ℚ)/39614081257132168796771975168, (-93427266461658897674935535085 : ℚ)/4951760157141521099596496896, (-86123736308075320924669950445 : ℚ)/4951760157141521099596496896, (-488770229076077243872150383089 : ℚ)/39614081257132168796771975168, (0 : ℚ)]

def gridV24 : List ℚ :=
  [(0 : ℚ), (-60343589128532208151579720363 : ℚ)/4951760157141521099596496896, (-344494949482431118074245500687 : ℚ)/19807040628566084398385987584, (-1515636188922267920765953533483 : ℚ)/79228162514264337593543950336, (-60343589128532208151579720363 : ℚ)/4951760157141521099596496896, (-78110751660462384502007549107 : ℚ)/4951760157141521099596496896, (-1393104066262565980661772291053 : ℚ)/79228162514264337593543950336, (-2790586572161625437170460799589 : ℚ)/158456325028528675187087900672, (-344494949482431118074245500687 : ℚ)/19807040628566084398385987584, (-1393104066262565980661772291053 : ℚ)/79228162514264337593543950336, (-2529100849443249143593160957903 : ℚ)/158456325028528675187087900672, (-988574204752912282125071861567 : ℚ)/79228162514264337593543950336, (-1515636188922267920765953533483 : ℚ)/79228162514264337593543950336, (-2790586572161625437170460799589 : ℚ)/158456325028528675187087900672, (-988574204752912282125071861567 : ℚ)/79228162514264337593543950336, (0 : ℚ)]

def gridV25 : List ℚ :=
  [(0 : ℚ), (-977540475152673826282138528903 : ℚ)/79228162514264337593543950336, (-5581173178324289550381022157531 : ℚ)/316912650057057350374175801344, (-24555086434253913192346275229949 : ℚ)/1267650600228229401496703205376, (-977540475152673826282138528903 : ℚ)/79228162514264337593543950336, (-632275216610942120532749680157 : ℚ)/39614081257132168796771975168, (-22546400354649805077666966319147 : ℚ)/1267650600228229401496703205376, (-1411155766299316185740076414881 : ℚ)/79228162514264337593543950336, (-5581173178324289550381022157531 : ℚ)/316912650057057350374175801344, (-22546400354649805077666966319147 : ℚ)/1267650600228229401496703205376, (-40898888831152860394661522514971 : ℚ)/2535301200456458802993406410752, (-127831452706650006578319893004315 : ℚ)/10141204801825835211973625643008, (-24555086434253913192346275229949 : ℚ)/1267650600228229401496703205376, (-1411155766299316185740076414881 : ℚ)/79228162514264337593543950336, (-127831452706650006578319893004315 : ℚ)/10141204801825835211973625643008, (0 : ℚ)]

def gridV26 : List ℚ :=
  [(0 : ℚ), (-15817187412050751221268276919775 : ℚ)/1267650600228229401496703205376, (-90313969315164545298792419920499 : ℚ)/5070602400912917605986812821504, (-397351039436003757148874763598491 : ℚ)/20282409603651670423947251286016, (-15817187412050751221268276919775 : ℚ)/1267650600228229401496703205376, (-20449444483578507550964324824837 : ℚ)/1267650600228229401496703205376, (-364505903558592202603284906088189 : ℚ)/20282409603651670423947251286016, (-729952681497563799077024011524455 : ℚ)/40564819207303340847894502572032, (-90313969315164545298792419920499 : ℚ)/5070602400912917605986812821504, (-364505903558592202603284906088189 : ℚ)/20282409603651670423947251286016, (-660733628179195556607819194668851 : ℚ)/40564819207303340847894502572032, (-1032135698666286372694850394249347 : ℚ)/81129638414606681695789005144064, (-397351039436003757148874763598491 : ℚ)/20282409603651670423947251286016, (-729952681497563799077024011524455 : ℚ)/40564819207303340847894502572032, (-1032135698666286372694850394249347 : ℚ)/81129638414606681695789005144064, (0 : ℚ)]

def gridV27 : List ℚ :=
  [(0 : ℚ), (-255662906501333250811670078184963 : ℚ)/20282409603651670423947251286016, (-1459905365171194073454788432697703 : ℚ)/81129638414606681695789005144064, (-6423137597312778455582990585110797 : ℚ)/324518553658426726783156020576256, (-255662906501333250811670078184963 : ℚ)/20282409603651670423947251286016, (-2580990739325112477589255807989 : ℚ)/158456325028528675187087900672, (-5887263796717597100133329839350939 : ℚ)/324518553658426726783156020576256, (-5894159963827434586561134543989947 : ℚ)/324518553658426726783156020576256, (-1459905365171194073454788432697703 : ℚ)/81129638414606681695789005144064, (-5887263796717597100133329839350939 : ℚ)/324518553658426726783156020576256, (-10664843698699596044479043457500839 : ℚ)/649037107316853453566312041152512, (-33306397644952170013425363864085557 : ℚ)/2596148429267413814265248164610048, (-6423137597312778455582990585110797 : ℚ)/324518553658426726783156020576256, (-5894159963827434586561134543989947 : ℚ)/324518553658426726783156020576256, (-33306397644952170013425363864085557 : ℚ)/2596148429267413814265248164610048, (0 : ℚ)]

def gridV28 : List ℚ :=
  [(0 : ℚ), (-4128542803369411392010323739704179 : ℚ)/324518553658426726783156020576256, (-23576639872718270148678421977261751 : ℚ)/1298074214633706907132624082305024, (-103730677365065063768117381163328011 : ℚ)/5192296858534827628530496329220096, (-4128542803369411392010323739704179 : ℚ)/324518553658426726783156020576256, (-5332421853701930972854982810103815 : ℚ)/324518553658426726783156020576256, (-95004951398769752103831474637858573 : ℚ)/5192296858534827628530496329220096, (-190212085454558709898949860775038617 : ℚ)/10384593717069655257060992658440192, (-23576639872718270148678421977261751 : ℚ)/1298074214633706907132624082305024, (-95004951398769752103831474637858573 : ℚ)/5192296858534827628530496329220096, (-172002340405743747387743195024469879 : ℚ)/10384593717069655257060992658440192, (-134244597827097439592159620472402873 : ℚ)/10384593717069655257060992658440192, (-103730677365065063768117381163328011 : ℚ)/5192296858534827628530496329220096, (-190212085454558709898949860775038617 : ℚ)/10384593717069655257060992658440192, (-134244597827097439592159620472402873 : ℚ)/10384593717069655257060992658440192, (0 : ℚ)]

def gridV29 : List ℚ :=
  [(0 : ℚ), (-66612795359538467236670144505713823 : ℚ)/5192296858534827628530496329220096, (-380424171048385674217454673532827795 : ℚ)/20769187434139310514121985316880384, (-1673770510614580846216781385657050653 : ℚ)/83076749736557242056487941267521536, (-66612795359538467236670144505713823 : ℚ)/5192296858534827628530496329220096, (-43000585118844468649390652950503147 : ℚ)/2596148429267413814265248164610048, (-1531934453456303580042453950003391499 : ℚ)/83076749736557242056487941267521536, (-766708178658795323801757868838757527 : ℚ)/41538374868278621028243970633760768, (-380424171048385674217454673532827795 : ℚ)/20769187434139310514121985316880384, (-1531934453456303580042453950003391499 : ℚ)/83076749736557242056487941267521536, (-2772044735546197580892706796317657555 : ℚ)/166153499473114484112975882535043072, (-8651405013307395846026195729371305919 : ℚ)/664613997892457936451903530140172288, (-1673770510614580846216781385657050653 : ℚ)/83076749736557242056487941267521536, (-766708178658795323801757868838757527 : ℚ)/41538374868278621028243970633760768, (-8651405013307395846026195729371305919 : ℚ)/664613997892457936451903530140172288, (0 : ℚ)]

def gridV30 : List ℚ :=
  [(0 : ℚ), (-1073956783173852534415748416427229799 : ℚ)/83076749736557242056487941267521536, (-6133665430384508625770754211289069275 : ℚ)/332306998946228968225951765070086144, (-26986722940356433858822875307535879291 : ℚ)/1329227995784915872903807060280344576, (-1073956783173852534415748416427229799 : ℚ)/83076749736557242056487941267521536, (-1386022368051635299285589124482832185 : ℚ)/83076749736557242056487941267521536, (-24684737798738723448016394312846117917 : ℚ)/1329227995784915872903807060280344576, (-49412922232965531426081570561543114107 : ℚ)/2658455991569831745807614120560689152, (-6133665430384508625770754211289069275 : ℚ)/332306998946228968225951765070086144, (-24684737798738723448016394312846117917 : ℚ)/1329227995784915872903807060280344576, (-44646003816923346885876399892149418907 : ℚ)/2658455991569831745807614120560689152, (-69649185034698894339646604926710256649 : ℚ)/5316911983139663491615228241121378304, (-26986722940356433858822875307535879291 : ℚ)/1329227995784915872903807060280344576, (-49412922232965531426081570561543114107 : ℚ)/2658455991569831745807614120560689152, (-69649185034698894339646604926710256649 : ℚ)/5316911983139663491615228241121378304, (0 : ℚ)]

def gridV31 : List ℚ :=
  [(0 : ℚ), (-17302810031071375833479911435209661787 : ℚ)/1329227995784915872903807060280344576, (-98825844474844231135017426141869314399 : ℚ)/5316911983139663491615228241121378304, (-434813120396185418824224482689728090157 : ℚ)/21267647932558653966460912964485513216, (-17302810031071375833479911435209661787 : ℚ)/1329227995784915872903807060280344576, (-5580750477672491378412989983577058607 : ℚ)/332306998946228968225951765070086144, (-397503352149940503780002119750972831355 : ℚ)/21267647932558653966460912964485513216, (-397821795569720091809327309624457228457 : ℚ)/21267647932558653966460912964485513216, (-98825844474844231135017426141869314399 : ℚ)/5316911983139663491615228241121378304, (-397503352149940503780002119750972831355 : ℚ)/21267647932558653966460912964485513216, (-718635388153853389071510365386784884383 : ℚ)/42535295865117307932921825928971026432, (-2241613643031353959139025127765265500217 : ℚ)/170141183460469231731687303715884105728, (-434813120396185418824224482689728090157 : ℚ)/21267647932558653966460912964485513216, (-397821795569720091809327309624457228457 : ℚ)/21267647932558653966460912964485513216, (-2241613643031353959139025127765265500217 : ℚ)/170141183460469231731687303715884105728, (0 : ℚ)]

def gridV32 : List ℚ :=
  [(0 : ℚ), (-278596740174448250490005824584426412475 : ℚ)/21267647932558653966460912964485513216, (-1591287182350185713500145783450546644447 : ℚ)/85070591730234615865843651857942052864, (-7001361694719487894794625490897968490987 : ℚ)/340282366920938463463374607431768211456, (-278596740174448250490005824584426412475 : ℚ)/21267647932558653966460912964485513216, (-359317694094753031101464885132185135131 : ℚ)/21267647932558653966460912964485513216, (-6397398284236723446749709900682454079021 : ℚ)/340282366920938463463374607431768211456, (-12804132730909097291312560515414671035789 : ℚ)/680564733841876926926749214863536422912, (-1591287182350185713500145783450546644447 : ℚ)/85070591730234615865843651857942052864, (-6397398284236723446749709900682454079021 : ℚ)/340282366920938463463374607431768211456, (-11561190304141308291954509371076521502367 : ℚ)/680564733841876926926749214863536422912, (-2253377283908958070470635453562900014417 : ℚ)/170141183460469231731687303715884105728, (-7001361694719487894794625490897968490987 : ℚ)/340282366920938463463374607431768211456, (-12804132730909097291312560515414671035789 : ℚ)/680564733841876926926749214863536422912, (-2253377283908958070470635453562900014417 : ℚ)/170141183460469231731687303715884105728, (0 : ℚ)]

def gridV33 : List ℚ :=
  [(0 : ℚ), (-4483227286347929303329403229748761046327 : ℚ)/340282366920938463463374607431768211456, (-25608265462388637352727820184858443039947 : ℚ)/1361129467683753853853498429727072845824, (-112671942352697750509123938861779824422717 : ℚ)/5444517870735015415413993718908291383296, (-4483227286347929303329403229748761046327 : ℚ)/340282366920938463463374607431768211456, (-2890297576106632419251465586323687887065 : ℚ)/170141183460469231731687303715884105728, (-102905810012077523288687678367338622596075 : ℚ)/5444517870735015415413993718908291383296, (-25743559923754673252814275671380111331227 : ℚ)/1361129467683753853853498429727072845824, (-25608265462388637352727820184858443039947 : ℚ)/1361129467683753853853498429727072845824, (-102905810012077523288687678367338622596075 : ℚ)/5444517870735015415413993718908291383296, (-185902918838634212374576000319168005824011 : ℚ)/10889035741470030830827987437816582766592, (-579623687364725038230522824469500828462883 : ℚ)/43556142965880123323311949751266331066368, (-112671942352697750509123938861779824422717 : ℚ)/5444517870735015415413993718908291383296, (-25743559923754673252814275671380111331227 : ℚ)/1361129467683753853853498429727072845824, (-579623687364725038230522824469500828462883 : ℚ)/43556142965880123323311949751266331066368, (0 : ℚ)]

def gridV34 : List ℚ :=
  [(0 : ℚ), (-72108073087368429335471151513351281705071 : ℚ)/5444517870735015415413993718908291383296, (-411896958784638314205850024357536666416835 : ℚ)/21778071482940061661655974875633165533184, (-1812281742318055336970493845496389705230939 : ℚ)/87112285931760246646623899502532662132736, (-72108073087368429335471151513351281705071 : ℚ)/5444517870735015415413993718908291383296, (-92951459420457991727493408659253243533869 : ℚ)/5444517870735015415413993718908291383296, (-1654517878855573724556627969877500095632701 : ℚ)/87112285931760246646623899502532662132736, (-3311041987375209606377388352645674615759439 : ℚ)/174224571863520493293247799005065324265472, (-411896958784638314205850024357536666416835 : ℚ)/21778071482940061661655974875633165533184, (-1654517878855573724556627969877500095632701 : ℚ)/87112285931760246646623899502532662132736, (-2987989825448544294310921417821567076823939 : ℚ)/174224571863520493293247799005065324265472, (-4657212424868368013391696132182753151748399 : ℚ)/348449143727040986586495598010130648530944, (-1812281742318055336970493845496389705230939 : ℚ)/87112285931760246646623899502532662132736, (-3311041987375209606377388352645674615759439 : ℚ)/174224571863520493293247799005065324265472, (-4657212424868368013391696132182753151748399 : ℚ)/348449143727040986586495598010130648530944, (0 : ℚ)]

def gridV35 : List ℚ :=
  [(0 : ℚ), (-1159247374747704245104332164550487429505331 : ℚ)/87112285931760246646623899502532662132736, (-6622083974786927550041349675364654544567255 : ℚ)/348449143727040986586495598010130648530944, (-29136218462989953404906059536667644012057421 : ℚ)/1393796574908163946345982392040522594123776, (-1159247374747704245104332164550487429505331 : ℚ)/87112285931760246646623899502532662132736, (-186749364091674903934637995839565803087719 : ℚ)/10889035741470030830827987437816582766592, (-26589923826276196223672367475205766222664795 : ℚ)/1393796574908163946345982392040522594123776, (-26604628546843488579637061982482977536071607 : ℚ)/1393796574908163946345982392040522594123776, (-6622083974786927550041349675364654544567255 : ℚ)/348449143727040986586495598010130648530944, (-26589923826276196223672367475205766222664795 : ℚ)/1393796574908163946345982392040522594123776, (-48006366675565996169931116788017824017905943 : ℚ)/2787593149816327892691964784081045188247552, (-149623695767465229007106668946769985057026557 : ℚ)/11150372599265311570767859136324180752990208, (-29136218462989953404906059536667644012057421 : ℚ)/1393796574908163946345982392040522594123776, (-26604628546843488579637061982482977536071607 : ℚ)/1393796574908163946345982392040522594123776, (-149623695767465229007106668946769985057026557 : ℚ)/11150372599265311570767859136324180752990208, (0 : ℚ)]

def gridV36 : List ℚ :=
  [(0 : ℚ), (-18628849699619505402713076592473232555519363 : ℚ)/1393796574908163946345982392040522594123776, (-106418514187666021016840831873967351345005703 : ℚ)/5575186299632655785383929568162090376495104, (-468227521277490225716173274369888775091731915 : ℚ)/22300745198530623141535718272648361505980416, (-18628849699619505402713076592473232555519363 : ℚ)/1393796574908163946345982392040522594123776, (-24003183337856014759538704425880021983215855 : ℚ)/1393796574908163946345982392040522594123776, (-427163240276126649854941849356103358963947853 : ℚ)/22300745198530623141535718272648361505980416, (-854757595316082821712832163214926595385400129 : ℚ)/44601490397061246283071436545296723011960832, (-106418514187666021016840831873967351345005703 : ℚ)/5575186299632655785383929568162090376495104, (-427163240276126649854941849356103358963947853 : ℚ)/22300745198530623141535718272648361505980416, (-771012122208118354152226623794940052089961799 : ℚ)/44601490397061246283071436545296723011960832, (-600667615545576769256442802244533369937827871 : ℚ)/44601490397061246283071436545296723011960832, (-468227521277490225716173274369888775091731915 : ℚ)/22300745198530623141535718272648361505980416, (-854757595316082821712832163214926595385400129 : ℚ)/44601490397061246283071436545296723011960832, (-600667615545576769256442802244533369937827871 : ℚ)/44601490397061246283071436545296723011960832, (0 : ℚ)]

def gridV37 : List ℚ :=
  [(0 : ℚ), (-299247391536098724807383674220028731005926991 : ℚ)/22300745198530623141535718272648361505980416, (-1709515190634502177012004998532483716465551235 : ℚ)/89202980794122492566142873090593446023921664, (-7521662474663079596431627012283820892065893469 : ℚ)/356811923176489970264571492362373784095686656, (-299247391536098724807383674220028731005926991 : ℚ)/22300745198530623141535718272648361505980416, (-192753030552321655236349240030357203245458919 : ℚ)/11150372599265311570767859136324180752990208, (-6859890793277967740897487985157448421475633099 : ℚ)/356811923176489970264571492362373784095686656, (-3431525330942535493267700086320805521563762149 : ℚ)/178405961588244985132285746181186892047843328, (-1709515190634502177012004998532483716465551235 : ℚ)/89202980794122492566142873090593446023921664, (-6859890793277967740897487985157448421475633099 : ℚ)/356811923176489970264571492362373784095686656, (-12378855563995561835478173387838462949169629379 : ℚ)/713623846352979940529142984724747568191373312, (-38570134121906851878768630507933209227195417159 : ℚ)/2854495385411919762116571938898990272765493248, (-7521662474663079596431627012283820892065893469 : ℚ)/356811923176489970264571492362373784095686656, (-3431525330942535493267700086320805521563762149 : ℚ)/178405961588244985132285746181186892047843328, (-38570134121906851878768630507933209227195417159 : ℚ)/2854495385411919762116571938898990272765493248, (0 : ℚ)]

def gridV38 : List ℚ :=
  [(0 : ℚ), (-4805340924373960288396905108017830050548617207 : ℚ)/356811923176489970264571492362373784095686656, (-27452202647558976214832326069038529366335095339 : ℚ)/1427247692705959881058285969449495136382746624, (-120786695863227736456660086735673521220903326779 : ℚ)/5708990770823839524233143877797980545530986496, (-4805340924373960288396905108017830050548617207 : ℚ)/356811923176489970264571492362373784095686656, (-6189427782002453984911768038950013020107811809 : ℚ)/356811923176489970264571492362373784095686656, (-110128818321924039295810489568879932063146685021 : ℚ)/5708990770823839524233143877797980545530986496, (-220350278051210986695753407796938785305302590435 : ℚ)/11417981541647679048466287755595961091061972992, (-27452202647558976214832326069038529366335095339 : ℚ)/1427247692705959881058285969449495136382746624, (-110128818321924039295810489568879932063146685021 : ℚ)/5708990770823839524233143877797980545530986496, (-198687068107385422101814038340342311608599492331 : ℚ)/11417981541647679048466287755595961091061972992, (-309494904406407266253253559595698889093465821685 : ℚ)/22835963083295358096932575511191922182123945984, (-120786695863227736456660086735673521220903326779 : ℚ)/5708990770823839524233143877797980545530986496, (-220350278051210986695753407796938785305302590435 : ℚ)/11417981541647679048466287755595961091061972992, (-309494904406407266253253559595698889093465821685 : ℚ)/22835963083295358096932575511191922182123945984, (0 : ℚ)]

def gridV39 : List ℚ :=
  [(0 : ℚ), (-77140268243888472832300162534707882194491797899 : ℚ)/5708990770823839524233143877797980545530986496, (-440700556102571511541032618626607375126006137039 : ℚ)/22835963083295358096932575511191922182123945984, (-1939038531443996808973550430150640804232333716077 : ℚ)/91343852333181432387730302044767688728495783936, (-77140268243888472832300162534707882194491797899 : ℚ)/5708990770823839524233143877797980545530986496, (-24835883513432523897072117482397971918587556989 : ℚ)/1427247692705959881058285969449495136382746624, (-1767493236967866143877051692664304808379706998331 : ℚ)/91343852333181432387730302044767688728495783936, (-1768172254944976410245141207938080551585576965093 : ℚ)/91343852333181432387730302044767688728495783936, (-440700556102571511541032618626607375126006137039 : ℚ)/22835963083295358096932575511191922182123945984, (-1767493236967866143877051692664304808379706998331 : ℚ)/91343852333181432387730302044767688728495783936, (-3188160559259858073665526535136635742210561852943 : ℚ)/182687704666362864775460604089535377456991567872, (-9931215123066520483283679844136529467957408628097 : ℚ)/730750818665451459101842416358141509827966271488, (-1939038531443996808973550430150640804232333716077 : ℚ)/91343852333181432387730302044767688728495783936, (-1768172254944976410245141207938080551585576965093 : ℚ)/91343852333181432387730302044767688728495783936, (-9931215123066520483283679844136529467957408628097 : ℚ)/730750818665451459101842416358141509827966271488, (0 : ℚ)]

def gridV40 : List ℚ :=
  [(0 : ℚ), (-1237979617626227217611117450528574143329870024395 : ℚ)/91343852333181432387730302044767688728495783936, (-7072689019781101946176771256029020011359918422703 : ℚ)/365375409332725729550921208179070754913983135744, (-31119187928443884977149424361702751671216828554667 : ℚ)/1461501637330902918203684832716283019655932542976, (-1237979617626227217611117450528574143329870024395 : ℚ)/91343852333181432387730302044767688728495783936, (-1594080279630228113131814873641207164583284295299 : ℚ)/91343852333181432387730302044767688728495783936, (-28359521913932539105219333485335725380112419713133 : ℚ)/1461501637330902918203684832716283019655932542976, (-56738951358476349642836558096592978445618513568693 : ℚ)/2923003274661805836407369665432566039311865085952, (-7072689019781101946176771256029020011359918422703 : ℚ)/365375409332725729550921208179070754913983135744, (-28359521913932539105219333485335725380112419713133 : ℚ)/1461501637330902918203684832716283019655932542976, (-51144955434727385908194062839041350355339102055279 : ℚ)/2923003274661805836407369665432566039311865085952, (-19912597548014630103724352371738838853754338810021 : ℚ)/1461501637330902918203684832716283019655932542976, (-31119187928443884977149424361702751671216828554667 : ℚ)/1461501637330902918203684832716283019655932542976, (-56738951358476349642836558096592978445618513568693 : ℚ)/2923003274661805836407369665432566039311865085952, (-19912597548014630103724352371738838853754338810021 : ℚ)/1461501637330902918203684832716283019655932542976, (0 : ℚ)]

def gridV41 : List ℚ :=
  [(0 : ℚ), (-19862430246137826187352185385424428262668468244455 : ℚ)/1461501637330902918203684832716283019655932542976, (-113477902716962269727242767587444117438061120374971 : ℚ)/5846006549323611672814739330865132078623730171904, (-499293335058760495521370235997712616013527696637309 : ℚ)/23384026197294446691258957323460528314494920687616, (-19862430246137826187352185385424428262668468244455 : ℚ)/1461501637330902918203684832716283019655932542976, (-12786238858683042782244722134048179920523188260885 : ℚ)/730750818665451459101842416358141509827966271488, (-454919653370128529778520743854558742718656778397611 : ℚ)/23384026197294446691258957323460528314494920687616, (-56883195776690990339600278495833710037974427727977 : ℚ)/2923003274661805836407369665432566039311865085952, (-113477902716962269727242767587444117438061120374971 : ℚ)/5846006549323611672814739330865132078623730171904, (-454919653370128529778520743854558742718656778397611 : ℚ)/23384026197294446691258957323460528314494920687616, (-820289266532951504820628296449301221007716040733179 : ℚ)/46768052394588893382517914646921056628989841375232, (-2554695730074831087103483686865967651451405091802411 : ℚ)/187072209578355573530071658587684226515959365500928, (-499293335058760495521370235997712616013527696637309 : ℚ)/23384026197294446691258957323460528314494920687616, (-56883195776690990339600278495833710037974427727977 : ℚ)/2923003274661805836407369665432566039311865085952, (-2554695730074831087103483686865967651451405091802411 : ℚ)/187072209578355573530071658587684226515959365500928, (0 : ℚ)]

def gridV42 : List ℚ :=
  [(0 : ℚ), (-318601560768272363425868243524987798167415420127487 : ℚ)/23384026197294446691258957323460528314494920687616, (-1820262264854188254399766123020877739909824059412755 : ℚ)/93536104789177786765035829293842113257979682750464, (-8009015629335095056498080240044625842265146050808347 : ℚ)/374144419156711147060143317175368453031918731001856, (-318601560768272363425868243524987798167415420127487 : ℚ)/23384026197294446691258957323460528314494920687616, (-410144633266494893293453451013233798757531019950165 : ℚ)/23384026197294446691258957323460528314494920687616, (-7295826014996893675142188749014462551202480638976893 : ℚ)/374144419156711147060143317175368453031918731001856, (-14595929920262471128778322639479606196679419273289271 : ℚ)/748288838313422294120286634350736906063837462003712, (-1820262264854188254399766123020877739909824059412755 : ℚ)/93536104789177786765035829293842113257979682750464, (-7295826014996893675142188749014462551202480638976893 : ℚ)/374144419156711147060143317175368453031918731001856, (-13153506313459978143469442757097134760169128284585427 : ℚ)/748288838313422294120286634350736906063837462003712, (-20480687253637731398571423340721779593454758886549595 : ℚ)/1496577676626844588240573268701473812127674924007424, (-8009015629335095056498080240044625842265146050808347 : ℚ)/374144419156711147060143317175368453031918731001856, (-14595929920262471128778322639479606196679419273289271 : ℚ)/748288838313422294120286634350736906063837462003712, (-20480687253637731398571423340721779593454758886549595 : ℚ)/1496577676626844588240573268701473812127674924007424, (0 : ℚ)]

def gridV43 : List ℚ :=
  [(0 : ℚ), (-5109391460149968428337196218349132580641528550725219 : ℚ)/374144419156711147060143317175368453031918731001856, (-29191859840525554765817102968193205745876126402168903 : ℚ)/1496577676626844588240573268701473812127674924007424, (-128442155422238635828320683242315320125866833051243917 : ℚ)/5986310706507378352962293074805895248510699696029696, (-5109391460149968428337196218349132580641528550725219 : ℚ)/374144419156711147060143317175368453031918731001856, (-411047072295633887424989737553572876184620207865807 : ℚ)/23384026197294446691258957323460528314494920687616, (-116984055641398400458474270039581246983899614517359643 : ℚ)/5986310706507378352962293074805895248510699696029696, (-117015410566579311080789100014961029012765909021308723 : ℚ)/5986310706507378352962293074805895248510699696029696, (-29191859840525554765817102968193205745876126402168903 : ℚ)/1496577676626844588240573268701473812127674924007424, (-116984055641398400458474270039581246983899614517359643 : ℚ)/5986310706507378352962293074805895248510699696029696, (-210879426068964082758684549552080155854740049455617415 : ℚ)/11972621413014756705924586149611790497021399392059392, (-656646230883283582932532480906223612615995536158869189 : ℚ)/47890485652059026823698344598447161988085597568237568, (-128442155422238635828320683242315320125866833051243917 : ℚ)/5986310706507378352962293074805895248510699696029696, (-117015410566579311080789100014961029012765909021308723 : ℚ)/5986310706507378352962293074805895248510699696029696, (-656646230883283582932532480906223612615995536158869189 : ℚ)/47890485652059026823698344598447161988085597568237568, (0 : ℚ)]

def gridV44 : List ℚ :=
  [(0 : ℚ), (-81922749014553375627327524119824295392768633604511123 : ℚ)/5986310706507378352962293074805895248510699696029696, (-468061642266322144389240061573717266480082385565909079 : ℚ)/23945242826029513411849172299223580994042798784118784, (-2059441499214666528986358616768978267514251881197570443 : ℚ)/95780971304118053647396689196894323976171195136475136, (-81922749014553375627327524119824295392768633604511123 : ℚ)/5986310706507378352962293074805895248510699696029696, (-105439713034483266395863190154508666436844823756965079 : ℚ)/5986310706507378352962293074805895248510699696029696, (-1875421960112618673460615010552650683964176610726714253 : ℚ)/95780971304118053647396689196894323976171195136475136, (-3751763187687796780097125473080514968409679444564431593 : ℚ)/191561942608236107294793378393788647952342390272950272, (-468061642266322144389240061573717266480082385565909079 : ℚ)/23945242826029513411849172299223580994042798784118784, (-1875421960112618673460615010552650683964176610726714253 : ℚ)/95780971304118053647396689196894323976171195136475136, (-3380276364487421946620473350758886557148510073317402903 : ℚ)/191561942608236107294793378393788647952342390272950272, (-2631218061535324371906725565259862641957885305902278085 : ℚ)/191561942608236107294793378393788647952342390272950272, (-2059441499214666528986358616768978267514251881197570443 : ℚ)/95780971304118053647396689196894323976171195136475136, (-3751763187687796780097125473080514968409679444564431593 : ℚ)/191561942608236107294793378393788647952342390272950272, (-2631218061535324371906725565259862641957885305902278085 : ℚ)/191561942608236107294793378393788647952342390272950272, (0 : ℚ)]

def gridV45 : List ℚ :=
  [(0 : ℚ), (-1313292461766586766129399607867943437774707410148289023 : ℚ)/95780971304118053647396689196894323976171195136475136, (-7503526375375632760722920238272018751078150224882110579 : ℚ)/383123885216472214589586756787577295904684780545900544, (-33015080285334447411166387145735184011630263285775139485 : ℚ)/1532495540865888858358347027150309183618739122183602176, (-1313292461766586766129399607867943437774707410148289023 : ℚ)/95780971304118053647396689196894323976171195136475136, (-845069091121860386721201999203595692422806602786988387 : ℚ)/47890485652059026823698344598447161988085597568237568, (-30060653749566842166286080906729896525195721205125288843 : ℚ)/1532495540865888858358347027150309183618739122183602176, (-15033695774018726778364583058473667269280182372921064307 : ℚ)/766247770432944429179173513575154591809369561091801088, (-7503526375375632760722920238272018751078150224882110579 : ℚ)/383123885216472214589586756787577295904684780545900544, (-30060653749566842166286080906729896525195721205125288843 : ℚ)/1532495540865888858358347027150309183618739122183602176, (-54175389323581214858256579483109416028096281896710717875 : ℚ)/3064991081731777716716694054300618367237478244367204352, (-168669625731148422789089296978364360845493089260300241871 : ℚ)/12259964326927110866866776217202473468949912977468817408, (-33015080285334447411166387145735184011630263285775139485 : ℚ)/1532495540865888858358347027150309183618739122183602176, (-15033695774018726778364583058473667269280182372921064307 : ℚ)/766247770432944429179173513575154591809369561091801088, (-168669625731148422789089296978364360845493089260300241871 : ℚ)/12259964326927110866866776217202473468949912977468817408, (0 : ℚ)]

def gridV46 : List ℚ :=
  [(0 : ℚ), (-21049744492282751777368481690522867225178171809954775943 : ℚ)/1532495540865888858358347027150309183618739122183602176, (-120269566192150127831146018804677259500791713689118055291 : ℚ)/6129982163463555433433388108601236734474956488734408704, (-529179703320829743081127332872753016685975104913625320443 : ℚ)/24519928653854221733733552434404946937899825954937634816, (-21049744492282751777368481690522867225178171809954775943 : ℚ)/1532495540865888858358347027150309183618739122183602176, (-27087694661790685830185628325776691058805685629723634569 : ℚ)/1532495540865888858358347027150309183618739122183602176, (-481760618332479336829051907976197140884348304939740178589 : ℚ)/24519928653854221733733552434404946937899825954937634816, (-963718776249811034665479351207228009814937364063595289931 : ℚ)/49039857307708443467467104868809893875799651909875269632, (-120269566192150127831146018804677259500791713689118055291 : ℚ)/6129982163463555433433388108601236734474956488734408704, (-481760618332479336829051907976197140884348304939740178589 : ℚ)/24519928653854221733733552434404946937899825954937634816, (-868139727102484625874697606801735756451134135370215931963 : ℚ)/49039857307708443467467104868809893875799651909875269632, (-1351348217753861562783201282698830392575621232057256633953 : ℚ)/98079714615416886934934209737619787751599303819750539264, (-529179703320829743081127332872753016685975104913625320443 : ℚ)/24519928653854221733733552434404946937899825954937634816, (-963718776249811034665479351207228009814937364063595289931 : ℚ)/49039857307708443467467104868809893875799651909875269632, (-1351348217753861562783201282698830392575621232057256633953 : ℚ)/98079714615416886934934209737619787751599303819750539264, (0 : ℚ)]

def gridV47 : List ℚ :=
  [(0 : ℚ), (-337339251462298099995096011304280439574626969402769332155 : ℚ)/24519928653854221733733552434404946937899825954937634816, (-1927437552499624578164793537109559422899716537832357591615 : ℚ)/98079714615416886934934209737619787751599303819750539264, (-8480631590027552139884507741456518727023789320547552892077 : ℚ)/392318858461667547739736838950479151006397215279002157056, (-337339251462298099995096011304280439574626969402769332155 : ℚ)/24519928653854221733733552434404946937899825954937634816, (-108517465887810735036451878018660934291846865781548097547 : ℚ)/6129982163463555433433388108601236734474956488734408704, (-7719752871870855207568114340376541055107806604483751753211 : ℚ)/392318858461667547739736838950479151006397215279002157056, (-7721200744189753016717052344522030508744792156721275532193 : ℚ)/392318858461667547739736838950479151006397215279002157056, (-1927437552499624578164793537109559422899716537832357591615 : ℚ)/98079714615416886934934209737619787751599303819750539264, (-7719752871870855207568114340376541055107806604483751753211 : ℚ)/392318858461667547739736838950479151006397215279002157056, (-13909783459809636554180393149072820927423085963270782603135 : ℚ)/784637716923335095479473677900958302012794430558004314112, (-43301521557913375471798002811311358293568817855403403995593 : ℚ)/3138550867693340381917894711603833208051177722232017256448, (-8480631590027552139884507741456518727023789320547552892077 : ℚ)/392318858461667547739736838950479151006397215279002157056, (-7721200744189753016717052344522030508744792156721275532193 : ℚ)/392318858461667547739736838950479151006397215279002157056, (-43301521557913375471798002811311358293568817855403403995593 : ℚ)/3138550867693340381917894711603833208051177722232017256448, (0 : ℚ)]

def gridV48 : List ℚ :=
  [(0 : ℚ), (-5405392871015456286468144469575735280874171483227206638043 : ℚ)/392318858461667547739736838950479151006397215279002157056, (-30884802976759032137538888055648949358630222420703950278015 : ℚ)/1569275433846670190958947355801916604025588861116008628224, (-135891760409125142087318948788596887625902061056433510056299 : ℚ)/6277101735386680763835789423207666416102355444464034512896, (-5405392871015456286468144469575735280874171483227206638043 : ℚ)/392318858461667547739736838950479151006397215279002157056, (-6954891729904823294757866243926617318997386259134481352683 : ℚ)/392318858461667547739736838950479151006397215279002157056, (-123685841528143291255635138130796848940547463455132577536685 : ℚ)/6277101735386680763835789423207666416102355444464034512896, (-247414131950838977804683043873599803478956628253884721075421 : ℚ)/12554203470773361527671578846415332832204710888928069025792, (-30884802976759032137538888055648949358630222420703950278015 : ℚ)/1569275433846670190958947355801916604025588861116008628224, (-123685841528143291255635138130796848940547463455132577536685 : ℚ)/6277101735386680763835789423207666416102355444464034512896, (-222843088114743403726902722599834898359889810054867454553663 : ℚ)/12554203470773361527671578846415332832204710888928069025792, (-10838751877817645773897876454755335411592821145094969808041 : ℚ)/784637716923335095479473677900958302012794430558004314112, (-135891760409125142087318948788596887625902061056433510056299 : ℚ)/6277101735386680763835789423207666416102355444464034512896, (-247414131950838977804683043873599803478956628253884721075421 : ℚ)/12554203470773361527671578846415332832204710888928069025792, (-10838751877817645773897876454755335411592821145094969808041 : ℚ)/784637716923335095479473677900958302012794430558004314112, (0 : ℚ)]

def gridV49 : List ℚ :=
  [(0 : ℚ), (-86603043115826831226278720332866026174218808834614736753815 : ℚ)/6277101735386680763835789423207666416102355444464034512896, (-494828263901678116174731517167686225839598644806852763510443 : ℚ)/25108406941546723055343157692830665664409421777856138051584, (-2177224238842544100704021825994983596462366076877514838318013 : ℚ)/100433627766186892221372630771322662657637687111424552206336, (-86603043115826831226278720332866026174218808834614736753815 : ℚ)/6277101735386680763835789423207666416102355444464034512896, (-55710772028685871002396359327519551986742745794668845829073 : ℚ)/3138550867693340381917894711603833208051177722232017256448, (-1981462508028516739478446555506034708068871174893132433607531 : ℚ)/100433627766186892221372630771322662657637687111424552206336, (-495443409618948680660271965111486894729832633301223711548969 : ℚ)/25108406941546723055343157692830665664409421777856138051584, (-494828263901678116174731517167686225839598644806852763510443 : ℚ)/25108406941546723055343157692830665664409421777856138051584, (-1981462508028516739478446555506034708068871174893132433607531 : ℚ)/100433627766186892221372630771322662657637687111424552206336, (-3569690003921549182980120003257362966068027655688137673449451 : ℚ)/200867255532373784442745261542645325315275374222849104412672, (-11111426783723951084151133142737205290535552432133636054350387 : ℚ)/803469022129495137770981046170581301261101496891396417650688, (-2177224238842544100704021825994983596462366076877514838318013 : ℚ)/100433627766186892221372630771322662657637687111424552206336, (-495443409618948680660271965111486894729832633301223711548969 : ℚ)/25108406941546723055343157692830665664409421777856138051584, (-11111426783723951084151133142737205290535552432133636054350387 : ℚ)/803469022129495137770981046170581301261101496891396417650688, (0 : ℚ)]

def gridV50 : List ℚ :=
  [(0 : ℚ), (-1387360240360659301320389903890629409088053533614087029364623 : ℚ)/100433627766186892221372630771322662657637687111424552206336, (-7927094553903180175087274877147683267608236113057843564157283 : ℚ)/401734511064747568885490523085290650630550748445698208825344, (-34878921062805702146825763019232504957506689854680334490786267 : ℚ)/1606938044258990275541962092341162602522202993782792835301376, (-1387360240360659301320389903890629409088053533614087029364623 : ℚ)/100433627766186892221372630771322662657637687111424552206336, (-1784845001960774912620790860469654721236100041365034283692413 : ℚ)/100433627766186892221372630771322662657637687111424552206336, (-31739887167751547357636991859665981002888216716496628265910717 : ℚ)/1606938044258990275541962092341162602522202993782792835301376, (-63488896095326914168595137650436354107132055970926861872868639 : ℚ)/3213876088517980551083924184682325205044405987565585670602752, (-7927094553903180175087274877147683267608236113057843564157283 : ℚ)/401734511064747568885490523085290650630550748445698208825344, (-31739887167751547357636991859665981002888216716496628265910717 : ℚ)/1606938044258990275541962092341162602522202993782792835301376, (-57176616823717430077023182329822716789003727568329486045214243 : ℚ)/3213876088517980551083924184682325205044405987565585670602752, (-88983362204006035393279274644968596439227808609026617408947719 : ℚ)/6427752177035961102167848369364650410088811975131171341205504, (-34878921062805702146825763019232504957506689854680334490786267 : ℚ)/1606938044258990275541962092341162602522202993782792835301376, (-63488896095326914168595137650436354107132055970926861872868639 : ℚ)/3213876088517980551083924184682325205044405987565585670602752, (-88983362204006035393279274644968596439227808609026617408947719 : ℚ)/6427752177035961102167848369364650410088811975131171341205504, (0 : ℚ)]

def gridV51 : List ℚ :=
  [(0 : ℚ), (-22222853567447907306393960026929982391427053406757121651686803 : ℚ)/1606938044258990275541962092341162602522202993782792835301376, (-126977792190653838613373662783783851832343716405296630006218423 : ℚ)/6427752177035961102167848369364650410088811975131171341205504, (-558697961591897128533841435715975201347016595085117715043067853 : ℚ)/25711008708143844408671393477458601640355247900524685364822016, (-22222853567447907306393960026929982391427053406757121651686803 : ℚ)/1606938044258990275541962092341162602522202993782792835301376, (-3573538551482339700944679754454893037459979756926208474262517 : ℚ)/200867255532373784442745261542645325315275374222849104412672, (-508373060384321241943511448364317172463689883605972682383606747 : ℚ)/25711008708143844408671393477458601640355247900524685364822016, (-508439918596858300758479164443372999746523788124177625876175663 : ℚ)/25711008708143844408671393477458601640355247900524685364822016, (-126977792190653838613373662783783851832343716405296630006218423 : ℚ)/6427752177035961102167848369364650410088811975131171341205504, (-508373060384321241943511448364317172463689883605972682383606747 : ℚ)/25711008708143844408671393477458601640355247900524685364822016, (-915728526616633072333971333899108761501311613843128522749041655 : ℚ)/51422017416287688817342786954917203280710495801049370729644032, (-2850163331107548712266535007765272345631023642167894196691550861 : ℚ)/205688069665150755269371147819668813122841983204197482918576128, (-558697961591897128533841435715975201347016595085117715043067853 : ℚ)/25711008708143844408671393477458601640355247900524685364822016, (-508439918596858300758479164443372999746523788124177625876175663 : ℚ)/25711008708143844408671393477458601640355247900524685364822016, (-2850163331107548712266535007765272345631023642167894196691550861 : ℚ)/205688069665150755269371147819668813122841983204197482918576128, (0 : ℚ)]

def gridV52 : List ℚ :=
  [(0 : ℚ), (-355933448816024182677850648511518960237126530154488473154188195 : ℚ)/25711008708143844408671393477458601640355247900524685364822016, (-2033759674387433285243383757636781147938628866068864132065024551 : ℚ)/102844034832575377634685573909834406561420991602098741459288064, (-8948479180840345027086774196777412383946540745654911321751422283 : ℚ)/411376139330301510538742295639337626245683966408394965837152256, (-355933448816024182677850648511518960237126530154488473154188195 : ℚ)/25711008708143844408671393477458601640355247900524685364822016, (-457864263308316556719352441915376667990763454780755263133719487 : ℚ)/25711008708143844408671393477458601640355247900524685364822016, (-8141809594571700370361395146509334968136085031783247699439840717 : ℚ)/411376139330301510538742295639337626245683966408394965837152256, (-16285579346249040838135937586234305272135894768697184645970892177 : ℚ)/822752278660603021077484591278675252491367932816789931674304512, (-2033759674387433285243383757636781147938628866068864132065024551 : ℚ)/102844034832575377634685573909834406561420991602098741459288064, (-8141809594571700370361395146509334968136085031783247699439840717 : ℚ)/411376139330301510538742295639337626245683966408394965837152256, (-14664888535447400815971949753318554911889500248935826024497246951 : ℚ)/822752278660603021077484591278675252491367932816789931674304512, (-11410532580192262146870991433932162644128740329392936795982890155 : ℚ)/822752278660603021077484591278675252491367932816789931674304512, (-8948479180840345027086774196777412383946540745654911321751422283 : ℚ)/411376139330301510538742295639337626245683966408394965837152256, (-16285579346249040838135937586234305272135894768697184645970892177 : ℚ)/822752278660603021077484591278675252491367932816789931674304512, (-11410532580192262146870991433932162644128740329392936795982890155 : ℚ)/822752278660603021077484591278675252491367932816789931674304512, (0 : ℚ)]

def gridV53 : List ℚ :=
  [(0 : ℚ), (-5700326662215097753370938414983701287095872772218234043053807535 : ℚ)/411376139330301510538742295639337626245683966408394965837152256, (-32571158692498082333947611971374923735915749879565429455853777763 : ℚ)/1645504557321206042154969182557350504982735865633579863348609024, (-143312169061003748395533557448292235371690808844733408775201376477 : ℚ)/6582018229284824168619876730229402019930943462534319453394436096, (-5700326662215097753370938414983701287095872772218234043053807535 : ℚ)/411376139330301510538742295639337626245683966408394965837152256, (-3666222133861850286202454538192927876930831434204567918541988191 : ℚ)/205688069665150755269371147819668813122841983204197482918576128, (-130383889756070592100402899686253469139344134851002313598520397643 : ℚ)/6582018229284824168619876730229402019930943462534319453394436096, (-65199128393218007631308924527099381990109474791324246465366222145 : ℚ)/3291009114642412084309938365114701009965471731267159726697218048, (-32571158692498082333947611971374923735915749879565429455853777763 : ℚ)/1645504557321206042154969182557350504982735865633579863348609024, (-130383889756070592100402899686253469139344134851002313598520397643 : ℚ)/6582018229284824168619876730229402019930943462534319453394436096, (-234832186856178337612610584618169574332235944411214446873172391075 : ℚ)/13164036458569648337239753460458804039861886925068638906788872192, (-730853367546405155836741159511316920758181236547072977097519010903 : ℚ)/52656145834278593348959013841835216159447547700274555627155488768, (-143312169061003748395533557448292235371690808844733408775201376477 : ℚ)/6582018229284824168619876730229402019930943462534319453394436096, (-65199128393218007631308924527099381990109474791324246465366222145 : ℚ)/3291009114642412084309938365114701009965471731267159726697218048, (-730853367546405155836741159511316920758181236547072977097519010903 : ℚ)/52656145834278593348959013841835216159447547700274555627155488768, (0 : ℚ)]

def gridV54 : List ℚ :=
  [(0 : ℚ), (-91284260641538099805670878667082553919676835904609228429799349527 : ℚ)/6582018229284824168619876730229402019930943462534319453394436096, (-521593027145744066311877290608045561454098552968743946440513979083 : ℚ)/26328072917139296674479506920917608079723773850137277813577744384, (-2294995698448075301224535174094848932667395917457754299619365745595 : ℚ)/105312291668557186697918027683670432318895095400549111254310977536, (-91284260641538099805670878667082553919676835904609228429799349527 : ℚ)/6582018229284824168619876730229402019930943462534319453394436096, (-117416093428089170121656765906897413549441428840340090467554309681 : ℚ)/6582018229284824168619876730229402019930943462534319453394436096, (-2087827093384758669772114947372439852556107050883676285034316754653 : ℚ)/105312291668557186697918027683670432318895095400549111254310977536, (-4176075401091424636831845068045892289849474508180074435378841770419 : ℚ)/210624583337114373395836055367340864637790190801098222508621955072, (-521593027145744066311877290608045561454098552968743946440513979083 : ℚ)/26328072917139296674479506920917608079723773850137277813577744384, (-2087827093384758669772114947372439852556107050883676285034316754653 : ℚ)/105312291668557186697918027683670432318895095400549111254310977536, (-3760158411814683354841433321762414558710259714778920461737976731531 : ℚ)/210624583337114373395836055367340864637790190801098222508621955072, (-5851072808220093054301793624661468995071809966175839847770691182925 : ℚ)/421249166674228746791672110734681729275580381602196445017243910144, (-2294995698448075301224535174094848932667395917457754299619365745595 : ℚ)/105312291668557186697918027683670432318895095400549111254310977536, (-4176075401091424636831845068045892289849474508180074435378841770419 : ℚ)/210624583337114373395836055367340864637790190801098222508621955072, (-5851072808220093054301793624661468995071809966175839847770691182925 : ℚ)/421249166674228746791672110734681729275580381602196445017243910144, (0 : ℚ)]

def gridV55 : List ℚ :=
  [(0 : ℚ), (-1461706735092810332719105896587635863649466707349090333284239593451 : ℚ)/105312291668557186697918027683670432318895095400549111254310977536, (-8352150802182849315754937291221788623964944269167693148717221920175 : ℚ)/421249166674228746791672110734681729275580381602196445017243910144, (-36749263858647215986381597263011091582105382151598662196498807066349 : ℚ)/1684996666696914987166688442938726917102321526408785780068975640576, (-1461706735092810332719105896587635863649466707349090333284239593451 : ℚ)/105312291668557186697918027683670432318895095400549111254310977536, (-470019801476835421985882112415927072605420493629233105103397287897 : ℚ)/26328072917139296674479506920917608079723773850137277813577744384, (-33429931918321347038042296312431962399873462139562198404674191171003 : ℚ)/1684996666696914987166688442938726917102321526408785780068975640576, (-33433019221341998071238145597552743987367791581734989648890599923677 : ℚ)/1684996666696914987166688442938726917102321526408785780068975640576, (-8352150802182849315754937291221788623964944269167693148717221920175 : ℚ)/421249166674228746791672110734681729275580381602196445017243910144, (-33429931918321347038042296312431962399873462139562198404674191171003 : ℚ)/1684996666696914987166688442938726917102321526408785780068975640576, (-60204216484595549229582847696955292214365345057083129355894907183855 : ℚ)/3369993333393829974333376885877453834204643052817571560137951281152, (-187358810726615609703806995432862347486493980161230113676393441619217 : ℚ)/13479973333575319897333507543509815336818572211270286240551805124608, (-36749263858647215986381597263011091582105382151598662196498807066349 : ℚ)/1684996666696914987166688442938726917102321526408785780068975640576, (-33433019221341998071238145597552743987367791581734989648890599923677 : ℚ)/1684996666696914987166688442938726917102321526408785780068975640576, (-187358810726615609703806995432862347486493980161230113676393441619217 : ℚ)/13479973333575319897333507543509815336818572211270286240551805124608, (0 : ℚ)]

def gridV56 : List ℚ :=
  [(0 : ℚ), (-23404291232880372385572163119165892157351860523040569943577512540907 : ℚ)/1684996666696914987166688442938726917102321526408785780068975640576, (-133732076885367992621682559631251008303599767996507346259895301021263 : ℚ)/6739986666787659948666753771754907668409286105635143120275902562304, (-588418211307064352592354935212570347583551135958777174908551767495979 : ℚ)/26959946667150639794667015087019630673637144422540572481103610249216, (-23404291232880372385572163119165892157351860523040569943577512540907 : ℚ)/1684996666696914987166688442938726917102321526408785780068975640576, (-30102108242297774698973918158737654195714982857710169954194827496531 : ℚ)/1684996666696914987166688442938726917102321526408785780068975640576, (-535240966376268821956363525137342816138298700290994815865130435319021 : ℚ)/26959946667150639794667015087019630673637144422540572481103610249216, (-1070572446673319461137405420562280142593635519785077171216566562914565 : ℚ)/53919893334301279589334030174039261347274288845081144962207220498432, (-133732076885367992621682559631251008303599767996507346259895301021263 : ℚ)/6739986666787659948666753771754907668409286105635143120275902562304, (-535240966376268821956363525137342816138298700290994815865130435319021 : ℚ)/26959946667150639794667015087019630673637144422540572481103610249216, (-963878481163801320953311546177106772458560949458536188180124539055887 : ℚ)/53919893334301279589334030174039261347274288845081144962207220498432, (-374945718010098542407910133645874168798408693158607299243886718805131 : ℚ)/26959946667150639794667015087019630673637144422540572481103610249216, (-588418211307064352592354935212570347583551135958777174908551767495979 : ℚ)/26959946667150639794667015087019630673637144422540572481103610249216, (-1070572446673319461137405420562280142593635519785077171216566562914565 : ℚ)/53919893334301279589334030174039261347274288845081144962207220498432, (-374945718010098542407910133645874168798408693158607299243886718805131 : ℚ)/26959946667150639794667015087019630673637144422540572481103610249216, (0 : ℚ)]

def gridV57 : List ℚ :=
  [(0 : ℚ), (-374717621453231220754533899829884824389504285942050878332088271420231 : ℚ)/26959946667150639794667015087019630673637144422540572481103610249216, (-2141144893346638924968650659052880544020301771868014544069766119317147 : ℚ)/107839786668602559178668060348078522694548577690162289924414440996864, (-9420994623824202904696973223270317700654176209869035445468971149101565 : ℚ)/431359146674410236714672241392314090778194310760649159697657763987456, (-374717621453231220754533899829884824389504285942050878332088271420231 : ℚ)/26959946667150639794667015087019630673637144422540572481103610249216, (-240969620290950330575057863785316725468769318769531709789856481809421 : ℚ)/13479973333575319897333507543509815336818572211270286240551805124608, (-8569162858022893370465219744206502268653043571272144100879657941720875 : ℚ)/431359146674410236714672241392314090778194310760649159697657763987456, (-66951767832212635917278686398199812839733633345707246763230429982365 : ℚ)/3369993333393829974333376885877453834204643052817571560137951281152, (-2141144893346638924968650659052880544020301771868014544069766119317147 : ℚ)/107839786668602559178668060348078522694548577690162289924414440996864, (-8569162858022893370465219744206502268653043571272144100879657941720875 : ℚ)/431359146674410236714672241392314090778194310760649159697657763987456, (-15431012639533290522421126365325117150983971283331159208177160970577883 : ℚ)/862718293348820473429344482784628181556388621521298319395315527974912, (-48019801354298160568014972291070755365730414086992841232949788159727163 : ℚ)/3450873173395281893717377931138512726225554486085193277581262111899648, (-9420994623824202904696973223270317700654176209869035445468971149101565 : ℚ)/431359146674410236714672241392314090778194310760649159697657763987456, (-66951767832212635917278686398199812839733633345707246763230429982365 : ℚ)/3369993333393829974333376885877453834204643052817571560137951281152, (-48019801354298160568014972291070755365730414086992841232949788159727163 : ℚ)/3450873173395281893717377931138512726225554486085193277581262111899648, (0 : ℚ)]

def gridV58 : List ℚ :=
  [(0 : ℚ), (-5999131488161576689301921410047267736106667776553120895414628823460895 : ℚ)/431359146674410236714672241392314090778194310760649159697657763987456, (-34279305130092869611197405979304866244607871888208955256832953447501747 : ℚ)/1725436586697640946858688965569256363112777243042596638790631055949824, (-150828313597569926225854635063622737476236010812333735718521227015084443 : ℚ)/6901746346790563787434755862277025452451108972170386555162524223799296, (-5999131488161576689301921410047267736106667776553120895414628823460895 : ℚ)/431359146674410236714672241392314090778194310760649159697657763987456, (-7715506319766645266598242818519199093158049984673281657844801146578341 : ℚ)/431359146674410236714672241392314090778194310760649159697657763987456, (-137184407165109465099514073282187226545602743638736897202502984349741053 : ℚ)/6901746346790563787434755862277025452451108972170386555162524223799296, (-274388264689404722984862213060286396629439249802873151489334902591680263 : ℚ)/13803492693581127574869511724554050904902217944340773110325048447598592, (-34279305130092869611197405979304866244607871888208955256832953447501747 : ℚ)/1725436586697640946858688965569256363112777243042596638790631055949824, (-137184407165109465099514073282187226545602743638736897202502984349741053 : ℚ)/6901746346790563787434755862277025452451108972170386555162524223799296, (-247027502567286913810413529588882788181965789757063352778727609116793971 : ℚ)/13803492693581127574869511724554050904902217944340773110325048447598592, (-384354471724104394683406839355834204946967783842635480820580929068888627 : ℚ)/27606985387162255149739023449108101809804435888681546220650096895197184, (-150828313597569926225854635063622737476236010812333735718521227015084443 : ℚ)/6901746346790563787434755862277025452451108972170386555162524223799296, (-274388264689404722984862213060286396629439249802873151489334902591680263 : ℚ)/13803492693581127574869511724554050904902217944340773110325048447598592, (-384354471724104394683406839355834204946967783842635480820580929068888627 : ℚ)/27606985387162255149739023449108101809804435888681546220650096895197184, (0 : ℚ)]

def gridV59 : List ℚ :=
  [(0 : ℚ), (-96039602708596321222232818755847759014117851905284952025033197551457987 : ℚ)/6901746346790563787434755862277025452451108972170386555162524223799296, (-548776529378809446142130174467985289824192529797872952194039319601487655 : ℚ)/27606985387162255149739023449108101809804435888681546220650096895197184, (-2414607509086827322517647774893972390132176859457015325803479328486312461 : ℚ)/110427941548649020598956093796432407239217743554726184882600387580788736, (-96039602708596321222232818755847759014117851905284952025033197551457987 : ℚ)/6901746346790563787434755862277025452451108972170386555162524223799296, (-3859804727613858029634631308790453694759731460755665974029081724199963 : ℚ)/215679573337205118357336120696157045389097155380324579848828881993728, (-2196091010575415568124870561087934139615465979449197390288487191296820123 : ℚ)/110427941548649020598956093796432407239217743554726184882600387580788736, (-2196233572567123583912716943268316037881974736729661147704842751778821035 : ℚ)/110427941548649020598956093796432407239217743554726184882600387580788736, (-548776529378809446142130174467985289824192529797872952194039319601487655 : ℚ)/27606985387162255149739023449108101809804435888681546220650096895197184, (-2196091010575415568124870561087934139615465979449197390288487191296820123 : ℚ)/110427941548649020598956093796432407239217743554726184882600387580788736, (-3954364780569131188056410106104135773881772601929191683336011682733952103 : ℚ)/220855883097298041197912187592864814478435487109452369765200775161577472, (-12305091231885405678140747457858900747135206294567407304371147719489013077 : ℚ)/883423532389192164791648750371459257913741948437809479060803100646309888, (-2414607509086827322517647774893972390132176859457015325803479328486312461 : ℚ)/110427941548649020598956093796432407239217743554726184882600387580788736, (-2196233572567123583912716943268316037881974736729661147704842751778821035 : ℚ)/110427941548649020598956093796432407239217743554726184882600387580788736, (-12305091231885405678140747457858900747135206294567407304371147719489013077 : ℚ)/883423532389192164791648750371459257913741948437809479060803100646309888, (0 : ℚ)]

def gridV60 : List ℚ :=
  [(0 : ℚ), (-1537417886896417579423250350812986806049127307950464189852494958085703603 : ℚ)/110427941548649020598956093796432407239217743554726184882600387580788736, (-8784934290268494337030113759852564124050411240267073454251020306597941751 : ℚ)/441711766194596082395824375185729628956870974218904739530401550323154944, (-38653575718009991582405461232820525912463208959717459609619832142896345355 : ℚ)/1766847064778384329583297500742918515827483896875618958121606201292619776, (-1537417886896417579423250350812986806049127307950464189852494958085703603 : ℚ)/110427941548649020598956093796432407239217743554726184882600387580788736, (-1977182390284565594373016549746892880071514387254556974953091462272050599 : ℚ)/110427941548649020598956093796432407239217743554726184882600387580788736, (-35154174767591897755869165444864589859455396836937948269676386729561952269 : ℚ)/1766847064778384329583297500742918515827483896875618958121606201292619776, (-70312529184780107677746391344333823967805274880483638341901211572533969721 : ℚ)/3533694129556768659166595001485837031654967793751237916243212402585239552, (-8784934290268494337030113759852564124050411240267073454251020306597941751 : ℚ)/441711766194596082395824375185729628956870974218904739530401550323154944, (-35154174767591897755869165444864589859455396836937948269676386729561952269 : ℚ)/1766847064778384329583297500742918515827483896875618958121606201292619776, (-63298051360919477771317255362068228385380777219824000794661894571125217975 : ℚ)/3533694129556768659166595001485837031654967793751237916243212402585239552, (-49241430497867070699573254135945250867086687113395555004755136657989049553 : ℚ)/3533694129556768659166595001485837031654967793751237916243212402585239552, (-38653575718009991582405461232820525912463208959717459609619832142896345355 : ℚ)/1766847064778384329583297500742918515827483896875618958121606201292619776, (-70312529184780107677746391344333823967805274880483638341901211572533969721 : ℚ)/3533694129556768659166595001485837031654967793751237916243212402585239552, (-49241430497867070699573254135945250867086687113395555004755136657989049553 : ℚ)/3533694129556768659166595001485837031654967793751237916243212402585239552, (0 : ℚ)]

def gridV61 : List ℚ :=
  [(0 : ℚ), (-24610182463770811361798478862835001384360461917962777071594972189321578335 : ℚ)/1766847064778384329583297500742918515827483896875618958121606201292619776, (-140625058369560215366526750582902047715790648263188954600381697093342122067 : ℚ)/7067388259113537318333190002971674063309935587502475832486424805170479104, (-618748275519654512654595983146020599204346612051905811491088476602262740765 : ℚ)/28269553036454149273332760011886696253239742350009903329945699220681916416, (-24610182463770811361798478862835001384360461917962777071594972189321578335 : ℚ)/1766847064778384329583297500742918515827483896875618958121606201292619776, (-15824512840229869444208559827296357068867706637162990814378642830367192539 : ℚ)/883423532389192164791648750371459257913741948437809479060803100646309888, (-562711875219252491091655282625963705226344147911118062718482751244279954187 : ℚ)/28269553036454149273332760011886696253239742350009903329945699220681916416, (-281371255043237628482267433707720461015348178164262129287825601321681814351 : ℚ)/14134776518227074636666380005943348126619871175004951664972849610340958208, (-140625058369560215366526750582902047715790648263188954600381697093342122067 : ℚ)/7067388259113537318333190002971674063309935587502475832486424805170479104, (-562711875219252491091655282625963705226344147911118062718482751244279954187 : ℚ)/28269553036454149273332760011886696253239742350009903329945699220681916416, (-1013182425275097355234906835737299104669517129518302309416415242949556183443 : ℚ)/56539106072908298546665520023773392506479484700019806659891398441363832832, (-3152686757705554194543810716838398532630214774789758933283365428529563565023 : ℚ)/226156424291633194186662080095093570025917938800079226639565593765455331328, (-618748275519654512654595983146020599204346612051905811491088476602262740765 : ℚ)/28269553036454149273332760011886696253239742350009903329945699220681916416, (-281371255043237628482267433707720461015348178164262129287825601321681814351 : ℚ)/14134776518227074636666380005943348126619871175004951664972849610340958208, (-3152686757705554194543810716838398532630214774789758933283365428529563565023 : ℚ)/226156424291633194186662080095093570025917938800079226639565593765455331328, (0 : ℚ)]

def gridV62 : List ℚ :=
  [(0 : ℚ), (-393931443982936565640721904664499606057413891382353892731736427714247892135 : ℚ)/28269553036454149273332760011886696253239742350009903329945699220681916416, (-2250970040345901027946411212815638886364226213798173198662617240816886741019 : ℚ)/113078212145816597093331040047546785012958969400039613319782796882727665664, (-9904239133432304545414642707835754508173620413127675178173061051739353844603 : ℚ)/452312848583266388373324160190187140051835877600158453279131187530910662656, (-393931443982936565640721904664499606057413891382353892731736427714247892135 : ℚ)/28269553036454149273332760011886696253239742350009903329945699220681916416, (-506591212637548677639521353657118351895118761996745881055055288699945839577 : ℚ)/28269553036454149273332760011886696253239742350009903329945699220681916416, (-9006982630375457865205773928770661331458356823736016829297404879620147643677 : ℚ)/452312848583266388373324160190187140051835877600158453279131187530910662656, (-18014863417467770232316946294845508108795445999050115912182070390418044664091 : ℚ)/904625697166532776746648320380374280103671755200316906558262375061821325312, (-2250970040345901027946411212815638886364226213798173198662617240816886741019 : ℚ)/113078212145816597093331040047546785012958969400039613319782796882727665664, (-9006982630375457865205773928770661331458356823736016829297404879620147643677 : ℚ)/452312848583266388373324160190187140051835877600158453279131187530910662656, (-16216981842953099031040043682827832676822458128515851602422398111741096099035 : ℚ)/904625697166532776746648320380374280103671755200316906558262375061821325312, (-25230547539954608574259413063274216018276725123763135436985489858262340162233 : ℚ)/1809251394333065553493296640760748560207343510400633813116524750123642650624, (-9904239133432304545414642707835754508173620413127675178173061051739353844603 : ℚ)/452312848583266388373324160190187140051835877600158453279131187530910662656, (-18014863417467770232316946294845508108795445999050115912182070390418044664091 : ℚ)/904625697166532776746648320380374280103671755200316906558262375061821325312, (-25230547539954608574259413063274216018276725123763135436985489858262340162233 : ℚ)/1809251394333065553493296640760748560207343510400633813116524750123642650624, (0 : ℚ)]

def gridV63 : List ℚ :=
  [(0 : ℚ), (-6305373515411108389440708406292297858226192704914730747088915294004572330523 : ℚ)/452312848583266388373324160190187140051835877600158453279131187530910662656, (-36029726834935540465340066534922017803522418307371749362326374938755263433503 : ℚ)/1809251394333065553493296640760748560207343510400633813116524750123642650624, (-158530372314661779507264287350342064327331647652095917864541103134000754121005 : ℚ)/7237005577332262213973186563042994240829374041602535252466099000494570602496, (-6305373515411108389440708406292297858226192704914730747088915294004572330523 : ℚ)/452312848583266388373324160190187140051835877600158453279131187530910662656, (-2027122730369137378924141331930416683723527660481383060368072818585817662439 : ℚ)/113078212145816597093331040047546785012958969400039613319782796882727665664, (-144164386619015739268813494364198360555164043171808348609890576040941198161275 : ℚ)/7237005577332262213973186563042994240829374041602535252466099000494570602496, (-144170969685641790946885937644643332697320913869441969132423649433328488163481 : ℚ)/7237005577332262213973186563042994240829374041602535252466099000494570602496, (-36029726834935540465340066534922017803522418307371749362326374938755263433503 : ℚ)/1809251394333065553493296640760748560207343510400633813116524750123642650624, (-144164386619015739268813494364198360555164043171808348609890576040941198161275 : ℚ)/7237005577332262213973186563042994240829374041602535252466099000494570602496, (-259560587933498697993797519743381213109929691750065960862764733474979700015199 : ℚ)/14474011154664524427946373126085988481658748083205070504932198000989141204992, (-807642952243077246193430192043205560577420312811875264643224743211691962459993 : ℚ)/57896044618658097711785492504343953926634992332820282019728792003956564819968, (-158530372314661779507264287350342064327331647652095917864541103134000754121005 : ℚ)/7237005577332262213973186563042994240829374041602535252466099000494570602496, (-144170969685641790946885937644643332697320913869441969132423649433328488163481 : ℚ)/7237005577332262213973186563042994240829374041602535252466099000494570602496, (-807642952243077246193430192043205560577420312811875264643224743211691962459993 : ℚ)/57896044618658097711785492504343953926634992332820282019728792003956564819968, (0 : ℚ)]

def gridV64 : List ℚ :=
  [(0 : ℚ), (-100922190159818434299862348034020870416833005736335336569037300212641205957115 : ℚ)/7237005577332262213973186563042994240829374041602535252466099000494570602496, (-576683878742567163793193142140421343476735865956136741502638875144582494383391 : ℚ)/28948022309329048855892746252171976963317496166410141009864396001978282409984, (-2537402825239744759062422176530419096737942687316312524988119881957815609645291 : ℚ)/115792089237316195423570985008687907853269984665640564039457584007913129639936, (-100922190159818434299862348034020870416833005736335336569037300212641205957115 : ℚ)/7237005577332262213973186563042994240829374041602535252466099000494570602496, (-129780293966749348998311107762152609726827898495674377841930037127285772661691 : ℚ)/7237005577332262213973186563042994240829374041602535252466099000494570602496, (-2307402198456445314985147348263055447246460483582374615165040672344912067354413 : ℚ)/115792089237316195423570985008687907853269984665640564039457584007913129639936, (-4614997400050939001639444425614465309854729178548035715858109383845509965547565 : ℚ)/231584178474632390847141970017375815706539969331281128078915168015826259279872, (-576683878742567163793193142140421343476735865956136741502638875144582494383391 : ℚ)/28948022309329048855892746252171976963317496166410141009864396001978282409984, (-2307402198456445314985147348263055447246460483582374615165040672344912067354413 : ℚ)/115792089237316195423570985008687907853269984665640564039457584007913129639936, (-4154272281417232198219149702366842384107841078537406272530405326784122251554271 : ℚ)/231584178474632390847141970017375815706539969331281128078915168015826259279872, (-807886137771188109251305173513977074943650711603629222454817147221231569003831 : ℚ)/57896044618658097711785492504343953926634992332820282019728792003956564819968, (-2537402825239744759062422176530419096737942687316312524988119881957815609645291 : ℚ)/115792089237316195423570985008687907853269984665640564039457584007913129639936, (-4614997400050939001639444425614465309854729178548035715858109383845509965547565 : ℚ)/231584178474632390847141970017375815706539969331281128078915168015826259279872, (-807886137771188109251305173513977074943650711603629222454817147221231569003831 : ℚ)/57896044618658097711785492504343953926634992332820282019728792003956564819968, (0 : ℚ)]

def gridV65 : List ℚ :=
  [(0 : ℚ), (-1615285904486154492409457950333803171904649467549816163185965808512203538498551 : ℚ)/115792089237316195423570985008687907853269984665640564039457584007913129639936, (-9229994800101878003324083983723714721209076040935612525507512199424913711591563 : ℚ)/463168356949264781694283940034751631413079938662562256157830336031652518559744, (-40611885629918773205879486007335004640474395651212433181760011366905068594087997 : ℚ)/1852673427797059126777135760139006525652319754650249024631321344126610074238976, (-1615285904486154492409457950333803171904649467549816163185965808512203538498551 : ℚ)/115792089237316195423570985008687907853269984665640564039457584007913129639936, (-1038568070354308049560436817153558608714412480115867976607480412218235466283209 : ℚ)/57896044618658097711785492504343953926634992332820282019728792003956564819968, (-36929752153669743926301902537053805504501836150683689339775706262556671950299883 : ℚ)/1852673427797059126777135760139006525652319754650249024631321344126610074238976, (-9232791693991392821777953283894239070288760438762346216592501674238229423365431 : ℚ)/463168356949264781694283940034751631413079938662562256157830336031652518559744, (-9229994800101878003324083983723714721209076040935612525507512199424913711591563 : ℚ)/463168356949264781694283940034751631413079938662562256157830336031652518559744, (-36929752153669743926301902537053805504501836150683689339775706262556671950299883 : ℚ)/1852673427797059126777135760139006525652319754650249024631321344126610074238976, (-66487455417941881675897939609779084954003298431300322507592497661889302306900427 : ℚ)/3705346855594118253554271520278013051304639509300498049262642688253220148477952, (-206875889209605536256422183066939582517925585521233354674491379230966838703980867 : ℚ)/14821387422376473014217086081112052205218558037201992197050570753012880593911808, (-40611885629918773205879486007335004640474395651212433181760011366905068594087997 : ℚ)/1852673427797059126777135760139006525652319754650249024631321344126610074238976, (-9232791693991392821777953283894239070288760438762346216592501674238229423365431 : ℚ)/463168356949264781694283940034751631413079938662562256157830336031652518559744, (-206875889209605536256422183066939582517925585521233354674491379230966838703980867 : ℚ)/14821387422376473014217086081112052205218558037201992197050570753012880593911808, (0 : ℚ)]

def gridV66 : List ℚ :=
  [(0 : ℚ), (-25852356408678019496222546082426402804195293506712070015742540075346221670090415 : ℚ)/1852673427797059126777135760139006525652319754650249024631321344126610074238976, (-147724667103862285148808813602266097936617108490951638737833591879014057357800451 : ℚ)/7410693711188236507108543040556026102609279018600996098525285376506440296955904, (-649987194091827701972726126365478064595469556795252628051494851108092038072174939 : ℚ)/29642774844752946028434172162224104410437116074403984394101141506025761187823616, (-25852356408678019496222546082426402804195293506712070015742540075346221670090415 : ℚ)/1852673427797059126777135760139006525652319754650249024631321344126610074238976, (-33243727708970940838039360069879110680000884583348128702390444513078056884434125 : ℚ)/1852673427797059126777135760139006525652319754650249024631321344126610074238976, (-591041930724245043029643557805872640099684526781546322422161533548942321471008317 : ℚ)/29642774844752946028434172162224104410437116074403984394101141506025761187823616, (-1182125335514872371111369874561678793935617193498835877630481908147158882398913519 : ℚ)/59285549689505892056868344324448208820874232148807968788202283012051522375647232, (-147724667103862285148808813602266097936617108490951638737833591879014057357800451 : ℚ)/7410693711188236507108543040556026102609279018600996098525285376506440296955904, (-591041930724245043029643557805872640099684526781546322422161533548942321471008317 : ℚ)/29642774844752946028434172162224104410437116074403984394101141506025761187823616, (-1064079258832962007599356268264200013956409929972821000559346575022927521254617283 : ℚ)/59285549689505892056868344324448208820874232148807968788202283012051522375647232, (-1655425174972140045981944126195714986623613197075911086020301566071079923986021599 : ℚ)/118571099379011784113736688648896417641748464297615937576404566024103044751294464, (-649987194091827701972726126365478064595469556795252628051494851108092038072174939 : ℚ)/29642774844752946028434172162224104410437116074403984394101141506025761187823616, (-1182125335514872371111369874561678793935617193498835877630481908147158882398913519 : ℚ)/59285549689505892056868344324448208820874232148807968788202283012051522375647232, (-1655425174972140045981944126195714986623613197075911086020301566071079923986021599 : ℚ)/118571099379011784113736688648896417641748464297615937576404566024103044751294464, (0 : ℚ)]

def gridV67 : List ℚ :=
  [(0 : ℚ), (-413751778419211072514290610373712256283838936925596418004466671738736932763722227 : ℚ)/29642774844752946028434172162224104410437116074403984394101141506025761187823616, (-2364250671029744742225632237603023770367209918763817861005861989935930566489401751 : ℚ)/118571099379011784113736688648896417641748464297615937576404566024103044751294464, (-10402683292310158236685127752245791545569194617313974390984402879191396814869806157 : ℚ)/474284397516047136454946754595585670566993857190463750305618264096412179005177856, (-413751778419211072514290610373712256283838936925596418004466671738736932763722227 : ℚ)/29642774844752946028434172162224104410437116074403984394101141506025761187823616, (-66504953677060125475050157031502069075274855990996919325926905518733173538148611 : ℚ)/3705346855594118253554271520278013051304639509300498049262642688253220148477952, (-9459102774907384651303636302858433267127053414609496786120798196971977106022396763 : ℚ)/474284397516047136454946754595585670566993857190463750305618264096412179005177856, (-9459406760322317646656821643690714448235903449244914385863183915502653348012077223 : ℚ)/474284397516047136454946754595585670566993857190463750305618264096412179005177856, (-2364250671029744742225632237603023770367209918763817861005861989935930566489401751 : ℚ)/118571099379011784113736688648896417641748464297615937576404566024103044751294464, (-9459102774907384651303636302858433267127053414609496786120798196971977106022396763 : ℚ)/474284397516047136454946754595585670566993857190463750305618264096412179005177856, (-17029372269828039108141306316832464554755493917294068630813240989449121159976838871 : ℚ)/948568795032094272909893509191171341133987714380927500611236528192824358010355712, (-52985862370378171860950076650544298708752157249914896093146967461794364679930588957 : ℚ)/3794275180128377091639574036764685364535950857523710002444946112771297432041422848, (-10402683292310158236685127752245791545569194617313974390984402879191396814869806157 : ℚ)/474284397516047136454946754595585670566993857190463750305618264096412179005177856, (-9459406760322317646656821643690714448235903449244914385863183915502653348012077223 : ℚ)/474284397516047136454946754595585670566993857190463750305618264096412179005177856, (-52985862370378171860950076650544298708752157249914896093146967461794364679930588957 : ℚ)/3794275180128377091639574036764685364535950857523710002444946112771297432041422848, (0 : ℚ)]

def gridV68 : List ℚ :=
  [(0 : ℚ), (-6621700699888560183939346458701524676478354915368568701759007917586752029770224067 : ℚ)/474284397516047136454946754595585670566993857190463750305618264096412179005177856, (-37837627041289270586650426482600187252911418051109166324110130009879496932640745415 : ℚ)/1897137590064188545819787018382342682267975428761855001222473056385648716020711424, (-166485270781316561250037883148858748139480490501648039000327980930963879707730349259 : ℚ)/7588550360256754183279148073529370729071901715047420004889892225542594864082845696, (-6621700699888560183939346458701524676478354915368568701759007917586752029770224067 : ℚ)/474284397516047136454946754595585670566993857190463750305618264096412179005177856, (-8514686134914019554076438135375564642369698022179496494245521321375776746901488271 : ℚ)/474284397516047136454946754595585670566993857190463750305618264096412179005177856, (-151381293522147451789145226306059603453916713486442367111061325161834054496331530829 : ℚ)/7588550360256754183279148073529370729071901715047420004889892225542594864082845696, (-302771499325202227920354500674587931549481790268014254245526876283299748294223838177 : ℚ)/15177100720513508366558296147058741458143803430094840009779784451085189728165691392, (-37837627041289270586650426482600187252911418051109166324110130009879496932640745415 : ℚ)/1897137590064188545819787018382342682267975428761855001222473056385648716020711424, (-151381293522147451789145226306059603453916713486442367111061325161834054496331530829 : ℚ)/7588550360256754183279148073529370729071901715047420004889892225542594864082845696, (-272530118983417303877603675754206942329564831416366999307135044536507973584358400135 : ℚ)/15177100720513508366558296147058741458143803430094840009779784451085189728165691392, (-211988367668046563176997916904801758636657616101105049491092232117831484877741839927 : ℚ)/15177100720513508366558296147058741458143803430094840009779784451085189728165691392, (-166485270781316561250037883148858748139480490501648039000327980930963879707730349259 : ℚ)/7588550360256754183279148073529370729071901715047420004889892225542594864082845696, (-302771499325202227920354500674587931549481790268014254245526876283299748294223838177 : ℚ)/15177100720513508366558296147058741458143803430094840009779784451085189728165691392, (-211988367668046563176997916904801758636657616101105049491092232117831484877741839927 : ℚ)/15177100720513508366558296147058741458143803430094840009779784451085189728165691392, (0 : ℚ)]

def gridV69 : List ℚ :=
  [(0 : ℚ), (-105971724740756343721992712932437915257375531516348847113018139191272206903410440463 : ℚ)/7588550360256754183279148073529370729071901715047420004889892225542594864082845696, (-605542998650404455840894120611874498778706014569065598540407534225758508294366684995 : ℚ)/30354201441027016733116592294117482916287606860189680019559568902170379456331382784, (-2664384969315449468614372556328390278658663946559037139112323409848750560369982686557 : ℚ)/121416805764108066932466369176469931665150427440758720078238275608681517825325531136, (-105971724740756343721992712932437915257375531516348847113018139191272206903410440463 : ℚ)/7588550360256754183279148073529370729071901715047420004889892225542594864082845696, (-68132529745854325969424058846389065042359012108221513558464812201047862781976915671 : ℚ)/3794275180128377091639574036764685364535950857523710002444946112771297432041422848, (-2422623278998586194124669313417046698540821782244358934191688149082438372132672018123 : ℚ)/121416805764108066932466369176469931665150427440758720078238275608681517825325531136, (-1211344300914557282405965835885804278168650336189923172938739691071870608647460281757 : ℚ)/60708402882054033466233184588234965832575213720379360039119137804340758912662765568, (-605542998650404455840894120611874498778706014569065598540407534225758508294366684995 : ℚ)/30354201441027016733116592294117482916287606860189680019559568902170379456331382784, (-2422623278998586194124669313417046698540821782244358934191688149082438372132672018123 : ℚ)/121416805764108066932466369176469931665150427440758720078238275608681517825325531136, (-4361363831871174833405585387008400630964383565934716770276902557242453286805257799811 : ℚ)/242833611528216133864932738352939863330300854881517440156476551217363035650651062272, (-13569889364331013509321146354440205335146710187838160014515243240284691622041572614759 : ℚ)/971334446112864535459730953411759453321203419526069760625906204869452142602604249088, (-2664384969315449468614372556328390278658663946559037139112323409848750560369982686557 : ℚ)/121416805764108066932466369176469931665150427440758720078238275608681517825325531136, (-1211344300914557282405965835885804278168650336189923172938739691071870608647460281757 : ℚ)/60708402882054033466233184588234965832575213720379360039119137804340758912662765568, (-13569889364331013509321146354440205335146710187838160014515243240284691622041572614759 : ℚ)/971334446112864535459730953411759453321203419526069760625906204869452142602604249088, (0 : ℚ)]

def gridV70 : List ℚ :=
  [(0 : ℚ), (-1695906941344372505416723812289208611812230664940991815538436864207911755989149303351 : ℚ)/121416805764108066932466369176469931665150427440758720078238275608681517825325531136, (-9690754407316458259249207641188023310787142161783685163317031662476860792970572872555 : ℚ)/485667223056432267729865476705879726660601709763034880312953102434726071301302124544, (-42639257461382241338331376685725098672048063262827507180977348879580734430315325117243 : ℚ)/1942668892225729070919461906823518906642406839052139521251812409738904285205208498176, (-1695906941344372505416723812289208611812230664940991815538436864207911755989149303351 : ℚ)/121416805764108066932466369176469931665150427440758720078238275608681517825325531136, (-2180681915935587416703162932029597586841676651033434094943300782253856581886236191873 : ℚ)/121416805764108066932466369176469931665150427440758720078238275608681517825325531136, (-38769633034343344923040218737233168052074225426358379988405769844291062848510923991901 : ℚ)/1942668892225729070919461906823518906642406839052139521251812409738904285205208498176, (-77541181211278181300341321253739244961191073589574153408730262478848328570224478673795 : ℚ)/3885337784451458141838923813647037813284813678104279042503624819477808570410416996352, (-9690754407316458259249207641188023310787142161783685163317031662476860792970572872555 : ℚ)/485667223056432267729865476705879726660601709763034880312953102434726071301302124544, (-38769633034343344923040218737233168052074225426358379988405769844291062848510923991901 : ℚ)/1942668892225729070919461906823518906642406839052139521251812409738904285205208498176, (-69794749547456830083521435259760616535652459480138979059939881144338254663004486217771 : ℚ)/3885337784451458141838923813647037813284813678104279042503624819477808570410416996352, (-108578419676932448994251518592924417045284814266741444348372807931118292001518461668005 : ℚ)/7770675568902916283677847627294075626569627356208558085007249638955617140820833992704, (-42639257461382241338331376685725098672048063262827507180977348879580734430315325117243 : ℚ)/1942668892225729070919461906823518906642406839052139521251812409738904285205208498176, (-77541181211278181300341321253739244961191073589574153408730262478848328570224478673795 : ℚ)/3885337784451458141838923813647037813284813678104279042503624819477808570410416996352, (-108578419676932448994251518592924417045284814266741444348372807931118292001518461668005 : ℚ)/7770675568902916283677847627294075626569627356208558085007249638955617140820833992704, (0 : ℚ)]

def gridV71 : List ℚ :=
  [(0 : ℚ), (-27139778728662027018648216525286767012045178264733528326495794658062838429677323351627 : ℚ)/1942668892225729070919461906823518906642406839052139521251812409738904285205208498176, (-155082362422556362600694490140291202605885662957262714234154289670797696021206697943695 : ℚ)/7770675568902916283677847627294075626569627356208558085007249638955617140820833992704, (-682361486811782321042739536642746784410930825663865310839462604220962697167461592200045 : ℚ)/31082702275611665134711390509176302506278509424834232340028998555822468563283335970816, (-27139778728662027018648216525286767012045178264733528326495794658062838429677323351627 : ℚ)/1942668892225729070919461906823518906642406839052139521251812409738904285205208498176, (-8724343693432103760440919884520871609675527171149523419675648665228963731074833042485 : ℚ)/485667223056432267729865476705879726660601709763034880312953102434726071301302124544, (-620426425310551710670186111828801173860659673259915586226333954116656750748145292377403 : ℚ)/31082702275611665134711390509176302506278509424834232340028998555822468563283335970816, (-620440462405683984657876963727466199041843095601669207772311471029042279684152476130773 : ℚ)/31082702275611665134711390509176302506278509424834232340028998555822468563283335970816, (-155082362422556362600694490140291202605885662957262714234154289670797696021206697943695 : ℚ)/7770675568902916283677847627294075626569627356208558085007249638955617140820833992704, (-620426425310551710670186111828801173860659673259915586226333954116656750748145292377403 : ℚ)/31082702275611665134711390509176302506278509424834232340028998555822468563283335970816, (-1116905508569504836916614967218851447054355949176549828299883182952774855880785810991055 : ℚ)/62165404551223330269422781018352605012557018849668464680057997111644937126566671941632, (-3475075409001225719264072167490589601550548729912493657351720576906385499767505144363169 : ℚ)/248661618204893321077691124073410420050228075398673858720231988446579748506266687766528, (-682361486811782321042739536642746784410930825663865310839462604220962697167461592200045 : ℚ)/31082702275611665134711390509176302506278509424834232340028998555822468563283335970816, (-620440462405683984657876963727466199041843095601669207772311471029042279684152476130773 : ℚ)/31082702275611665134711390509176302506278509424834232340028998555822468563283335970816, (-3475075409001225719264072167490589601550548729912493657351720576906385499767505144363169 : ℚ)/248661618204893321077691124073410420050228075398673858720231988446579748506266687766528, (0 : ℚ)]

def gridV72 : List ℚ :=
  [(0 : ℚ), (-434313678707729795977053464902948518915153320179423434594976845502534938000396656000779 : ℚ)/31082702275611665134711390509176302506278509424834232340028998555822468563283335970816, (-2481761849622735938631602635972366497635400508631592117957506556746635044253963676236271 : ℚ)/124330809102446660538845562036705210025114037699336929360115994223289874253133343883264, (-10919738830149517087760409032171026409190675647146539153202917251523665237342799693892779 : ℚ)/497323236409786642155382248146820840100456150797347717440463976893159497012533375533056, (-434313678707729795977053464902948518915153320179423434594976845502534938000396656000779 : ℚ)/31082702275611665134711390509176302506278509424834232340028998555822468563283335970816, (-558452754284752418458331178875051148894185006144503742750684398365418312937554310159907 : ℚ)/31082702275611665134711390509176302506278509424834232340028998555822468563283335970816, (-9928468969933277867085047388966959623588680964766731294089720377123186623514895818914157 : ℚ)/497323236409786642155382248146820840100456150797347717440463976893159497012533375533056, (-19857349481107668358260580584172953890475884102277177978057459113248468661694639460878933 : ℚ)/994646472819573284310764496293641680200912301594695434880927953786318994025066751066112, (-2481761849622735938631602635972366497635400508631592117957506556746635044253963676236271 : ℚ)/124330809102446660538845562036705210025114037699336929360115994223289874253133343883264, (-9928468969933277867085047388966959623588680964766731294089720377123186623514895818914157 : ℚ)/497323236409786642155382248146820840100456150797347717440463976893159497012533375533056, (-17873266260755302589923956220241780506890690726186414043674089484722276617074972858706607 : ℚ)/994646472819573284310764496293641680200912301594695434880927953786318994025066751066112, (-6951187908643270870310485432443957440546552369311543548832767840092695406742487487662833 : ℚ)/497323236409786642155382248146820840100456150797347717440463976893159497012533375533056, (-10919738830149517087760409032171026409190675647146539153202917251523665237342799693892779 : ℚ)/497323236409786642155382248146820840100456150797347717440463976893159497012533375533056, (-19857349481107668358260580584172953890475884102277177978057459113248468661694639460878933 : ℚ)/994646472819573284310764496293641680200912301594695434880927953786318994025066751066112, (-6951187908643270870310485432443957440546552369311543548832767840092695406742487487662833 : ℚ)/497323236409786642155382248146820840100456150797347717440463976893159497012533375533056, (0 : ℚ)]

def gridV73 : List ℚ :=
  [(0 : ℚ), (-6950150818002451438528523459231186008973209964724648544780615509111607545018300916412071 : ℚ)/497323236409786642155382248146820840100456150797347717440463976893159497012533375533056, (-39714698962215336716521919416845921392695993214353678333665135272317637570941984636296315 : ℚ)/1989292945639146568621528992587283360401824603189390869761855907572637988050133502132224, (-174744480348183396409612468812909173888780465008837910994450815141294448745274195117725309 : ℚ)/7957171782556586274486115970349133441607298412757563479047423630290551952200534008528896, (-6950150818002451438528523459231186008973209964724648544780615509111607545018300916412071 : ℚ)/497323236409786642155382248146820840100456150797347717440463976893159497012533375533056, (-4468316565188825647481083836122946828190700807771518818437815960005278290639565871598085 : ℚ)/248661618204893321077691124073410420050228075398673858720231988446579748506266687766528, (-158879634750008470067225779685008098254562047746210576403678183778591906405798270256780971 : ℚ)/7957171782556586274486115970349133441607298412757563479047423630290551952200534008528896, (-19860331394236621636432347624118773627572613035415026935003207868391232461290984903070583 : ℚ)/994646472819573284310764496293641680200912301594695434880927953786318994025066751066112, (-39714698962215336716521919416845921392695993214353678333665135272317637570941984636296315 : ℚ)/1989292945639146568621528992587283360401824603189390869761855907572637988050133502132224, (-158879634750008470067225779685008098254562047746210576403678183778591906405798270256780971 : ℚ)/7957171782556586274486115970349133441607298412757563479047423630290551952200534008528896, (-286012984853413976541165778544809684186521482480710400143097316480656136818079138076444091 : ℚ)/15914343565113172548972231940698266883214596825515126958094847260581103904401068017057792, (-889873674498237280769907802131709767858031354167380732498176602300206524832098768199015243 : ℚ)/63657374260452690195888927762793067532858387302060507832379389042324415617604272068231168, (-174744480348183396409612468812909173888780465008837910994450815141294448745274195117725309 : ℚ)/7957171782556586274486115970349133441607298412757563479047423630290551952200534008528896, (-19860331394236621636432347624118773627572613035415026935003207868391232461290984903070583 : ℚ)/994646472819573284310764496293641680200912301594695434880927953786318994025066751066112, (-889873674498237280769907802131709767858031354167380732498176602300206524832098768199015243 : ℚ)/63657374260452690195888927762793067532858387302060507832379389042324415617604272068231168, (0 : ℚ)]

def gridV74 : List ℚ :=
  [(0 : ℚ), (-111219006538292333924970799913103373495721737948181986539337548619096846028332249283258175 : ℚ)/7957171782556586274486115970349133441607298412757563479047423630290551952200534008528896, (-635530604615571892365841189959800864976277417211675441188316783149415959271974789237065299 : ℚ)/31828687130226345097944463881396533766429193651030253916189694521162207808802136034115584, (-2796331800537516336400353919960461147234561529019780606728784734152939819230688411213588763 : ℚ)/127314748520905380391777855525586135065716774604121015664758778084648831235208544136462336, (-111219006538292333924970799913103373495721737948181986539337548619096846028332249283258175 : ℚ)/7957171782556586274486115970349133441607298412757563479047423630290551952200534008528896, (-143006492426706988270584405769404869316749191259953844950555289829134928169265793778548469 : ℚ)/7957171782556586274486115970349133441607298412757563479047423630290551952200534008528896, (-2542427897165705071288123349624426601764357538950313498861594005300436215581716301538868349 : ℚ)/127314748520905380391777855525586135065716774604121015664758778084648831235208544136462336, (-5084944229622802530129372395918927424653571671627231540463088831773231082231341246644685783 : ℚ)/254629497041810760783555711051172270131433549208242031329517556169297662470417088272924672, (-635530604615571892365841189959800864976277417211675441188316783149415959271974789237065299 : ℚ)/31828687130226345097944463881396533766429193651030253916189694521162207808802136034115584, (-2542427897165705071288123349624426601764357538950313498861594005300436215581716301538868349 : ℚ)/127314748520905380391777855525586135065716774604121015664758778084648831235208544136462336, (-4576804743203990393611494664939018407611853796493316995187464766070146927716330926209823507 : ℚ)/254629497041810760783555711051172270131433549208242031329517556169297662470417088272924672, (-7119880829493492544977360556794736992111642540811519795480665115860697379578867799371134475 : ℚ)/509258994083621521567111422102344540262867098416484062659035112338595324940834176545849344, (-2796331800537516336400353919960461147234561529019780606728784734152939819230688411213588763 : ℚ)/127314748520905380391777855525586135065716774604121015664758778084648831235208544136462336, (-5084944229622802530129372395918927424653571671627231540463088831773231082231341246644685783 : ℚ)/254629497041810760783555711051172270131433549208242031329517556169297662470417088272924672, (-7119880829493492544977360556794736992111642540811519795480665115860697379578867799371134475 : ℚ)/509258994083621521567111422102344540262867098416484062659035112338595324940834176545849344, (0 : ℚ)]

def gridV75 : List ℚ :=
  [(0 : ℚ), (-1779747348996474561539839868215419971291877908648339782812646915026991887297575505620754211 : ℚ)/127314748520905380391777855525586135065716774604121015664758778084648831235208544136462336, (-10169888459245605060258793319741855720458773743881619715815327899416627084138713551867321863 : ℚ)/509258994083621521567111422102344540262867098416484062659035112338595324940834176545849344, (-44747467299125826897988815159672777908693877712960263901207923885540989102210240041048800909 : ℚ)/2037035976334486086268445688409378161051468393665936250636140449354381299763336706183397376, (-1779747348996474561539839868215419971291877908648339782812646915026991887297575505620754211 : ℚ)/127314748520905380391777855525586135065716774604121015664758778084648831235208544136462336, (-143025148225124699800359966527844338849614656150215478531367452390522680167178402982267101 : ℚ)/7957171782556586274486115970349133441607298412757563479047423630290551952200534008528896, (-40684031867641657781232010987649163232416431067402443663760092497451215934496812394624832283 : ℚ)/2037035976334486086268445688409378161051468393665936250636140449354381299763336706183397376, (-40684680056765454861309757573872455287747831472822596018284987324509592102981650107762311715 : ℚ)/2037035976334486086268445688409378161051468393665936250636140449354381299763336706183397376, (-10169888459245605060258793319741855720458773743881619715815327899416627084138713551867321863 : ℚ)/509258994083621521567111422102344540262867098416484062659035112338595324940834176545849344, (-40684031867641657781232010987649163232416431067402443663760092497451215934496812394624832283 : ℚ)/2037035976334486086268445688409378161051468393665936250636140449354381299763336706183397376, (-73237627138284600133678344591646867522965938017980395346955033859602768052338957004476164935 : ℚ)/4074071952668972172536891376818756322102936787331872501272280898708762599526673412366794752, (-227862321698439338906264309701024699323766488439445235752459453030342581693039893264437043173 : ℚ)/16296287810675888690147565507275025288411747149327490005089123594835050398106693649467179008, (-44747467299125826897988815159672777908693877712960263901207923885540989102210240041048800909 : ℚ)/2037035976334486086268445688409378161051468393665936250636140449354381299763336706183397376, (-40684680056765454861309757573872455287747831472822596018284987324509592102981650107762311715 : ℚ)/2037035976334486086268445688409378161051468393665936250636140449354381299763336706183397376, (-227862321698439338906264309701024699323766488439445235752459453030342581693039893264437043173 : ℚ)/16296287810675888690147565507275025288411747149327490005089123594835050398106693649467179008, (0 : ℚ)]

def gridV76 : List ℚ :=
  [(0 : ℚ), (-28479523317973970179909636338794951453053091765754705723709572961872427463791770071398830547 : ℚ)/2037035976334486086268445688409378161051468393665936250636140449354381299763336706183397376, (-162738720227061819445239418518721828120204369096307637154483462739948666036107023539275340695 : ℚ)/8148143905337944345073782753637512644205873574663745002544561797417525199053346824733589504, (-716049754468482031454684101106143923117570210989935112447465050311985048061928931597649352843 : ℚ)/32592575621351777380295131014550050576823494298654980010178247189670100796213387298934358016, (-28479523317973970179909636338794951453053091765754705723709572961872427463791770071398830547 : ℚ)/2037035976334486086268445688409378161051468393665936250636140449354381299763336706183397376, (-36618813569142300066839269351631435503786229810244510944370973179016202998907627939195228791 : ℚ)/2037035976334486086268445688409378161051468393665936250636140449354381299763336706183397376, (-651020524628613816805487346418581176909095984563191835709195619662927483344555437034992190605 : ℚ)/32592575621351777380295131014550050576823494298654980010178247189670100796213387298934358016, (-1302060052943814456687418356083466992792729226595899437997426180993215785812562053040725024649 : ℚ)/65185151242703554760590262029100101153646988597309960020356494379340201592426774597868716032, (-162738720227061819445239418518721828120204369096307637154483462739948666036107023539275340695 : ℚ)/8148143905337944345073782753637512644205873574663745002544561797417525199053346824733589504, (-651020524628613816805487346418581176909095984563191835709195619662927483344555437034992190605 : ℚ)/32592575621351777380295131014550050576823494298654980010178247189670100796213387298934358016, (-1171930319268196049378606227849730676710275950039392267234471020102952848323061998161734992983 : ℚ)/65185151242703554760590262029100101153646988597309960020356494379340201592426774597868716032, (-911545065994145520183360717713424217853164771195578122080790247683724941819372680662920763613 : ℚ)/65185151242703554760590262029100101153646988597309960020356494379340201592426774597868716032, (-716049754468482031454684101106143923117570210989935112447465050311985048061928931597649352843 : ℚ)/32592575621351777380295131014550050576823494298654980010178247189670100796213387298934358016, (-1302060052943814456687418356083466992792729226595899437997426180993215785812562053040725024649 : ℚ)/65185151242703554760590262029100101153646988597309960020356494379340201592426774597868716032, (-911545065994145520183360717713424217853164771195578122080790247683724941819372680662920763613 : ℚ)/65185151242703554760590262029100101153646988597309960020356494379340201592426774597868716032, (0 : ℚ)]

def gridV77 : List ℚ :=
  [(0 : ℚ), (-455724643396878677812530172294977426524385149698959483836983894493173288683118002880585936063 : ℚ)/32592575621351777380295131014550050576823494298654980010178247189670100796213387298934358016, (-2604120105887628913374839817952790041339162798831936900652291404186560887418884014866066274355 : ℚ)/130370302485407109521180524058200202307293977194619920040712988758680403184853549195737432064, (-11458119457464742516471871435201676221094358848721696356389716123703594456278853770511660874653 : ℚ)/521481209941628438084722096232800809229175908778479680162851955034721612739414196782949728256, (-455724643396878677812530172294977426524385149698959483836983894493173288683118002880585936063 : ℚ)/32592575621351777380295131014550050576823494298654980010178247189670100796213387298934358016, (-292982579817049012344651945185664676146782030714865319891634002133860243405025053628361710675 : ℚ)/16296287810675888690147565507275025288411747149327490005089123594835050398106693649467179008, (-10417442698789670462348826643537303598748605306599922550412009778484501715669746743080829723275 : ℚ)/521481209941628438084722096232800809229175908778479680162851955034721612739414196782949728256, (-5208790993440575818265727381755664092740852471595919763509858143967813555495216896294181977131 : ℚ)/260740604970814219042361048116400404614587954389239840081425977517360806369707098391474864128, (-2604120105887628913374839817952790041339162798831936900652291404186560887418884014866066274355 : ℚ)/130370302485407109521180524058200202307293977194619920040712988758680403184853549195737432064, (-10417442698789670462348826643537303598748605306599922550412009778484501715669746743080829723275 : ℚ)/521481209941628438084722096232800809229175908778479680162851955034721612739414196782949728256, (-18752765646626091499985156577710298960032275293721506887384035670023744475703556581950095288691 : ℚ)/1042962419883256876169444192465601618458351817556959360325703910069443225478828393565899456512, (-58344500355827750600659614358010149290479728789462273336018927849112370668709700631997153241071 : ℚ)/4171849679533027504677776769862406473833407270227837441302815640277772901915313574263597826048, (-11458119457464742516471871435201676221094358848721696356389716123703594456278853770511660874653 : ℚ)/521481209941628438084722096232800809229175908778479680162851955034721612739414196782949728256, (-5208790993440575818265727381755664092740852471595919763509858143967813555495216896294181977131 : ℚ)/260740604970814219042361048116400404614587954389239840081425977517360806369707098391474864128, (-58344500355827750600659614358010149290479728789462273336018927849112370668709700631997153241071 : ℚ)/4171849679533027504677776769862406473833407270227837441302815640277772901915313574263597826048, (0 : ℚ)]

def gridV78 : List ℚ :=
  [(0 : ℚ), (-7292360527953164161466898164850817965840135552125177075296150954264857602130970652198253432263 : ℚ)/521481209941628438084722096232800809229175908778479680162851955034721612739414196782949728256, (-41670327947524606546125843900332161187956454537888462305358450293338083774712764012386808040635 : ℚ)/2085924839766513752338888384931203236916703635113918720651407820138886450957656787131798913024, (-183349310913833208233382187975715696646304959640885066147160675715264893672735956495360746507003 : ℚ)/8343699359066055009355553539724812947666814540455674882605631280555545803830627148527195652096, (-7292360527953164161466898164850817965840135552125177075296150954264857602130970652198253432263 : ℚ)/521481209941628438084722096232800809229175908778479680162851955034721612739414196782949728256, (-9376382823313045749992584500426861591523546338141029493016932321409401271639772894422491306025 : ℚ)/521481209941628438084722096232800809229175908778479680162851955034721612739414196782949728256, (-166695417840619634101547867651230331163708824791118627042878747351321232060471331072857615311261 : ℚ)/8343699359066055009355553539724812947666814540455674882605631280555545803830627148527195652096, (-333394919346235494879087387359023414574673889631910185912407632247001542030898069053867637088491 : ℚ)/16687398718132110018711107079449625895333629080911349765211262561111091607661254297054391304192, (-41670327947524606546125843900332161187956454537888462305358450293338083774712764012386808040635 : ℚ)/2085924839766513752338888384931203236916703635113918720651407820138886450957656787131798913024, (-166695417840619634101547867651230331163708824791118627042878747351321232060471331072857615311261 : ℚ)/8343699359066055009355553539724812947666814540455674882605631280555545803830627148527195652096, (-300071817270407245321578203446700255640001911450954523480127865610657065005551986633906313097595 : ℚ)/16687398718132110018711107079449625895333629080911349765211262561111091607661254297054391304192, (-466797166456241091339074238277781385478964616282179600898728129749276228070966937701990064183569 : ℚ)/33374797436264220037422214158899251790667258161822699530422525122222183215322508594108782608384, (-183349310913833208233382187975715696646304959640885066147160675715264893672735956495360746507003 : ℚ)/8343699359066055009355553539724812947666814540455674882605631280555545803830627148527195652096, (-333394919346235494879087387359023414574673889631910185912407632247001542030898069053867637088491 : ℚ)/16687398718132110018711107079449625895333629080911349765211262561111091607661254297054391304192, (-466797166456241091339074238277781385478964616282179600898728129749276228070966937701990064183569 : ℚ)/33374797436264220037422214158899251790667258161822699530422525122222183215322508594108782608384, (0 : ℚ)]

def gridV79 : List ℚ :=
  [(0 : ℚ), (-116689000711655501201319328101167692365077996639408963461216414676590665073626365347396982645883 : ℚ)/8343699359066055009355553539724812947666814540455674882605631280555545803830627148527195652096, (-666789838692470989758174973488341616717584857384789205403112164038751309121007217559271359235071 : ℚ)/33374797436264220037422214158899251790667258161822699530422525122222183215322508594108782608384, (-2933873354440664525533096108647711026200041346422980904526902934743762275425981042006327735901613 : ℚ)/133499189745056880149688856635597007162669032647290798121690100488888732861290034376435130433536, (-116689000711655501201319328101167692365077996639408963461216414676590665073626365347396982645883 : ℚ)/8343699359066055009355553539724812947666814540455674882605631280555545803830627148527195652096, (-37508977158800905665197287853980956178015056313929867533663303073627873592719868839663623657667 : ℚ)/2085924839766513752338888384931203236916703635113918720651407820138886450957656787131798913024, (-2667366136211627840952351617399081263157846393220687302848486109421003233538715264745872368563451 : ℚ)/133499189745056880149688856635597007162669032647290798121690100488888732861290034376435130433536, (-2667396067556842052868299801143123294130453363104207822689080755773359422235227186874210494910353 : ℚ)/133499189745056880149688856635597007162669032647290798121690100488888732861290034376435130433536, (-666789838692470989758174973488341616717584857384789205403112164038751309121007217559271359235071 : ℚ)/33374797436264220037422214158899251790667258161822699530422525122222183215322508594108782608384, (-2667366136211627840952351617399081263157846393220687302848486109421003233538715264745872368563451 : ℚ)/133499189745056880149688856635597007162669032647290798121690100488888732861290034376435130433536, (-4801553181526705966608026283781400819399042923643987302686778829395885611545163084306702886164799 : ℚ)/266998379490113760299377713271194014325338065294581596243380200977777465722580068752870260867072, (-14938716166250773844254730645374674548793018841288166140228286182847924143473673234682525432922345 : ℚ)/1067993517960455041197510853084776057301352261178326384973520803911109862890320275011481043468288, (-2933873354440664525533096108647711026200041346422980904526902934743762275425981042006327735901613 : ℚ)/133499189745056880149688856635597007162669032647290798121690100488888732861290034376435130433536, (-2667396067556842052868299801143123294130453363104207822689080755773359422235227186874210494910353 : ℚ)/133499189745056880149688856635597007162669032647290798121690100488888732861290034376435130433536, (-14938716166250773844254730645374674548793018841288166140228286182847924143473673234682525432922345 : ℚ)/1067993517960455041197510853084776057301352261178326384973520803911109862890320275011481043468288, (0 : ℚ)]

def gridV80 : List ℚ :=
  [(0 : ℚ), (-1867188665824964365356297748192304692188806777612593737908280772412048679760320614759912398774811 : ℚ)/133499189745056880149688856635597007162669032647290798121690100488888732861290034376435130433536, (-10669584270227368211473200794734851477067710077384581959382878874687374356654205929254938461914303 : ℚ)/533996758980227520598755426542388028650676130589163192486760401955554931445160137505740521734144, (-46946142411900962709606190574658584977792558823541913256301466983553129974783603562825364415705195 : ℚ)/2135987035920910082395021706169552114602704522356652769947041607822219725780640550022962086936576, (-1867188665824964365356297748192304692188806777612593737908280772412048679760320614759912398774811 : ℚ)/133499189745056880149688856635597007162669032647290798121690100488888732861290034376435130433536, (-2400776590763352983304013539431289984835995618063931318500073541405414689510807974129327514102667 : ℚ)/133499189745056880149688856635597007162669032647290798121690100488888732861290034376435130433536, (-42681368302482470371773528430764858346334296371701765899460095330016461752509313291905458357232557 : ℚ)/2135987035920910082395021706169552114602704522356652769947041607822219725780640550022962086936576, (-85363614135739046972681031969570486793105482388456973839515796601464034836563230257087544952547197 : ℚ)/4271974071841820164790043412339104229205409044713305539894083215644439451561281100045924173873152, (-10669584270227368211473200794734851477067710077384581959382878874687374356654205929254938461914303 : ℚ)/533996758980227520598755426542388028650676130589163192486760401955554931445160137505740521734144, (-42681368302482470371773528430764858346334296371701765899460095330016461752509313291905458357232557 : ℚ)/2135987035920910082395021706169552114602704522356652769947041607822219725780640550022962086936576, (-76830774706825838225073033133853311673125743098991403719810750911356749491017940861316433396950399 : ℚ)/4271974071841820164790043412339104229205409044713305539894083215644439451561281100045924173873152, (-7469910931091726913560411291696216049319529282232945758744250784587194959616280889291180524271237 : ℚ)/533996758980227520598755426542388028650676130589163192486760401955554931445160137505740521734144, (-46946142411900962709606190574658584977792558823541913256301466983553129974783603562825364415705195 : ℚ)/2135987035920910082395021706169552114602704522356652769947041607822219725780640550022962086936576, (-85363614135739046972681031969570486793105482388456973839515796601464034836563230257087544952547197 : ℚ)/4271974071841820164790043412339104229205409044713305539894083215644439451561281100045924173873152, (-7469910931091726913560411291696216049319529282232945758744250784587194959616280889291180524271237 : ℚ)/533996758980227520598755426542388028650676130589163192486760401955554931445160137505740521734144, (0 : ℚ)]

def gridV81 : List ℚ :=
  [(0 : ℚ), (-29877432332501547688509467651398782299769624182447334954963337737779447559519360834834860200360791 : ℚ)/2135987035920910082395021706169552114602704522356652769947041607822219725780640550022962086936576, (-170727228271478093945362076660439839990578137776655953028044581981387415616551663606677285168702059 : ℚ)/8543948143683640329580086824678208458410818089426611079788166431288878903122562200091848347746304, (-751199388412898450885894012495562327232772845499611651076640576777896040700437201423822683790423229 : ℚ)/34175792574734561318320347298712833833643272357706444319152665725155515612490248800367393390985216, (-29877432332501547688509467651398782299769624182447334954963337737779447559519360834834860200360791 : ℚ)/2135987035920910082395021706169552114602704522356652769947041607822219725780640550022962086936576, (-19207693676706459556268259873625686218827332399715601598579379070860087190897488806696560682866625 : ℚ)/1067993517960455041197510853084776057301352261178326384973520803911109862890320275011481043468288, (-682953347944994102109336633155005760507302520306983965254485375299065197411384165097425120721615467 : ℚ)/34175792574734561318320347298712833833643272357706444319152665725155515612490248800367393390985216, (-170739944958288356032364163329408821535996386775499107055218439875179753541858136293378330703107269 : ℚ)/8543948143683640329580086824678208458410818089426611079788166431288878903122562200091848347746304, (-170727228271478093945362076660439839990578137776655953028044581981387415616551663606677285168702059 : ℚ)/8543948143683640329580086824678208458410818089426611079788166431288878903122562200091848347746304, (-682953347944994102109336633155005760507302520306983965254485375299065197411384165097425120721615467 : ℚ)/34175792574734561318320347298712833833643272357706444319152665725155515612490248800367393390985216, (-1229379232684333747213843650420989255331038939085305382452422756962956706051806639612795461056945067 : ℚ)/68351585149469122636640694597425667667286544715412888638305331450311031224980497600734786781970432, (-3824853732128258130955052380783078152601055960276766850566655702192799814117477674192032360916403283 : ℚ)/273406340597876490546562778389702670669146178861651554553221325801244124899921990402939147127881728, (-751199388412898450885894012495562327232772845499611651076640576777896040700437201423822683790423229 : ℚ)/34175792574734561318320347298712833833643272357706444319152665725155515612490248800367393390985216, (-170739944958288356032364163329408821535996386775499107055218439875179753541858136293378330703107269 : ℚ)/8543948143683640329580086824678208458410818089426611079788166431288878903122562200091848347746304, (-3824853732128258130955052380783078152601055960276766850566655702192799814117477674192032360916403283 : ℚ)/273406340597876490546562778389702670669146178861651554553221325801244124899921990402939147127881728, (0 : ℚ)]

def gridV82 : List ℚ :=
  [(0 : ℚ), (-478074299589870522467866373553753292773918566061876549955685631224541418994299266199956604824063439 : ℚ)/34175792574734561318320347298712833833643272357706444319152665725155515612490248800367393390985216, (-2731839119332613696517826715040932075810879572405921755675600574127674382022288282349383123574851235 : ℚ)/136703170298938245273281389194851335334573089430825777276610662900622062449960995201469573563940864, (-12020086027164167981215930985055377179587296882534103786278662877956207014095360055239896179403716827 : ℚ)/546812681195752981093125556779405341338292357723303109106442651602488249799843980805878294255763456, (-478074299589870522467866373553753292773918566061876549955685631224541418994299266199956604824063439 : ℚ)/34175792574734561318320347298712833833643272357706444319152665725155515612490248800367393390985216, (-614689616342166873606921850653092360474253815542136701924238168986958823815331964449058256163824669 : ℚ)/34175792574734561318320347298712833833643272357706444319152665725155515612490248800367393390985216, (-10928007850598315362984153588545226514284207258876368150267336453606787395856803580871138655849519805 : ℚ)/546812681195752981093125556779405341338292357723303109106442651602488249799843980805878294255763456, (-21856204272066233158276999007683272971365277123244580462819530747185025632032707815247412949553981119 : ℚ)/1093625362391505962186251113558810682676584715446606218212885303204976499599687961611756588511526912, (-2731839119332613696517826715040932075810879572405921755675600574127674382022288282349383123574851235 : ℚ)/136703170298938245273281389194851335334573089430825777276610662900622062449960995201469573563940864, (-10928007850598315362984153588545226514284207258876368150267336453606787395856803580871138655849519805 : ℚ)/546812681195752981093125556779405341338292357723303109106442651602488249799843980805878294255763456, (-19671340677246337587080509463670193502162903894876508069613533161197363523691446890866959966193853283 : ℚ)/1093625362391505962186251113558810682676584715446606218212885303204976499599687961611756588511526912, (-30600730663695813558961361224360510907319371860507290403775613964986747205296408624664764356729777591 : ℚ)/2187250724783011924372502227117621365353169430893212436425770606409952999199375923223513177023053824, (-12020086027164167981215930985055377179587296882534103786278662877956207014095360055239896179403716827 : ℚ)/546812681195752981093125556779405341338292357723303109106442651602488249799843980805878294255763456, (-21856204272066233158276999007683272971365277123244580462819530747185025632032707815247412949553981119 : ℚ)/1093625362391505962186251113558810682676584715446606218212885303204976499599687961611756588511526912, (-30600730663695813558961361224360510907319371860507290403775613964986747205296408624664764356729777591 : ℚ)/2187250724783011924372502227117621365353169430893212436425770606409952999199375923223513177023053824, (0 : ℚ)]

def gridV83 : List ℚ :=
  [(0 : ℚ), (-7649707464256516261910105168647720030141861456545277872301738426576163603060657185751320861782167123 : ℚ)/546812681195752981093125556779405341338292357723303109106442651602488249799843980805878294255763456, (-43712408544132466316553998829529673392610053318472649267975910661059808540301349874483401368357862519 : ℚ)/2187250724783011924372502227117621365353169430893212436425770606409952999199375923223513177023053824, (-192334508204710324180325453633809722233451660348807490229547357604719327913927149639791449410787774669 : ℚ)/8749002899132047697490008908470485461412677723572849745703082425639811996797503692894052708092215296, (-7649707464256516261910105168647720030141861456545277872301738426576163603060657185751320861782167123 : ℚ)/546812681195752981093125556779405341338292357723303109106442651602488249799843980805878294255763456, (-1229458792327896099192531866921984826693915839429265765048872511461745468657321795514638506633950865 : ℚ)/68351585149469122636640694597425667667286544715412888638305331450311031224980497600734786781970432, (-174859182696382330678920044422210606255284399940024180560109041270240253845581460436074632120232174299 : ℚ)/8749002899132047697490008908470485461412677723572849745703082425639811996797503692894052708092215296, (-174860564832233491287816742662202624433646618902777218772531857603736505906036480467020163346684942367 : ℚ)/8749002899132047697490008908470485461412677723572849745703082425639811996797503692894052708092215296, (-43712408544132466316553998829529673392610053318472649267975910661059808540301349874483401368357862519 : ℚ)/2187250724783011924372502227117621365353169430893212436425770606409952999199375923223513177023053824, (-174859182696382330678920044422210606255284399940024180560109041270240253845581460436074632120232174299 : ℚ)/8749002899132047697490008908470485461412677723572849745703082425639811996797503692894052708092215296, (-314760111149429680309745507136593620807387242829199041666617661981466866660362102320521794963335715255 : ℚ)/17498005798264095394980017816940970922825355447145699491406164851279623993595007385788105416184430592, (-979279109316519552936989953523646840624536877307394600407510948313952352089186361795032658175281543085 : ℚ)/69992023193056381579920071267763883691301421788582797965624659405118495974380029543152421664737722368, (-192334508204710324180325453633809722233451660348807490229547357604719327913927149639791449410787774669 : ℚ)/8749002899132047697490008908470485461412677723572849745703082425639811996797503692894052708092215296, (-174860564832233491287816742662202624433646618902777218772531857603736505906036480467020163346684942367 : ℚ)/8749002899132047697490008908470485461412677723572849745703082425639811996797503692894052708092215296, (-979279109316519552936989953523646840624536877307394600407510948313952352089186361795032658175281543085 : ℚ)/69992023193056381579920071267763883691301421788582797965624659405118495974380029543152421664737722368, (0 : ℚ)]

def gridV84 : List ℚ :=
  [(0 : ℚ), (-122402922654783254235845448154094553428795483729963114984449867159780129946375779766851169735865173987 : ℚ)/8749002899132047697490008908470485461412677723572849745703082425639811996797503692894052708092215296, (-699442259328933965151266977162115517333622468186976781828822238381538193854279804112227067572685434215 : ℚ)/34996011596528190789960035633881941845650710894291398982812329702559247987190014771576210832368861184, (-3077544630681663286904977719416931560318425070165711174686577848444475832738602982184944159575202845771 : ℚ)/139984046386112763159840142535527767382602843577165595931249318810236991948760059086304843329475444736, (-122402922654783254235845448154094553428795483729963114984449867159780129946375779766851169735865173987 : ℚ)/8749002899132047697490008908470485461412677723572849745703082425639811996797503692894052708092215296, (-157380055574714840154872755196623065303452619558566497517982536640650003892776123794356953636140889439 : ℚ)/8749002899132047697490008908470485461412677723572849745703082425639811996797503692894052708092215296, (-2797909009641699414701356125406133285279396751267915326255364458132254958319014484885083968760135636685 : ℚ)/139984046386112763159840142535527767382602843577165595931249318810236991948760059086304843329475444736, (-5595858540908294360362371102303855793657826426400756792921235600052683778763807057238817715775381212721 : ℚ)/279968092772225526319680285071055534765205687154331191862498637620473983897520118172609686658950889472, (-699442259328933965151266977162115517333622468186976781828822238381538193854279804112227067572685434215 : ℚ)/34996011596528190789960035633881941845650710894291398982812329702559247987190014771576210832368861184, (-2797909009641699414701356125406133285279396751267915326255364458132254958319014484885083968760135636685 : ℚ)/139984046386112763159840142535527767382602843577165595931249318810236991948760059086304843329475444736, (-5036435321046964046895016317524482501293676193037035718932884992380633646394907326647758971769649612327 : ℚ)/279968092772225526319680285071055534765205687154331191862498637620473983897520118172609686658950889472, (-3917320667577559681071017093551786949127618219321173920233539734042755692276385075939286516720490138819 : ℚ)/279968092772225526319680285071055534765205687154331191862498637620473983897520118172609686658950889472, (-3077544630681663286904977719416931560318425070165711174686577848444475832738602982184944159575202845771 : ℚ)/139984046386112763159840142535527767382602843577165595931249318810236991948760059086304843329475444736, (-5595858540908294360362371102303855793657826426400756792921235600052683778763807057238817715775381212721 : ℚ)/279968092772225526319680285071055534765205687154331191862498637620473983897520118172609686658950889472, (-3917320667577559681071017093551786949127618219321173920233539734042755692276385075939286516720490138819 : ℚ)/279968092772225526319680285071055534765205687154331191862498637620473983897520118172609686658950889472, (0 : ℚ)]

def gridV85 : List ℚ :=
  [(0 : ℚ), (-1958558218633039105873979933100513759645217724918260827769801172393495721159647477443364404390185132655 : ℚ)/139984046386112763159840142535527767382602843577165595931249318810236991948760059086304843329475444736, (-11191717081816588720724742256714151744107940793408456839752029707737327255429424397307520176334167130915 : ℚ)/559936185544451052639360570142111069530411374308662383724997275240947967795040236345219373317901778944, (-49243535951264287947246748497225760092092639704770309357987112796362293346046023314645586377758159438301 : ℚ)/2239744742177804210557442280568444278121645497234649534899989100963791871180160945380877493271607115776, (-1958558218633039105873979933100513759645217724918260827769801172393495721159647477443364404390185132655 : ℚ)/139984046386112763159840142535527767382602843577165595931249318810236991948760059086304843329475444736, (-1259108830261741011723754085894425644922455040835126836471916067036556165844045520125264514952317914703 : ℚ)/69992023193056381579920071267763883691301421788582797965624659405118495974380029543152421664737722368, (-44768920189998837839586992064094677771512231856199706090135588529860203303679378271463667164314379214411 : ℚ)/2239744742177804210557442280568444278121645497234649534899989100963791871180160945380877493271607115776, (-22384608597232646870066326906304919614796876339460507411620107550355147487845947804132199671890742241017 : ℚ)/1119872371088902105278721140284222139060822748617324767449994550481895935590080472690438746635803557888, (-11191717081816588720724742256714151744107940793408456839752029707737327255429424397307520176334167130915 : ℚ)/559936185544451052639360570142111069530411374308662383724997275240947967795040236345219373317901778944, (-44768920189998837839586992064094677771512231856199706090135588529860203303679378271463667164314379214411 : ℚ)/2239744742177804210557442280568444278121645497234649534899989100963791871180160945380877493271607115776, (-80586975014974923709270013373645861920776468605238396521803884604129832584250780769739714284621514556515 : ℚ)/4479489484355608421114884561136888556243290994469299069799978201927583742360321890761754986543214231552, (-250720498022568899771131132740241685790979029450096405171220863357944848581498020764344117185885182667895 : ℚ)/17917957937422433684459538244547554224973163977877196279199912807710334969441287563047019946172856926208, (-49243535951264287947246748497225760092092639704770309357987112796362293346046023314645586377758159438301 : ℚ)/2239744742177804210557442280568444278121645497234649534899989100963791871180160945380877493271607115776, (-22384608597232646870066326906304919614796876339460507411620107550355147487845947804132199671890742241017 : ℚ)/1119872371088902105278721140284222139060822748617324767449994550481895935590080472690438746635803557888, (-250720498022568899771131132740241685790979029450096405171220863357944848581498020764344117185885182667895 : ℚ)/17917957937422433684459538244547554224973163977877196279199912807710334969441287563047019946172856926208, (0 : ℚ)]

def gridV86 : List ℚ :=
  [(0 : ℚ), (-31338565340620477448568136956840056220190097516997164377506552034567551338000539413463971406785058094935 : ℚ)/2239744742177804210557442280568444278121645497234649534899989100963791871180160945380877493271607115776, (-179076868777861174960530615667290878172713314240539605324237328595594524494164282370326815627280693734411 : ℚ)/8958978968711216842229769122273777112486581988938598139599956403855167484720643781523509973086428463104, (-787937941040681520867954295384631424277775770550140532039494916984754721104182626446643143916817621021371 : ℚ)/35835915874844867368919076489095108449946327955754392558399825615420669938882575126094039892345713852416, (-31338565340620477448568136956840056220190097516997164377506552034567551338000539413463971406785058094935 : ℚ)/2239744742177804210557442280568444278121645497234649534899989100963791871180160945380877493271607115776, (-40293487507487461854635006791035811273972810183833084768721059383177669192020119787844696778821325770449 : ℚ)/2239744742177804210557442280568444278121645497234649534899989100963791871180160945380877493271607115776, (-716337553490466912127060361318260312478478830857787189294090021354826716272396480620336668579280677709789 : ℚ)/35835915874844867368919076489095108449946327955754392558399825615420669938882575126094039892345713852416, (-1432683814593555200927537844570756484905749007496937169540734704564259266953087889416137297968877635594579 : ℚ)/71671831749689734737838152978190216899892655911508785116799651230841339877765150252188079784691427704832, (-179076868777861174960530615667290878172713314240539605324237328595594524494164282370326815627280693734411 : ℚ)/8958978968711216842229769122273777112486581988938598139599956403855167484720643781523509973086428463104, (-716337553490466912127060361318260312478478830857787189294090021354826716272396480620336668579280677709789 : ℚ)/35835915874844867368919076489095108449946327955754392558399825615420669938882575126094039892345713852416, (-1289450381285294446407160779776933900960329545669488784753331399301557753313157672401212982735742470750411 : ℚ)/71671831749689734737838152978190216899892655911508785116799651230841339877765150252188079784691427704832, (-2005851757483942092685287883610708998314782647306423357723074081110480887051649122941739534293463273917949 : ℚ)/143343663499379469475676305956380433799785311823017570233599302461682679755530300504376159569382855409664, (-787937941040681520867954295384631424277775770550140532039494916984754721104182626446643143916817621021371 : ℚ)/35835915874844867368919076489095108449946327955754392558399825615420669938882575126094039892345713852416, (-1432683814593555200927537844570756484905749007496937169540734704564259266953087889416137297968877635594579 : ℚ)/71671831749689734737838152978190216899892655911508785116799651230841339877765150252188079784691427704832, (-2005851757483942092685287883610708998314782647306423357723074081110480887051649122941739534293463273917949 : ℚ)/143343663499379469475676305956380433799785311823017570233599302461682679755530300504376159569382855409664, (0 : ℚ)]

def gridV87 : List ℚ :=
  [(0 : ℚ), (-501440996045137799542262267147889456599311272999614994467547599881996076553129494301655528262051943048363 : ℚ)/35835915874844867368919076489095108449946327955754392558399825615420669938882575126094039892345713852416, (-2865367629187110401855075692476325139846204443192718707331681155065638291661896031354318762836655872126831 : ℚ)/143343663499379469475676305956380433799785311823017570233599302461682679755530300504376159569382855409664, (-12607613440697190848556490968520411239079049869879787583663507109918925313423654023777243148386483533125613 : ℚ)/573374653997517877902705223825521735199141247292070280934397209846730719022121202017504638277531421638656, (-501440996045137799542262267147889456599311272999614994467547599881996076553129494301655528262051943048363 : ℚ)/35835915874844867368919076489095108449946327955754392558399825615420669938882575126094039892345713852416, (-161181297660661805800895097680542498247210344971113871109804659058458016587911390646772534578253006057873 : ℚ)/8958978968711216842229769122273777112486581988938598139599956403855167484720643781523509973086428463104, (-11461911437512916467241499727885907618732868316355462834611085117579331316623090607354884515775475603381435 : ℚ)/573374653997517877902705223825521735199141247292070280934397209846730719022121202017504638277531421638656, (-11461975260221097201392566470679323417778401456151180582307588756960294297491632261574550684549239750872525 : ℚ)/573374653997517877902705223825521735199141247292070280934397209846730719022121202017504638277531421638656, (-2865367629187110401855075692476325139846204443192718707331681155065638291661896031354318762836655872126831 : ℚ)/143343663499379469475676305956380433799785311823017570233599302461682679755530300504376159569382855409664, (-11461911437512916467241499727885907618732868316355462834611085117579331316623090607354884515775475603381435 : ℚ)/573374653997517877902705223825521735199141247292070280934397209846730719022121202017504638277531421638656, (-20632067775443720593788061709979787082390281400165296827372175861714716302873929503156851929504391542330543 : ℚ)/1146749307995035755805410447651043470398282494584140561868794419693461438044242404035009276555062843277312, (-64189829587737594761277139510828279786058475469255607101247123703292997746447356625979906679170828608528433 : ℚ)/4586997231980143023221641790604173881593129978336562247475177678773845752176969616140037106220251373109248, (-12607613440697190848556490968520411239079049869879787583663507109918925313423654023777243148386483533125613 : ℚ)/573374653997517877902705223825521735199141247292070280934397209846730719022121202017504638277531421638656, (-11461975260221097201392566470679323417778401456151180582307588756960294297491632261574550684549239750872525 : ℚ)/573374653997517877902705223825521735199141247292070280934397209846730719022121202017504638277531421638656, (-64189829587737594761277139510828279786058475469255607101247123703292997746447356625979906679170828608528433 : ℚ)/4586997231980143023221641790604173881593129978336562247475177678773845752176969616140037106220251373109248, (0 : ℚ)]

def gridV88 : List ℚ :=
  [(0 : ℚ), (-8023407029935768370741151547782084673397956302021070903893143309375681582303117460926806067414443162884907 : ℚ)/573374653997517877902705223825521735199141247292070280934397209846730719022121202017504638277531421638656, (-45847901040884388805570265909395791031391257250195477275232048996523414255085931025546227336033151474453903 : ℚ)/2293498615990071511610820895302086940796564989168281123737588839386922876088484808070018553110125686554624, (-201730704071306590446035743121484722378323521990511624768720816261263685456795631494342449473762481489167403 : ℚ)/9173994463960286046443283581208347763186259956673124494950355357547691504353939232280074212440502746218496, (-8023407029935768370741151547782084673397956302021070903893143309375681582303117460926806067414443162884907 : ℚ)/573374653997517877902705223825521735199141247292070280934397209846730719022121202017504638277531421638656, (-10316033887721860296894030861659517881264553556480337150186511423324237168485225236158349929872490804771827 : ℚ)/573374653997517877902705223825521735199141247292070280934397209846730719022121202017504638277531421638656, (-183398067647503946032736062239919078155529900057725266354903156798638664229095159255071607865169359527910893 : ℚ)/9173994463960286046443283581208347763186259956673124494950355357547691504353939232280074212440502746218496, (-366798006456832212704690141119381462921584918055929746311420531004021909978033688557843489249911672616484773 : ℚ)/18347988927920572092886567162416695526372519913346248989900710715095383008707878464560148424881005492436992, (-45847901040884388805570265909395791031391257250195477275232048996523414255085931025546227336033151474453903 : ℚ)/2293498615990071511610820895302086940796564989168281123737588839386922876088484808070018553110125686554624, (-183398067647503946032736062239919078155529900057725266354903156798638664229095159255071607865169359527910893 : ℚ)/9173994463960286046443283581208347763186259956673124494950355357547691504353939232280074212440502746218496, (-330125715750899707648176908423992333254019370909582729547298114920320042730697750971591569648392022237404751 : ℚ)/18347988927920572092886567162416695526372519913346248989900710715095383008707878464560148424881005492436992, (-128384374533795573471190234529544212178166033811989987527913747949736934466169047486449409914313878907218903 : ℚ)/9173994463960286046443283581208347763186259956673124494950355357547691504353939232280074212440502746218496, (-201730704071306590446035743121484722378323521990511624768720816261263685456795631494342449473762481489167403 : ℚ)/9173994463960286046443283581208347763186259956673124494950355357547691504353939232280074212440502746218496, (-366798006456832212704690141119381462921584918055929746311420531004021909978033688557843489249911672616484773 : ℚ)/18347988927920572092886567162416695526372519913346248989900710715095383008707878464560148424881005492436992, (-128384374533795573471190234529544212178166033811989987527913747949736934466169047486449409914313878907218903 : ℚ)/9173994463960286046443283581208347763186259956673124494950355357547691504353939232280074212440502746218496, (0 : ℚ)]

def gridV89 : List ℚ :=
  [(0 : ℚ), (-128379659175475189522554279128370549013227556640874233986501023284870780762593241046166925537621390091299335 : ℚ)/9173994463960286046443283581208347763186259956673124494950355357547691504353939232280074212440502746218496, (-733596012913664425409380282452190904725391047516585532190854613761057553486243512826886189070447847991067227 : ℚ)/36695977855841144185773134324833391052745039826692497979801421430190766017415756929120296849762010984873984, (-3227821569821146151130139046962165173806129218859308014882667891579973921166338969613793950759419089076871933 : ℚ)/146783911423364576743092537299333564210980159306769991919205685720763064069663027716481187399048043939495936, (-128379659175475189522554279128370549013227556640874233986501023284870780762593241046166925537621390091299335 : ℚ)/9173994463960286046443283581208347763186259956673124494950355357547691504353939232280074212440502746218496, (-82531428937724926912044227132676580673782494152986437332826222699651207000099069691449670456917938777911805 : ℚ)/4586997231980143023221641790604173881593129978336562247475177678773845752176969616140037106220251373109248, (-2934478800254292258154560735899684706677839737978271974490107372927714178974161977133834857921446791861636651 : ℚ)/146783911423364576743092537299333564210980159306769991919205685720763064069663027716481187399048043939495936, (-183405782186941931147400543960733488055487898117249026999805972228417290432845739466554562982896460939748015 : ℚ)/9173994463960286046443283581208347763186259956673124494950355357547691504353939232280074212440502746218496, (-733596012913664425409380282452190904725391047516585532190854613761057553486243512826886189070447847991067227 : ℚ)/36695977855841144185773134324833391052745039826692497979801421430190766017415756929120296849762010984873984, (-2934478800254292258154560735899684706677839737978271974490107372927714178974161977133834857921446791861636651 : ℚ)/146783911423364576743092537299333564210980159306769991919205685720763064069663027716481187399048043939495936, (-5282196615641750587179789562971059229950456597583651758775138711565031258572192792349987791348564942256130971 : ℚ)/293567822846729153486185074598667128421960318613539983838411371441526128139326055432962374798096087878991872, (-16433752922092267348919434773054614151115223693773460159015815243032070967897970196577964423251680168875039835 : ℚ)/1174271291386916613944740298394668513687841274454159935353645485766104512557304221731849499192384351515967488, (-3227821569821146151130139046962165173806129218859308014882667891579973921166338969613793950759419089076871933 : ℚ)/146783911423364576743092537299333564210980159306769991919205685720763064069663027716481187399048043939495936, (-183405782186941931147400543960733488055487898117249026999805972228417290432845739466554562982896460939748015 : ℚ)/9173994463960286046443283581208347763186259956673124494950355357547691504353939232280074212440502746218496, (-16433752922092267348919434773054614151115223693773460159015815243032070967897970196577964423251680168875039835 : ℚ)/1174271291386916613944740298394668513687841274454159935353645485766104512557304221731849499192384351515967488, (0 : ℚ)]

def gridV90 : List ℚ :=
  [(0 : ℚ), (-2054149992540729175539043753326419310379541386610743958718674174218513396607072062259632442275324962519054943 : ℚ)/146783911423364576743092537299333564210980159306769991919205685720763064069663027716481187399048043939495936, (-11737970059964283593433634815194367066608995170741746044531690636653483966971199171180730756834174411179816179 : ℚ)/587135645693458306972370149197334256843920637227079967676822742883052256278652110865924749596192175757983744, (-51647055261271569623797862601167968719984936950028467762287906963444190949118646697414273392199669326970599579 : ℚ)/2348542582773833227889480596789337027375682548908319870707290971532209025114608443463698998384768703031934976, (-2054149992540729175539043753326419310379541386610743958718674174218513396607072062259632442275324962519054943 : ℚ)/146783911423364576743092537299333564210980159306769991919205685720763064069663027716481187399048043939495936, (-2641098307820875293589894781912385572739670721601277958523596459293876851860280047413214837497433921129841733 : ℚ)/146783911423364576743092537299333564210980159306769991919205685720763064069663027716481187399048043939495936, (-46953269165269402763475908479062308080395499280726418994871227091109969504373440714856756718811182183387252989 : ℚ)/2348542582773833227889480596789337027375682548908319870707290971532209025114608443463698998384768703031934976, (-93906940420838987185202551133722313077159257865975418734985128658610982420277485441359861537337390330405581991 : ℚ)/4697085165547666455778961193578674054751365097816639741414581943064418050229216886927397996769537406063869952, (-11737970059964283593433634815194367066608995170741746044531690636653483966971199171180730756834174411179816179 : ℚ)/587135645693458306972370149197334256843920637227079967676822742883052256278652110865924749596192175757983744, (-46953269165269402763475908479062308080395499280726418994871227091109969504373440714856756718811182183387252989 : ℚ)/2348542582773833227889480596789337027375682548908319870707290971532209025114608443463698998384768703031934976, (-84517860175001603917093739218750210437377311766089979054317439520238529490398597994940083562084079927201202611 : ℚ)/4697085165547666455778961193578674054751365097816639741414581943064418050229216886927397996769537406063869952, (-131474076473200163160544937109502838169001462399212898695512078461617733991592415885160697389753170278681211875 : ℚ)/9394170331095332911557922387157348109502730195633279482829163886128836100458433773854795993539074812127739904, (-51647055261271569623797862601167968719984936950028467762287906963444190949118646697414273392199669326970599579 : ℚ)/2348542582773833227889480596789337027375682548908319870707290971532209025114608443463698998384768703031934976, (-93906940420838987185202551133722313077159257865975418734985128658610982420277485441359861537337390330405581991 : ℚ)/4697085165547666455778961193578674054751365097816639741414581943064418050229216886927397996769537406063869952, (-131474076473200163160544937109502838169001462399212898695512078461617733991592415885160697389753170278681211875 : ℚ)/9394170331095332911557922387157348109502730195633279482829163886128836100458433773854795993539074812127739904, (0 : ℚ)]

def gridV91 : List ℚ :=
  [(0 : ℚ), (-32867505844184534697838869552938923626461526152498153584208064142235253985955216053335818874309978648807337859 : ℚ)/2348542582773833227889480596789337027375682548908319870707290971532209025114608443463698998384768703031934976, (-187813880841677974370405102281104016802780673261853304002323124629532186407790533924184568006196602616012195047 : ℚ)/9394170331095332911557922387157348109502730195633279482829163886128836100458433773854795993539074812127739904, (-826380885097909837377424794906521785154989605376565001501913293198823023243128413481637662192625037141099115277 : ℚ)/37576681324381331646231689548629392438010920782533117931316655544515344401833735095419183974156299248510959616, (-32867505844184534697838869552938923626461526152498153584208064142235253985955216053335818874309978648807337859 : ℚ)/2348542582773833227889480596789337027375682548908319870707290971532209025114608443463698998384768703031934976, (-660295782617200030602294837699843013762565551023759471253858384190700324535608387930624793671021079986394225 : ℚ)/36695977855841144185773134324833391052745039826692497979801421430190766017415756929120296849762010984873984, (-751275883707743696055416850985838267793081514370599642153232662884565837712092183202443589358977238856253645467 : ℚ)/37576681324381331646231689548629392438010920782533117931316655544515344401833735095419183974156299248510959616, (-751278830840672852535392140398666869998348678850488015010585480344202258472786271034319917326484819187341525659 : ℚ)/37576681324381331646231689548629392438010920782533117931316655544515344401833735095419183974156299248510959616, (-187813880841677974370405102281104016802780673261853304002323124629532186407790533924184568006196602616012195047 : ℚ)/9394170331095332911557922387157348109502730195633279482829163886128836100458433773854795993539074812127739904, (-751275883707743696055416850985838267793081514370599642153232662884565837712092183202443589358977238856253645467 : ℚ)/37576681324381331646231689548629392438010920782533117931316655544515344401833735095419183974156299248510959616, (-1352325552249307011990059978521108405345109205532517472797914287820067462482129316933924746866302518468000412199 : ℚ)/75153362648762663292463379097258784876021841565066235862633311089030688803667470190838367948312598497021919232, (-4207289276311304675515057272583499990197905628687461635833715120557536606575111066847203632430547913060220835445 : ℚ)/300613450595050653169853516389035139504087366260264943450533244356122755214669880763353471793250393988087676928, (-826380885097909837377424794906521785154989605376565001501913293198823023243128413481637662192625037141099115277 : ℚ)/37576681324381331646231689548629392438010920782533117931316655544515344401833735095419183974156299248510959616, (-751278830840672852535392140398666869998348678850488015010585480344202258472786271034319917326484819187341525659 : ℚ)/37576681324381331646231689548629392438010920782533117931316655544515344401833735095419183974156299248510959616, (-4207289276311304675515057272583499990197905628687461635833715120557536606575111066847203632430547913060220835445 : ℚ)/300613450595050653169853516389035139504087366260264943450533244356122755214669880763353471793250393988087676928, (0 : ℚ)]

def gridV92 : List ℚ :=
  [(0 : ℚ), (-525896305892800652642179748492648915269854479716461460911459783095807829834560880543186974657374212936269427699 : ℚ)/37576681324381331646231689548629392438010920782533117931316655544515344401833735095419183974156299248510959616, (-3005115323362691410141568561703942605181091975641171792301164859875386814028278553305683234130388096391714807095 : ℚ)/150306725297525326584926758194517569752043683130132471725266622178061377607334940381676735896625196994043838464, (-13222504628698762825642242515328854645422578266576173751259879615555025544293790706822771144563828458246049185803 : ℚ)/601226901190101306339707032778070279008174732520529886901066488712245510429339761526706943586500787976175353856, (-525896305892800652642179748492648915269854479716461460911459783095807829834560880543186974657374212936269427699 : ℚ)/37576681324381331646231689548629392438010920782533117931316655544515344401833735095419183974156299248510959616, (-676162776124653505995029989287872983969478917826063669463662878534702178175160266968234465982332025144772496199 : ℚ)/37576681324381331646231689548629392438010920782533117931316655544515344401833735095419183974156299248510959616, (-12020759756912712174583084070270389110750795505932943362695053359743384996013663100710457204684761298632347072781 : ℚ)/601226901190101306339707032778070279008174732520529886901066488712245510429339761526706943586500787976175353856, (-24041605918222627608590271754128597386287731410786984086697998428384850965369807661941791032839722920950501877721 : ℚ)/1202453802380202612679414065556140558016349465041059773802132977424491020858679523053413887173001575952350707712, (-3005115323362691410141568561703942605181091975641171792301164859875386814028278553305683234130388096391714807095 : ℚ)/150306725297525326584926758194517569752043683130132471725266622178061377607334940381676735896625196994043838464, (-12020759756912712174583084070270389110750795505932943362695053359743384996013663100710457204684761298632347072781 : ℚ)/601226901190101306339707032778070279008174732520529886901066488712245510429339761526706943586500787976175353856, (-21637792111915524138292612680993529649162956228348926408164616578282949230022564757458278356718858700705139451383 : ℚ)/1202453802380202612679414065556140558016349465041059773802132977424491020858679523053413887173001575952350707712, (-16829592586226045224915192446920172307076927003512499033351501849648977676281883694750634866993194894426481875433 : ℚ)/1202453802380202612679414065556140558016349465041059773802132977424491020858679523053413887173001575952350707712, (-13222504628698762825642242515328854645422578266576173751259879615555025544293790706822771144563828458246049185803 : ℚ)/601226901190101306339707032778070279008174732520529886901066488712245510429339761526706943586500787976175353856, (-24041605918222627608590271754128597386287731410786984086697998428384850965369807661941791032839722920950501877721 : ℚ)/1202453802380202612679414065556140558016349465041059773802132977424491020858679523053413887173001575952350707712, (-16829592586226045224915192446920172307076927003512499033351501849648977676281883694750634866993194894426481875433 : ℚ)/1202453802380202612679414065556140558016349465041059773802132977424491020858679523053413887173001575952350707712, (0 : ℚ)]

def gridV93 : List ℚ :=
  [(0 : ℚ), (-8414578552622609351030114545604100481146600298331802200702721995109672356496502904878075940275713836692057856543 : ℚ)/601226901190101306339707032778070279008174732520529886901066488712245510429339761526706943586500787976175353856, (-48083211836445255217180543509131395774077040903487726031466580364758612194634429971740865000391859131042014758931 : ℚ)/2404907604760405225358828131112281116032698930082119547604265954848982041717359046106827774346003151904701415424, (-211566091121522233940934339664468552174163925577999562405358677965364446646593807134633927319965945246530217662493 : ℚ)/9619630419041620901435312524449124464130795720328478190417063819395928166869436184427311097384012607618805661696, (-8414578552622609351030114545604100481146600298331802200702721995109672356496502904878075940275713836692057856543 : ℚ)/601226901190101306339707032778070279008174732520529886901066488712245510429339761526706943586500787976175353856, (-5409448027978881034573153170357657537478436317326451334299977083069387093342211382160486758033369177819188909259 : ℚ)/300613450595050653169853516389035139504087366260264943450533244356122755214669880763353471793250393988087676928, (-192337222539594227888966850266686034608936702440699635886008690862045237499026302052252208941159988404525614352907 : ℚ)/9619630419041620901435312524449124464130795720328478190417063819395928166869436184427311097384012607618805661696, (-96168927921609041012960769204667655273317634776801122001678953291158003243288923097266848481165665825568365585927 : ℚ)/4809815209520810450717656262224562232065397860164239095208531909697964083434718092213655548692006303809402830848, (-48083211836445255217180543509131395774077040903487726031466580364758612194634429971740865000391859131042014758931 : ℚ)/2404907604760405225358828131112281116032698930082119547604265954848982041717359046106827774346003151904701415424, (-192337222539594227888966850266686034608936702440699635886008690862045237499026302052252208941159988404525614352907 : ℚ)/9619630419041620901435312524449124464130795720328478190417063819395928166869436184427311097384012607618805661696, (-346213224067485831491159014890945661993813709909456584533654833298028915243020243979111910071873572775175080679763 : ℚ)/19239260838083241802870625048898248928261591440656956380834127638791856333738872368854622194768025215237611323392, (-1077119460485871686353127671055932035713361446835488882597331186612211996371641564959607950647499455249222698323967 : ℚ)/76957043352332967211482500195592995713046365762627825523336510555167425334955489475418488779072100860950445293568, (-211566091121522233940934339664468552174163925577999562405358677965364446646593807134633927319965945246530217662493 : ℚ)/9619630419041620901435312524449124464130795720328478190417063819395928166869436184427311097384012607618805661696, (-96168927921609041012960769204667655273317634776801122001678953291158003243288923097266848481165665825568365585927 : ℚ)/4809815209520810450717656262224562232065397860164239095208531909697964083434718092213655548692006303809402830848, (-1077119460485871686353127671055932035713361446835488882597331186612211996371641564959607950647499455249222698323967 : ℚ)/76957043352332967211482500195592995713046365762627825523336510555167425334955489475418488779072100860950445293568, (0 : ℚ)]

def gridV94 : List ℚ :=
  [(0 : ℚ), (-134636740689808361799321539578858182462621728355755023699094348829148326534227568832964373923145680507982563120871 : ℚ)/9619630419041620901435312524449124464130795720328478190417063819395928166869436184427311097384012607618805661696, (-769351423372872328103686153644334850198553702869719038877996294393176172125863142644523214575375101113681676818779 : ℚ)/38478521676166483605741250097796497856523182881313912761668255277583712667477744737709244389536050430475222646784, (-3385145662422588462157812024988610501204498917233380165180970365555690621914835963450566398542572191412371233393275 : ℚ)/153914086704665934422965000391185991426092731525255651046673021110334850669910978950836977558144201721900890587136, (-134636740689808361799321539578858182462621728355755023699094348829148326534227568832964373923145680507982563120871 : ℚ)/9619630419041620901435312524449124464130795720328478190417063819395928166869436184427311097384012607618805661696, (-173106612033742915745579507447221232999910011118555807982968583664992710183496371627035602529536847063872894398585 : ℚ)/9619630419041620901435312524449124464130795720328478190417063819395928166869436184427311097384012607618805661696, (-3077469829720353916594973367243638339798454976902520066937284943088803719962111480839861210244739163245971231047197 : ℚ)/153914086704665934422965000391185991426092731525255651046673021110334850669910978950836977558144201721900890587136, (-6154958226712419400782822675229110923440106013382768252776668135813656920542560014562765285856094189231289561093307 : ℚ)/307828173409331868845930000782371982852185463050511302093346042220669701339821957901673955116288403443801781174272, (-769351423372872328103686153644334850198553702869719038877996294393176172125863142644523214575375101113681676818779 : ℚ)/38478521676166483605741250097796497856523182881313912761668255277583712667477744737709244389536050430475222646784, (-3077469829720353916594973367243638339798454976902520066937284943088803719962111480839861210244739163245971231047197 : ℚ)/153914086704665934422965000391185991426092731525255651046673021110334850669910978950836977558144201721900890587136, (-5539536924101429158147158710137874394077363333624009134225293358533897414045216568660751066656026477188218408869403 : ℚ)/307828173409331868845930000782371982852185463050511302093346042220669701339821957901673955116288403443801781174272, (-8617142843197331389863106036360100695889828493275389062882335204839540562716815337334321987783636050595802943977833 : ℚ)/615656346818663737691860001564743965704370926101022604186692084441339402679643915803347910232576806887603562348544, (-3385145662422588462157812024988610501204498917233380165180970365555690621914835963450566398542572191412371233393275 : ℚ)/153914086704665934422965000391185991426092731525255651046673021110334850669910978950836977558144201721900890587136, (-6154958226712419400782822675229110923440106013382768252776668135813656920542560014562765285856094189231289561093307 : ℚ)/307828173409331868845930000782371982852185463050511302093346042220669701339821957901673955116288403443801781174272, (-8617142843197331389863106036360100695889828493275389062882335204839540562716815337334321987783636050595802943977833 : ℚ)/615656346818663737691860001564743965704370926101022604186692084441339402679643915803347910232576806887603562348544, (0 : ℚ)]

def gridV95 : List ℚ :=
  [(0 : ℚ), (-2154238920971743372706255342139838503474773392292218016652921045480075169666669883435360097944249413123004397483739 : ℚ)/153914086704665934422965000391185991426092731525255651046673021110334850669910978950836977558144201721900890587136, (-12309916453424838801565645350514170710976313024008017008469853616138613602726713814107228475265637979123677131547871 : ℚ)/615656346818663737691860001564743965704370926101022604186692084441339402679643915803347910232576806887603562348544, (-54163623593505040251161226907140252430310000093044685252217721149976810029849097214050681876248711116435640370274861 : ℚ)/2462625387274654950767440006258975862817483704404090416746768337765357610718575663213391640930307227550414249394176, (-2154238920971743372706255342139838503474773392292218016652921045480075169666669883435360097944249413123004397483739 : ℚ)/153914086704665934422965000391185991426092731525255651046673021110334850669910978950836977558144201721900890587136, (-692442115512678644768394838770731103265676729030656173210444003848693573871075415272111907913159622476597176213151 : ℚ)/38478521676166483605741250097796497856523182881313912761668255277583712667477744737709244389536050430475222646784, (-49240605990530049186487365547838814861079563086916160970587649004178177064558049288121443347830740499138662140277883 : ℚ)/2462625387274654950767440006258975862817483704404090416746768337765357610718575663213391640930307227550414249394176, (-49240742079905597501608339506822065228434915019435227540883782352770958788122297655216275506445994560502371943196809 : ℚ)/2462625387274654950767440006258975862817483704404090416746768337765357610718575663213391640930307227550414249394176, (-12309916453424838801565645350514170710976313024008017008469853616138613602726713814107228475265637979123677131547871 : ℚ)/615656346818663737691860001564743965704370926101022604186692084441339402679643915803347910232576806887603562348544, (-49240605990530049186487365547838814861079563086916160970587649004178177064558049288121443347830740499138662140277883 : ℚ)/2462625387274654950767440006258975862817483704404090416746768337765357610718575663213391640930307227550414249394176, (-88634428137868684647474669705797169370273844468825898055610526499067054536862461963885514580825899156622702414977567 : ℚ)/4925250774549309901534880012517951725634967408808180833493536675530715221437151326426783281860614455100828498788352, (-275754058141455770375735717060393912296802172089132188974410919545448157500590185278699774623429434502797183848347257 : ℚ)/19701003098197239606139520050071806902539869635232723333974146702122860885748605305707133127442457820403313995153408, (-54163623593505040251161226907140252430310000093044685252217721149976810029849097214050681876248711116435640370274861 : ℚ)/2462625387274654950767440006258975862817483704404090416746768337765357610718575663213391640930307227550414249394176, (-49240742079905597501608339506822065228434915019435227540883782352770958788122297655216275506445994560502371943196809 : ℚ)/2462625387274654950767440006258975862817483704404090416746768337765357610718575663213391640930307227550414249394176, (-275754058141455770375735717060393912296802172089132188974410919545448157500590185278699774623429434502797183848347257 : ℚ)/19701003098197239606139520050071806902539869635232723333974146702122860885748605305707133127442457820403313995153408, (0 : ℚ)]

def gridV96 : List ℚ :=
  [(0 : ℚ), (-34468571372789325559452424145664198239943717962071478263195410197403369074049175655415851034583496818791663790287419 : ℚ)/2462625387274654950767440006258975862817483704404090416746768337765357610718575663213391640930307227550414249394176, (-196962968319622390006433358027735851826508468055680754186867268167174241022237480066870456723446729261062331824608351 : ℚ)/9850501549098619803069760025035903451269934817616361666987073351061430442874302652853566563721228910201656997576704, (-866636931583679581234435571412289745987807868148244593036092460182318278185016659011555280014105312075363570549901291 : ℚ)/39402006196394479212279040100143613805079739270465446667948293404245721771497210611414266254884915640806627990306816, (-34468571372789325559452424145664198239943717962071478263195410197403369074049175655415851034583496818791663790287419 : ℚ)/2462625387274654950767440006258975862817483704404090416746768337765357610718575663213391640930307227550414249394176, (-44317214068934342323737334853010482413329124228897910033638297938556130680022188134982038832137425886515577214676827 : ℚ)/2462625387274654950767440006258975862817483704404090416746768337765357610718575663213391640930307227550414249394176, (-787865655387113997815044434978803994939192053257130547264124935734862429740037557766849009494317125003186161276364845 : ℚ)/39402006196394479212279040100143613805079739270465446667948293404245721771497210611414266254884915640806627990306816, (-1575735300658886298337900516510804532197940931488232472787486463134697625311090096132460655938978440807704281287668429 : ℚ)/78804012392788958424558080200287227610159478540930893335896586808491443542994421222828532509769831281613255980613632, (-196962968319622390006433358027735851826508468055680754186867268167174241022237480066870456723446729261062331824608351 : ℚ)/9850501549098619803069760025035903451269934817616361666987073351061430442874302652853566563721228910201656997576704, (-787865655387113997815044434978803994939192053257130547264124935734862429740037557766849009494317125003186161276364845 : ℚ)/39402006196394479212279040100143613805079739270465446667948293404245721771497210611414266254884915640806627990306816, (-1418177784062814496991073949299879047142955875976325818548843361634250188284212349547077091250945825290393784953672991 : ℚ)/78804012392788958424558080200287227610159478540930893335896586808491443542994421222828532509769831281613255980613632, (-275759085428667481908134353428338008685546463124050663786097490636544138610602554480353185982670083077233739097324061 : ℚ)/19701003098197239606139520050071806902539869635232723333974146702122860885748605305707133127442457820403313995153408, (-866636931583679581234435571412289745987807868148244593036092460182318278185016659011555280014105312075363570549901291 : ℚ)/39402006196394479212279040100143613805079739270465446667948293404245721771497210611414266254884915640806627990306816, (-1575735300658886298337900516510804532197940931488232472787486463134697625311090096132460655938978440807704281287668429 : ℚ)/78804012392788958424558080200287227610159478540930893335896586808491443542994421222828532509769831281613255980613632, (-275759085428667481908134353428338008685546463124050663786097490636544138610602554480353185982670083077233739097324061 : ℚ)/19701003098197239606139520050071806902539869635232723333974146702122860885748605305707133127442457820403313995153408, (0 : ℚ)]

def gridV97 : List ℚ :=
  [(0 : ℚ), (-551508116282911540751471434122578188244679576090023754042150394115257961810020145839876282445215335723097923834772151 : ℚ)/39402006196394479212279040100143613805079739270465446667948293404245721771497210611414266254884915640806627990306816, (-3151470601317772596675801033025189791698032326799983697761630036318118520910013125331419463866964352409123494920698955 : ℚ)/157608024785577916849116160400574455220318957081861786671793173616982887085988842445657065019539662563226511961227264, (-13866468754447293510623551278947414644877652963289852534312515338513991545356281959471411275935922380880346669740155197 : ℚ)/630432099142311667396464641602297820881275828327447146687172694467931548343955369782628260078158650252906047844909056, (-551508116282911540751471434122578188244679576090023754042150394115257961810020145839876282445215335723097923834772151 : ℚ)/39402006196394479212279040100143613805079739270465446667948293404245721771497210611414266254884915640806627990306816, (-354544446015703624247768487325417352698507776972021298660542979164652958773263031207388456112325573001974335272937657 : ℚ)/19701003098197239606139520050071806902539869635232723333974146702122860885748605305707133127442457820403313995153408, (-12606084438029114848712362504852193592849163985832717816405806213641169366630677636132230867223576118874020357431792107 : ℚ)/630432099142311667396464641602297820881275828327447146687172694467931548343955369782628260078158650252906047844909056, (-3151528420502131552292829737000128253548308408394239997557626483467117533961923974197821398901837705356194069997956307 : ℚ)/157608024785577916849116160400574455220318957081861786671793173616982887085988842445657065019539662563226511961227264, (-3151470601317772596675801033025189791698032326799983697761630036318118520910013125331419463866964352409123494920698955 : ℚ)/157608024785577916849116160400574455220318957081861786671793173616982887085988842445657065019539662563226511961227264, (-12606084438029114848712362504852193592849163985832717816405806213641169366630677636132230867223576118874020357431792107 : ℚ)/630432099142311667396464641602297820881275828327447146687172694467931548343955369782628260078158650252906047844909056, (-22691239370031097604565591097763605512549202462457233350935271302946444898857870119068789338825336077851312104235980171 : ℚ)/1260864198284623334792929283204595641762551656654894293374345388935863096687910739565256520156317300505812095689818112, (-70595504994621362204200544745996646663860849996169972987203904127165662428383468357654990513556192239667072349207642979 : ℚ)/5043456793138493339171717132818382567050206626619577173497381555743452386751642958261026080625269202023248382759272448, (-13866468754447293510623551278947414644877652963289852534312515338513991545356281959471411275935922380880346669740155197 : ℚ)/630432099142311667396464641602297820881275828327447146687172694467931548343955369782628260078158650252906047844909056, (-3151528420502131552292829737000128253548308408394239997557626483467117533961923974197821398901837705356194069997956307 : ℚ)/157608024785577916849116160400574455220318957081861786671793173616982887085988842445657065019539662563226511961227264, (-70595504994621362204200544745996646663860849996169972987203904127165662428383468357654990513556192239667072349207642979 : ℚ)/5043456793138493339171717132818382567050206626619577173497381555743452386751642958261026080625269202023248382759272448, (0 : ℚ)]

def gridV98 : List ℚ :=
  [(0 : ℚ), (-8824290733717359421060299309721139187146088675263696249901748140564305586680153328132660502624588929570215920288197871 : ℚ)/630432099142311667396464641602297820881275828327447146687172694467931548343955369782628260078158650252906047844909056, (-50424454728034104836685275792030697875190138244895989978415280615863666775682986904192493541564579439972701118522577219 : ℚ)/2521728396569246669585858566409191283525103313309788586748690777871726193375821479130513040312634601011624191379636224, (-221867573077923544436702396081248832225084709738761804560832190170936384455427312083650978292731900176761076361929664603 : ℚ)/10086913586276986678343434265636765134100413253239154346994763111486904773503285916522052161250538404046496765518544896, (-8824290733717359421060299309721139187146088675263696249901748140564305586680153328132660502624588929570215920288197871 : ℚ)/630432099142311667396464641602297820881275828327447146687172694467931548343955369782628260078158650252906047844909056, (-11345619685015548802282795548888964210878902158875654179840949871570669024999370851915073945002241174475024186704904045 : ℚ)/630432099142311667396464641602297820881275828327447146687172694467931548343955369782628260078158650252906047844909056, (-201700780522469586769976350240752582934677499592860067707566409555000017990290280053677562542904157983321023959299999549 : ℚ)/10086913586276986678343434265636765134100413253239154346994763111486904773503285916522052161250538404046496765518544896, (-403402418423440110837597338022274988625488650237074897737236777684055434285030403433693650018734104699199326280794166671 : ℚ)/20173827172553973356686868531273530268200826506478308693989526222973809547006571833044104322501076808092993531037089792, (-50424454728034104836685275792030697875190138244895989978415280615863666775682986904192493541564579439972701118522577219 : ℚ)/2521728396569246669585858566409191283525103313309788586748690777871726193375821479130513040312634601011624191379636224, (-201700780522469586769976350240752582934677499592860067707566409555000017990290280053677562542904157983321023959299999549 : ℚ)/10086913586276986678343434265636765134100413253239154346994763111486904773503285916522052161250538404046496765518544896, (-363065617684266284535064308264019406530600026091678322375963744032305152394063788602031647892517619270748162188752375299 : ℚ)/20173827172553973356686868531273530268200826506478308693989526222973809547006571833044104322501076808092993531037089792, (-564772682388203868808105649697687551442167691169673173418987121558459237290327176399260838627740400080493875995262736527 : ℚ)/40347654345107946713373737062547060536401653012956617387979052445947619094013143666088208645002153616185987062074179584, (-221867573077923544436702396081248832225084709738761804560832190170936384455427312083650978292731900176761076361929664603 : ℚ)/10086913586276986678343434265636765134100413253239154346994763111486904773503285916522052161250538404046496765518544896, (-403402418423440110837597338022274988625488650237074897737236777684055434285030403433693650018734104699199326280794166671 : ℚ)/20173827172553973356686868531273530268200826506478308693989526222973809547006571833044104322501076808092993531037089792, (-564772682388203868808105649697687551442167691169673173418987121558459237290327176399260838627740400080493875995262736527 : ℚ)/40347654345107946713373737062547060536401653012956617387979052445947619094013143666088208645002153616185987062074179584, (0 : ℚ)]

def gridV99 : List ℚ :=
  [(0 : ℚ), (-141191009989242724408401089492107876601390514834692546044380835775890469995904369540905483493322438260200158312013529779 : ℚ)/10086913586276986678343434265636765134100413253239154346994763111486904773503285916522052161250538404046496765518544896, (-806804836846880221675194676044779143798314930158854995614419610411229158638367052961092207140218967796359050169407682391 : ℚ)/40347654345107946713373737062547060536401653012956617387979052445947619094013143666088208645002153616185987062074179584, (-3549940875697580585697503468989508020995576520594925697127466896930621579227898931162040168099550993073590261874730050893 : ℚ)/161390617380431786853494948250188242145606612051826469551916209783790476376052574664352834580008614464743948248296718336, (-141191009989242724408401089492107876601390514834692546044380835775890469995904369540905483493322438260200158312013529779 : ℚ)/10086913586276986678343434265636765134100413253239154346994763111486904773503285916522052161250538404046496765518544896, (-22691601105266642783441519266508374362766802558376932652871048222116518595825076339226696897420479565725885987646913695 : ℚ)/1260864198284623334792929283204595641762551656654894293374345388935863096687910739565256520156317300505812095689818112, (-3227262761811257368344141533395824155864636576736249750284610406735469403439010454552149938260186376304226326961498722907 : ℚ)/161390617380431786853494948250188242145606612051826469551916209783790476376052574664352834580008614464743948248296718336, (-3227269045992725365847206524588758815053804878028443300298396212626883327903167904359548499835151566288090624014204981655 : ℚ)/161390617380431786853494948250188242145606612051826469551916209783790476376052574664352834580008614464743948248296718336, (-806804836846880221675194676044779143798314930158854995614419610411229158638367052961092207140218967796359050169407682391 : ℚ)/40347654345107946713373737062547060536401653012956617387979052445947619094013143666088208645002153616185987062074179584, (-3227262761811257368344141533395824155864636576736249750284610406735469403439010454552149938260186376304226326961498722907 : ℚ)/161390617380431786853494948250188242145606612051826469551916209783790476376052574664352834580008614464743948248296718336, (-5809134726124936417283554028686950845924520565518595383064391312536887305352424309477898961931165205555689727439143105687 : ℚ)/322781234760863573706989896500376484291213224103652939103832419567580952752105149328705669160017228929487896496593436672, (-18072979216259472394270771861447474824734324747347479127428410388528651670489798126705905347263460454493773569416028707901 : ℚ)/1291124939043454294827959586001505937164852896414611756415329678270323811008420597314822676640068915717951585986373746688, (-3549940875697580585697503468989508020995576520594925697127466896930621579227898931162040168099550993073590261874730050893 : ℚ)/161390617380431786853494948250188242145606612051826469551916209783790476376052574664352834580008614464743948248296718336, (-3227269045992725365847206524588758815053804878028443300298396212626883327903167904359548499835151566288090624014204981655 : ℚ)/161390617380431786853494948250188242145606612051826469551916209783790476376052574664352834580008614464743948248296718336, (-18072979216259472394270771861447474824734324747347479127428410388528651670489798126705905347263460454493773569416028707901 : ℚ)/1291124939043454294827959586001505937164852896414611756415329678270323811008420597314822676640068915717951585986373746688, (0 : ℚ)]

def gridV100 : List ℚ :=
  [(0 : ℚ), (-2259090729552815475232422598791666871958021283417513494235732706406310110064439548644321276410972681405131983270459758083 : ℚ)/161390617380431786853494948250188242145606612051826469551916209783790476376052574664352834580008614464743948248296718336, (-12909076183970901463388826098356868592593920549591414802313153290852479632789027444860291549651620379827360565777506134791 : ℚ)/645562469521727147413979793000752968582426448207305878207664839135161905504210298657411338320034457858975792993186873344, (-56799929251609356202013599120630979895103458019293817093357132673345633200241731706224452247068772421004348328804913961931 : ℚ)/2582249878086908589655919172003011874329705792829223512830659356540647622016841194629645353280137831435903171972747493376, (-2259090729552815475232422598791666871958021283417513494235732706406310110064439548644321276410972681405131983270459758083 : ℚ)/161390617380431786853494948250188242145606612051826469551916209783790476376052574664352834580008614464743948248296718336, (-2904567363062468208641777014343933756056935542128708091812087766354680233127777576262588441915588143319423103364275958831 : ℚ)/161390617380431786853494948250188242145606612051826469551916209783790476376052574664352834580008614464743948248296718336, (-51636941150528457185567787483464552443215629154086434649714531188393156109634499180934282593797047460804698102142463601485 : ℚ)/2582249878086908589655919172003011874329705792829223512830659356540647622016841194629645353280137831435903171972747493376, (-103274066541443999194150955704211335262983718943923598427012730733494408192686939194420951472937858588574828120948852329601 : ℚ)/5164499756173817179311838344006023748659411585658447025661318713081295244033682389259290706560275662871806343945494986752, (-12909076183970901463388826098356868592593920549591414802313153290852479632789027444860291549651620379827360565777506134791 : ℚ)/645562469521727147413979793000752968582426448207305878207664839135161905504210298657411338320034457858975792993186873344, (-51636941150528457185567787483464552443215629154086434649714531188393156109634499180934282593797047460804698102142463601485 : ℚ)/2582249878086908589655919172003011874329705792829223512830659356540647622016841194629645353280137831435903171972747493376, (-92947399339221219153421169550365525841343690234439839930232670678531754694647777823605383994884244032664051584920016004039 : ℚ)/5164499756173817179311838344006023748659411585658447025661318713081295244033682389259290706560275662871806343945494986752, (-72292845442599594160475641519097713849475588627596785742401079454616487636357159770471779920779261772675299839828740778063 : ℚ)/5164499756173817179311838344006023748659411585658447025661318713081295244033682389259290706560275662871806343945494986752, (-56799929251609356202013599120630979895103458019293817093357132673345633200241731706224452247068772421004348328804913961931 : ℚ)/2582249878086908589655919172003011874329705792829223512830659356540647622016841194629645353280137831435903171972747493376, (-103274066541443999194150955704211335262983718943923598427012730733494408192686939194420951472937858588574828120948852329601 : ℚ)/5164499756173817179311838344006023748659411585658447025661318713081295244033682389259290706560275662871806343945494986752, (-72292845442599594160475641519097713849475588627596785742401079454616487636357159770471779920779261772675299839828740778063 : ℚ)/5164499756173817179311838344006023748659411585658447025661318713081295244033682389259290706560275662871806343945494986752, (0 : ℚ)]

def gridV101 : List ℚ :=
  [(0 : ℚ), (-36145958432518944788541543722902282978983453644605524659335094538437088627574737139117575776238001510161484084289196495823 : ℚ)/2582249878086908589655919172003011874329705792829223512830659356540647622016841194629645353280137831435903171972747493376, (-206548133082887998388301911408437337184997046187668329662982008989748386956674442584236058228830854237023585466237588571907 : ℚ)/10328999512347634358623676688012047497318823171316894051322637426162590488067364778518581413120551325743612687890989973504, (-908811698228041383827207322533956036861067440915133639469155081548152630896251633736947904803738956085182479090138564820573 : ℚ)/41315998049390537434494706752048189989275292685267576205290549704650361952269459114074325652482205302974450751563959894016, (-36145958432518944788541543722902282978983453644605524659335094538437088627574737139117575776238001510161484084289196495823 : ℚ)/2582249878086908589655919172003011874329705792829223512830659356540647622016841194629645353280137831435903171972747493376, (-23236849834805304788355292387593214792714623596087601583677736109977884995310729677327787269148831158459497132594288771015 : ℚ)/1291124939043454294827959586001505937164852896414611756415329678270323811008420597314822676640068915717951585986373746688, (-826201861572051410824783207770384967724644145998363595252185250398274154646099173152985352970147914050151772690293595301323 : ℚ)/41315998049390537434494706752048189989275292685267576205290549704650361952269459114074325652482205302974450751563959894016, (-413101605983750461403372766887375769680310902278341326612226626533739424997972679383171551441694081779654134809113593069909 : ℚ)/20657999024695268717247353376024094994637646342633788102645274852325180976134729557037162826241102651487225375781979947008, (-206548133082887998388301911408437337184997046187668329662982008989748386956674442584236058228830854237023585466237588571907 : ℚ)/10328999512347634358623676688012047497318823171316894051322637426162590488067364778518581413120551325743612687890989973504, (-826201861572051410824783207770384967724644145998363595252185250398274154646099173152985352970147914050151772690293595301323 : ℚ)/41315998049390537434494706752048189989275292685267576205290549704650361952269459114074325652482205302974450751563959894016, (-1487176621211629238977577753427263058498999440389673033601974985444506779641495369544908243641346418837503072912051441313859 : ℚ)/82631996098781074868989413504096379978550585370535152410581099409300723904538918228148651304964410605948901503127919788032, (-4626796556623348890634636739298715078726054809026727521571623160490531177433256316317737533360448576742720015598277345194631 : ℚ)/330527984395124299475957654016385519914202341482140609642324397637202895618155672912594605219857642423795606012511679152128, (-908811698228041383827207322533956036861067440915133639469155081548152630896251633736947904803738956085182479090138564820573 : ℚ)/41315998049390537434494706752048189989275292685267576205290549704650361952269459114074325652482205302974450751563959894016, (-413101605983750461403372766887375769680310902278341326612226626533739424997972679383171551441694081779654134809113593069909 : ℚ)/20657999024695268717247353376024094994637646342633788102645274852325180976134729557037162826241102651487225375781979947008, (-4626796556623348890634636739298715078726054809026727521571623160490531177433256316317737533360448576742720015598277345194631 : ℚ)/330527984395124299475957654016385519914202341482140609642324397637202895618155672912594605219857642423795606012511679152128, (0 : ℚ)]

def gridV102 : List ℚ :=
  [(0 : ℚ), (-578342763540796753283805132152840377431923142220058817175034825727970183381728687673402985139455714848319949615712644617335 : ℚ)/41315998049390537434494706752048189989275292685267576205290549704650361952269459114074325652482205302974450751563959894016, (-3304812847870003691226982135099123490714724084625299675369465392451991964559855101356577778438594823143646346267350998602923 : ℚ)/165263992197562149737978827008192759957101170741070304821162198818601447809077836456297302609928821211897803006255839576064, (-14541175250354587052023538158502548982874155513137380623305167852381534202949960952142722638841774410909930469486391620031035 : ℚ)/661055968790248598951915308032771039828404682964281219284648795274405791236311345825189210439715284847591212025023358304256, (-578342763540796753283805132152840377431923142220058817175034825727970183381728687673402985139455714848319949615712644617335 : ℚ)/41315998049390537434494706752048189989275292685267576205290549704650361952269459114074325652482205302974450751563959894016, (-743588310605814619488788876713660862567558936794478782418900587767772530966183389527268494707284019752210311904567079853345 : ℚ)/41315998049390537434494706752048189989275292685267576205290549704650361952269459114074325652482205302974450751563959894016, (-13219388149376772937316190591940070255253850613773572704431479521956416838927672179446029866523691678912318030207654303507549 : ℚ)/661055968790248598951915308032771039828404682964281219284648795274405791236311345825189210439715284847591212025023358304256, (-26438815889809533465662296000783579092331841674864227849804870462748149080812258443893237029989717499823492846441164512690979 : ℚ)/1322111937580497197903830616065542079656809365928562438569297590548811582472622691650378420879430569695182424050046716608512, (-3304812847870003691226982135099123490714724084625299675369465392451991964559855101356577778438594823143646346267350998602923 : ℚ)/165263992197562149737978827008192759957101170741070304821162198818601447809077836456297302609928821211897803006255839576064, (-13219388149376772937316190591940070255253850613773572704431479521956416838927672179446029866523691678912318030207654303507549 : ℚ)/661055968790248598951915308032771039828404682964281219284648795274405791236311345825189210439715284847591212025023358304256, (-23795093200203967916489294686603042492362769597755590186144023433486290776266807503731883354124019402092940485454255710505323 : ℚ)/1322111937580497197903830616065542079656809365928562438569297590548811582472622691650378420879430569695182424050046716608512, (-37014771533414442868152730054421825109113033986220488938256288450195905448351290989748792100536626743834021545244358235204437 : ℚ)/2644223875160994395807661232131084159313618731857124877138595181097623164945245383300756841758861139390364848100093433217024, (-14541175250354587052023538158502548982874155513137380623305167852381534202949960952142722638841774410909930469486391620031035 : ℚ)/661055968790248598951915308032771039828404682964281219284648795274405791236311345825189210439715284847591212025023358304256, (-26438815889809533465662296000783579092331841674864227849804870462748149080812258443893237029989717499823492846441164512690979 : ℚ)/1322111937580497197903830616065542079656809365928562438569297590548811582472622691650378420879430569695182424050046716608512, (-37014771533414442868152730054421825109113033986220488938256288450195905448351290989748792100536626743834021545244358235204437 : ℚ)/2644223875160994395807661232131084159313618731857124877138595181097623164945245383300756841758861139390364848100093433217024, (0 : ℚ)]

def gridV103 : List ℚ :=
  [(0 : ℚ), (-9253593113246697781269273478597899490541057083647731293029855841709368613187814755984452908265269046393358604373493254789899 : ℚ)/661055968790248598951915308032771039828404682964281219284648795274405791236311345825189210439715284847591212025023358304256, (-52877631779619066931324592001568096850841578280917008199382959966952910678250113676300273369143975568180557337237036605957199 : ℚ)/2644223875160994395807661232131084159313618731857124877138595181097623164945245383300756841758861139390364848100093433217024, (-232661561062718807862068134199679983535752980663173008393988424435891975123255299714431555906893050412668446178410872324455533 : ℚ)/10576895500643977583230644928524336637254474927428499508554380724390492659780981533203027367035444557561459392400373732868096, (-9253593113246697781269273478597899490541057083647731293029855841709368613187814755984452908265269046393358604373493254789899 : ℚ)/661055968790248598951915308032771039828404682964281219284648795274405791236311345825189210439715284847591212025023358304256, (-2974386650025495989561161835825438978181464632918733304503829119276824629323513703385107649458548911875107382328899284363245 : ℚ)/165263992197562149737978827008192759957101170741070304821162198818601447809077836456297302609928821211897803006255839576064, (-211512531860697983111837007678072700308388709880284876651896394392241477121365446358915263895743676519576601510690639335029819 : ℚ)/10576895500643977583230644928524336637254474927428499508554380724390492659780981533203027367035444557561459392400373732868096, (-211512822044531685126184252453951490892066614899241915407891614807116059330911975929074998478210688034103728552802438908325829 : ℚ)/10576895500643977583230644928524336637254474927428499508554380724390492659780981533203027367035444557561459392400373732868096, (-52877631779619066931324592001568096850841578280917008199382959966952910678250113676300273369143975568180557337237036605957199 : ℚ)/2644223875160994395807661232131084159313618731857124877138595181097623164945245383300756841758861139390364848100093433217024, (-211512531860697983111837007678072700308388709880284876651896394392241477121365446358915263895743676519576601510690639335029819 : ℚ)/10576895500643977583230644928524336637254474927428499508554380724390492659780981533203027367035444557561459392400373732868096, (-380725408995643709750909217752808674019349795680023831422030309641806084234332573384316487031961072610035606476468819741583759 : ℚ)/21153791001287955166461289857048673274508949854856999017108761448780985319561963066406054734070889115122918784800747465736192, (-1184484389357174443614344722524280949774423096787699569812298892652729387761214705426081039728959019089406911083231553302815681 : ℚ)/84615164005151820665845159428194693098035799419427996068435045795123941278247852265624218936283556460491675139202989862944768, (-232661561062718807862068134199679983535752980663173008393988424435891975123255299714431555906893050412668446178410872324455533 : ℚ)/10576895500643977583230644928524336637254474927428499508554380724390492659780981533203027367035444557561459392400373732868096, (-211512822044531685126184252453951490892066614899241915407891614807116059330911975929074998478210688034103728552802438908325829 : ℚ)/10576895500643977583230644928524336637254474927428499508554380724390492659780981533203027367035444557561459392400373732868096, (-1184484389357174443614344722524280949774423096787699569812298892652729387761214705426081039728959019089406911083231553302815681 : ℚ)/84615164005151820665845159428194693098035799419427996068435045795123941278247852265624218936283556460491675139202989862944768, (0 : ℚ)]

def gridV104 : List ℚ :=
  [(0 : ℚ), (-148059086133657771472610920217691055101163715669636165752118029966610071859958573487602834760577278901317169264393771907796811 : ℚ)/10576895500643977583230644928524336637254474927428499508554380724390492659780981533203027367035444557561459392400373732868096, (-846051288178126740504737009815813472897689619046476081629752211560117137456703700398962857507931686336530283872044924922583343 : ℚ)/42307582002575910332922579714097346549017899709713998034217522897561970639123926132812109468141778230245837569601494931472384, (-3722625392868307585237709412085448690948051522787683802550096157865965058322889706361963736548485954695276117788947638877420459 : ℚ)/169230328010303641331690318856389386196071598838855992136870091590247882556495704531248437872567112920983350278405979725889536, (-148059086133657771472610920217691055101163715669636165752118029966610071859958573487602834760577278901317169264393771907796811 : ℚ)/10576895500643977583230644928524336637254474927428499508554380724390492659780981533203027367035444557561459392400373732868096, (-190362704497821854875454608876406214342030687702389020710561592903816267150442991456462076695195922268008344779942579354281411 : ℚ)/10576895500643977583230644928524336637254474927428499508554380724390492659780981533203027367035444557561459392400373732868096, (-3384234540349131961344801209499251028068850019651903481084495753277706494407284421240992570138047385686033140434368617182069357 : ℚ)/169230328010303641331690318856389386196071598838855992136870091590247882556495704531248437872567112920983350278405979725889536, (-6768477588342754980578454690661021508811549984879140519166467949861989403886588985722656056643045419394858069174121152050946293 : ℚ)/338460656020607282663380637712778772392143197677711984273740183180495765112991409062496875745134225841966700556811959451779072, (-846051288178126740504737009815813472897689619046476081629752211560117137456703700398962857507931686336530283872044924922583343 : ℚ)/42307582002575910332922579714097346549017899709713998034217522897561970639123926132812109468141778230245837569601494931472384, (-3384234540349131961344801209499251028068850019651903481084495753277706494407284421240992570138047385686033140434368617182069357 : ℚ)/169230328010303641331690318856389386196071598838855992136870091590247882556495704531248437872567112920983350278405979725889536, (-6091663975084088131236871292260591700009839410905014604982833721763661035042705241155651525341099649706813663157643683239479791 : ℚ)/338460656020607282663380637712778772392143197677711984273740183180495765112991409062496875745134225841966700556811959451779072, (-2368990218117246252115778427983731512185956821705725167561682246869818881303264835604077405485064756103395772361492360788600637 : ℚ)/169230328010303641331690318856389386196071598838855992136870091590247882556495704531248437872567112920983350278405979725889536, (-3722625392868307585237709412085448690948051522787683802550096157865965058322889706361963736548485954695276117788947638877420459 : ℚ)/169230328010303641331690318856389386196071598838855992136870091590247882556495704531248437872567112920983350278405979725889536, (-6768477588342754980578454690661021508811549984879140519166467949861989403886588985722656056643045419394858069174121152050946293 : ℚ)/338460656020607282663380637712778772392143197677711984273740183180495765112991409062496875745134225841966700556811959451779072, (-2368990218117246252115778427983731512185956821705725167561682246869818881303264835604077405485064756103395772361492360788600637 : ℚ)/169230328010303641331690318856389386196071598838855992136870091590247882556495704531248437872567112920983350278405979725889536, (0 : ℚ)]

def gridV105 : List ℚ :=
  [(0 : ℚ), (-2368968778714348887228689445048591936866538831373432819617340794632070376054805664706470941203591603934815690327796309696785767 : ℚ)/169230328010303641331690318856389386196071598838855992136870091590247882556495704531248437872567112920983350278405979725889536, (-13536955176685509961156909381322103092258485245354348398318421918377202008837777412030272429412120141346179485152916184350167099 : ℚ)/676921312041214565326761275425557544784286395355423968547480366360991530225982818124993751490268451683933401113623918903558144, (-59562598744482338865522539161029965816603142978835795731242048546472867404098004306871269441047172424433838170267235275085655933 : ℚ)/2707685248164858261307045101702230179137145581421695874189921465443966120903931272499975005961073806735733604454495675614232576, (-2368968778714348887228689445048591936866538831373432819617340794632070376054805664706470941203591603934815690327796309696785767 : ℚ)/169230328010303641331690318856389386196071598838855992136870091590247882556495704531248437872567112920983350278405979725889536, (-1522915993771022032809217823065155434331883012175762071243894182772568158893770373752490096771693303865703882829744221582658549 : ℚ)/84615164005151820665845159428194693098035799419427996068435045795123941278247852265624218936283556460491675139202989862944768, (-54148251501872230708568349033388803163693473715750451090758100189253014278750460128306783373515030517210887616908895303206520235 : ℚ)/2707685248164858261307045101702230179137145581421695874189921465443966120903931272499975005961073806735733604454495675614232576, (-6768539232363499453056223780445486436322278376456179911033702942072336359325285586894513743103496800668776784880342508430446469 : ℚ)/338460656020607282663380637712778772392143197677711984273740183180495765112991409062496875745134225841966700556811959451779072, (-13536955176685509961156909381322103092258485245354348398318421918377202008837777412030272429412120141346179485152916184350167099 : ℚ)/676921312041214565326761275425557544784286395355423968547480366360991530225982818124993751490268451683933401113623918903558144, (-54148251501872230708568349033388803163693473715750451090758100189253014278750460128306783373515030517210887616908895303206520235 : ℚ)/2707685248164858261307045101702230179137145581421695874189921465443966120903931272499975005961073806735733604454495675614232576, (-97467465488077887265034894084532967716943074025885445520124859070058048621410560042971971873198214228336687183601764427052595579 : ℚ)/5415370496329716522614090203404460358274291162843391748379842930887932241807862544999950011922147613471467208908991351228465152, (-303233262170964624672095745080758000521147310995141096452157309766601363539551054352614468786064825688231649292890965512088820075 : ℚ)/21661481985318866090456360813617841433097164651373566993519371723551728967231450179999800047688590453885868835635965404913860608, (-59562598744482338865522539161029965816603142978835795731242048546472867404098004306871269441047172424433838170267235275085655933 : ℚ)/2707685248164858261307045101702230179137145581421695874189921465443966120903931272499975005961073806735733604454495675614232576, (-6768539232363499453056223780445486436322278376456179911033702942072336359325285586894513743103496800668776784880342508430446469 : ℚ)/338460656020607282663380637712778772392143197677711984273740183180495765112991409062496875745134225841966700556811959451779072, (-303233262170964624672095745080758000521147310995141096452157309766601363539551054352614468786064825688231649292890965512088820075 : ℚ)/21661481985318866090456360813617841433097164651373566993519371723551728967231450179999800047688590453885868835635965404913860608, (0 : ℚ)]

def gridV106 : List ℚ :=
  [(0 : ℚ), (-37903843489875940033852454847739944493516850249675872120928860024529994905111094333376051974361106794746806913556550871412811135 : ℚ)/2707685248164858261307045101702230179137145581421695874189921465443966120903931272499975005961073806735733604454495675614232576, (-216593255435631982497799160974256046559395990251366296032962382295540549106926393506675094530416085528719185059162328889562586003 : ℚ)/10830740992659433045228180406808920716548582325686783496759685861775864483615725089999900023844295226942934417817982702456930304, (-953010264797760408100691356863987021920728371431397553023016008260741709772582467102269289933482543453362485208743102169849841691 : ℚ)/43322963970637732180912721627235682866194329302747133987038743447103457934462900359999600095377180907771737671271930809827721216, (-37903843489875940033852454847739944493516850249675872120928860024529994905111094333376051974361106794746806913556550871412811135 : ℚ)/2707685248164858261307045101702230179137145581421695874189921465443966120903931272499975005961073806735733604454495675614232576, (-48733732744038943632517447042266604007742307564134857480033401572335470712834708503341392679899142462714580869687218762923898261 : ℚ)/2707685248164858261307045101702230179137145581421695874189921465443966120903931272499975005961073806735733604454495675614232576, (-866379336794213246236650619913879646852758605909021508133462944318416750633958386746608648871098162365423477692557623874965378429 : ℚ)/43322963970637732180912721627235682866194329302747133987038743447103457934462900359999600095377180907771737671271930809827721216, (-1732760501779490881198190498672673832564905274364040409310631261243017036608565559558301517937733335655969820318427110693700446583 : ℚ)/86645927941275464361825443254471365732388658605494267974077486894206915868925800719999200190754361815543475342543861619655442432, (-216593255435631982497799160974256046559395990251366296032962382295540549106926393506675094530416085528719185059162328889562586003 : ℚ)/10830740992659433045228180406808920716548582325686783496759685861775864483615725089999900023844295226942934417817982702456930304, (-866379336794213246236650619913879646852758605909021508133462944318416750633958386746608648871098162365423477692557623874965378429 : ℚ)/43322963970637732180912721627235682866194329302747133987038743447103457934462900359999600095377180907771737671271930809827721216, (-1559491789077417959942667553329867013627441886504797969011855050745826393581986296171836786633982175557430251620883416518798461011 : ℚ)/86645927941275464361825443254471365732388658605494267974077486894206915868925800719999200190754361815543475342543861619655442432, (-2425884525652934598638271402671729155603245519635689918013712749316038273912229638010296490239496130614250285240524917869737978811 : ℚ)/173291855882550928723650886508942731464777317210988535948154973788413831737851601439998400381508723631086950685087723239310884864, (-953010264797760408100691356863987021920728371431397553023016008260741709772582467102269289933482543453362485208743102169849841691 : ℚ)/43322963970637732180912721627235682866194329302747133987038743447103457934462900359999600095377180907771737671271930809827721216, (-1732760501779490881198190498672673832564905274364040409310631261243017036608565559558301517937733335655969820318427110693700446583 : ℚ)/86645927941275464361825443254471365732388658605494267974077486894206915868925800719999200190754361815543475342543861619655442432, (-2425884525652934598638271402671729155603245519635689918013712749316038273912229638010296490239496130614250285240524917869737978811 : ℚ)/173291855882550928723650886508942731464777317210988535948154973788413831737851601439998400381508723631086950685087723239310884864, (0 : ℚ)]

def gridV107 : List ℚ :=
  [(0 : ℚ), (-606466524341929249344191490161517923430626950809356348423850172130105869513172505213544473242834263466336473863409338236737144803 : ℚ)/43322963970637732180912721627235682866194329302747133987038743447103457934462900359999600095377180907771737671271930809827721216, (-3465521003558981762396380997345351509906475206366229129660333627679840358085270534529121190550588035031086127686447103079113593799 : ℚ)/173291855882550928723650886508942731464777317210988535948154973788413831737851601439998400381508723631086950685087723239310884864, (-15248291549030250504492896395638366276261221995389444516258344111405463436434467796223872147419949948494273452733597034782556759949 : ℚ)/693167423530203714894603546035770925859109268843954143792619895153655326951406405759993601526034894524347802740350892957243539456, (-606466524341929249344191490161517923430626950809356348423850172130105869513172505213544473242834263466336473863409338236737144803 : ℚ)/43322963970637732180912721627235682866194329302747133987038743447103457934462900359999600095377180907771737671271930809827721216, (-48734118408669311248208361041558404250492944228871003891605956354460298000501771646254760072021462113978232090578463241604936427 : ℚ)/2707685248164858261307045101702230179137145581421695874189921465443966120903931272499975005961073806735733604454495675614232576, (-13862176586957839079458035754045942000181827227595604279160707353496641617449894037109696045829427527276840928102440697924070879771 : ℚ)/693167423530203714894603546035770925859109268843954143792619895153655326951406405759993601526034894524347802740350892957243539456, (-13862189986739142471916988983473924815702927642953987079282358033181253937551857621220285175953342065393316323826739465391039321363 : ℚ)/693167423530203714894603546035770925859109268843954143792619895153655326951406405759993601526034894524347802740350892957243539456, (-3465521003558981762396380997345351509906475206366229129660333627679840358085270534529121190550588035031086127686447103079113593799 : ℚ)/173291855882550928723650886508942731464777317210988535948154973788413831737851601439998400381508723631086950685087723239310884864, (-13862176586957839079458035754045942000181827227595604279160707353496641617449894037109696045829427527276840928102440697924070879771 : ℚ)/693167423530203714894603546035770925859109268843954143792619895153655326951406405759993601526034894524347802740350892957243539456, (-24952049536629984903800328456804400474313027843826272238800798141068105367001625400670869209839481838782537674545242155317509873927 : ℚ)/1386334847060407429789207092071541851718218537687908287585239790307310653902812811519987203052069789048695605480701785914487078912, (-77628845103573376355897306013412250757417721437571398891816175363188162049014428993273760295870414170677955026045727572715440662789 : ℚ)/5545339388241629719156828368286167406872874150751633150340959161229242615611251246079948812208279156194782421922807143657948315648, (-15248291549030250504492896395638366276261221995389444516258344111405463436434467796223872147419949948494273452733597034782556759949 : ℚ)/693167423530203714894603546035770925859109268843954143792619895153655326951406405759993601526034894524347802740350892957243539456, (-13862189986739142471916988983473924815702927642953987079282358033181253937551857621220285175953342065393316323826739465391039321363 : ℚ)/693167423530203714894603546035770925859109268843954143792619895153655326951406405759993601526034894524347802740350892957243539456, (-77628845103573376355897306013412250757417721437571398891816175363188162049014428993273760295870414170677955026045727572715440662789 : ℚ)/5545339388241629719156828368286167406872874150751633150340959161229242615611251246079948812208279156194782421922807143657948315648, (0 : ℚ)]

def gridV108 : List ℚ :=
  [(0 : ℚ), (-9703538102611738394553085610686932001519640709095352916211135418039378235121480346503597329657333558715386679677456996446021643795 : ℚ)/693167423530203714894603546035770925859109268843954143792619895153655326951406405759993601526034894524347802740350892957243539456, (-55448759946956569887667955933895730021025027832921134805442000974275466029152549940993624691213202752708236782220686713298077816535 : ℚ)/2772669694120814859578414184143083703436437075375816575170479580614621307805625623039974406104139578097391210961403571828974157824, (-243974531062638403249592739769470694307672262669355905553320104320702674502058225287825640198802728914625254543242035140438585812875 : ℚ)/11090678776483259438313656736572334813745748301503266300681918322458485231222502492159897624416558312389564843845614287315896631296, (-9703538102611738394553085610686932001519640709095352916211135418039378235121480346503597329657333558715386679677456996446021643795 : ℚ)/693167423530203714894603546035770925859109268843954143792619895153655326951406405759993601526034894524347802740350892957243539456, (-12476024768314992451900164228402207926709843237189432741478541280921665253237093597566640289269415437520461606630299740142289801239 : ℚ)/693167423530203714894603546035770925859109268843954143792619895153655326951406405759993601526034894524347802740350892957243539456, (-221796396816916338828850882431581396753047915342650624866769112835281838757534108109642962596199754754317988696984942133382310686093 : ℚ)/11090678776483259438313656736572334813745748301503266300681918322458485231222502492159897624416558312389564843845614287315896631296, (-443593186490230406047082342454874364440892728190213093337483484851547420641670461646090138349831509153075236924464360507385996745769 : ℚ)/22181357552966518876627313473144669627491496603006532601363836644916970462445004984319795248833116624779129687691228574631793262592, (-55448759946956569887667955933895730021025027832921134805442000974275466029152549940993624691213202752708236782220686713298077816535 : ℚ)/2772669694120814859578414184143083703436437075375816575170479580614621307805625623039974406104139578097391210961403571828974157824, (-221796396816916338828850882431581396753047915342650624866769112835281838757534108109642962596199754754317988696984942133382310686093 : ℚ)/11090678776483259438313656736572334813745748301503266300681918322458485231222502492159897624416558312389564843845614287315896631296, (-399235444577029610417272807931550567895374854820799955251765300206575133318007971080510278436773699720453028436767625853444985274263 : ℚ)/22181357552966518876627313473144669627491496603006532601363836644916970462445004984319795248833116624779129687691228574631793262592, (-310517360423354899348613407083163153468976113793331193640492208272635771001379042159243659741354833013839151054044952737554979430389 : ℚ)/22181357552966518876627313473144669627491496603006532601363836644916970462445004984319795248833116624779129687691228574631793262592, (-243974531062638403249592739769470694307672262669355905553320104320702674502058225287825640198802728914625254543242035140438585812875 : ℚ)/11090678776483259438313656736572334813745748301503266300681918322458485231222502492159897624416558312389564843845614287315896631296, (-443593186490230406047082342454874364440892728190213093337483484851547420641670461646090138349831509153075236924464360507385996745769 : ℚ)/22181357552966518876627313473144669627491496603006532601363836644916970462445004984319795248833116624779129687691228574631793262592, (-310517360423354899348613407083163153468976113793331193640492208272635771001379042159243659741354833013839151054044952737554979430389 : ℚ)/22181357552966518876627313473144669627491496603006532601363836644916970462445004984319795248833116624779129687691228574631793262592, (0 : ℚ)]

def gridV109 : List ℚ :=
  [(0 : ℚ), (-155257690207146752711794612026824624547688711919563543736882626092578125213809348209434472791336757050041194771297327946967220227967 : ℚ)/11090678776483259438313656736572334813745748301503266300681918322458485231222502492159897624416558312389564843845614287315896631296, (-887186372980460812094164684909748974947491994469267678581467520435498443514901891339517164848858284979375644515789509223244014518259 : ℚ)/44362715105933037753254626946289339254982993206013065202727673289833940924890009968639590497666233249558259375382457149263586525184, (-3903619854885761001198089795760420615310587525028593370493906017863550444514268656808860925129608067600761192212184339958579040613533 : ℚ)/177450860423732151013018507785157357019931972824052260810910693159335763699560039874558361990664932998233037501529828597054346100736, (-155257690207146752711794612026824624547688711919563543736882626092578125213809348209434472791336757050041194771297327946967220227967 : ℚ)/11090678776483259438313656736572334813745748301503266300681918322458485231222502492159897624416558312389564843845614287315896631296, (-99808861144257402604318201982887672732057030966305175301253893893194233608447115325849307659092407107284578288993374663745331044163 : ℚ)/5545339388241629719156828368286167406872874150751633150340959161229242615611251246079948812208279156194782421922807143657948315648, (-3548765384692772216870439109330857578496415381045787438980906934856633184001395719274070821685472892582941839051730307851922973012363 : ℚ)/177450860423732151013018507785157357019931972824052260810910693159335763699560039874558361990664932998233037501529828597054346100736, (-1774384132072768033160771116567025970645710191654868018567782658793874027057287570752979447438403928688993785637263558519780900929763 : ℚ)/88725430211866075506509253892578678509965986412026130405455346579667881849780019937279180995332466499116518750764914298527173050368, (-887186372980460812094164684909748974947491994469267678581467520435498443514901891339517164848858284979375644515789509223244014518259 : ℚ)/44362715105933037753254626946289339254982993206013065202727673289833940924890009968639590497666233249558259375382457149263586525184, (-3548765384692772216870439109330857578496415381045787438980906934856633184001395719274070821685472892582941839051730307851922973012363 : ℚ)/177450860423732151013018507785157357019931972824052260810910693159335763699560039874558361990664932998233037501529828597054346100736, (-6387805988927075713685383381566477520288088237040541509726665987356390879411548136297136823597641422690121122487149586946471500656947 : ℚ)/354901720847464302026037015570314714039863945648104521621821386318671527399120079749116723981329865996466075003059657194108692201472, (-19873227167381683444010430423446450714534002606945730768732957500168745433259243412853420065138253929653386981913161693602909544068111 : ℚ)/1419606883389857208104148062281258856159455782592418086487285545274686109596480318996466895925319463985864300012238628776434768805888, (-3903619854885761001198089795760420615310587525028593370493906017863550444514268656808860925129608067600761192212184339958579040613533 : ℚ)/177450860423732151013018507785157357019931972824052260810910693159335763699560039874558361990664932998233037501529828597054346100736, (-1774384132072768033160771116567025970645710191654868018567782658793874027057287570752979447438403928688993785637263558519780900929763 : ℚ)/88725430211866075506509253892578678509965986412026130405455346579667881849780019937279180995332466499116518750764914298527173050368, (-19873227167381683444010430423446450714534002606945730768732957500168745433259243412853420065138253929653386981913161693602909544068111 : ℚ)/1419606883389857208104148062281258856159455782592418086487285545274686109596480318996466895925319463985864300012238628776434768805888, (0 : ℚ)]

def gridV110 : List ℚ :=
  [(0 : ℚ), (-2484138883386839194788907256665306212014635062702015516749939869110700576937276246658607879277609503036050087414455646918129889884167 : ℚ)/177450860423732151013018507785157357019931972824052260810910693159335763699560039874558361990664932998233037501529828597054346100736, (-14195073056582144265286168932536209733691333837949676083794265676210221034310788347597841733450783335130187846747647646009825345986043 : ℚ)/709803441694928604052074031140629428079727891296209043243642772637343054798240159498233447962659731992932150006119314388217384402944, (-62458318719030090956365352355718300133660627136602203369262346180018989026076198806085498505845518233419956269567708091389574415944187 : ℚ)/2839213766779714416208296124562517712318911565184836172974571090549372219192960637992933791850638927971728600024477257552869537611776, (-2484138883386839194788907256665306212014635062702015516749939869110700576937276246658607879277609503036050087414455646918129889884167 : ℚ)/177450860423732151013018507785157357019931972824052260810910693159335763699560039874558361990664932998233037501529828597054346100736, (-3193902994463537856842691690783239252275457194697953738676334095143002644168896022840897712472206130807729000734622805982080777549001 : ℚ)/177450860423732151013018507785157357019931972824052260810910693159335763699560039874558361990664932998233037501529828597054346100736, (-56780583835652305801522167515900847260853932189246354379469766392395377805460729915572475601892761061225024979783023769542208202545821 : ℚ)/2839213766779714416208296124562517712318911565184836172974571090549372219192960637992933791850638927971728600024477257552869537611776, (-113561252091446599185943120473453475366760468466717570286132678508176657720330230181715945861723134291943235376833699075491034343412875 : ℚ)/5678427533559428832416592249125035424637823130369672345949142181098744438385921275985867583701277855943457200048954515105739075223552, (-14195073056582144265286168932536209733691333837949676083794265676210221034310788347597841733450783335130187846747647646009825345986043 : ℚ)/709803441694928604052074031140629428079727891296209043243642772637343054798240159498233447962659731992932150006119314388217384402944, (-56780583835652305801522167515900847260853932189246354379469766392395377805460729915572475601892761061225024979783023769542208202545821 : ℚ)/2839213766779714416208296124562517712318911565184836172974571090549372219192960637992933791850638927971728600024477257552869537611776, (-102205465703975101521959620611918784114559760533507488262884823573831613110365138017265183315870546776475256143658301671853766365905595 : ℚ)/5678427533559428832416592249125035424637823130369672345949142181098744438385921275985867583701277855943457200048954515105739075223552, (-158986668299593074906805415887829102019003765974743335503872950403539115158638013477169139886475904105402934124170232791089697593242561 : ℚ)/11356855067118857664833184498250070849275646260739344691898284362197488876771842551971735167402555711886914400097909030211478150447104, (-62458318719030090956365352355718300133660627136602203369262346180018989026076198806085498505845518233419956269567708091389574415944187 : ℚ)/2839213766779714416208296124562517712318911565184836172974571090549372219192960637992933791850638927971728600024477257552869537611776, (-113561252091446599185943120473453475366760468466717570286132678508176657720330230181715945861723134291943235376833699075491034343412875 : ℚ)/5678427533559428832416592249125035424637823130369672345949142181098744438385921275985867583701277855943457200048954515105739075223552, (-158986668299593074906805415887829102019003765974743335503872950403539115158638013477169139886475904105402934124170232791089697593242561 : ℚ)/11356855067118857664833184498250070849275646260739344691898284362197488876771842551971735167402555711886914400097909030211478150447104, (0 : ℚ)]

def gridV111 : List ℚ :=
  [(0 : ℚ), (-39746454334763366888020860846892909303170614432734389278473932623774406137928438063588797892300684798477032799368438715163537553330491 : ℚ)/2839213766779714416208296124562517712318911565184836172974571090549372219192960637992933791850638927971728600024477257552869537611776, (-227122504182893198371886240946906966481726155371120996054281392263227145983480362727609874101244653145529679835807670190346099706211775 : ℚ)/11356855067118857664833184498250070849275646260739344691898284362197488876771842551971735167402555711886914400097909030211478150447104, (-999338978386502555054028038732560601681634694440331142348238656168522329139837783747612694541065290444323458346408369193290676322379437 : ℚ)/45427420268475430659332737993000283397102585042957378767593137448789955507087370207886940669610222847547657600391636120845912601788416, (-39746454334763366888020860846892909303170614432734389278473932623774406137928438063588797892300684798477032799368438715163537553330491 : ℚ)/2839213766779714416208296124562517712318911565184836172974571090549372219192960637992933791850638927971728600024477257552869537611776, (-12775683212996887690244952576489848998582796219043802000486605149658566047721886156893392634736840464455689372400052124976435603887483 : ℚ)/709803441694928604052074031140629428079727891296209043243642772637343054798240159498233447962659731992932150006119314388217384402944, (-908494291450162233490943702334489352818793937919229323927695216270570699915508647843753355281831685561205350435584141805504583388836859 : ℚ)/45427420268475430659332737993000283397102585042957378767593137448789955507087370207886940669610222847547657600391636120845912601788416, (-908494910210127901074267330094498824774734446041025971412714912978455643370222451946329484735256639538219264673727394812616493809660801 : ℚ)/45427420268475430659332737993000283397102585042957378767593137448789955507087370207886940669610222847547657600391636120845912601788416, (-227122504182893198371886240946906966481726155371120996054281392263227145983480362727609874101244653145529679835807670190346099706211775 : ℚ)/11356855067118857664833184498250070849275646260739344691898284362197488876771842551971735167402555711886914400097909030211478150447104, (-908494291450162233490943702334489352818793937919229323927695216270570699915508647843753355281831685561205350435584141805504583388836859 : ℚ)/45427420268475430659332737993000283397102585042957378767593137448789955507087370207886940669610222847547657600391636120845912601788416, (-1635295805185485394436830841871806327689014171904117423478373292782307071564235442168203796166955747677912402133048345211555198965383935 : ℚ)/90854840536950861318665475986000566794205170085914757535186274897579911014174740415773881339220445695095315200783272241691825203576832, (-5087598334150289241114470733107439060567333872127775080475531821557850923630483415541311410086158042377955665276998086132273068144953353 : ℚ)/363419362147803445274661903944002267176820680343659030140745099590319644056698961663095525356881782780381260803133088966767300814307328, (-999338978386502555054028038732560601681634694440331142348238656168522329139837783747612694541065290444323458346408369193290676322379437 : ℚ)/45427420268475430659332737993000283397102585042957378767593137448789955507087370207886940669610222847547657600391636120845912601788416, (-908494910210127901074267330094498824774734446041025971412714912978455643370222451946329484735256639538219264673727394812616493809660801 : ℚ)/45427420268475430659332737993000283397102585042957378767593137448789955507087370207886940669610222847547657600391636120845912601788416, (-5087598334150289241114470733107439060567333872127775080475531821557850923630483415541311410086158042377955665276998086132273068144953353 : ℚ)/363419362147803445274661903944002267176820680343659030140745099590319644056698961663095525356881782780381260803133088966767300814307328, (0 : ℚ)]

def gridV112 : List ℚ :=
  [(0 : ℚ), (-635946673198372299627221663551316471068835937649716763943555942601651782805831663700146288495847062618276498592073895171469132183521883 : ℚ)/45427420268475430659332737993000283397102585042957378767593137448789955507087370207886940669610222847547657600391636120845912601788416, (-3633979640840511604297069320377995425084579531665590729506987933888813217823449027033499597402163542596114657118863631415032441126738943 : ℚ)/181709681073901722637330951972001133588410340171829515070372549795159822028349480831547762678440891390190630401566544483383650407153664, (-15989509833068650539575686758504480071990236232039661814225247034331453712536439028125910143385475989864341904191306342145358428573032299 : ℚ)/726838724295606890549323807888004534353641360687318060281490199180639288113397923326191050713763565560762521606266177933534601628614656, (-635946673198372299627221663551316471068835937649716763943555942601651782805831663700146288495847062618276498592073895171469132183521883 : ℚ)/45427420268475430659332737993000283397102585042957378767593137448789955507087370207886940669610222847547657600391636120845912601788416, (-817647902592742697218415420935903195340917522827430422703218716884901196867757525979836762558449596937288582114220654609332770387967787 : ℚ)/45427420268475430659332737993000283397102585042957378767593137448789955507087370207886940669610222847547657600391636120845912601788416, (-14535981226718571676890785816131220695278857111634969213208959238087494010017237746400763229624663549414733370143018697459474497476635821 : ℚ)/726838724295606890549323807888004534353641360687318060281490199180639288113397923326191050713763565560762521606266177933534601628614656, (-29071980594316137339040493276957289111107038833667934486057334659956248508095897265027666075900808059444772463046512120302690684904303133 : ℚ)/1453677448591213781098647615776009068707282721374636120562980398361278576226795846652382101427527131121525043212532355867069203257229312, (-3633979640840511604297069320377995425084579531665590729506987933888813217823449027033499597402163542596114657118863631415032441126738943 : ℚ)/181709681073901722637330951972001133588410340171829515070372549795159822028349480831547762678440891390190630401566544483383650407153664, (-14535981226718571676890785816131220695278857111634969213208959238087494010017237746400763229624663549414733370143018697459474497476635821 : ℚ)/726838724295606890549323807888004534353641360687318060281490199180639288113397923326191050713763565560762521606266177933534601628614656, (-26164855343610363940218374898122107885120807577265155494723003279564474433505000424135768151224506765292169743909547225591089837023771839 : ℚ)/1453677448591213781098647615776009068707282721374636120562980398361278576226795846652382101427527131121525043212532355867069203257229312, (-317976324487861380344184928010207771536430909316182557753649948512489222425898495070071126067109591870058066566071019976137303154440647 : ℚ)/22713710134237715329666368996500141698551292521478689383796568724394977753543685103943470334805111423773828800195818060422956300894208, (-15989509833068650539575686758504480071990236232039661814225247034331453712536439028125910143385475989864341904191306342145358428573032299 : ℚ)/726838724295606890549323807888004534353641360687318060281490199180639288113397923326191050713763565560762521606266177933534601628614656, (-29071980594316137339040493276957289111107038833667934486057334659956248508095897265027666075900808059444772463046512120302690684904303133 : ℚ)/1453677448591213781098647615776009068707282721374636120562980398361278576226795846652382101427527131121525043212532355867069203257229312, (-317976324487861380344184928010207771536430909316182557753649948512489222425898495070071126067109591870058066566071019976137303154440647 : ℚ)/22713710134237715329666368996500141698551292521478689383796568724394977753543685103943470334805111423773828800195818060422956300894208, (0 : ℚ)]

def gridV113 : List ℚ :=
  [(0 : ℚ), (-10175196668300578482228941466214878625077234734261497536375576771015664424631203709079622852333113746379137501550308008471774653041312279 : ℚ)/726838724295606890549323807888004534353641360687318060281490199180639288113397923326191050713763565560762521606266177933534601628614656, (-58143961188632274678080986553914579230099211647347763722963695575712422170932268285045058817806961718285721490785152285470875750112394795 : ℚ)/2907354897182427562197295231552018137414565442749272241125960796722557152453591693304764202855054262243050086425064711734138406514458624, (-255833420630543463921556648102073070577893440941998016173384184357166777497229941813326728928112602805062201996108886110175678174563093949 : ℚ)/11629419588729710248789180926208072549658261770997088964503843186890228609814366773219056811420217048972200345700258846936553626057834496, (-10175196668300578482228941466214878625077234734261497536375576771015664424631203709079622852333113746379137501550308008471774653041312279 : ℚ)/726838724295606890549323807888004534353641360687318060281490199180639288113397923326191050713763565560762521606266177933534601628614656, (-6541213835902590985054593724530527097265843641817775717536879101866109252718809325533192045846326106728848978726464765449579588443794353 : ℚ)/363419362147803445274661903944002267176820680343659030140745099590319644056698961663095525356881782780381260803133088966767300814307328, (-232576763340435715365824653626525662550339915374753238389323247456572970685698905040856520450248417270562598080209247947791627127576734059 : ℚ)/11629419588729710248789180926208072549658261770997088964503843186890228609814366773219056811420217048972200345700258846936553626057834496, (-58144224076138259108192790924394732202648458727498034742440640967459070785563345096447326361100528986533844452832476789744834031292450145 : ℚ)/2907354897182427562197295231552018137414565442749272241125960796722557152453591693304764202855054262243050086425064711734138406514458624, (-58143961188632274678080986553914579230099211647347763722963695575712422170932268285045058817806961718285721490785152285470875750112394795 : ℚ)/2907354897182427562197295231552018137414565442749272241125960796722557152453591693304764202855054262243050086425064711734138406514458624, (-232576763340435715365824653626525662550339915374753238389323247456572970685698905040856520450248417270562598080209247947791627127576734059 : ℚ)/11629419588729710248789180926208072549658261770997088964503843186890228609814366773219056811420217048972200345700258846936553626057834496, (-418639480655680162599625698620168186676309064486632885888199707468747909787387668063171050619448962405976728853438127869447033594766014315 : ℚ)/23258839177459420497578361852416145099316523541994177929007686373780457219628733546438113622840434097944400691400517693873107252115668992, (-1302436386250193970927926839707443382748068079614364814683493127980331268714529421972254949092335152764964547405356737418462733283715513971 : ℚ)/93035356709837681990313447409664580397266094167976711716030745495121828878514934185752454491361736391777602765602070775492429008462675968, (-255833420630543463921556648102073070577893440941998016173384184357166777497229941813326728928112602805062201996108886110175678174563093949 : ℚ)/11629419588729710248789180926208072549658261770997088964503843186890228609814366773219056811420217048972200345700258846936553626057834496, (-58144224076138259108192790924394732202648458727498034742440640967459070785563345096447326361100528986533844452832476789744834031292450145 : ℚ)/2907354897182427562197295231552018137414565442749272241125960796722557152453591693304764202855054262243050086425064711734138406514458624, (-1302436386250193970927926839707443382748068079614364814683493127980331268714529421972254949092335152764964547405356737418462733283715513971 : ℚ)/93035356709837681990313447409664580397266094167976711716030745495121828878514934185752454491361736391777602765602070775492429008462675968, (0 : ℚ)]

def gridV114 : List ℚ :=
  [(0 : ℚ), (-162803878137785026736222683141226383058193161489933048573264878661594182501021924498848143405330242606605263672498361289891164695885833231 : ℚ)/11629419588729710248789180926208072549658261770997088964503843186890228609814366773219056811420217048972200345700258846936553626057834496, (-930307585218212145731084654790315723305456411480063713885842465525744533806937311586087855300599977751261751094758139877488187502706578403 : ℚ)/46517678354918840995156723704832290198633047083988355858015372747560914439257467092876227245680868195888801382801035387746214504231337984, (-4093353248900447366815249389216545163965511466991969822584027686852667544110820236007363817485832736759856083840152998945795815416815884251 : ℚ)/186070713419675363980626894819329160794532188335953423432061490990243657757029868371504908982723472783555205531204141550984858016925351936, (-162803878137785026736222683141226383058193161489933048573264878661594182501021924498848143405330242606605263672498361289891164695885833231 : ℚ)/11629419588729710248789180926208072549658261770997088964503843186890228609814366773219056811420217048972200345700258846936553626057834496, (-209319740327840081299812849310084095353924800203340232445797906245973805203174781543071388739209546987556131222054063465777949537789118141 : ℚ)/11629419588729710248789180926208072549658261770997088964503843186890228609814366773219056811420217048972200345700258846936553626057834496, (-3721243806478820305841298998880633354110681269242612394756545251916724364520455163799377642256668027081536450466374419666396255360999633853 : ℚ)/186070713419675363980626894819329160794532188335953423432061490990243657757029868371504908982723472783555205531204141550984858016925351936, (-7442491511215602826679624132975322393859979503683499881976003090304204803682253901704949940484249407821854248111667987098363173707832381535 : ℚ)/372141426839350727961253789638658321589064376671906846864122981980487315514059736743009817965446945567110411062408283101969716033850703872, (-930307585218212145731084654790315723305456411480063713885842465525744533806937311586087855300599977751261751094758139877488187502706578403 : ℚ)/46517678354918840995156723704832290198633047083988355858015372747560914439257467092876227245680868195888801382801035387746214504231337984, (-3721243806478820305841298998880633354110681269242612394756545251916724364520455163799377642256668027081536450466374419666396255360999633853 : ℚ)/186070713419675363980626894819329160794532188335953423432061490990243657757029868371504908982723472783555205531204141550984858016925351936, (-6698258005818558975658406467934178441195881805143248870987654489857874217463573744486897358406785278178575956339496177605291437962281365667 : ℚ)/372141426839350727961253789638658321589064376671906846864122981980487315514059736743009817965446945567110411062408283101969716033850703872, (-10419530384696170298947376559146953826202195566985917699577061010002676679030092140526453183561081539664365019161112123392692204470189309287 : ℚ)/744282853678701455922507579277316643178128753343813693728245963960974631028119473486019635930893891134220822124816566203939432067701407744, (-4093353248900447366815249389216545163965511466991969822584027686852667544110820236007363817485832736759856083840152998945795815416815884251 : ℚ)/186070713419675363980626894819329160794532188335953423432061490990243657757029868371504908982723472783555205531204141550984858016925351936, (-7442491511215602826679624132975322393859979503683499881976003090304204803682253901704949940484249407821854248111667987098363173707832381535 : ℚ)/372141426839350727961253789638658321589064376671906846864122981980487315514059736743009817965446945567110411062408283101969716033850703872, (-10419530384696170298947376559146953826202195566985917699577061010002676679030092140526453183561081539664365019161112123392692204470189309287 : ℚ)/744282853678701455922507579277316643178128753343813693728245963960974631028119473486019635930893891134220822124816566203939432067701407744, (0 : ℚ)]

def gridV115 : List ℚ :=
  [(0 : ℚ), (-2604872772500387941855853679414886797748460446589110261394155096146260142380754004125270892861482608911462536204171980451149502454331735827 : ℚ)/186070713419675363980626894819329160794532188335953423432061490990243657757029868371504908982723472783555205531204141550984858016925351936, (-14884983022431205653359248265950644852224607582087761028006343860979604817267898123762383409737277174892122897014548524777233755310674975287 : ℚ)/744282853678701455922507579277316643178128753343813693728245963960974631028119473486019635930893891134220822124816566203939432067701407744, (-65493923450780796064930521962742917524381173338765774147543555392253253301631445709175272374316013449151563352458374755356084354331672443341 : ℚ)/2977131414714805823690030317109266572712515013375254774912983855843898524112477893944078543723575564536883288499266264815757728270805630976, (-2604872772500387941855853679414886797748460446589110261394155096146260142380754004125270892861482608911462536204171980451149502454331735827 : ℚ)/186070713419675363980626894819329160794532188335953423432061490990243657757029868371504908982723472783555205531204141550984858016925351936, (-418641125363659935978650404245886154590512880781476843938426458127716988900954306541728647067724848847506837358309667701219717115573879597 : ℚ)/23258839177459420497578361852416145099316523541994177929007686373780457219628733546438113622840434097944400691400517693873107252115668992, (-59540129482851453033042152720747270041945257398123772314876289537234605028502569119425473257410117274550085389882052485439331654620072247771 : ℚ)/2977131414714805823690030317109266572712515013375254774912983855843898524112477893944078543723575564536883288499266264815757728270805630976, (-59540158055250244050489823813079412078216277271950558854047012278826949393040581545030618016184688600770368989468821172604030282394595876111 : ℚ)/2977131414714805823690030317109266572712515013375254774912983855843898524112477893944078543723575564536883288499266264815757728270805630976, (-14884983022431205653359248265950644852224607582087761028006343860979604817267898123762383409737277174892122897014548524777233755310674975287 : ℚ)/744282853678701455922507579277316643178128753343813693728245963960974631028119473486019635930893891134220822124816566203939432067701407744, (-59540129482851453033042152720747270041945257398123772314876289537234605028502569119425473257410117274550085389882052485439331654620072247771 : ℚ)/2977131414714805823690030317109266572712515013375254774912983855843898524112477893944078543723575564536883288499266264815757728270805630976, (-107172513851065745876211719591553618492179069692817952663010501288933108792847893469419443079101594562281312043525033508641615929042440746871 : ℚ)/5954262829429611647380060634218533145425030026750509549825967711687797048224955787888157087447151129073766576998532529631515456541611261952, (-333426124356854042958290622227762205839929308879608450167024884773359609204069616835244932929748228597432036483745702959517275955759592021197 : ℚ)/23817051317718446589520242536874132581700120107002038199303870846751188192899823151552628349788604516295066307994130118526061826166445047808, (-65493923450780796064930521962742917524381173338765774147543555392253253301631445709175272374316013449151563352458374755356084354331672443341 : ℚ)/2977131414714805823690030317109266572712515013375254774912983855843898524112477893944078543723575564536883288499266264815757728270805630976, (-59540158055250244050489823813079412078216277271950558854047012278826949393040581545030618016184688600770368989468821172604030282394595876111 : ℚ)/2977131414714805823690030317109266572712515013375254774912983855843898524112477893944078543723575564536883288499266264815757728270805630976, (-333426124356854042958290622227762205839929308879608450167024884773359609204069616835244932929748228597432036483745702959517275955759592021197 : ℚ)/23817051317718446589520242536874132581700120107002038199303870846751188192899823151552628349788604516295066307994130118526061826166445047808, (0 : ℚ)]

def gridV116 : List ℚ :=
  [(0 : ℚ), (-41678121538784681195789506236587815562827376566826715854525594761495487555733929843542862231073978338195075125796412077836620441097171696675 : ℚ)/2977131414714805823690030317109266572712515013375254774912983855843898524112477893944078543723575564536883288499266264815757728270805630976, (-238160632221000976201959295252317648828902297685568325528622750558277359251389448742969455676643520019612748610192098477004002384374838812839 : ℚ)/11908525658859223294760121268437066290850060053501019099651935423375594096449911575776314174894302258147533153997065059263030913083222523904, (-1047906754683685214102403251280326902500217033697500830523766984505113559622402986899599363435487591048496864003722641447320922000939491959627 : ℚ)/47634102635436893179040485073748265163400240214004076398607741693502376385799646303105256699577209032590132615988260237052123652332890095616, (-41678121538784681195789506236587815562827376566826715854525594761495487555733929843542862231073978338195075125796412077836620441097171696675 : ℚ)/2977131414714805823690030317109266572712515013375254774912983855843898524112477893944078543723575564536883288499266264815757728270805630976, (-53586256925532872938105859795776809375098831995850498859613926005208944816230727375428246287965623370909463546338498546453733776129427603199 : ℚ)/2977131414714805823690030317109266572712515013375254774912983855843898524112477893944078543723575564536883288499266264815757728270805630976, (-952645422481701829087805953944598036789921114356412538107895247965789530059970117666749055751025166063484835456459704607570414128888704319437 : ℚ)/47634102635436893179040485073748265163400240214004076398607741693502376385799646303105256699577209032590132615988260237052123652332890095616, (-1905291682652423303315394785492356502437529081510177758112447582626431501961180114084874600051636534024766103361563965841899433584496237360849 : ℚ)/95268205270873786358080970147496530326800480428008152797215483387004752771599292606210513399154418065180265231976520474104247304665780191232, (-238160632221000976201959295252317648828902297685568325528622750558277359251389448742969455676643520019612748610192098477004002384374838812839 : ℚ)/11908525658859223294760121268437066290850060053501019099651935423375594096449911575776314174894302258147533153997065059263030913083222523904, (-952645422481701829087805953944598036789921114356412538107895247965789530059970117666749055751025166063484835456459704607570414128888704319437 : ℚ)/47634102635436893179040485073748265163400240214004076398607741693502376385799646303105256699577209032590132615988260237052123652332890095616, (-1714765876466283701362468168547618978796580212543637591239160500899513501239708643943449435009676041323529173655927631000709213345073668553063 : ℚ)/95268205270873786358080970147496530326800480428008152797215483387004752771599292606210513399154418065180265231976520474104247304665780191232, (-1333708719407404580485837330885252606475257112821070440302142389041850612775891098948536455094230790499686120970095122644273684992817848690907 : ℚ)/95268205270873786358080970147496530326800480428008152797215483387004752771599292606210513399154418065180265231976520474104247304665780191232, (-1047906754683685214102403251280326902500217033697500830523766984505113559622402986899599363435487591048496864003722641447320922000939491959627 : ℚ)/47634102635436893179040485073748265163400240214004076398607741693502376385799646303105256699577209032590132615988260237052123652332890095616, (-1905291682652423303315394785492356502437529081510177758112447582626431501961180114084874600051636534024766103361563965841899433584496237360849 : ℚ)/95268205270873786358080970147496530326800480428008152797215483387004752771599292606210513399154418065180265231976520474104247304665780191232, (-1333708719407404580485837330885252606475257112821070440302142389041850612775891098948536455094230790499686120970095122644273684992817848690907 : ℚ)/95268205270873786358080970147496530326800480428008152797215483387004752771599292606210513399154418065180265231976520474104247304665780191232, (0 : ℚ)]

def gridV117 : List ℚ :=
  [(0 : ℚ), (-666852248713708085916581244455524413744007372150281260783788575318597465125047723921959146452379135888621035914720001211217542905614126107951 : ℚ)/47634102635436893179040485073748265163400240214004076398607741693502376385799646303105256699577209032590132615988260237052123652332890095616, (-3810583365304846606630789570984713009003355671802484237124372776796619497356177208672606415143774809209414260279623782122333383182273238020835 : ℚ)/190536410541747572716161940294993060653600960856016305594430966774009505543198585212421026798308836130360530463953040948208494609331560382464, (-16766566410246165216945452913392013476494553947826911619917127685186429000430555672888834629924183950168363500888345009177533604796107889949405 : ℚ)/762145642166990290864647761179972242614403843424065222377723867096038022172794340849684107193235344521442121855812163792833978437326241529856, (-666852248713708085916581244455524413744007372150281260783788575318597465125047723921959146452379135888621035914720001211217542905614126107951 : ℚ)/47634102635436893179040485073748265163400240214004076398607741693502376385799646303105256699577209032590132615988260237052123652332890095616, (-428691469116570925340617042136904745215182241733675487922224826667847936989154283548729678900639680004321534150789056573223051084792152654655 : ℚ)/23817051317718446589520242536874132581700120107002038199303870846751188192899823151552628349788604516295066307994130118526061826166445047808, (-15242375878641818309576099577339874175807436037203584061583111424287331021843983333968776023664752744462019209376731592186169064157076512615755 : ℚ)/762145642166990290864647761179972242614403843424065222377723867096038022172794340849684107193235344521442121855812163792833978437326241529856, (-7621191009254320970048750058309081186757736864172092769790981793900521128607785759315454440441102083613971124042699745553052941415125257137329 : ℚ)/381072821083495145432323880589986121307201921712032611188861933548019011086397170424842053596617672260721060927906081896416989218663120764928, (-3810583365304846606630789570984713009003355671802484237124372776796619497356177208672606415143774809209414260279623782122333383182273238020835 : ℚ)/190536410541747572716161940294993060653600960856016305594430966774009505543198585212421026798308836130360530463953040948208494609331560382464, (-15242375878641818309576099577339874175807436037203584061583111424287331021843983333968776023664752744462019209376731592186169064157076512615755 : ℚ)/762145642166990290864647761179972242614403843424065222377723867096038022172794340849684107193235344521442121855812163792833978437326241529856, (-27436336918235035535192093746781839512838300626620278028755698270814211968396700807256435878805069757502392420849116900926026500974271785202723 : ℚ)/1524291284333980581729295522359944485228807686848130444755447734192076044345588681699368214386470689042884243711624327585667956874652483059712, (-85357605603106715030077673363621983904388592635838297931775694607854210464624456154492309779623053496124791827387935155789289054018468325045399 : ℚ)/6097165137335922326917182089439777940915230747392521779021790936768304177382354726797472857545882756171536974846497310342671827498609932238848, (-16766566410246165216945452913392013476494553947826911619917127685186429000430555672888834629924183950168363500888345009177533604796107889949405 : ℚ)/762145642166990290864647761179972242614403843424065222377723867096038022172794340849684107193235344521442121855812163792833978437326241529856, (-7621191009254320970048750058309081186757736864172092769790981793900521128607785759315454440441102083613971124042699745553052941415125257137329 : ℚ)/381072821083495145432323880589986121307201921712032611188861933548019011086397170424842053596617672260721060927906081896416989218663120764928, (-85357605603106715030077673363621983904388592635838297931775694607854210464624456154492309779623053496124791827387935155789289054018468325045399 : ℚ)/6097165137335922326917182089439777940915230747392521779021790936768304177382354726797472857545882756171536974846497310342671827498609932238848, (0 : ℚ)]

def gridV118 : List ℚ :=
  [(0 : ℚ), (-10669669755259236643886698647082020868315246937697078406015049558509830875942396713599964539351644137319912799000628403345821941920393205219735 : ℚ)/762145642166990290864647761179972242614403843424065222377723867096038022172794340849684107193235344521442121855812163792833978437326241529856, (-60969528074034567760390000466472649527088274983633771925523675243554220976332821918546737282288621446873721037807448788370194057351975525987659 : ℚ)/3048582568667961163458591044719888970457615373696260889510895468384152088691177363398736428772941378085768487423248655171335913749304966119424, (-268265917704710301910177988418960962714937062974410850601232132949786430363404262829775995560302675229475471986948801446900230082039060567159227 : ℚ)/12194330274671844653834364178879555881830461494785043558043581873536608354764709453594945715091765512343073949692994620685343654997219864477696, (-10669669755259236643886698647082020868315246937697078406015049558509830875942396713599964539351644137319912799000628403345821941920393205219735 : ℚ)/762145642166990290864647761179972242614403843424065222377723867096038022172794340849684107193235344521442121855812163792833978437326241529856, (-13718168459117517767596046873390919764675745330874396456176804358494618971065984364634054388701433785412408126044492161558829481476061100447601 : ℚ)/762145642166990290864647761179972242614403843424065222377723867096038022172794340849684107193235344521442121855812163792833978437326241529856, (-243878734095681122315382740098952212987360213968533699524113725443901898181017156519714407833325078284782981325718243821567332171522985419759837 : ℚ)/12194330274671844653834364178879555881830461494785043558043581873536608354764709453594945715091765512343073949692994620685343654997219864477696, (-487757648200715251971306766913282982507321943923634144427191496254179929504089156885474673953678094615763704367790642960242604553435935161657587 : ℚ)/24388660549343689307668728357759111763660922989570087116087163747073216709529418907189891430183531024686147899385989241370687309994439728955392, (-60969528074034567760390000466472649527088274983633771925523675243554220976332821918546737282288621446873721037807448788370194057351975525987659 : ℚ)/3048582568667961163458591044719888970457615373696260889510895468384152088691177363398736428772941378085768487423248655171335913749304966119424, (-243878734095681122315382740098952212987360213968533699524113725443901898181017156519714407833325078284782981325718243821567332171522985419759837 : ℚ)/12194330274671844653834364178879555881830461494785043558043581873536608354764709453594945715091765512343073949692994620685343654997219864477696, (-438982605851238241683206815183955292559798322229780382503752278406683535819795487735888918822754716301718712879880103374516597589554361798806027 : ℚ)/24388660549343689307668728357759111763660922989570087116087163747073216709529418907189891430183531024686147899385989241370687309994439728955392, (-682862659330877555502749594491381328869659164327524033561197604040286587010250072434046198807829574500363088077383221961699553799520964588233389 : ℚ)/48777321098687378615337456715518223527321845979140174232174327494146433419058837814379782860367062049372295798771978482741374619988879457910784, (-268265917704710301910177988418960962714937062974410850601232132949786430363404262829775995560302675229475471986948801446900230082039060567159227 : ℚ)/12194330274671844653834364178879555881830461494785043558043581873536608354764709453594945715091765512343073949692994620685343654997219864477696, (-487757648200715251971306766913282982507321943923634144427191496254179929504089156885474673953678094615763704367790642960242604553435935161657587 : ℚ)/24388660549343689307668728357759111763660922989570087116087163747073216709529418907189891430183531024686147899385989241370687309994439728955392, (-682862659330877555502749594491381328869659164327524033561197604040286587010250072434046198807829574500363088077383221961699553799520964588233389 : ℚ)/48777321098687378615337456715518223527321845979140174232174327494146433419058837814379782860367062049372295798771978482741374619988879457910784, (0 : ℚ)]

def gridV119 : List ℚ :=
  [(0 : ℚ), (-170715211206213430060155346727243967940882705552704714932334672785108628719131055685077758709592698650146078687680925668674143405935012613134699 : ℚ)/12194330274671844653834364178879555881830461494785043558043581873536608354764709453594945715091765512343073949692994620685343654997219864477696, (-975515296401430503942613533826565965278854928409324526991949559647160274587942600523134894092742000001271711950349744573363856508893840161915183 : ℚ)/48777321098687378615337456715518223527321845979140174232174327494146433419058837814379782860367062049372295798771978482741374619988879457910784, (-4292267218835292937628000801866892526122282703968440317584886925730397310179590368189811337923987839266092079776609356000016404752033712854147309 : ℚ)/195109284394749514461349826862072894109287383916560696928697309976585733676235351257519131441468248197489183195087913930965498479955517831643136, (-170715211206213430060155346727243967940882705552704714932334672785108628719131055685077758709592698650146078687680925668674143405935012613134699 : ℚ)/12194330274671844653834364178879555881830461494785043558043581873536608354764709453594945715091765512343073949692994620685343654997219864477696, (-54872825731404780210400851897994411586487980313851062696566945247010467951209703888997757246637663494951900989098144841451520360931554720231241 : ℚ)/3048582568667961163458591044719888970457615373696260889510895468384152088691177363398736428772941378085768487423248655171335913749304966119424, (-3902070300602563489079404155251025994906190529654331280927605542897640426131302503247345327033278485952956145466349468637072085049734827438185403 : ℚ)/195109284394749514461349826862072894109287383916560696928697309976585733676235351257519131441468248197489183195087913930965498479955517831643136, (-3902071619986521680583564194459499818250708744497045918972401023682241613772386955321803844395970593234141736318792127972422383836790487816274877 : ℚ)/195109284394749514461349826862072894109287383916560696928697309976585733676235351257519131441468248197489183195087913930965498479955517831643136, (-975515296401430503942613533826565965278854928409324526991949559647160274587942600523134894092742000001271711950349744573363856508893840161915183 : ℚ)/48777321098687378615337456715518223527321845979140174232174327494146433419058837814379782860367062049372295798771978482741374619988879457910784, (-3902070300602563489079404155251025994906190529654331280927605542897640426131302503247345327033278485952956145466349468637072085049734827438185403 : ℚ)/195109284394749514461349826862072894109287383916560696928697309976585733676235351257519131441468248197489183195087913930965498479955517831643136, (-7023739506715572740013102186940697098603401954797548809029790579011958241524773495498568385147533280349386864166058184345801297207729721454405231 : ℚ)/390218568789499028922699653724145788218574767833121393857394619953171467352470702515038262882936496394978366390175827861930996959911035663286272, (-21851658296493632660893025946687330518936391829744318490893751938511420034561430795674698715933857048400488506983411527431966483117122556445967185 : ℚ)/1560874275157996115690798614896583152874299071332485575429578479812685869409882810060153051531745985579913465560703311447723987839644142653145088, (-4292267218835292937628000801866892526122282703968440317584886925730397310179590368189811337923987839266092079776609356000016404752033712854147309 : ℚ)/195109284394749514461349826862072894109287383916560696928697309976585733676235351257519131441468248197489183195087913930965498479955517831643136, (-3902071619986521680583564194459499818250708744497045918972401023682241613772386955321803844395970593234141736318792127972422383836790487816274877 : ℚ)/195109284394749514461349826862072894109287383916560696928697309976585733676235351257519131441468248197489183195087913930965498479955517831643136, (-21851658296493632660893025946687330518936391829744318490893751938511420034561430795674698715933857048400488506983411527431966483117122556445967185 : ℚ)/1560874275157996115690798614896583152874299071332485575429578479812685869409882810060153051531745985579913465560703311447723987839644142653145088, (0 : ℚ)]

def gridV120 : List ℚ :=
  [(0 : ℚ), (-2731450637323510222010998377965525316535480819558321086795056684716348010360057436744929176318783658718575625721731678642250254387494283969796971 : ℚ)/195109284394749514461349826862072894109287383916560696928697309976585733676235351257519131441468248197489183195087913930965498479955517831643136, (-15608286479946086722334256777837999275116523302484633580990136631839369779727662115304701943412890976732667431546441137296656164144660256236362959 : ℚ)/780437137578998057845399307448291576437149535666242787714789239906342934704941405030076525765872992789956732780351655723861993919822071326572544, (-68676459260890509177074117200404305062846218054885310948417993092036886455073698502230714127452168034957797946155891120081924913187380195640931115 : ℚ)/3121748550315992231381597229793166305748598142664971150859156959625371738819765620120306103063491971159826931121406622895447975679288285306290176, (-2731450637323510222010998377965525316535480819558321086795056684716348010360057436744929176318783658718575625721731678642250254387494283969796971 : ℚ)/195109284394749514461349826862072894109287383916560696928697309976585733676235351257519131441468248197489183195087913930965498479955517831643136, (-3511869753357786370006551093470348549830123058522886880790028423783579951921915321253656383117499320533255068789128487570626668198570073535634323 : ℚ)/195109284394749514461349826862072894109287383916560696928697309976585733676235351257519131441468248197489183195087913930965498479955517831643136, (-62433279537070456636102519533231953250395252566824433548958592539351944264374183832723985726825329163660855311431646591055902942380850229859100397 : ℚ)/3121748550315992231381597229793166305748598142664971150859156959625371738819765620120306103063491971159826931121406622895447975679288285306290176, (-124866597755998273474913052328767790833059993381905500393079566862914511782103998845967091604367354335902602888570330652571155432954138242338762309 : ℚ)/6243497100631984462763194459586332611497196285329942301718313919250743477639531240240612206126983942319653862242813245790895951358576570612580352, (-15608286479946086722334256777837999275116523302484633580990136631839369779727662115304701943412890976732667431546441137296656164144660256236362959 : ℚ)/780437137578998057845399307448291576437149535666242787714789239906342934704941405030076525765872992789956732780351655723861993919822071326572544, (-62433279537070456636102519533231953250395252566824433548958592539351944264374183832723985726825329163660855311431646591055902942380850229859100397 : ℚ)/3121748550315992231381597229793166305748598142664971150859156959625371738819765620120306103063491971159826931121406622895447975679288285306290176, (-112380093230689706420651765886192946899765232511643012832464410335625527811136576664313995364820027202781486187641282891710731859973671913363615119 : ℚ)/6243497100631984462763194459586332611497196285329942301718313919250743477639531240240612206126983942319653862242813245790895951358576570612580352, (-43703414071898806048773712480006923781819947294230694549499030078698586705255552956742791332178843187695582319139564079646667128853825832992070947 : ℚ)/3121748550315992231381597229793166305748598142664971150859156959625371738819765620120306103063491971159826931121406622895447975679288285306290176, (-68676459260890509177074117200404305062846218054885310948417993092036886455073698502230714127452168034957797946155891120081924913187380195640931115 : ℚ)/3121748550315992231381597229793166305748598142664971150859156959625371738819765620120306103063491971159826931121406622895447975679288285306290176, (-124866597755998273474913052328767790833059993381905500393079566862914511782103998845967091604367354335902602888570330652571155432954138242338762309 : ℚ)/6243497100631984462763194459586332611497196285329942301718313919250743477639531240240612206126983942319653862242813245790895951358576570612580352, (-43703414071898806048773712480006923781819947294230694549499030078698586705255552956742791332178843187695582319139564079646667128853825832992070947 : ℚ)/3121748550315992231381597229793166305748598142664971150859156959625371738819765620120306103063491971159826931121406622895447975679288285306290176, (0 : ℚ)]

def gridV121 : List ℚ :=
  [(0 : ℚ), (-43703316592987265321786051893374661046327536957474436602189634025464453367675318767419350284221514864899817140711288425043611830168205971564378311 : ℚ)/3121748550315992231381597229793166305748598142664971150859156959625371738819765620120306103063491971159826931121406622895447975679288285306290176, (-249733195511996546949826104657535581683029493359782600026963394022712250161312912044074082324404543855088447848970217176949856245032230563235022363 : ℚ)/12486994201263968925526388919172665222994392570659884603436627838501486955279062480481224412253967884639307724485626491581791902717153141225160704, (-1098826041916173043018350702594996264743896794845315626814212983838842313187226747675778876201772468345113268093300513409074734027308161177940638717 : ℚ)/49947976805055875702105555676690660891977570282639538413746511354005947821116249921924897649015871538557230897942505966327167610868612564900642816, (-43703316592987265321786051893374661046327536957474436602189634025464453367675318767419350284221514864899817140711288425043611830168205971564378311 : ℚ)/3121748550315992231381597229793166305748598142664971150859156959625371738819765620120306103063491971159826931121406622895447975679288285306290176, (-28095023307672426605162941471548236727054996452407203113216635121016785277422258460095987054293456992720081578596437065472602680976908193009014765 : ℚ)/1560874275157996115690798614896583152874299071332485575429578479812685869409882810060153051531745985579913465560703311447723987839644142653145088, (-998934740751807795284364828536533611857097487048776789797530940741932559388288380667329050346142834412774509528107446755621619889571728983612538155 : ℚ)/49947976805055875702105555676690660891977570282639538413746511354005947821116249921924897649015871538557230897942505966327167610868612564900642816, (-31216719508488839263209543532410512713613309896778013173463679579369469885944538797706475869482649332831772198656044175975944858481630153810460795 : ℚ)/1560874275157996115690798614896583152874299071332485575429578479812685869409882810060153051531745985579913465560703311447723987839644142653145088, (-249733195511996546949826104657535581683029493359782600026963394022712250161312912044074082324404543855088447848970217176949856245032230563235022363 : ℚ)/12486994201263968925526388919172665222994392570659884603436627838501486955279062480481224412253967884639307724485626491581791902717153141225160704, (-998934740751807795284364828536533611857097487048776789797530940741932559388288380667329050346142834412774509528107446755621619889571728983612538155 : ℚ)/49947976805055875702105555676690660891977570282639538413746511354005947821116249921924897649015871538557230897942505966327167610868612564900642816, (-1798085319512300443468955339570025714150171784321746979417008444709121842314609727819063506959036068493018288430225483962622629172970167441286958939 : ℚ)/99895953610111751404211111353381321783955140565279076827493022708011895642232499843849795298031743077114461795885011932654335221737225129801285632, (-5594048432796794955491969370418045375975482493392038355412624991139170272152167904863446466427775580108968190540218409504393789126065824460107862651 : ℚ)/399583814440447005616844445413525287135820562261116307309972090832047582568929999375399181192126972308457847183540047730617340886948900519205142528, (-1098826041916173043018350702594996264743896794845315626814212983838842313187226747675778876201772468345113268093300513409074734027308161177940638717 : ℚ)/49947976805055875702105555676690660891977570282639538413746511354005947821116249921924897649015871538557230897942505966327167610868612564900642816, (-31216719508488839263209543532410512713613309896778013173463679579369469885944538797706475869482649332831772198656044175975944858481630153810460795 : ℚ)/1560874275157996115690798614896583152874299071332485575429578479812685869409882810060153051531745985579913465560703311447723987839644142653145088, (-5594048432796794955491969370418045375975482493392038355412624991139170272152167904863446466427775580108968190540218409504393789126065824460107862651 : ℚ)/399583814440447005616844445413525287135820562261116307309972090832047582568929999375399181192126972308457847183540047730617340886948900519205142528, (0 : ℚ)]

def gridV122 : List ℚ :=
  [(0 : ℚ), (-699254625150380896780379399680110780576757183091577509755201522446710293672508504716444277544654130795005599938529373367232292624388932558465296543 : ℚ)/49947976805055875702105555676690660891977570282639538413746511354005947821116249921924897649015871538557230897942505966327167610868612564900642816, (-3995740097086571425690821572148545627477779719555358480129785068534357958177740280923548123986251095127476092547588226105036741964872195232561134131 : ℚ)/199791907220223502808422222706762643567910281130558153654986045416023791284464999687699590596063486154228923591770023865308670443474450259602571264, (-17581256158383421206762137655884111947043098869627701795466784107068483774214315227187006407278463901107764773089046083363790237842883945382235510683 : ℚ)/799167628880894011233688890827050574271641124522232614619944181664095165137859998750798362384253944616915694367080095461234681773897801038410285056, (-699254625150380896780379399680110780576757183091577509755201522446710293672508504716444277544654130795005599938529373367232292624388932558465296543 : ℚ)/49947976805055875702105555676690660891977570282639538413746511354005947821116249921924897649015871538557230897942505966327167610868612564900642816, (-899042659756150221734477669785012857108904905352816688190112742948327374351514692613811561594414354142447285631260916027754123867848943335939560165 : ℚ)/49947976805055875702105555676690660891977570282639538413746511354005947821116249921924897649015871538557230897942505966327167610868612564900642816, (-15982989101103238636491153393404244685827887700919937492547548097569298450751779471874148657960013707902684347728136608127454119441754764185042559485 : ℚ)/799167628880894011233688890827050574271641124522232614619944181664095165137859998750798362384253944616915694367080095461234681773897801038410285056, (-31965986514475055750967635821013416095639265361285494601066381429104836005712737184108478546403080503052957822538917255222327215087478100696045431367 : ℚ)/1598335257761788022467377781654101148543282249044465229239888363328190330275719997501596724768507889233831388734160190922469363547795602076820570112, (-3995740097086571425690821572148545627477779719555358480129785068534357958177740280923548123986251095127476092547588226105036741964872195232561134131 : ℚ)/199791907220223502808422222706762643567910281130558153654986045416023791284464999687699590596063486154228923591770023865308670443474450259602571264, (-15982989101103238636491153393404244685827887700919937492547548097569298450751779471874148657960013707902684347728136608127454119441754764185042559485 : ℚ)/799167628880894011233688890827050574271641124522232614619944181664095165137859998750798362384253944616915694367080095461234681773897801038410285056, (-28769421224458616569942469915894436586322134936748479432612686443175829325331835279102638315584072757354452117542733618058711061241682015182078854899 : ℚ)/1598335257761788022467377781654101148543282249044465229239888363328190330275719997501596724768507889233831388734160190922469363547795602076820570112, (-44752471250584002116373747172598219390018229633889994186144560645075053870378062036335644813386143568889304128589582637494245443512302911012919008659 : ℚ)/3196670515523576044934755563308202297086564498088930458479776726656380660551439995003193449537015778467662777468320381844938727095591204153641140224, (-17581256158383421206762137655884111947043098869627701795466784107068483774214315227187006407278463901107764773089046083363790237842883945382235510683 : ℚ)/799167628880894011233688890827050574271641124522232614619944181664095165137859998750798362384253944616915694367080095461234681773897801038410285056, (-31965986514475055750967635821013416095639265361285494601066381429104836005712737184108478546403080503052957822538917255222327215087478100696045431367 : ℚ)/1598335257761788022467377781654101148543282249044465229239888363328190330275719997501596724768507889233831388734160190922469363547795602076820570112, (-44752471250584002116373747172598219390018229633889994186144560645075053870378062036335644813386143568889304128589582637494245443512302911012919008659 : ℚ)/3196670515523576044934755563308202297086564498088930458479776726656380660551439995003193449537015778467662777468320381844938727095591204153641140224, (0 : ℚ)]

def gridV123 : List ℚ :=
  [(0 : ℚ), (-11188096865593589910983938740836090752492069197855167886530986311778603795411693068995369842926778979494203329193829479146217089707721499848590846019 : ℚ)/799167628880894011233688890827050574271641124522232614619944181664095165137859998750798362384253944616915694367080095461234681773897801038410285056, (-63931973028950111501935271642026832192360739144713171553544235517210198513640188886753910853647276747482219597669685456902547141947440194499754592935 : ℚ)/3196670515523576044934755563308202297086564498088930458479776726656380660551439995003193449537015778467662777468320381844938727095591204153641140224, (-281300677387061896837706666784359369148330318816661496953330378138593263360985945052479693002829212076320904537333170161637278383247832775564294102029 : ℚ)/12786682062094304179739022253232809188346257992355721833919106906625522642205759980012773798148063113870651109873281527379754908382364816614564560896, (-11188096865593589910983938740836090752492069197855167886530986311778603795411693068995369842926778979494203329193829479146217089707721499848590846019 : ℚ)/799167628880894011233688890827050574271641124522232614619944181664095165137859998750798362384253944616915694367080095461234681773897801038410285056, (-449522206632165883905351092435850571669738111684680790754975355823063946506862383412048675400864071509854985400876973096814696448394872907975843369 : ℚ)/24973988402527937851052777838345330445988785141319769206873255677002973910558124960962448824507935769278615448971252983163583805434306282450321408, (-255728313017828993463379445200864219918356276028775982671458323713749236970813478869931148827080247535429128719018521287236659748382668975091475677595 : ℚ)/12786682062094304179739022253232809188346257992355721833919106906625522642205759980012773798148063113870651109873281527379754908382364816614564560896, (-255728373942851140373319569064163758036314667060176075128393605872995873606959152365168086161817732591803379197628621537537139314977249366683516877195 : ℚ)/12786682062094304179739022253232809188346257992355721833919106906625522642205759980012773798148063113870651109873281527379754908382364816614564560896, (-63931973028950111501935271642026832192360739144713171553544235517210198513640188886753910853647276747482219597669685456902547141947440194499754592935 : ℚ)/3196670515523576044934755563308202297086564498088930458479776726656380660551439995003193449537015778467662777468320381844938727095591204153641140224, (-255728313017828993463379445200864219918356276028775982671458323713749236970813478869931148827080247535429128719018521287236659748382668975091475677595 : ℚ)/12786682062094304179739022253232809188346257992355721833919106906625522642205759980012773798148063113870651109873281527379754908382364816614564560896, (-460311562144353610288352478397722715855121710549047403083874780107300497736737246975299275676920948038727647453123414891973151339196610252372280834023 : ℚ)/25573364124188608359478044506465618376692515984711443667838213813251045284411519960025547596296126227741302219746563054759509816764729633229129121792, (-1432081536531482341403893771932698460554666945679365281501171332266896857051326127836422796892830066684414047756083571286039432784308450806759183144853 : ℚ)/102293456496754433437912178025862473506770063938845774671352855253004181137646079840102190385184504910965208878986252219038039267058918532916516487168, (-281300677387061896837706666784359369148330318816661496953330378138593263360985945052479693002829212076320904537333170161637278383247832775564294102029 : ℚ)/12786682062094304179739022253232809188346257992355721833919106906625522642205759980012773798148063113870651109873281527379754908382364816614564560896, (-255728373942851140373319569064163758036314667060176075128393605872995873606959152365168086161817732591803379197628621537537139314977249366683516877195 : ℚ)/12786682062094304179739022253232809188346257992355721833919106906625522642205759980012773798148063113870651109873281527379754908382364816614564560896, (-1432081536531482341403893771932698460554666945679365281501171332266896857051326127836422796892830066684414047756083571286039432784308450806759183144853 : ℚ)/102293456496754433437912178025862473506770063938845774671352855253004181137646079840102190385184504910965208878986252219038039267058918532916516487168, (0 : ℚ)]

def gridV124 : List ℚ :=
  [(0 : ℚ), (-179009885002336008465494988690392877564401752224128706150224133216302321490371106219490394474813056932591122155630537457259451554555234742729590489139 : ℚ)/12786682062094304179739022253232809188346257992355721833919106906625522642205759980012773798148063113870651109873281527379754908382364816614564560896, (-1022913495771404561493278276256655032153916335617841759324866204763987706445554325608967974911903875989752638242154096843262597887504956537842636884087 : ℚ)/51146728248377216718956089012931236753385031969422887335676427626502090568823039920051095192592252455482604439493126109519019633529459266458258243584, (-4500819323632813164564034242839909964499357682269529584807789363870725670036570655169682244352177512789463809089306448724585460747514453274924090183435 : ℚ)/204586912993508866875824356051724947013540127877691549342705710506008362275292159680204380770369009821930417757972504438076078534117837065833032974336, (-179009885002336008465494988690392877564401752224128706150224133216302321490371106219490394474813056932591122155630537457259451554555234742729590489139 : ℚ)/12786682062094304179739022253232809188346257992355721833919106906625522642205759980012773798148063113870651109873281527379754908382364816614564560896, (-230155781072176805144176239198861357929725272118808066244760335371651301872798052524723545449094715347880776547197810899627810559851316675525097644263 : ℚ)/12786682062094304179739022253232809188346257992355721833919106906625522642205759980012773798148063113870651109873281527379754908382364816614564560896, (-4091660153113732431015790822155925874741859641309564680327937240463185766113349798799337433479764573647874973885679160813944778599330278277254689612301 : ℚ)/204586912993508866875824356051724947013540127877691549342705710506008362275292159680204380770369009821930417757972504438076078534117837065833032974336, (-8183322092434581995932011569047376338492873199705704113781594902429836288532543893102686086644080990281371308340550357231753824045784485647982774008953 : ℚ)/409173825987017733751648712103449894027080255755383098685411421012016724550584319360408761540738019643860835515945008876152157068235674131666065948672, (-1022913495771404561493278276256655032153916335617841759324866204763987706445554325608967974911903875989752638242154096843262597887504956537842636884087 : ℚ)/51146728248377216718956089012931236753385031969422887335676427626502090568823039920051095192592252455482604439493126109519019633529459266458258243584, (-4091660153113732431015790822155925874741859641309564680327937240463185766113349798799337433479764573647874973885679160813944778599330278277254689612301 : ℚ)/204586912993508866875824356051724947013540127877691549342705710506008362275292159680204380770369009821930417757972504438076078534117837065833032974336, (-7364997052163714847575227078124772689878273788423678342015691326008996204766586373832591788806162726660563904913791312262175801236182854022439121850679 : ℚ)/409173825987017733751648712103449894027080255755383098685411421012016724550584319360408761540738019643860835515945008876152157068235674131666065948672, (-5728335148668074286032352145829185611674533948467093994135904310388621704926693013930651027296129015563758686585613997535673996173035959856030723058433 : ℚ)/409173825987017733751648712103449894027080255755383098685411421012016724550584319360408761540738019643860835515945008876152157068235674131666065948672, (-4500819323632813164564034242839909964499357682269529584807789363870725670036570655169682244352177512789463809089306448724585460747514453274924090183435 : ℚ)/204586912993508866875824356051724947013540127877691549342705710506008362275292159680204380770369009821930417757972504438076078534117837065833032974336, (-8183322092434581995932011569047376338492873199705704113781594902429836288532543893102686086644080990281371308340550357231753824045784485647982774008953 : ℚ)/409173825987017733751648712103449894027080255755383098685411421012016724550584319360408761540738019643860835515945008876152157068235674131666065948672, (-5728335148668074286032352145829185611674533948467093994135904310388621704926693013930651027296129015563758686585613997535673996173035959856030723058433 : ℚ)/409173825987017733751648712103449894027080255755383098685411421012016724550584319360408761540738019643860835515945008876152157068235674131666065948672, (0 : ℚ)]

def gridV125 : List ℚ :=
  [(0 : ℚ), (-2864163073062964682807787543865396921143964560867280398247509789621810562173523120266028115377903974933570650811439994708887724879248999276694422392031 : ℚ)/204586912993508866875824356051724947013540127877691549342705710506008362275292159680204380770369009821930417757972504438076078534117837065833032974336, (-16366644184869163991864023138094752677055007738428507898053524055035706273206829515391737215938937604617641657786932009372772669912584905243575881621459 : ℚ)/818347651974035467503297424206899788054160511510766197370822842024033449101168638720817523081476039287721671031890017752304314136471348263332131897344, (-72013233566696975170253509915736384222252257642039217593562320138957318006969157097837837436370423844646981431310044384642181260530154895792262678696221 : ℚ)/3273390607896141870013189696827599152216642046043064789483291368096133796404674554883270092325904157150886684127560071009217256545885393053328527589376, (-2864163073062964682807787543865396921143964560867280398247509789621810562173523120266028115377903974933570650811439994708887724879248999276694422392031 : ℚ)/204586912993508866875824356051724947013540127877691549342705710506008362275292159680204380770369009821930417757972504438076078534117837065833032974336, (-1841249263040928711893806769531193172478226114483057044315214612774253263209364309606443577599601642056326615053266041099746165136703737921403794488251 : ℚ)/102293456496754433437912178025862473506770063938845774671352855253004181137646079840102190385184504910965208878986252219038039267058918532916516487168, (-65466667186289329244042144285516195265839752676594793953653104782203531161884679080997111679962142332103011688849303748167818498116034881008978556836107 : ℚ)/3273390607896141870013189696827599152216642046043064789483291368096133796404674554883270092325904157150886684127560071009217256545885393053328527589376, (-32733340139174015268757915338446933962287229461023581946061073012011631037768303706829340799644732856514322477009862906873286418322536864130832915303615 : ℚ)/1636695303948070935006594848413799576108321023021532394741645684048066898202337277441635046162952078575443342063780035504608628272942696526664263794688, (-16366644184869163991864023138094752677055007738428507898053524055035706273206829515391737215938937604617641657786932009372772669912584905243575881621459 : ℚ)/818347651974035467503297424206899788054160511510766197370822842024033449101168638720817523081476039287721671031890017752304314136471348263332131897344, (-65466667186289329244042144285516195265839752676594793953653104782203531161884679080997111679962142332103011688849303748167818498116034881008978556836107 : ℚ)/3273390607896141870013189696827599152216642046043064789483291368096133796404674554883270092325904157150886684127560071009217256545885393053328527589376, (-117840129591426207272327340845804878463669308356417675485706922001504772394107572302208860082982982770914854549789335870471644980592093345963881396482323 : ℚ)/6546781215792283740026379393655198304433284092086129578966582736192267592809349109766540184651808314301773368255120142018434513091770786106657055178752, (-366613977389980591883982154107480377317343905744330025491992013960538314195245271791482800456907211703199376916219092026609312645017899304610332847346719 : ℚ)/26187124863169134960105517574620793217733136368344518315866330944769070371237396439066160738607233257207093473020480568073738052367083144426628220715008, (-72013233566696975170253509915736384222252257642039217593562320138957318006969157097837837436370423844646981431310044384642181260530154895792262678696221 : ℚ)/3273390607896141870013189696827599152216642046043064789483291368096133796404674554883270092325904157150886684127560071009217256545885393053328527589376, (-32733340139174015268757915338446933962287229461023581946061073012011631037768303706829340799644732856514322477009862906873286418322536864130832915303615 : ℚ)/1636695303948070935006594848413799576108321023021532394741645684048066898202337277441635046162952078575443342063780035504608628272942696526664263794688, (-366613977389980591883982154107480377317343905744330025491992013960538314195245271791482800456907211703199376916219092026609312645017899304610332847346719 : ℚ)/26187124863169134960105517574620793217733136368344518315866330944769070371237396439066160738607233257207093473020480568073738052367083144426628220715008, (0 : ℚ)]

def gridV126 : List ℚ :=
  [(0 : ℚ), (-45826681189344594288258817166633484893673316943805150635048571483813108423980511028190668390573270797953423865586380388015510147069096198774912454684967 : ℚ)/3273390607896141870013189696827599152216642046043064789483291368096133796404674554883270092325904157150886684127560071009217256545885393053328527589376, (-261866721113392122150063322707575471698851926400325452932411258097501317871280363488125646739965204021777530353403696842353469611549167168763771327060635 : ℚ)/13093562431584567480052758787310396608866568184172259157933165472384535185618698219533080369303616628603546736510240284036869026183541572213314110357504, (-1152213560486698315582365759890283603610634095961516885881131065194791050971654842803595394105300924145482148566003916310624687147104867537001792520489339 : ℚ)/52374249726338269920211035149241586435466272736689036631732661889538140742474792878132321477214466514414186946040961136147476104734166288853256441430016, (-45826681189344594288258817166633484893673316943805150635048571483813108423980511028190668390573270797953423865586380388015510147069096198774912454684967 : ℚ)/3273390607896141870013189696827599152216642046043064789483291368096133796404674554883270092325904157150886684127560071009217256545885393053328527589376, (-58920064795713103636163670422902439231973176856243037083834129501104453589337269609477160127593610722179104461345402139100881579138450932945274033349913 : ℚ)/3273390607896141870013189696827599152216642046043064789483291368096133796404674554883270092325904157150886684127560071009217256545885393053328527589376, (-1047468210318827343309647043947612043687847358963010644439382866090559866061465809063219055290677941818852424060483841530834053340601618794372550017283869 : ℚ)/52374249726338269920211035149241586435466272736689036631732661889538140742474792878132321477214466514414186946040961136147476104734166288853256441430016, (-2094936804472204205470537271740062317234112850056349175052691471574476150801048042790424120903641303418424196753702699729606217791500064874097343643951195 : ℚ)/104748499452676539840422070298483172870932545473378073263465323779076281484949585756264642954428933028828373892081922272294952209468332577706512882860032, (-261866721113392122150063322707575471698851926400325452932411258097501317871280363488125646739965204021777530353403696842353469611549167168763771327060635 : ℚ)/13093562431584567480052758787310396608866568184172259157933165472384535185618698219533080369303616628603546736510240284036869026183541572213314110357504, (-1047468210318827343309647043947612043687847358963010644439382866090559866061465809063219055290677941818852424060483841530834053340601618794372550017283869 : ℚ)/52374249726338269920211035149241586435466272736689036631732661889538140742474792878132321477214466514414186946040961136147476104734166288853256441430016, (-1885444664551465066918033422461055971193467715925048768686832217790712775936905938402449299158921298254079551785003947856347630840105749981299728594837339 : ℚ)/104748499452676539840422070298483172870932545473378073263465323779076281484949585756264642954428933028828373892081922272294952209468332577706512882860032, (-2932915688197148899643093795912486244590343185426115169380676520161823654729366705691931596853953590300307375885955352390785454024775371192332227579807769 : ℚ)/209496998905353079680844140596966345741865090946756146526930647558152562969899171512529285908857866057656747784163844544589904418936665155413025765720064, (-1152213560486698315582365759890283603610634095961516885881131065194791050971654842803595394105300924145482148566003916310624687147104867537001792520489339 : ℚ)/52374249726338269920211035149241586435466272736689036631732661889538140742474792878132321477214466514414186946040961136147476104734166288853256441430016, (-2094936804472204205470537271740062317234112850056349175052691471574476150801048042790424120903641303418424196753702699729606217791500064874097343643951195 : ℚ)/104748499452676539840422070298483172870932545473378073263465323779076281484949585756264642954428933028828373892081922272294952209468332577706512882860032, (-2932915688197148899643093795912486244590343185426115169380676520161823654729366705691931596853953590300307375885955352390785454024775371192332227579807769 : ℚ)/209496998905353079680844140596966345741865090946756146526930647558152562969899171512529285908857866057656747784163844544589904418936665155413025765720064, (0 : ℚ)]

def gridV127 : List ℚ :=
  [(0 : ℚ), (-733227954779961183767964308214960754636904174337207240439674723926709706667026278916929282289847196616721830607171788086966512621113521984497773720630171 : ℚ)/52374249726338269920211035149241586435466272736689036631732661889538140742474792878132321477214466514414186946040961136147476104734166288853256441430016, (-4189873608944408410941074543480124634472658425809792729016764335160218458155167556248775604554544744725823272431438177842429035973953342146340227332365983 : ℚ)/209496998905353079680844140596966345741865090946756146526930647558152562969899171512529285908857866057656747784163844544589904418936665155413025765720064, (-18435443697403815665264451728470383480793417257401650752278918390100109419410099070308504142839666208957155845603530285964998586409539072812201357847063341 : ℚ)/837987995621412318723376562387865382967460363787024586107722590232610251879596686050117143635431464230626991136655378178359617675746660621652103062880256, (-733227954779961183767964308214960754636904174337207240439674723926709706667026278916929282289847196616721830607171788086966512621113521984497773720630171 : ℚ)/52374249726338269920211035149241586435466272736689036631732661889538140742474792878132321477214466514414186946040961136147476104734166288853256441430016, (-235680583068933133364754177807631996399460509846699494767815364224543231776680209217051622566869258933050328569967193986261939771397934169572104577596759 : ℚ)/13093562431584567480052758787310396608866568184172259157933165472384535185618698219533080369303616628603546736510240284036869026183541572213314110357504, (-16759513871716089408277659339192338536686648079106805118888580131715898271937555552157465549385009555230263017764981954972887387255278579191940148114371451 : ℚ)/837987995621412318723376562387865382967460363787024586107722590232610251879596686050117143635431464230626991136655378178359617675746660621652103062880256, (-16759516685042945897693072668696156766396045583452952073385656683997388131047973132939389405352836602414637476372144190262829000699726574563214394420949113 : ℚ)/837987995621412318723376562387865382967460363787024586107722590232610251879596686050117143635431464230626991136655378178359617675746660621652103062880256, (-4189873608944408410941074543480124634472658425809792729016764335160218458155167556248775604554544744725823272431438177842429035973953342146340227332365983 : ℚ)/209496998905353079680844140596966345741865090946756146526930647558152562969899171512529285908857866057656747784163844544589904418936665155413025765720064, (-16759513871716089408277659339192338536686648079106805118888580131715898271937555552157465549385009555230263017764981954972887387255278579191940148114371451 : ℚ)/837987995621412318723376562387865382967460363787024586107722590232610251879596686050117143635431464230626991136655378178359617675746660621652103062880256, (-30167152615747509644296787647618014280982941548385314968626731392828413394614215747025426224071686844892746503582114120892748438705873385204573264559363039 : ℚ)/1675975991242824637446753124775730765934920727574049172215445180465220503759193372100234287270862928461253982273310756356719235351493321243304206125760512, (-93853415456381891186614695851413140834237461108996337159305237643978660909581869146840594958692440485969496392507288345971567013709502788842876698542765465 : ℚ)/6703903964971298549787012499102923063739682910296196688861780721860882015036773488400937149083451713845015929093243025426876941405973284973216824503042048, (-18435443697403815665264451728470383480793417257401650752278918390100109419410099070308504142839666208957155845603530285964998586409539072812201357847063341 : ℚ)/837987995621412318723376562387865382967460363787024586107722590232610251879596686050117143635431464230626991136655378178359617675746660621652103062880256, (-16759516685042945897693072668696156766396045583452952073385656683997388131047973132939389405352836602414637476372144190262829000699726574563214394420949113 : ℚ)/837987995621412318723376562387865382967460363787024586107722590232610251879596686050117143635431464230626991136655378178359617675746660621652103062880256, (-93853415456381891186614695851413140834237461108996337159305237643978660909581869146840594958692440485969496392507288345971567013709502788842876698542765465 : ℚ)/6703903964971298549787012499102923063739682910296196688861780721860882015036773488400937149083451713845015929093243025426876941405973284973216824503042048, (0 : ℚ)]

def gridV128 : List ℚ :=
  [(0 : ℚ), (-11731662752788595598572375183649944978379103644492838193168231648692359245129752705439435838419273138352142843116255812148845740476521037419137098519315067 : ℚ)/837987995621412318723376562387865382967460363787024586107722590232610251879596686050117143635431464230626991136655378178359617675746660621652103062880256, (-67038066740171783590772290674784627065619644139388563324833677872079681776616464297100976523403853738365362760757142277169886328740138700495247926061734815 : ℚ)/3351951982485649274893506249551461531869841455148098344430890360930441007518386744200468574541725856922507964546621512713438470702986642486608412251521024, (-294967490989516689603234220175538168105030530353005971014331213172591873686162696368128441585699433247371191289260447376794944905627304151192150015528122091 : ℚ)/13407807929942597099574024998205846127479365820592393377723561443721764030073546976801874298166903427690031858186486050853753882811946569946433649006084096, (-11731662752788595598572375183649944978379103644492838193168231648692359245129752705439435838419273138352142843116255812148845740476521037419137098519315067 : ℚ)/837987995621412318723376562387865382967460363787024586107722590232610251879596686050117143635431464230626991136655378178359617675746660621652103062880256, (-15083576307873754822148393823809007140500336225586846242136128480436739010413250814848567837537572811021829921577274261739226181541646468927190726379723515 : ℚ)/837987995621412318723376562387865382967460363787024586107722590232610251879596686050117143635431464230626991136655378178359617675746660621652103062880256, (-268152551873276202858305756938247157382650420292910779901897842759194781161763338559105532241275768509586757217905530377817357817929324214812448587389235501 : ℚ)/13407807929942597099574024998205846127479365820592393377723561443721764030073546976801874298166903427690031858186486050853753882811946569946433649006084096, (-536305186228007098798077315754286749964205032740763115959952141969294621442075765627576445711336541039145634173440402847087858146709522708243758453381205357 : ℚ)/26815615859885194199148049996411692254958731641184786755447122887443528060147093953603748596333806855380063716372972101707507765623893139892867298012168192, (-67038066740171783590772290674784627065619644139388563324833677872079681776616464297100976523403853738365362760757142277169886328740138700495247926061734815 : ℚ)/3351951982485649274893506249551461531869841455148098344430890360930441007518386744200468574541725856922507964546621512713438470702986642486608412251521024, (-268152551873276202858305756938247157382650420292910779901897842759194781161763338559105532241275768509586757217905530377817357817929324214812448587389235501 : ℚ)/13407807929942597099574024998205846127479365820592393377723561443721764030073546976801874298166903427690031858186486050853753882811946569946433649006084096, (-482674998645925179430683198637485131306084074152088240975955440934595631041074170806390470754994456336905813719293079171467999610972222932391069282486934623 : ℚ)/26815615859885194199148049996411692254958731641184786755447122887443528060147093953603748596333806855380063716372972101707507765623893139892867298012168192, (-93853519383687538735738218611441950851692117368348490787182314064348688022629111802234018167902249171340605520515907738079509804688458084723612732630492163 : ℚ)/6703903964971298549787012499102923063739682910296196688861780721860882015036773488400937149083451713845015929093243025426876941405973284973216824503042048, (-294967490989516689603234220175538168105030530353005971014331213172591873686162696368128441585699433247371191289260447376794944905627304151192150015528122091 : ℚ)/13407807929942597099574024998205846127479365820592393377723561443721764030073546976801874298166903427690031858186486050853753882811946569946433649006084096, (-536305186228007098798077315754286749964205032740763115959952141969294621442075765627576445711336541039145634173440402847087858146709522708243758453381205357 : ℚ)/26815615859885194199148049996411692254958731641184786755447122887443528060147093953603748596333806855380063716372972101707507765623893139892867298012168192, (-93853519383687538735738218611441950851692117368348490787182314064348688022629111802234018167902249171340605520515907738079509804688458084723612732630492163 : ℚ)/6703903964971298549787012499102923063739682910296196688861780721860882015036773488400937149083451713845015929093243025426876941405973284973216824503042048, (0 : ℚ)]

def gridV129 : List ℚ :=
  [(0 : ℚ), (-187706830912763782373229391702826281668616769440299694443774679832317838828862025355054865525398140963551285677717748623575927899624755295826992874663973239 : ℚ)/13407807929942597099574024998205846127479365820592393377723561443721764030073546976801874298166903427690031858186486050853753882811946569946433649006084096, (-1072610372456014197596154631508573499928693759926140272170232693027310276903548105377900242638656371384730812660658239690282791469389724743598317777852606475 : ℚ)/53631231719770388398296099992823384509917463282369573510894245774887056120294187907207497192667613710760127432745944203415015531247786279785734596024336384, (-4719485599707243465611367424392745882737017921361192566248363665446182733758177959206910655517595374285032121052606401212478129132818348488765973192937339453 : ℚ)/214524926879081553593184399971293538039669853129478294043576983099548224481176751628829988770670454843040509730983776813660062124991145119142938384097345536, (-187706830912763782373229391702826281668616769440299694443774679832317838828862025355054865525398140963551285677717748623575927899624755295826992874663973239 : ℚ)/13407807929942597099574024998205846127479365820592393377723561443721764030073546976801874298166903427690031858186486050853753882811946569946433649006084096, (-120668749661481294857670799659371282826556480343598815275279911369739037012693114466941036590751929082129526652999062775775198370794493162633077190016344233 : ℚ)/6703903964971298549787012499102923063739682910296196688861780721860882015036773488400937149083451713845015929093243025426876941405973284973216824503042048, (-4290445666374810666508226457538381063121393669590111802287864132892551302452569645610192357068004253636910431401101482747256156076100306445075529153816985835 : ℚ)/214524926879081553593184399971293538039669853129478294043576983099548224481176751628829988770670454843040509730983776813660062124991145119142938384097345536, (-1072611567731277398526285812713546095311554938823904636098749182284402620149762019626532694670740359318135565088854703850601357039536879736719933184648068719 : ℚ)/53631231719770388398296099992823384509917463282369573510894245774887056120294187907207497192667613710760127432745944203415015531247786279785734596024336384, (-1072610372456014197596154631508573499928693759926140272170232693027310276903548105377900242638656371384730812660658239690282791469389724743598317777852606475 : ℚ)/53631231719770388398296099992823384509917463282369573510894245774887056120294187907207497192667613710760127432745944203415015531247786279785734596024336384, (-4290445666374810666508226457538381063121393669590111802287864132892551302452569645610192357068004253636910431401101482747256156076100306445075529153816985835 : ℚ)/214524926879081553593184399971293538039669853129478294043576983099548224481176751628829988770670454843040509730983776813660062124991145119142938384097345536, (-7722808140410975013238218253047110566454881131636220095564852149150805768139054726539340915982217136805890827519578083993120594076113255394517013366187426123 : ℚ)/429049853758163107186368799942587076079339706258956588087153966199096448962353503257659977541340909686081019461967553627320124249982290238285876768194691072, (-24026525337849849109281225945658112487772974978837586947083129572340728558634828051925219546259247597061098179391304024544300574892398771663731200804502238595 : ℚ)/1716199415032652428745475199770348304317358825035826352348615864796385795849414013030639910165363638744324077847870214509280496999929160953143507072778764288, (-4719485599707243465611367424392745882737017921361192566248363665446182733758177959206910655517595374285032121052606401212478129132818348488765973192937339453 : ℚ)/214524926879081553593184399971293538039669853129478294043576983099548224481176751628829988770670454843040509730983776813660062124991145119142938384097345536, (-1072611567731277398526285812713546095311554938823904636098749182284402620149762019626532694670740359318135565088854703850601357039536879736719933184648068719 : ℚ)/53631231719770388398296099992823384509917463282369573510894245774887056120294187907207497192667613710760127432745944203415015531247786279785734596024336384, (-24026525337849849109281225945658112487772974978837586947083129572340728558634828051925219546259247597061098179391304024544300574892398771663731200804502238595 : ℚ)/1716199415032652428745475199770348304317358825035826352348615864796385795849414013030639910165363638744324077847870214509280496999929160953143507072778764288, (0 : ℚ)]

def gridV130 : List ℚ :=
  [(0 : ℚ), (-3003312620278001239543622995566142427255282533565607866191147686414042152801717874162477986236934822739012678326505513204448152159235836347113845180736598831 : ℚ)/214524926879081553593184399971293538039669853129478294043576983099548224481176751628829988770670454843040509730983776813660062124991145119142938384097345536, (-17161785083700438376420573003416737524987148576739386499582614189260210194551364907006501924459841755572040520346781463179953851745677970731920372175290732163 : ℚ)/858099707516326214372737599885174152158679412517913176174307932398192897924707006515319955082681819372162038923935107254640248499964580476571753536389382144, (-75511853795124129335223035801516138720502888618883053911846742158972885578711808920747590103663177776431114685885048363507961591440673156335854102818716075867 : ℚ)/3432398830065304857490950399540696608634717650071652704697231729592771591698828026061279820330727277488648155695740429018560993999858321906287014145557528576, (-3003312620278001239543622995566142427255282533565607866191147686414042152801717874162477986236934822739012678326505513204448152159235836347113845180736598831 : ℚ)/214524926879081553593184399971293538039669853129478294043576983099548224481176751628829988770670454843040509730983776813660062124991145119142938384097345536, (-3861404070205487506619109126523555283228007954707338128283082892752844952108320511515165160423139993031002064594787274789512216242659216515237625551374137869 : ℚ)/214524926879081553593184399971293538039669853129478294043576983099548224481176751628829988770670454843040509730983776813660062124991145119142938384097345536, (-68647201559110081663284969418562613924428539330095306086121868704716415053357776746231647333179409027886647630882502420952426611500989745275710846213088763965 : ℚ)/3432398830065304857490950399540696608634717650071652704697231729592771591698828026061279820330727277488648155695740429018560993999858321906287014145557528576, (-137294420842498441076358275361612357077477882295835020710621872296471805902859661565586444134805687052377613732009910798030860089628127017857125565520257914671 : ℚ)/6864797660130609714981900799081393217269435300143305409394463459185543183397656052122559640661454554977296311391480858037121987999716643812574028291115057152, (-17161785083700438376420573003416737524987148576739386499582614189260210194551364907006501924459841755572040520346781463179953851745677970731920372175290732163 : ℚ)/858099707516326214372737599885174152158679412517913176174307932398192897924707006515319955082681819372162038923935107254640248499964580476571753536389382144, (-68647201559110081663284969418562613924428539330095306086121868704716415053357776746231647333179409027886647630882502420952426611500989745275710846213088763965 : ℚ)/3432398830065304857490950399540696608634717650071652704697231729592771591698828026061279820330727277488648155695740429018560993999858321906287014145557528576, (-123565049894940389596829322108960232117243924587913785389682591308583415354025088902204646066359358776986140301056591328078149749285503932415747276113208298307 : ℚ)/6864797660130609714981900799081393217269435300143305409394463459185543183397656052122559640661454554977296311391480858037121987999716643812574028291115057152, (-192212381364680332985120052224765306007445723999836187763107417865580154112507343441991103474423927218758665998098820828217350045241046306089046879007967697983 : ℚ)/13729595320261219429963801598162786434538870600286610818788926918371086366795312104245119281322909109954592622782961716074243975999433287625148056582230114304, (-75511853795124129335223035801516138720502888618883053911846742158972885578711808920747590103663177776431114685885048363507961591440673156335854102818716075867 : ℚ)/3432398830065304857490950399540696608634717650071652704697231729592771591698828026061279820330727277488648155695740429018560993999858321906287014145557528576, (-137294420842498441076358275361612357077477882295835020710621872296471805902859661565586444134805687052377613732009910798030860089628127017857125565520257914671 : ℚ)/6864797660130609714981900799081393217269435300143305409394463459185543183397656052122559640661454554977296311391480858037121987999716643812574028291115057152, (-192212381364680332985120052224765306007445723999836187763107417865580154112507343441991103474423927218758665998098820828217350045241046306089046879007967697983 : ℚ)/13729595320261219429963801598162786434538870600286610818788926918371086366795312104245119281322909109954592622782961716074243975999433287625148056582230114304, (0 : ℚ)]

def gridV131 : List ℚ :=
  [(0 : ℚ), (-48053050675699698218562451891316224975555028179902823182176768235520530205890346475778354331430868296140747647727693044174356319353116504087613269249291207539 : ℚ)/3432398830065304857490950399540696608634717650071652704697231729592771591698828026061279820330727277488648155695740429018560993999858321906287014145557528576, (-274588841684996882152716550723224714154973921036125339997264762774621757982960703875028718747435731232701264668665331397428803905276924576252007763564489090327 : ℚ)/13729595320261219429963801598162786434538870600286610818788926918371086366795312104245119281322909109954592622782961716074243975999433287625148056582230114304, (-1208190895012031676707072594251229683812108276980006255988438152312832799885555746789162804971644163988723780110897386765851192720056297013153683943483653983821 : ℚ)/54918381281044877719855206392651145738155482401146443275155707673484345467181248416980477125291636439818370491131846864296975903997733150500592226328920457216, (-48053050675699698218562451891316224975555028179902823182176768235520530205890346475778354331430868296140747647727693044174356319353116504087613269249291207539 : ℚ)/3432398830065304857490950399540696608634717650071652704697231729592771591698828026061279820330727277488648155695740429018560993999858321906287014145557528576, (-7722815618433774349801832631810014507328312675633839667355818774963905527665361204633285081579483242437793224375104770197744057428363930823493633984593439291 : ℚ)/429049853758163107186368799942587076079339706258956588087153966199096448962353503257659977541340909686081019461967553627320124249982290238285876768194691072, (-1098356264230800200412605596274941502517079022825052264828415598457061522849203011775856498885600923089256526405933535160271609324809565413650141960667332030811 : ℚ)/54918381281044877719855206392651145738155482401146443275155707673484345467181248416980477125291636439818370491131846864296975903997733150500592226328920457216, (-1098356394141430062137611356972183962482853795943917302663720307824481692069097604631399294833638209532827340582458219770106746639711499099004846712415150488199 : ℚ)/54918381281044877719855206392651145738155482401146443275155707673484345467181248416980477125291636439818370491131846864296975903997733150500592226328920457216, (-274588841684996882152716550723224714154973921036125339997264762774621757982960703875028718747435731232701264668665331397428803905276924576252007763564489090327 : ℚ)/13729595320261219429963801598162786434538870600286610818788926918371086366795312104245119281322909109954592622782961716074243975999433287625148056582230114304, (-1098356264230800200412605596274941502517079022825052264828415598457061522849203011775856498885600923089256526405933535160271609324809565413650141960667332030811 : ℚ)/54918381281044877719855206392651145738155482401146443275155707673484345467181248416980477125291636439818370491131846864296975903997733150500592226328920457216, (-1977042552251611287792796217959305018023172883626689902431156685266350830233594882377781867033879904843927931380592512201734961313769216939007513929357043737175 : ℚ)/109836762562089755439710412785302291476310964802292886550311415346968690934362496833960954250583272879636740982263693728593951807995466301001184452657840914432, (-6150801441700273097707821000843004556953690126722385556064702305227830211009298826512353101498880833178198904459354293282063062187102450789734320196882449955165 : ℚ)/439347050248359021758841651141209165905243859209171546201245661387874763737449987335843817002333091518546963929054774914375807231981865204004737810631363657728, (-1208190895012031676707072594251229683812108276980006255988438152312832799885555746789162804971644163988723780110897386765851192720056297013153683943483653983821 : ℚ)/54918381281044877719855206392651145738155482401146443275155707673484345467181248416980477125291636439818370491131846864296975903997733150500592226328920457216, (-1098356394141430062137611356972183962482853795943917302663720307824481692069097604631399294833638209532827340582458219770106746639711499099004846712415150488199 : ℚ)/54918381281044877719855206392651145738155482401146443275155707673484345467181248416980477125291636439818370491131846864296975903997733150500592226328920457216, (-6150801441700273097707821000843004556953690126722385556064702305227830211009298826512353101498880833178198904459354293282063062187102450789734320196882449955165 : ℚ)/439347050248359021758841651141209165905243859209171546201245661387874763737449987335843817002333091518546963929054774914375807231981865204004737810631363657728, (0 : ℚ)]

def gridV132 : List ℚ :=
  [(0 : ℚ), (-768849525458721331940480208899061224029855521777165945356513744189033201158994896743387735808994304615092008930711303084751014924394769529454849354397564435011 : ℚ)/54918381281044877719855206392651145738155482401146443275155707673484345467181248416980477125291636439818370491131846864296975903997733150500592226328920457216, (-4393425576565720248550445427888735849931560435331311599263049376751351937694321464476443823157148862383150856086730938057776936206359262863269075218122188639815 : ℚ)/219673525124179510879420825570604582952621929604585773100622830693937381868724993667921908501166545759273481964527387457187903615990932602002368905315681828864, (-19331072413724411954275154912069727502170329553365373950227927149327690632530057831987031076269521195461344387161852461093765078989619365772527409236914749778635 : ℚ)/878694100496718043517683302282418331810487718418343092402491322775749527474899974671687634004666183037093927858109549828751614463963730408009475621262727315456, (-768849525458721331940480208899061224029855521777165945356513744189033201158994896743387735808994304615092008930711303084751014924394769529454849354397564435011 : ℚ)/54918381281044877719855206392651145738155482401146443275155707673484345467181248416980477125291636439818370491131846864296975903997733150500592226328920457216, (-988521276125805643896398108979652509011622754702255548367620378996531707471280202676602594472589250291992638159454265986808288028599900622053087883861368690127 : ℚ)/54918381281044877719855206392651145738155482401146443275155707673484345467181248416980477125291636439818370491131846864296975903997733150500592226328920457216, (-17573715462634603691789759029897110103766300123587725900653216817343856723797922433135702748454484694407380561673675455317658611971107026033525317083205080142925 : ℚ)/878694100496718043517683302282418331810487718418343092402491322775749527474899974671687634004666183037093927858109549828751614463963730408009475621262727315456, (-35147434734004657504876535432168731723405810769586960087620019396710956480675869745468289640539321820449367959253003109306132109713085100300818408298789023452449 : ℚ)/1757388200993436087035366604564836663620975436836686184804982645551499054949799949343375268009332366074187855716219099657503228927927460816018951242525454630912, (-4393425576565720248550445427888735849931560435331311599263049376751351937694321464476443823157148862383150856086730938057776936206359262863269075218122188639815 : ℚ)/219673525124179510879420825570604582952621929604585773100622830693937381868724993667921908501166545759273481964527387457187903615990932602002368905315681828864, (-17573715462634603691789759029897110103766300123587725900653216817343856723797922433135702748454484694407380561673675455317658611971107026033525317083205080142925 : ℚ)/878694100496718043517683302282418331810487718418343092402491322775749527474899974671687634004666183037093927858109549828751614463963730408009475621262727315456, (-31632706547028585974240767636147955881294655813869183197587604073351016200766320035503784219461578726837966226308603141539287965273239388429012908719495434684167 : ℚ)/1757388200993436087035366604564836663620975436836686184804982645551499054949799949343375268009332366074187855716219099657503228927927460816018951242525454630912, (-24603224962952020054522513372487013121749782209423107562171590818294822436319646221098746834508438336074220306565974955650921309861611033788211100693979019120231 : ℚ)/1757388200993436087035366604564836663620975436836686184804982645551499054949799949343375268009332366074187855716219099657503228927927460816018951242525454630912, (-19331072413724411954275154912069727502170329553365373950227927149327690632530057831987031076269521195461344387161852461093765078989619365772527409236914749778635 : ℚ)/878694100496718043517683302282418331810487718418343092402491322775749527474899974671687634004666183037093927858109549828751614463963730408009475621262727315456, (-35147434734004657504876535432168731723405810769586960087620019396710956480675869745468289640539321820449367959253003109306132109713085100300818408298789023452449 : ℚ)/1757388200993436087035366604564836663620975436836686184804982645551499054949799949343375268009332366074187855716219099657503228927927460816018951242525454630912, (-24603224962952020054522513372487013121749782209423107562171590818294822436319646221098746834508438336074220306565974955650921309861611033788211100693979019120231 : ℚ)/1757388200993436087035366604564836663620975436836686184804982645551499054949799949343375268009332366074187855716219099657503228927927460816018951242525454630912, (0 : ℚ)]

def gridV133 : List ℚ :=
  [(0 : ℚ), (-12301602883400546195415642001686009113907961259667340666562077192269361099690321836828092778288149265048583372305502764172765762482301673877310299792420648455823 : ℚ)/878694100496718043517683302282418331810487718418343092402491322775749527474899974671687634004666183037093927858109549828751614463963730408009475621262727315456, (-70294869468009315009753070864337463446812783551619059284105383957049314316695187858543352431659415336598287456920392632130303656124320038768477229470080142198467 : ℚ)/3514776401986872174070733209129673327241950873673372369609965291102998109899599898686750536018664732148375711432438199315006457855854921632037902485050909261824, (-309297423853761414349990313861751440219954845012409460539608701109504744777885789600123182466968887469781281318450971336752714338890864852078484929903179824379741 : ℚ)/14059105607947488696282932836518693308967803494693489478439861164411992439598399594747002144074658928593502845729752797260025831423419686528151609940203637047296, (-12301602883400546195415642001686009113907961259667340666562077192269361099690321836828092778288149265048583372305502764172765762482301673877310299792420648455823 : ℚ)/878694100496718043517683302282418331810487718418343092402491322775749527474899974671687634004666183037093927858109549828751614463963730408009475621262727315456, (-7908176636757146493560191909036988970323809205022938188005069163791179219609511054826792698687991581382537947423849329786981900845334040181713642029537795807415 : ℚ)/439347050248359021758841651141209165905243859209171546201245661387874763737449987335843817002333091518546963929054774914375807231981865204004737810631363657728, (-281179670732080462612752145109785443727771993853408340837001045371914685876054055453848843885239808010826762253164152569377024844283061024210000609683155061978315 : ℚ)/14059105607947488696282932836518693308967803494693489478439861164411992439598399594747002144074658928593502845729752797260025831423419686528151609940203637047296, (-140589849324160656527883322594357201993105349584584037561087759107389203968537196395687040841111176555896345135135744951853283733183146711889166006411161721891085 : ℚ)/7029552803973744348141466418259346654483901747346744739219930582205996219799199797373501072037329464296751422864876398630012915711709843264075804970101818523648, (-70294869468009315009753070864337463446812783551619059284105383957049314316695187858543352431659415336598287456920392632130303656124320038768477229470080142198467 : ℚ)/3514776401986872174070733209129673327241950873673372369609965291102998109899599898686750536018664732148375711432438199315006457855854921632037902485050909261824, (-281179670732080462612752145109785443727771993853408340837001045371914685876054055453848843885239808010826762253164152569377024844283061024210000609683155061978315 : ℚ)/14059105607947488696282932836518693308967803494693489478439861164411992439598399594747002144074658928593502845729752797260025831423419686528151609940203637047296, (-506123681651591600441498117762718935319705858518180180291253494247097250245808024412132822849456632556607530397151457809104446986022788667571992635115394489034755 : ℚ)/28118211215894977392565865673037386617935606989386978956879722328823984879196799189494004288149317857187005691459505594520051662846839373056303219880407274094592, (-1574607523219046456995655084792089499711866200164833967357868873084667164617858346290436952718633623586128458608588059285012529527928509547965247151385334778901159 : ℚ)/112472844863579909570263462692149546471742427957547915827518889315295939516787196757976017152597271428748022765838022378080206651387357492225212879521629096378368, (-309297423853761414349990313861751440219954845012409460539608701109504744777885789600123182466968887469781281318450971336752714338890864852078484929903179824379741 : ℚ)/14059105607947488696282932836518693308967803494693489478439861164411992439598399594747002144074658928593502845729752797260025831423419686528151609940203637047296, (-140589849324160656527883322594357201993105349584584037561087759107389203968537196395687040841111176555896345135135744951853283733183146711889166006411161721891085 : ℚ)/7029552803973744348141466418259346654483901747346744739219930582205996219799199797373501072037329464296751422864876398630012915711709843264075804970101818523648, (-1574607523219046456995655084792089499711866200164833967357868873084667164617858346290436952718633623586128458608588059285012529527928509547965247151385334778901159 : ℚ)/112472844863579909570263462692149546471742427957547915827518889315295939516787196757976017152597271428748022765838022378080206651387357492225212879521629096378368, (0 : ℚ)]

def gridV134 : List ℚ :=
  [(0 : ℚ), (-196825799703616160436180106979896104974002905725165416932834107200868184911930963239217067278390603976446427371262951124377247744239618742259579174816268739528375 : ℚ)/14059105607947488696282932836518693308967803494693489478439861164411992439598399594747002144074658928593502845729752797260025831423419686528151609940203637047296, (-1124718794593285252223066580754857615944852092776233413359624834168132842591045158106350511933535596517821632153478656748068304877604503519734580072043738742869483 : ℚ)/56236422431789954785131731346074773235871213978773957913759444657647969758393598378988008576298635714374011382919011189040103325693678746112606439760814548189184, (-4948762669743821638386582597788025846592818505467277229820234294533876311596003439588784332703370651580738689313848431813076702756971311015926213321601729305792827 : ℚ)/224945689727159819140526925384299092943484855915095831655037778630591879033574393515952034305194542857496045531676044756160413302774714984450425759043258192756736, (-196825799703616160436180106979896104974002905725165416932834107200868184911930963239217067278390603976446427371262951124377247744239618742259579174816268739528375 : ℚ)/14059105607947488696282932836518693308967803494693489478439861164411992439598399594747002144074658928593502845729752797260025831423419686528151609940203637047296, (-253061840825795800220749058881359467659855253283980368363357437450803427833590908941279957725889864922230097657943304644137162125684759569762941502189915537800641 : ℚ)/14059105607947488696282932836518693308967803494693489478439861164411992439598399594747002144074658928593502845729752797260025831423419686528151609940203637047296, (-4498878005520096725352652557944890066112012475540283379539301423955246565198896807377184349570092276624623890192316795313812530520629007813494085161366741840026973 : ℚ)/224945689727159819140526925384299092943484855915095831655037778630591879033574393515952034305194542857496045531676044756160413302774714984450425759043258192756736, (-8997756829491895781592459674936860873840936995852150536325116435308639624579052399136318015923532998298143361587194681590430512503208446321802904013534674287581891 : ℚ)/449891379454319638281053850768598185886969711830191663310075557261183758067148787031904068610389085714992091063352089512320826605549429968900851518086516385513472, (-1124718794593285252223066580754857615944852092776233413359624834168132842591045158106350511933535596517821632153478656748068304877604503519734580072043738742869483 : ℚ)/56236422431789954785131731346074773235871213978773957913759444657647969758393598378988008576298635714374011382919011189040103325693678746112606439760814548189184, (-4498878005520096725352652557944890066112012475540283379539301423955246565198896807377184349570092276624623890192316795313812530520629007813494085161366741840026973 : ℚ)/224945689727159819140526925384299092943484855915095831655037778630591879033574393515952034305194542857496045531676044756160413302774714984450425759043258192756736, (-8097984431412509277625016578297667251422714587700142977565114727385764652501762286989962323617748609511872898472845003396158416182035456878325430982223927783342763 : ℚ)/449891379454319638281053850768598185886969711830191663310075557261183758067148787031904068610389085714992091063352089512320826605549429968900851518086516385513472, (-12596868435798934720162155997738639433829497615766198018281004442038903983910421609707822212428686222507249229373900140087961176609577830633796364836823003364291589 : ℚ)/899782758908639276562107701537196371773939423660383326620151114522367516134297574063808137220778171429984182126704179024641653211098859937801703036173032771026944, (-4948762669743821638386582597788025846592818505467277229820234294533876311596003439588784332703370651580738689313848431813076702756971311015926213321601729305792827 : ℚ)/224945689727159819140526925384299092943484855915095831655037778630591879033574393515952034305194542857496045531676044756160413302774714984450425759043258192756736, (-8997756829491895781592459674936860873840936995852150536325116435308639624579052399136318015923532998298143361587194681590430512503208446321802904013534674287581891 : ℚ)/449891379454319638281053850768598185886969711830191663310075557261183758067148787031904068610389085714992091063352089512320826605549429968900851518086516385513472, (-12596868435798934720162155997738639433829497615766198018281004442038903983910421609707822212428686222507249229373900140087961176609577830633796364836823003364291589 : ℚ)/899782758908639276562107701537196371773939423660383326620151114522367516134297574063808137220778171429984182126704179024641653211098859937801703036173032771026944, (0 : ℚ)]

def gridV135 : List ℚ :=
  [(0 : ℚ), (-3149215046438092913991310169584178999423769584727912386199428791405411172606707040344290646255852014970023777801979724578286357660076731752275088539111734044942283 : ℚ)/224945689727159819140526925384299092943484855915095831655037778630591879033574393515952034305194542857496045531676044756160413302774714984450425759043258192756736, (-17995513658983791563184919349873721747681948360500789975617614961089432935900085493799469513484235500676657068048763757722090463659193924598435410346428192933266959 : ℚ)/899782758908639276562107701537196371773939423660383326620151114522367516134297574063808137220778171429984182126704179024641653211098859937801703036173032771026944, (-79180259711552713339710930288200435755202128090584842193310326646067192742363408105037612755841379395638790034240757291506131723565776745120657737091003507038881133 : ℚ)/3599131035634557106248430806148785487095757694641533306480604458089470064537190296255232548883112685719936728506816716098566612844395439751206812144692131084107776, (-3149215046438092913991310169584178999423769584727912386199428791405411172606707040344290646255852014970023777801979724578286357660076731752275088539111734044942283 : ℚ)/224945689727159819140526925384299092943484855915095831655037778630591879033574393515952034305194542857496045531676044756160413302774714984450425759043258192756736, (-1012248053926563659703127072287208406427843971512298428631100721577730186984094079344172383054541672163704969882206076175552464348281896191833753152320624033810341 : ℚ)/56236422431789954785131731346074773235871213978773957913759444657647969758393598378988008576298635714374011382919011189040103325693678746112606439760814548189184, (-71982096079252177343118335819086897988150512766443685167976293289811394546344410431814020870322578156635905834790957062602674363446587509819238942919767512700189499 : ℚ)/3599131035634557106248430806148785487095757694641533306480604458089470064537190296255232548883112685719936728506816716098566612844395439751206812144692131084107776, (-71982102078118506060302822680582980104445289516369164237733496754715300119782671338448599199699854292892146648313034807894590336213481226763583155011277237958330805 : ℚ)/3599131035634557106248430806148785487095757694641533306480604458089470064537190296255232548883112685719936728506816716098566612844395439751206812144692131084107776, (-17995513658983791563184919349873721747681948360500789975617614961089432935900085493799469513484235500676657068048763757722090463659193924598435410346428192933266959 : ℚ)/899782758908639276562107701537196371773939423660383326620151114522367516134297574063808137220778171429984182126704179024641653211098859937801703036173032771026944, (-71982096079252177343118335819086897988150512766443685167976293289811394546344410431814020870322578156635905834790957062602674363446587509819238942919767512700189499 : ℚ)/3599131035634557106248430806148785487095757694641533306480604458089470064537190296255232548883112685719936728506816716098566612844395439751206812144692131084107776, (-129567831893717030436263821422339026697660018618791543854061519974145950611060477463155774817803548418104776209300191055151652295573689711856838026556443788325571407 : ℚ)/7198262071269114212496861612297570974191515389283066612961208916178940129074380592510465097766225371439873457013633432197133225688790879502413624289384262168215552, (-403100031821421977168154161214604386273952640134791722927621384684603543238206715387757411307697648269706557168971995520433055283632438328464029752431119339829427937 : ℚ)/28793048285076456849987446449190283896766061557132266451844835664715760516297522370041860391064901485759493828054533728788532902755163518009654497157537048672862208, (-79180259711552713339710930288200435755202128090584842193310326646067192742363408105037612755841379395638790034240757291506131723565776745120657737091003507038881133 : ℚ)/3599131035634557106248430806148785487095757694641533306480604458089470064537190296255232548883112685719936728506816716098566612844395439751206812144692131084107776, (-71982102078118506060302822680582980104445289516369164237733496754715300119782671338448599199699854292892146648313034807894590336213481226763583155011277237958330805 : ℚ)/3599131035634557106248430806148785487095757694641533306480604458089470064537190296255232548883112685719936728506816716098566612844395439751206812144692131084107776, (-403100031821421977168154161214604386273952640134791722927621384684603543238206715387757411307697648269706557168971995520433055283632438328464029752431119339829427937 : ℚ)/28793048285076456849987446449190283896766061557132266451844835664715760516297522370041860391064901485759493828054533728788532902755163518009654497157537048672862208, (0 : ℚ)]

def gridV136 : List ℚ :=
  [(0 : ℚ), (-50387473743195738880648623990954557735318287938250747684993546130044230682609609220938622776263423000895968425878796590942641936716406630428082627084697244738109323 : ℚ)/3599131035634557106248430806148785487095757694641533306480604458089470064537190296255232548883112685719936728506816716098566612844395439751206812144692131084107776, (-287928408312474024241211290722331920417781753015848568174673043742638429973066530918009064651896773298757039481132832840334076329743128342766548197059949560546678895 : ℚ)/14396524142538228424993723224595141948383030778566133225922417832357880258148761185020930195532450742879746914027266864394266451377581759004827248578768524336431104, (-1266884990887522668900084916648647894670712058920268495575779315259468693423699525852188084279557028606954934004420097861538557268633594246805451708148160666036775595 : ℚ)/57586096570152913699974892898380567793532123114264532903689671329431521032595044740083720782129802971518987656109067457577065805510327036019308994315074097345724416, (-50387473743195738880648623990954557735318287938250747684993546130044230682609609220938622776263423000895968425878796590942641936716406630428082627084697244738109323 : ℚ)/3599131035634557106248430806148785487095757694641533306480604458089470064537190296255232548883112685719936728506816716098566612844395439751206812144692131084107776, (-64783915946858515218131910711169513348830158046988749732965524168017282679014200122631554372176113264485873858841693542871224762925892509874867597146924509803257187 : ℚ)/3599131035634557106248430806148785487095757694641533306480604458089470064537190296255232548883112685719936728506816716098566612844395439751206812144692131084107776, (-1151714240769969083927452760032400515419735703621127844669281838711292183422970016428724949357137543335997661584461195811277707122958329749053336253120718225589898093 : ℚ)/57586096570152913699974892898380567793532123114264532903689671329431521032595044740083720782129802971518987656109067457577065805510327036019308994315074097345724416, (-2303428657415421729464295366796553567741803083764972272759399278366569424684992946715970163287903374527358003462135055735152041780156904212540706961785924884000860053 : ℚ)/115172193140305827399949785796761135587064246228529065807379342658863042065190089480167441564259605943037975312218134915154131611020654072038617988630148194691448832, (-287928408312474024241211290722331920417781753015848568174673043742638429973066530918009064651896773298757039481132832840334076329743128342766548197059949560546678895 : ℚ)/14396524142538228424993723224595141948383030778566133225922417832357880258148761185020930195532450742879746914027266864394266451377581759004827248578768524336431104, (-1151714240769969083927452760032400515419735703621127844669281838711292183422970016428724949357137543335997661584461195811277707122958329749053336253120718225589898093 : ℚ)/57586096570152913699974892898380567793532123114264532903689671329431521032595044740083720782129802971518987656109067457577065805510327036019308994315074097345724416, (-2073086497553118865663710868258370423554705230119240356331903950739362311964573536684407213536792445818448751234623321767297949301243860478020013746613105099940202799 : ℚ)/115172193140305827399949785796761135587064246228529065807379342658863042065190089480167441564259605943037975312218134915154131611020654072038617988630148194691448832, (-806200506851931476675052752887548259842571982417186973003913267309974759732894212859009598539065604649598110577689862405599842332501641786571413959080512515253071241 : ℚ)/57586096570152913699974892898380567793532123114264532903689671329431521032595044740083720782129802971518987656109067457577065805510327036019308994315074097345724416, (-1266884990887522668900084916648647894670712058920268495575779315259468693423699525852188084279557028606954934004420097861538557268633594246805451708148160666036775595 : ℚ)/57586096570152913699974892898380567793532123114264532903689671329431521032595044740083720782129802971518987656109067457577065805510327036019308994315074097345724416, (-2303428657415421729464295366796553567741803083764972272759399278366569424684992946715970163287903374527358003462135055735152041780156904212540706961785924884000860053 : ℚ)/115172193140305827399949785796761135587064246228529065807379342658863042065190089480167441564259605943037975312218134915154131611020654072038617988630148194691448832, (-806200506851931476675052752887548259842571982417186973003913267309974759732894212859009598539065604649598110577689862405599842332501641786571413959080512515253071241 : ℚ)/57586096570152913699974892898380567793532123114264532903689671329431521032595044740083720782129802971518987656109067457577065805510327036019308994315074097345724416, (0 : ℚ)]

def gridV137 : List ℚ :=
  [(0 : ℚ), (-806200063642843954336308322429208772547907660071071090750198996264316004452156813032373494027784721331803396276123860833166608933822651939997658088301510676057869351 : ℚ)/57586096570152913699974892898380567793532123114264532903689671329431521032595044740083720782129802971518987656109067457577065805510327036019308994315074097345724416, (-4606857314830843458928590733593107135483610927132919835308711010523356685321472657945657669400585598355860100413972755697627441866428397450999874815070484199254156283 : ℚ)/230344386280611654799899571593522271174128492457058131614758685317726084130380178960334883128519211886075950624436269830308263222041308144077235977260296389382897664, (-20270172101884314888257459086749486513029427535853244871892778830603149418602575474036442202726925423810519381871348729381473036463976192426833846312868804853081671805 : ℚ)/921377545122446619199598286374089084696513969828232526459034741270904336521520715841339532514076847544303802497745079321233052888165232576308943909041185557531590656, (-806200063642843954336308322429208772547907660071071090750198996264316004452156813032373494027784721331803396276123860833166608933822651939997658088301510676057869351 : ℚ)/57586096570152913699974892898380567793532123114264532903689671329431521032595044740083720782129802971518987656109067457577065805510327036019308994315074097345724416, (-518271624388279716415927717064592605888676902480182000306715044408617807485079229735316471237295467652709758293200797889899611916950408940272403082513094274084804069 : ℚ)/28793048285076456849987446449190283896766061557132266451844835664715760516297522370041860391064901485759493828054533728788532902755163518009654497157537048672862208, (-18427438164996608999711623226593785049882556744571033622404072565275066955022760178470283725462417827813455478650840973142957372252998430930609484801014483917346305195 : ℚ)/921377545122446619199598286374089084696513969828232526459034741270904336521520715841339532514076847544303802497745079321233052888165232576308943909041185557531590656, (-2303429931760155869602583826231650893784800517141624323445962402026687039778677171729499966911685228512925745857915258255630513494716157998379605805925738447394073747 : ℚ)/115172193140305827399949785796761135587064246228529065807379342658863042065190089480167441564259605943037975312218134915154131611020654072038617988630148194691448832, (-4606857314830843458928590733593107135483610927132919835308711010523356685321472657945657669400585598355860100413972755697627441866428397450999874815070484199254156283 : ℚ)/230344386280611654799899571593522271174128492457058131614758685317726084130380178960334883128519211886075950624436269830308263222041308144077235977260296389382897664, (-18427438164996608999711623226593785049882556744571033622404072565275066955022760178470283725462417827813455478650840973142957372252998430930609484801014483917346305195 : ℚ)/921377545122446619199598286374089084696513969828232526459034741270904336521520715841339532514076847544303802497745079321233052888165232576308943909041185557531590656, (-33169401364872405864911663845542735376756736402902490243384754324776471783792109015897116367115621197295632852889368930275020955349355164668369995964385055276458626363 : ℚ)/1842755090244893238399196572748178169393027939656465052918069482541808673043041431682679065028153695088607604995490158642466105776330465152617887818082371115063181312, (-103193716853276279985751479448643406669847959873144322766317655241289891423875724301788139251065298982644014745084049293914168549010188090423200486822102755383114811275 : ℚ)/7371020360979572953596786290992712677572111758625860211672277930167234692172165726730716260112614780354430419981960634569864423105321860610471551272329484460252725248, (-20270172101884314888257459086749486513029427535853244871892778830603149418602575474036442202726925423810519381871348729381473036463976192426833846312868804853081671805 : ℚ)/921377545122446619199598286374089084696513969828232526459034741270904336521520715841339532514076847544303802497745079321233052888165232576308943909041185557531590656, (-2303429931760155869602583826231650893784800517141624323445962402026687039778677171729499966911685228512925745857915258255630513494716157998379605805925738447394073747 : ℚ)/115172193140305827399949785796761135587064246228529065807379342658863042065190089480167441564259605943037975312218134915154131611020654072038617988630148194691448832, (-103193716853276279985751479448643406669847959873144322766317655241289891423875724301788139251065298982644014745084049293914168549010188090423200486822102755383114811275 : ℚ)/7371020360979572953596786290992712677572111758625860211672277930167234692172165726730716260112614780354430419981960634569864423105321860610471551272329484460252725248, (0 : ℚ)]

def gridV138 : List ℚ :=
  [(0 : ℚ), (-12899208109630903626800844046200772157481170757086892727222262092120467499532254463799022947924165072449055554361819661470723825825487509309478675737422466653695656895 : ℚ)/921377545122446619199598286374089084696513969828232526459034741270904336521520715841339532514076847544303802497745079321233052888165232576308943909041185557531590656, (-73709757816324987827282682439412828601113654625355780668590096495175727960529563611453737683772158107673686026530880704070596213560836652776157281747752434451266621651 : ℚ)/3685510180489786476798393145496356338786055879312930105836138965083617346086082863365358130056307390177215209990980317284932211552660930305235775636164742230126362624, (-324322933169683640667818610154806974661606914977965438417347679865189377966612168352550706766986718371280325788918880072442285783314206969359918540584985472513035806491 : ℚ)/14742040721959145907193572581985425355144223517251720423344555860334469384344331453461432520225229560708860839963921269139728846210643721220943102544658968920505450496, (-12899208109630903626800844046200772157481170757086892727222262092120467499532254463799022947924165072449055554361819661470723825825487509309478675737422466653695656895 : ℚ)/921377545122446619199598286374089084696513969828232526459034741270904336521520715841339532514076847544303802497745079321233052888165232576308943909041185557531590656, (-16584700682436202932455831922771367688378377720657195701272202069968671563799028036975992869207368297675559319004075396628073651927408202696353024178259660843052571701 : ℚ)/921377545122446619199598286374089084696513969828232526459034741270904336521520715841339532514076847544303802497745079321233052888165232576308943909041185557531590656, (-294839161814098745021405592842982024064398478379573242734063766149791812440571894739957373356232030566089673715743129684452838010010740570067399858723843787613509971581 : ℚ)/14742040721959145907193572581985425355144223517251720423344555860334469384344331453461432520225229560708860839963921269139728846210643721220943102544658968920505450496, (-589678361421735740299316090990334413945366336683481060889254083699157395941991757745653042235472987197573983912249473239001541001755783414475040663145082583920619321111 : ℚ)/29484081443918291814387145163970850710288447034503440846689111720668938768688662906922865040450459121417721679927842538279457692421287442441886205089317937841010900992, (-73709757816324987827282682439412828601113654625355780668590096495175727960529563611453737683772158107673686026530880704070596213560836652776157281747752434451266621651 : ℚ)/3685510180489786476798393145496356338786055879312930105836138965083617346086082863365358130056307390177215209990980317284932211552660930305235775636164742230126362624, (-294839161814098745021405592842982024064398478379573242734063766149791812440571894739957373356232030566089673715743129684452838010010740570067399858723843787613509971581 : ℚ)/14742040721959145907193572581985425355144223517251720423344555860334469384344331453461432520225229560708860839963921269139728846210643721220943102544658968920505450496, (-530710676964569596807295696904239688114382845160365329113388188353040534057012006250456516898813087652795424885839070810560632800452404193355687037457367236220750495123 : ℚ)/29484081443918291814387145163970850710288447034503440846689111720668938768688662906922865040450459121417721679927842538279457692421287442441886205089317937841010900992, (-825550115787541812153583143172515565790147404737218722227334669950016625384630656415476788150174553633308177249068055689168339383967044869645537234124066296518936332651 : ℚ)/58968162887836583628774290327941701420576894069006881693378223441337877537377325813845730080900918242835443359855685076558915384842574884883772410178635875682021801984, (-324322933169683640667818610154806974661606914977965438417347679865189377966612168352550706766986718371280325788918880072442285783314206969359918540584985472513035806491 : ℚ)/14742040721959145907193572581985425355144223517251720423344555860334469384344331453461432520225229560708860839963921269139728846210643721220943102544658968920505450496, (-589678361421735740299316090990334413945366336683481060889254083699157395941991757745653042235472987197573983912249473239001541001755783414475040663145082583920619321111 : ℚ)/29484081443918291814387145163970850710288447034503440846689111720668938768688662906922865040450459121417721679927842538279457692421287442441886205089317937841010900992, (-825550115787541812153583143172515565790147404737218722227334669950016625384630656415476788150174553633308177249068055689168339383967044869645537234124066296518936332651 : ℚ)/58968162887836583628774290327941701420576894069006881693378223441337877537377325813845730080900918242835443359855685076558915384842574884883772410178635875682021801984, (0 : ℚ)]

def gridV139 : List ℚ :=
  [(0 : ℚ), (-206387433706552559971502958897286813339696072053583854805912509003866753598199025068015233472523521148881006359958382205605514970783063222020427183955139913358764986531 : ℚ)/14742040721959145907193572581985425355144223517251720423344555860334469384344331453461432520225229560708860839963921269139728846210643721220943102544658968920505450496, (-1179356722843471480598632181980668827890732977981552540325062564440888733384878668420183994411731820759781193330599599855341939003193932257436147120433614786972399053191 : ℚ)/58968162887836583628774290327941701420576894069006881693378223441337877537377325813845730080900918242835443359855685076558915384842574884883772410178635875682021801984, (-5189169562595758421054910406511560258756628547448265696215865064526070059151268833987278653342175215096513540905872327219118968812589454380800666412118207237646011355277 : ℚ)/235872651551346334515097161311766805682307576276027526773512893765351510149509303255382920323603672971341773439422740306235661539370299539535089640714543502728087207936, (-206387433706552559971502958897286813339696072053583854805912509003866753598199025068015233472523521148881006359958382205605514970783063222020427183955139913358764986531 : ℚ)/14742040721959145907193572581985425355144223517251720423344555860334469384344331453461432520225229560708860839963921269139728846210643721220943102544658968920505450496, (-16584708655142799900227990528257490253574468670864391824583293339822734525233111959840483495912687838637137554863417325885556583537971601079053538992759426212915183097 : ℚ)/921377545122446619199598286374089084696513969828232526459034741270904336521520715841339532514076847544303802497745079321233052888165232576308943909041185557531590656, (-4717428805096567682941544312890063213921304912880593923877190776059291113147314665097576976742319665104638587877458137117377569493410789481692118657889661207609797611803 : ℚ)/235872651551346334515097161311766805682307576276027526773512893765351510149509303255382920323603672971341773439422740306235661539370299539535089640714543502728087207936, (-4717429082105441153266426166315357067532671019462423275802619691260023220492769349933379700465847921050085950708822358557531217503348972203753904468630742078402214424579 : ℚ)/235872651551346334515097161311766805682307576276027526773512893765351510149509303255382920323603672971341773439422740306235661539370299539535089640714543502728087207936, (-1179356722843471480598632181980668827890732977981552540325062564440888733384878668420183994411731820759781193330599599855341939003193932257436147120433614786972399053191 : ℚ)/58968162887836583628774290327941701420576894069006881693378223441337877537377325813845730080900918242835443359855685076558915384842574884883772410178635875682021801984, (-4717428805096567682941544312890063213921304912880593923877190776059291113147314665097576976742319665104638587877458137117377569493410789481692118657889661207609797611803 : ℚ)/235872651551346334515097161311766805682307576276027526773512893765351510149509303255382920323603672971341773439422740306235661539370299539535089640714543502728087207936, (-8491374571349427600586071208203659088446509684381523866333555243390060634984855897270249969990225225580554843752575840486522250108019568039344446875815013399141717358279 : ℚ)/471745303102692669030194322623533611364615152552055053547025787530703020299018606510765840647207345942683546878845480612471323078740599079070179281429087005456174415872, (-26417614874271415080468365976708632195291491571412340409945575135633052160243514274503887038712146880517926350678146925564816692501416267720297270811785375949922334532133 : ℚ)/1886981212410770676120777290494134445458460610208220214188103150122812081196074426043063362588829383770734187515381922449885292314962396316280717125716348021824697663488, (-5189169562595758421054910406511560258756628547448265696215865064526070059151268833987278653342175215096513540905872327219118968812589454380800666412118207237646011355277 : ℚ)/235872651551346334515097161311766805682307576276027526773512893765351510149509303255382920323603672971341773439422740306235661539370299539535089640714543502728087207936, (-4717429082105441153266426166315357067532671019462423275802619691260023220492769349933379700465847921050085950708822358557531217503348972203753904468630742078402214424579 : ℚ)/235872651551346334515097161311766805682307576276027526773512893765351510149509303255382920323603672971341773439422740306235661539370299539535089640714543502728087207936, (-26417614874271415080468365976708632195291491571412340409945575135633052160243514274503887038712146880517926350678146925564816692501416267720297270811785375949922334532133 : ℚ)/1886981212410770676120777290494134445458460610208220214188103150122812081196074426043063362588829383770734187515381922449885292314962396316280717125716348021824697663488, (0 : ℚ)]

def gridV140 : List ℚ :=
  [(0 : ℚ), (-3302200463150167248614332572690062263160590837407236563095556267970362267542103237377418792363841599999423795721114577840675281772126667154112371992505321220762117925459 : ℚ)/235872651551346334515097161311766805682307576276027526773512893765351510149509303255382920323603672971341773439422740306235661539370299539535089640714543502728087207936, (-18869716328421764613065704665261428270130686514766416451582913941380684413978238623164542081389678455125067791584534402823482222248383838204490104107105822824819871937047 : ℚ)/943490606205385338060388645247067222729230305104110107094051575061406040598037213021531681294414691885367093757690961224942646157481198158140358562858174010912348831744, (-83026751582431137946812247163603607501231320192618675552896519522874961931551615546882416835168130627638988296697566299706329427392420154698472487530007145083246215804555 : ℚ)/3773962424821541352241554580988268890916921220416440428376206300245624162392148852086126725177658767541468375030763844899770584629924792632561434251432696043649395326976, (-3302200463150167248614332572690062263160590837407236563095556267970362267542103237377418792363841599999423795721114577840675281772126667154112371992505321220762117925459 : ℚ)/235872651551346334515097161311766805682307576276027526773512893765351510149509303255382920323603672971341773439422740306235661539370299539535089640714543502728087207936, (-4245687285674713800293035604101829544223255451419942770259886415780178200494218254492880804876684305523372965238709097785262087172139027857437334965912034716914044976567 : ℚ)/235872651551346334515097161311766805682307576276027526773512893765351510149509303255382920323603672971341773439422740306235661539370299539535089640714543502728087207936, (-75478893367062780980717248744325761784964332987475368796876255156567235530288049687496210767917916580121481517910575754067470525796299767160505389848339652848017739585165 : ℚ)/3773962424821541352241554580988268890916921220416440428376206300245624162392148852086126725177658767541468375030763844899770584629924792632561434251432696043649395326976, (-150957794855504986474847632423172711160484528757991629648005332605925584979889799395332491894337271387881785613714324510711507578382417591544940313752870103630070818277577 : ℚ)/7547924849643082704483109161976537781833842440832880856752412600491248324784297704172253450355317535082936750061527689799541169259849585265122868502865392087298790653952, (-18869716328421764613065704665261428270130686514766416451582913941380684413978238623164542081389678455125067791584534402823482222248383838204490104107105822824819871937047 : ℚ)/943490606205385338060388645247067222729230305104110107094051575061406040598037213021531681294414691885367093757690961224942646157481198158140358562858174010912348831744, (-75478893367062780980717248744325761784964332987475368796876255156567235530288049687496210767917916580121481517910575754067470525796299767160505389848339652848017739585165 : ℚ)/3773962424821541352241554580988268890916921220416440428376206300245624162392148852086126725177658767541468375030763844899770584629924792632561434251432696043649395326976, (-135862047965248693846137089859719563957381158571132930473519818028324588175559375940676238295697527876240270969328397294996645080058981887866222799974775796835161199303383 : ℚ)/7547924849643082704483109161976537781833842440832880856752412600491248324784297704172253450355317535082936750061527689799541169259849585265122868502865392087298790653952, (-105670500429102917865197655709408238756591755844526361297079275394686843773890105812678323036576164231631377246500355066791396026371615722838210917746562243153529129581325 : ℚ)/7547924849643082704483109161976537781833842440832880856752412600491248324784297704172253450355317535082936750061527689799541169259849585265122868502865392087298790653952, (-83026751582431137946812247163603607501231320192618675552896519522874961931551615546882416835168130627638988296697566299706329427392420154698472487530007145083246215804555 : ℚ)/3773962424821541352241554580988268890916921220416440428376206300245624162392148852086126725177658767541468375030763844899770584629924792632561434251432696043649395326976, (-150957794855504986474847632423172711160484528757991629648005332605925584979889799395332491894337271387881785613714324510711507578382417591544940313752870103630070818277577 : ℚ)/7547924849643082704483109161976537781833842440832880856752412600491248324784297704172253450355317535082936750061527689799541169259849585265122868502865392087298790653952, (-105670500429102917865197655709408238756591755844526361297079275394686843773890105812678323036576164231631377246500355066791396026371615722838210917746562243153529129581325 : ℚ)/7547924849643082704483109161976537781833842440832880856752412600491248324784297704172253450355317535082936750061527689799541169259849585265122868502865392087298790653952, (0 : ℚ)]

def gridV141 : List ℚ :=
  [(0 : ℚ), (-52835229748542830160936731953417264390582992890491574213380890976628470448515673442731867195529440844757723210454592950227002282655371410883250366192207942619173918872127 : ℚ)/3773962424821541352241554580988268890916921220416440428376206300245624162392148852086126725177658767541468375030763844899770584629924792632561434251432696043649395326976, (-301915589711009972949695264846345422320969077011317046082990146622575902215836888578113170024884836943184337691523927994893813463357325856090434397004708816024314943317939 : ℚ)/15095849699286165408966218323953075563667684881665761713504825200982496649568595408344506900710635070165873500123055379599082338519699170530245737005730784174597581307904, (-1328428590878613711109753380297332006906459435594912756656192268821356754226303793377215516097746965020723309293025328932363793393340318958889077872773429320648816631541149 : ℚ)/60383398797144661635864873295812302254670739526663046854019300803929986598274381633378027602842540280663494000492221518396329354078796682120982948022923136698390325231616, (-52835229748542830160936731953417264390582992890491574213380890976628470448515673442731867195529440844757723210454592950227002282655371410883250366192207942619173918872127 : ℚ)/3773962424821541352241554580988268890916921220416440428376206300245624162392148852086126725177658767541468375030763844899770584629924792632561434251432696043649395326976, (-33965511991312173461534272464929890989345292079699955966752389683421738575897005208600082853450668739990535369606674098523503494427880190827219656135853246888622612277811 : ℚ)/1886981212410770676120777290494134445458460610208220214188103150122812081196074426043063362588829383770734187515381922449885292314962396316280717125716348021824697663488, (-1207662770080159382919803762427381402726133527833828860914078866162380143732185662552309320835402325672016227814954985912894476089741963023651500821569749728762150201933963 : ℚ)/60383398797144661635864873295812302254670739526663046854019300803929986598274381633378027602842540280663494000492221518396329354078796682120982948022923136698390325231616, (-603831414803026871911672367621076277248485774794442216568378150275544534297728278015890433348978367096437351998958329692358351967178716903261215042303791296309165964659099 : ℚ)/30191699398572330817932436647906151127335369763331523427009650401964993299137190816689013801421270140331747000246110759198164677039398341060491474011461568349195162615808, (-301915589711009972949695264846345422320969077011317046082990146622575902215836888578113170024884836943184337691523927994893813463357325856090434397004708816024314943317939 : ℚ)/15095849699286165408966218323953075563667684881665761713504825200982496649568595408344506900710635070165873500123055379599082338519699170530245737005730784174597581307904, (-1207662770080159382919803762427381402726133527833828860914078866162380143732185662552309320835402325672016227814954985912894476089741963023651500821569749728762150201933963 : ℚ)/60383398797144661635864873295812302254670739526663046854019300803929986598274381633378027602842540280663494000492221518396329354078796682120982948022923136698390325231616, (-2173793571107272049113114754694271917288209053643365844998751670927734867119855272320491960333696720086394233787942269484018303008872482170599154059588093947387163889047795 : ℚ)/120766797594289323271729746591624604509341479053326093708038601607859973196548763266756055205685080561326988000984443036792658708157593364241965896045846273396780650463232, (-6762914427562183515689885702895607264424986162546860866857687084776342397479205130453931083137569138423553629731719041469284682132163574806023252496931640116667416422838319 : ℚ)/483067190377157293086918986366498418037365916213304374832154406431439892786195053067024220822740322245307952003937772147170634832630373456967863584183385093587122601852928, (-1328428590878613711109753380297332006906459435594912756656192268821356754226303793377215516097746965020723309293025328932363793393340318958889077872773429320648816631541149 : ℚ)/60383398797144661635864873295812302254670739526663046854019300803929986598274381633378027602842540280663494000492221518396329354078796682120982948022923136698390325231616, (-603831414803026871911672367621076277248485774794442216568378150275544534297728278015890433348978367096437351998958329692358351967178716903261215042303791296309165964659099 : ℚ)/30191699398572330817932436647906151127335369763331523427009650401964993299137190816689013801421270140331747000246110759198164677039398341060491474011461568349195162615808, (-6762914427562183515689885702895607264424986162546860866857687084776342397479205130453931083137569138423553629731719041469284682132163574806023252496931640116667416422838319 : ℚ)/483067190377157293086918986366498418037365916213304374832154406431439892786195053067024220822740322245307952003937772147170634832630373456967863584183385093587122601852928, (0 : ℚ)]

/-- The policy produced by the first improvement round on the grid. -/

def gridP1 : List (List ℚ) :=
  [[(1 : ℚ), (0 : ℚ), (0 : ℚ), (0 : ℚ)],
   [(0 : ℚ), (0 : ℚ), (0 : ℚ), (1 : ℚ)],
   [(0 : ℚ), (0 : ℚ), (0 : ℚ), (1 : ℚ)],
   [(0 : ℚ), (0 : ℚ), (0 : ℚ), (1 : ℚ)],
   [(1 : ℚ), (0 : ℚ), (0 : ℚ), (0 : ℚ)],
   [(1 : ℚ), (0 : ℚ), (0 : ℚ), (0 : ℚ)],
   [(0 : ℚ), (0 : ℚ), (0 : ℚ), (1 : ℚ)],
   [(0 : ℚ), (0 : ℚ), (1 : ℚ), (0 : ℚ)],
   [(1 : ℚ), (0 : ℚ), (0 : ℚ), (0 : ℚ)],
   [(1 : ℚ), (0 : ℚ), (0 : ℚ), (0 : ℚ)],
   [(0 : ℚ), (1 : ℚ), (0 : ℚ), (0 : ℚ)],
   [(0 : ℚ), (0 : ℚ), (1 : ℚ), (0 : ℚ)],
   [(1 : ℚ), (0 : ℚ), (0 : ℚ), (0 : ℚ)],
   [(0 : ℚ), (1 : ℚ), (0 : ℚ), (0 : ℚ)],
   [(0 : ℚ), (1 : ℚ), (0 : ℚ), (0 : ℚ)],
   [(1 : ℚ), (0 : ℚ), (0 : ℚ), (0 : ℚ)]]

/-- The policy produced by the second improvement round on the grid. -/

def gridP2 : List (List ℚ) :=
  [[(1 : ℚ), (0 : ℚ), (0 : ℚ), (0 : ℚ)],
   [(0 : ℚ), (0 : ℚ), (0 : ℚ), (1 : ℚ)],
   [(0 : ℚ), (0 : ℚ), (0 : ℚ), (1 : ℚ)],
   [(0 : ℚ), (0 : ℚ), (1 : ℚ), (0 : ℚ)],
   [(1 : ℚ), (0 : ℚ), (0 : ℚ), (0 : ℚ)],
   [(1 : ℚ), (0 : ℚ), (0 : ℚ), (0 : ℚ)],
   [(1 : ℚ), (0 : ℚ), (0 : ℚ), (0 : ℚ)],
   [(0 : ℚ), (0 : ℚ), (1 : ℚ), (0 : ℚ)],
   [(1 : ℚ), (0 : ℚ), (0 : ℚ), (0 : ℚ)],
   [(1 : ℚ), (0 : ℚ), (0 : ℚ), (0 : ℚ)],
   [(0 : ℚ), (1 : ℚ), (0 : ℚ), (0 : ℚ)],
   [(0 : ℚ), (0 : ℚ), (1 : ℚ), (0 : ℚ)],
   [(1 : ℚ), (0 : ℚ), (0 : ℚ), (0 : ℚ)],
   [(0 : ℚ), (1 : ℚ), (0 : ℚ), (0 : ℚ)],
   [(0 : ℚ), (1 : ℚ), (0 : ℚ), (0 : ℚ)],
   [(1 : ℚ), (0 : ℚ), (0 : ℚ), (0 : ℚ)]]

/-- Two-state single-action MDP separating in-place from synchronous sweeps:
state 0 self-loops with reward 1, state 1 moves to state 0 with reward 0. -/
def twoStateEnv : Env :=
  Env.mk 2 1 (fun s _ => if s = 0 then [(1, 0, 1, false)] else [(1, 0, 0, false)])

/-- Three-state single-action chain: state 0 moves to state 1 with reward 0,
state 1 moves to the absorbing state 2 with reward 2, state 2 self-loops with
reward 0.  Its value function is `[2g, 2, 0]` under discount `g`, so the
discount factor used by an evaluation call is observable in the result. -/
def chainEnv : Env :=
  Env.mk 3 1 (fun s _ =>
    if s = 0 then [(1, 1, 0, false)]
    else if s = 1 then [(1, 2, 2, false)]
    else [(1, 2, 0, true)])

/-- Two-state two-action MDP on which the outer loop is stable in its very
first round: from state 0, action 0 reaches the absorbing state 1 with reward
5 and action 1 reaches it with reward 0; state 1 self-loops with reward 0. -/
def firstRoundEnv : Env :=
  Env.mk 2 2 (fun s a =>
    if s = 1 then [(1, 1, 0, true)]
    else if a = 0 then [(1, 1, 5, false)]
    else [(1, 1, 0, false)])

/-- Single-state MDP whose only transition is a terminal self-loop with
reward 0 (the boundary case of §8). -/
def selfLoopEnv : Env :=
  Env.mk 1 1 (fun _ _ => [(1, 0, 0, true)])

/-- Reference evaluator written from the specification's words, sweep part:
a synchronous (Jacobi) sweep computes every state's new value from the
previous sweep's full frozen vector, and `delta` is the maximum change. -/
def jacobiSweep (policy : List (List ℚ)) (env : Env) (discount_factor : ℚ)
    (V : List ℚ) : List ℚ × ℚ :=
  ((List.range env.nS).map (fun s => stateBackup env discount_factor V (policy.getD s []) s),
   ((List.range env.nS).map
      (fun s => |stateBackup env discount_factor V (policy.getD s []) s - V.getD s 0|)).foldl max 0)

/-- Iteration of `jacobiSweep` until `delta < theta`, with fuel. -/
def jacobiEvalLoop (policy : List (List ℚ)) (env : Env)
    (discount_factor theta : ℚ) : Nat → List ℚ → Option (List ℚ)
  | 0, _ => none
  | fuel + 1, V =>
    if (jacobiSweep policy env discount_factor V).2 < theta then
      some (jacobiSweep policy env discount_factor V).1
    else
      jacobiEvalLoop policy env discount_factor theta fuel
        (jacobiSweep policy env discount_factor V).1

/-- Reference synchronous (Jacobi) evaluator of the claim: start from the
all-zero vector of length `S` and iterate `jacobiSweep` until `delta < theta`. -/
def jacobi_eval (policy : List (List ℚ)) (env : Env) (discount_factor theta : ℚ)
    (fuel : Nat) : Option (List ℚ) :=
  jacobiEvalLoop policy env discount_factor theta fuel (List.replicate env.nS 0)

/-- Reference in-place (Gauss-Seidel) sweep written from the amended claim:
`gsPartial ... s` is the value vector after the first `s` states of the sweep
have been updated, each update reading the current vector, in which states
earlier in the sweep are already new. -/
def gsPartial (policy : List (List ℚ)) (env : Env) (discount_factor : ℚ)
    (V : List ℚ) : Nat → List ℚ
  | 0 => V
  | s + 1 =>
    (gsPartial policy env discount_factor V s).set s
      (stateBackup env discount_factor (gsPartial policy env discount_factor V s)
        (policy.getD s []) s)

/-- The running maximum, over the first `s` states of an in-place sweep, of
the distance between each state's new value and the value it replaces. -/
def gsDelta (policy : List (List ℚ)) (env : Env) (discount_factor : ℚ)
    (V : List ℚ) : Nat → ℚ
  | 0 => 0
  | s + 1 =>
    max (gsDelta policy env discount_factor V s)
      |stateBackup env discount_factor (gsPartial policy env discount_factor V s)
          (policy.getD s []) s -
        (gsPartial policy env discount_factor V s).getD s 0|

/-- Iteration of the in-place reference sweep until `delta < theta`. -/
def gsEvalLoop (policy : List (List ℚ)) (env : Env) (discount_factor theta : ℚ) :
    Nat → List ℚ → Option (List ℚ)
  | 0, _ => none
  | fuel + 1, V =>
    if gsDelta policy env discount_factor V env.nS < theta then
      some (gsPartial policy env discount_factor V env.nS)
    else
      gsEvalLoop policy env discount_factor theta fuel
        (gsPartial policy env discount_factor V env.nS)

/-- Reference asynchronous in-place (Gauss-Seidel) evaluator of the amended
claim: start from the all-zero vector of length `S` and run in-place sweeps
until `delta < theta`. -/
def gs_eval (policy : List (List ℚ)) (env : Env) (discount_factor theta : ℚ)
    (fuel : Nat) : Option (List ℚ) :=
  gsEvalLoop policy env discount_factor theta fuel (List.replicate env.nS 0)

/-- Value vector after `k` sweeps of `policy_eval` starting from `V`. -/
def iterFrom (policy : List (List ℚ)) (env : Env) (discount_factor : ℚ)
    (V : List ℚ) : Nat → List ℚ
  | 0 => V
  | k + 1 => (sweep policy env discount_factor (iterFrom policy env discount_factor V k)).1

/-- Value vector after `k` sweeps of `policy_eval` from the all-zero start. -/
def evalIter (policy : List (List ℚ)) (env : Env) (discount_factor : ℚ)
    (k : Nat) : List ℚ :=
  iterFrom policy env discount_factor (List.replicate env.nS 0) k

/-- The `delta` of the `(k+1)`-st sweep of `policy_eval` from the all-zero
start. -/
def evalDelta (policy : List (List ℚ)) (env : Env) (discount_factor : ℚ)
    (k : Nat) : ℚ :=
  (sweep policy env discount_factor (evalIter policy env discount_factor k)).2

/-- A store of the numpy arrays visible across a call, for the frame claims:
the policy matrix, the transition table (as nested lists, index order state
then action), and the buffer backing the value vector the evaluator writes. -/
structure Heap where
  policy : List (List ℚ)
  trans : List (List (List TransTuple))
  V : List ℚ

/-- The environment a heap describes: `env.P[s][a]` reads the nested
transition lists. -/
def envOfHeap (nS nA : Nat) (h : Heap) : Env :=
  Env.mk nS nA (fun s a => (h.trans.getD s []).getD a [])

/-- Store-passing translation of one sweep of `policy_eval`: every read goes
through the heap and the only write is `V[s] = v` on the heap's value buffer. -/
def sweepAuxSt (nS nA : Nat) (discount_factor : ℚ) :
    List Nat → Heap → ℚ → Heap × ℚ
  | [], h, delta => (h, delta)
  | s :: rest, h, delta =>
    sweepAuxSt nS nA discount_factor rest
      (Heap.mk h.policy h.trans
        (h.V.set s (stateBackup (envOfHeap nS nA h) discount_factor h.V (h.policy.getD s []) s)))
      (max delta
        |stateBackup (envOfHeap nS nA h) discount_factor h.V (h.policy.getD s []) s -
          h.V.getD s 0|)

/-- Store-passing translation of `policy_eval`'s `while True:` loop. -/
def policyEvalLoopSt (nS nA : Nat) (discount_factor theta : ℚ) :
    Nat → Heap → Option (Heap × List ℚ)
  | 0, _ => none
  | fuel + 1, h =>
    if (sweepAuxSt nS nA discount_factor (List.range nS) h 0).2 < theta then
      some ((sweepAuxSt nS nA discount_factor (List.range nS) h 0).1,
        (sweepAuxSt nS nA discount_factor (List.range nS) h 0).1.V)
    else
      policyEvalLoopSt nS nA discount_factor theta fuel
        (sweepAuxSt nS nA discount_factor (List.range nS) h 0).1

/-- Store-passing translation of `policy_eval`: `V = np.zeros(env.nS)`
allocates the value buffer, then the loop runs on the heap. -/
def policy_eval_st (nS nA : Nat) (discount_factor theta : ℚ) (fuel : Nat)
    (h : Heap) : Option (Heap × List ℚ) :=
  policyEvalLoopSt nS nA discount_factor theta fuel
    (Heap.mk h.policy h.trans (List.replicate nS 0))

/-- Store-passing translation of one improvement round of
`policy_improvement`: reads go through the heap and the only write is
`policy[s] = np.eye(env.nA)[best_a]` on the heap's policy matrix (the array
the function allocated with `np.ones`). -/
def improveSweepSt (nS nA : Nat) (discount_factor : ℚ) (V : List ℚ) :
    List Nat → Heap → Bool → Heap × Bool
  | [], h, stable => (h, stable)
  | s :: rest, h, stable =>
    improveSweepSt nS nA discount_factor V rest
      (Heap.mk
        (h.policy.set s
          (eyeRow nA (argmax (one_step_lookahead (envOfHeap nS nA h) discount_factor s V))))
        h.trans h.V)
      (if argmax (h.policy.getD s []) ≠
          argmax (one_step_lookahead (envOfHeap nS nA h) discount_factor s V)
        then false else stable)

/-- Store-passing translation of `policy_improvement`'s `while True:` loop. -/
def policyImproveLoopSt (nS nA : Nat) (discount_factor : ℚ) (evalFuel : Nat) :
    Nat → Heap → Option (Heap × (List (List ℚ) × List ℚ))
  | 0, _ => none
  | fuel + 1, h =>
    match policy_eval_st nS nA 1 defaultTheta evalFuel h with
    | none => none
    | some hV =>
      if (improveSweepSt nS nA discount_factor hV.2 (List.range nS) hV.1 true).2 then
        some ((improveSweepSt nS nA discount_factor hV.2 (List.range nS) hV.1 true).1,
          ((improveSweepSt nS nA discount_factor hV.2 (List.range nS) hV.1 true).1.policy,
            hV.2))
      else
        policyImproveLoopSt nS nA discount_factor evalFuel fuel
          (improveSweepSt nS nA discount_factor hV.2 (List.range nS) hV.1 true).1

/-- Store-passing translation of `policy_improvement`: the initial
`np.ones([env.nS, env.nA]) / env.nA` allocates the heap's policy matrix, then
the loop runs on the heap. -/
def policy_improvement_st (nS nA : Nat) (discount_factor : ℚ)
    (evalFuel fuel : Nat) (h : Heap) : Option (Heap × (List (List ℚ) × List ℚ)) :=
  policyImproveLoopSt nS nA discount_factor evalFuel fuel
    (Heap.mk (uniformPolicy nS nA) h.trans h.V)

theorem getD_set_ne {α : Type} (l : List α) (i j : Nat) (e d : α) (h : i ≠ j) :
    (l.set i e).getD j d = l.getD j d := by
  simp [List.getD_eq_getElem?_getD, List.getElem?_set_ne h]

theorem getD_set_self {α : Type} (l : List α) (i : Nat) (e d : α)
    (h : i < l.length) : (l.set i e).getD i d = e := by
  simp [List.getD_eq_getElem?_getD, List.getElem?_set_self h]

theorem getD_map_range (n : Nat) (f : Nat → ℚ) (j : Nat) (h : j < n) :
    ((List.range n).map f).getD j 0 = f j := by
  simp [List.getD_eq_getElem?_getD, List.getElem?_map, List.getElem?_range h]

theorem argmaxAux_spec (xs : List ℚ) : ∀ (i : Nat) (bv : ℚ) (best : Nat),
    (argmaxAux xs i bv best = best ∧ ∀ j, j < xs.length → xs.getD j 0 ≤ bv) ∨
    (∃ j, j < xs.length ∧ argmaxAux xs i bv best = i + j ∧ bv < xs.getD j 0 ∧
      (∀ t, t < j → xs.getD t 0 < xs.getD j 0) ∧
      (∀ t, j < t → t < xs.length → xs.getD t 0 ≤ xs.getD j 0)) := by
  induction xs with
  | nil =>
    intro i bv best
    left
    exact ⟨rfl, fun j hj => absurd hj (by simp)⟩
  | cons x xs ih =>
    intro i bv best
    by_cases hx : bv < x
    · rcases ih (i + 1) x i with ⟨heq, hall⟩ | ⟨j, hj, heq, hgt, hbefore, hafter⟩
      · right
        refine ⟨0, by simp, ?_, by simpa using hx, ?_, ?_⟩
        · simpa [argmaxAux, hx] using heq
        · intro t ht; omega
        · intro t ht hlen
          obtain ⟨t', rfl⟩ : ∃ t', t = t' + 1 := ⟨t - 1, by omega⟩
          simpa using hall t' (by simpa using hlen)
      · right
        refine ⟨j + 1, by simpa using hj, ?_, ?_, ?_, ?_⟩
        · simp only [argmaxAux, if_pos hx] at heq ⊢
          rw [heq]; omega
        · calc bv < x := hx
            _ < xs.getD j 0 := hgt
          -- getD (j+1) on cons
        · intro t ht
          match t with
          | 0 => simpa using hgt
          | t' + 1 => simpa using hbefore t' (by omega)
        · intro t ht hlen
          match t with
          | 0 => omega
          | t' + 1 => simpa using hafter t' (by omega) (by simpa using hlen)
    · rcases ih (i + 1) bv best with ⟨heq, hall⟩ | ⟨j, hj, heq, hgt, hbefore, hafter⟩
      · left
        refine ⟨by simpa [argmaxAux, hx] using heq, ?_⟩
        intro t hlen
        match t with
        | 0 => simpa using le_of_not_lt hx
        | t' + 1 => simpa using hall t' (by simpa using hlen)
      · right
        refine ⟨j + 1, by simpa using hj, ?_, ?_, ?_, ?_⟩
        · simp only [argmaxAux, if_neg hx] at heq ⊢
          rw [heq]; omega
        · simpa using hgt
        · intro t ht
          match t with
          | 0 =>
            have : x ≤ bv := le_of_not_lt hx
            have := lt_of_le_of_lt this hgt
            simpa using this
          | t' + 1 => simpa using hbefore t' (by omega)
        · intro t ht hlen
          match t with
          | 0 => omega
          | t' + 1 => simpa using hafter t' (by omega) (by simpa using hlen)

theorem argmax_firstmax (l : List ℚ) (h : l ≠ []) :
    argmax l < l.length ∧
    (∀ j, j < l.length → l.getD j 0 ≤ l.getD (argmax l) 0) ∧
    (∀ j, j < argmax l → l.getD j 0 < l.getD (argmax l) 0) := by
  match l with
  | x :: xs =>
    rcases argmaxAux_spec xs 1 x 0 with ⟨heq, hall⟩ | ⟨j, hj, heq, hgt, hbefore, hafter⟩
    · have hz : argmax (x :: xs) = 0 := heq
      rw [hz]
      refine ⟨by simp, ?_, by omega⟩
      intro t hlen
      match t with
      | 0 => simp
      | t' + 1 => simpa using hall t' (by simpa using hlen)
    · have hz : argmax (x :: xs) = j + 1 := by
        have : argmax (x :: xs) = 1 + j := heq
        omega
      rw [hz]
      refine ⟨by simpa using hj, ?_, ?_⟩
      · intro t hlen
        match t with
        | 0 => simpa using le_of_lt hgt
        | t' + 1 =>
          rcases lt_trichotomy t' j with hlt | hrfl | hgt'
          · simpa using le_of_lt (hbefore t' hlt)
          · subst hrfl; simp
          · simpa using hafter t' hgt' (by simpa using hlen)
      · intro t ht
        match t with
        | 0 => simpa using hgt
        | t' + 1 => simpa using hbefore t' (by omega)

theorem eyeRow_length (n i : Nat) : (eyeRow n i).length = n := by
  simp [eyeRow]

theorem eyeRow_getD (n i j : Nat) (h : j < n) :
    (eyeRow n i).getD j 0 = if j = i then 1 else 0 :=
  getD_map_range n _ j h

theorem eyeRow_sum (n i : Nat) (h : i < n) : (eyeRow n i).sum = 1 := by
  induction n with
  | zero => omega
  | succ n ihn =>
    rw [eyeRow, List.range_succ, List.map_append, List.sum_append]
    by_cases hi : i = n
    · subst hi
      have hz : ((List.range i).map (fun j => if j = i then (1 : ℚ) else 0)).sum = 0 := by
        refine List.sum_eq_zero ?_
        intro x hx
        rcases List.mem_map.mp hx with ⟨j, hjmem, rfl⟩
        have : j < i := List.mem_range.mp hjmem
        simp [Nat.ne_of_lt this]
      simp [hz]
    · have hi' : i < n := by omega
      have := ihn hi'
      rw [eyeRow] at this
      simp [this, hi, Ne.symm hi]

theorem improveSweep_getD_not_mem (env : Env) (discount_factor : ℚ) (V : List ℚ) :
    ∀ (L : List Nat) (q : List (List ℚ)) (b : Bool) (s : Nat), s ∉ L →
      ((improveSweep env discount_factor V L q b).1).getD s [] = q.getD s [] := by
  intro L
  induction L with
  | nil => intro q b s _; rfl
  | cons t rest ih =>
    intro q b s hs
    have hst : t ≠ s := fun hc => hs (hc ▸ List.mem_cons_self t rest)
    have hrest : s ∉ rest := fun hc => hs (List.mem_cons_of_mem t hc)
    rw [improveSweep, ih _ _ _ hrest, getD_set_ne _ _ _ _ _ hst]

theorem improveSweep_getD_mem (env : Env) (discount_factor : ℚ) (V : List ℚ) :
    ∀ (L : List Nat) (q : List (List ℚ)) (b : Bool) (s : Nat),
      L.Nodup → s ∈ L → s < q.length →
      ((improveSweep env discount_factor V L q b).1).getD s [] =
        eyeRow env.nA (argmax (one_step_lookahead env discount_factor s V)) := by
  intro L
  induction L with
  | nil => intro q b s _ hs; exact absurd hs (List.not_mem_nil s)
  | cons t rest ih =>
    intro q b s hnd hs hlen
    rcases List.mem_cons.mp hs with rfl | hmem
    · have hnotin : s ∉ rest := (List.nodup_cons.mp hnd).1
      rw [improveSweep, improveSweep_getD_not_mem _ _ _ _ _ _ _ hnotin,
        getD_set_self _ _ _ _ hlen]
    · rw [improveSweep,
        ih _ _ _ (List.nodup_cons.mp hnd).2 hmem (by rw [List.length_set]; exact hlen)]

theorem improveSweep_stable_iff (env : Env) (discount_factor : ℚ) (V : List ℚ) :
    ∀ (L : List Nat) (q : List (List ℚ)) (b : Bool), L.Nodup →
      ((improveSweep env discount_factor V L q b).2 = true ↔
        (b = true ∧ ∀ s ∈ L,
          argmax (q.getD s []) = argmax (one_step_lookahead env discount_factor s V))) := by
  intro L
  induction L with
  | nil =>
    intro q b _
    simp [improveSweep]
  | cons t rest ih =>
    intro q b hnd
    have hnotin : t ∉ rest := (List.nodup_cons.mp hnd).1
    rw [improveSweep, ih _ _ (List.nodup_cons.mp hnd).2]
    by_cases hcur : argmax (q.getD t []) =
        argmax (one_step_lookahead env discount_factor t V)
    · rw [if_neg (fun hc => hc hcur)]
      constructor
      · rintro ⟨hb, hall⟩
        refine ⟨hb, ?_⟩
        intro s hsmem
        rcases List.mem_cons.mp hsmem with rfl | hmem
        · exact hcur
        · have hne : t ≠ s := fun hc => hnotin (hc ▸ hmem)
          have := hall s hmem
          rwa [getD_set_ne _ _ _ _ _ hne] at this
      · rintro ⟨hb, hall⟩
        refine ⟨hb, ?_⟩
        intro s hmem
        have hne : t ≠ s := fun hc => hnotin (hc ▸ hmem)
        rw [getD_set_ne _ _ _ _ _ hne]
        exact hall s (List.mem_cons_of_mem t hmem)
    · rw [if_pos hcur]
      constructor
      · rintro ⟨hb, _⟩
        exact absurd hb (by simp)
      · rintro ⟨_, hall⟩
        exact absurd (hall t (List.mem_cons_self t rest)) hcur

theorem sweepAux_append (policy : List (List ℚ)) (env : Env) (discount_factor : ℚ) :
    ∀ (L1 L2 : List Nat) (V : List ℚ) (d : ℚ),
      sweepAux policy env discount_factor (L1 ++ L2) V d =
        sweepAux policy env discount_factor L2
          (sweepAux policy env discount_factor L1 V d).1
          (sweepAux policy env discount_factor L1 V d).2 := by
  intro L1
  induction L1 with
  | nil => intro L2 V d; rfl
  | cons s rest ih => intro L2 V d; rw [List.cons_append, sweepAux, sweepAux, ih]

theorem gsDelta_nonneg (policy : List (List ℚ)) (env : Env) (discount_factor : ℚ)
    (V : List ℚ) : ∀ n, 0 ≤ gsDelta policy env discount_factor V n := by
  intro n
  induction n with
  | zero => exact le_refl 0
  | succ n ih => exact le_max_of_le_left ih

theorem sweepAux_range_eq_gs (policy : List (List ℚ)) (env : Env)
    (discount_factor : ℚ) (V : List ℚ) : ∀ n,
    sweepAux policy env discount_factor (List.range n) V 0 =
      (gsPartial policy env discount_factor V n,
        max 0 (gsDelta policy env discount_factor V n)) := by
  intro n
  induction n with
  | zero => simp [List.range_zero, sweepAux, gsPartial, gsDelta]
  | succ n ih =>
    rw [List.range_succ, sweepAux_append, ih]
    rw [sweepAux, sweepAux, gsPartial, gsDelta, max_assoc]

theorem sweep_eq_gs (policy : List (List ℚ)) (env : Env) (discount_factor : ℚ)
    (V : List ℚ) :
    sweep policy env discount_factor V =
      (gsPartial policy env discount_factor V env.nS,
        gsDelta policy env discount_factor V env.nS) := by
  rw [sweep, sweepAux_range_eq_gs,
    max_eq_right (gsDelta_nonneg policy env discount_factor V env.nS)]

theorem policyEvalLoop_eq_gsLoop (policy : List (List ℚ)) (env : Env)
    (discount_factor theta : ℚ) : ∀ (fuel : Nat) (V : List ℚ),
    policyEvalLoop policy env discount_factor theta fuel V =
      gsEvalLoop policy env discount_factor theta fuel V := by
  intro fuel
  induction fuel with
  | zero => intro V; rfl
  | succ fuel ih =>
    intro V
    rw [policyEvalLoop, gsEvalLoop, sweep_eq_gs, ih]

/-- C1 (amended): `policy_eval` coincides, as a function of policy, MDP,
discount factor, theta (and fuel), with the reference asynchronous in-place
(Gauss-Seidel) evaluator, in which every state's update within a sweep reads
the current vector where states earlier in the sweep are already new. -/
theorem c1_policy_eval_is_inplace (policy : List (List ℚ)) (env : Env)
    (discount_factor theta : ℚ) (fuel : Nat) :
    policy_eval policy env discount_factor theta fuel =
      gs_eval policy env discount_factor theta fuel :=
  policyEvalLoop_eq_gsLoop policy env discount_factor theta fuel _

theorem iterFrom_shift (policy : List (List ℚ)) (env : Env) (discount_factor : ℚ) :
    ∀ (k : Nat) (V : List ℚ),
      iterFrom policy env discount_factor V (k + 1) =
        iterFrom policy env discount_factor (sweep policy env discount_factor V).1 k := by
  intro k
  induction k with
  | zero => intro V; rfl
  | succ k ih =>
    intro V
    rw [iterFrom, ih, iterFrom]

theorem policyEvalLoop_stops_iff (policy : List (List ℚ)) (env : Env)
    (discount_factor theta : ℚ) : ∀ (fuel : Nat) (V W : List ℚ),
    policyEvalLoop policy env discount_factor theta fuel V = some W ↔
      ∃ k, k < fuel ∧
        (∀ j, j < k →
          theta ≤ (sweep policy env discount_factor (iterFrom policy env discount_factor V j)).2) ∧
        (sweep policy env discount_factor (iterFrom policy env discount_factor V k)).2 < theta ∧
        W = iterFrom policy env discount_factor V (k + 1) := by
  intro fuel
  induction fuel with
  | zero =>
    intro V W
    constructor
    · intro h; exact absurd h (by simp [policyEvalLoop])
    · rintro ⟨k, hk, _⟩; omega
  | succ fuel ih =>
    intro V W
    by_cases hd : (sweep policy env discount_factor V).2 < theta
    · rw [policyEvalLoop, if_pos hd]
      constructor
      · intro h
        refine ⟨0, by omega, by omega, by simpa [iterFrom] using hd, ?_⟩
        simpa [iterFrom] using (Option.some_injective _ h).symm
      · rintro ⟨k, hk, hpre, hstop, hW⟩
        match k with
        | 0 => simpa [iterFrom] using hW.symm
        | k' + 1 =>
          have := hpre 0 (by omega)
          simp only [iterFrom] at this
          exact absurd hd (not_lt.mpr this)
    · rw [policyEvalLoop, if_neg hd]
      rw [ih]
      constructor
      · rintro ⟨k, hk, hpre, hstop, hW⟩
        refine ⟨k + 1, by omega, ?_, ?_, ?_⟩
        · intro j hj
          match j with
          | 0 => simpa [iterFrom] using not_lt.mp hd
          | j' + 1 =>
            rw [iterFrom_shift]
            exact hpre j' (by omega)
        · rw [iterFrom_shift]
          exact hstop
        · rw [iterFrom_shift]
          exact hW
      · rintro ⟨k, hk, hpre, hstop, hW⟩
        match k with
        | 0 => exact absurd (by simpa [iterFrom] using hstop) hd
        | k' + 1 =>
          refine ⟨k', by omega, ?_, ?_, ?_⟩
          · intro j hj
            have := hpre (j + 1) (by omega)
            rwa [iterFrom_shift] at this
          · rwa [iterFrom_shift] at hstop
          · rwa [iterFrom_shift] at hW

/-- C4: `policy_eval` returns exactly when a sweep's `delta` — the maximum
over the states of the distance between the new value and the value it
replaces — first drops below `theta`: every earlier sweep has
`delta >= theta`, and the returned vector is the one produced by that final
sweep. -/
theorem c4_stops_at_first_small_delta (policy : List (List ℚ)) (env : Env)
    (discount_factor theta : ℚ) (fuel : Nat) (W : List ℚ) :
    policy_eval policy env discount_factor theta fuel = some W ↔
      ∃ k, k < fuel ∧
        (∀ j, j < k → theta ≤ evalDelta policy env discount_factor j) ∧
        evalDelta policy env discount_factor k < theta ∧
        W = evalIter policy env discount_factor (k + 1) :=
  policyEvalLoop_stops_iff policy env discount_factor theta fuel
    (List.replicate env.nS 0) W

theorem one_step_lookahead_length (env : Env) (discount_factor : ℚ) (s : Nat)
    (V : List ℚ) : (one_step_lookahead env discount_factor s V).length = env.nA := by
  simp [one_step_lookahead]

/-- C3: after an improvement pass, every visited state's policy row is the
one-hot row `np.eye(nA)[b]` where `b` is the first maximizer of the one-step
lookahead action values: the row sums to 1, its only nonzero entry is the 1
at `b`, `b` carries the maximal action value, and every action before `b` has
a strictly smaller action value. -/
theorem c3_one_hot_at_first_argmax (env : Env) (discount_factor : ℚ)
    (V : List ℚ) (p : List (List ℚ)) (b : Bool) (s : Nat)
    (hA : 0 < env.nA) (hs : s < env.nS) (hp : env.nS ≤ p.length) :
    ((improveSweep env discount_factor V (List.range env.nS) p b).1).getD s [] =
      eyeRow env.nA (argmax (one_step_lookahead env discount_factor s V)) ∧
    (((improveSweep env discount_factor V (List.range env.nS) p b).1).getD s []).sum = 1 ∧
    (((improveSweep env discount_factor V (List.range env.nS) p b).1).getD s []).getD
      (argmax (one_step_lookahead env discount_factor s V)) 0 = 1 ∧
    (∀ j, j < env.nA → j ≠ argmax (one_step_lookahead env discount_factor s V) →
      (((improveSweep env discount_factor V (List.range env.nS) p b).1).getD s []).getD j 0 = 0) ∧
    argmax (one_step_lookahead env discount_factor s V) < env.nA ∧
    (∀ j, j < env.nA →
      (one_step_lookahead env discount_factor s V).getD j 0 ≤
        (one_step_lookahead env discount_factor s V).getD
          (argmax (one_step_lookahead env discount_factor s V)) 0) ∧
    (∀ j, j < argmax (one_step_lookahead env discount_factor s V) →
      (one_step_lookahead env discount_factor s V).getD j 0 <
        (one_step_lookahead env discount_factor s V).getD
          (argmax (one_step_lookahead env discount_factor s V)) 0) := by
  have hlen := one_step_lookahead_length env discount_factor s V
  have hne : one_step_lookahead env discount_factor s V ≠ [] := by
    intro hc
    rw [hc] at hlen
    simp at hlen
    omega
  obtain ⟨hargLt, hmax, hfirst⟩ :=
    argmax_firstmax (one_step_lookahead env discount_factor s V) hne
  rw [hlen] at hargLt hmax
  have hrow := improveSweep_getD_mem env discount_factor V (List.range env.nS) p b s
    (List.nodup_range env.nS) (List.mem_range.mpr hs) (by omega)
  refine ⟨hrow, ?_, ?_, ?_, hargLt, hmax, hfirst⟩
  · rw [hrow]
    exact eyeRow_sum env.nA _ hargLt
  · rw [hrow, eyeRow_getD _ _ _ hargLt, if_pos rfl]
  · intro j hj hjne
    rw [hrow, eyeRow_getD _ _ _ hj, if_neg hjne]

/-- Concrete instantiation of the C3 theorem on the single-state self-loop
environment. -/
theorem c3_one_hot_at_first_argmax_witness :
    (0 < selfLoopEnv.nA ∧ 0 < selfLoopEnv.nS ∧ selfLoopEnv.nS ≤ ([[(1 : ℚ)]]).length) ∧
    (((improveSweep selfLoopEnv 1 [0] (List.range selfLoopEnv.nS) [[(1 : ℚ)]] true).1).getD 0 [] =
      eyeRow selfLoopEnv.nA (argmax (one_step_lookahead selfLoopEnv 1 0 [0])) ∧
    (((improveSweep selfLoopEnv 1 [0] (List.range selfLoopEnv.nS) [[(1 : ℚ)]] true).1).getD 0 []).sum = 1 ∧
    (((improveSweep selfLoopEnv 1 [0] (List.range selfLoopEnv.nS) [[(1 : ℚ)]] true).1).getD 0 []).getD
      (argmax (one_step_lookahead selfLoopEnv 1 0 [0])) 0 = 1 ∧
    (∀ j, j < selfLoopEnv.nA → j ≠ argmax (one_step_lookahead selfLoopEnv 1 0 [0]) →
      (((improveSweep selfLoopEnv 1 [0] (List.range selfLoopEnv.nS) [[(1 : ℚ)]] true).1).getD 0 []).getD j 0 = 0) ∧
    argmax (one_step_lookahead selfLoopEnv 1 0 [0]) < selfLoopEnv.nA ∧
    (∀ j, j < selfLoopEnv.nA →
      (one_step_lookahead selfLoopEnv 1 0 [0]).getD j 0 ≤
        (one_step_lookahead selfLoopEnv 1 0 [0]).getD
          (argmax (one_step_lookahead selfLoopEnv 1 0 [0])) 0) ∧
    (∀ j, j < argmax (one_step_lookahead selfLoopEnv 1 0 [0]) →
      (one_step_lookahead selfLoopEnv 1 0 [0]).getD j 0 <
        (one_step_lookahead selfLoopEnv 1 0 [0]).getD
          (argmax (one_step_lookahead selfLoopEnv 1 0 [0])) 0)) :=
  ⟨⟨by decide, by decide, by decide⟩,
   c3_one_hot_at_first_argmax selfLoopEnv 1 [0] [[(1 : ℚ)]] true 0
     (by decide) (by decide) (by decide)⟩

/-- C5: the outer loop's round is terminal exactly when the stability flag
holds, and the flag holds exactly when every state's recorded greedy action
of the old policy row equals the greedy action of the newly improved one-hot
row; with at least one differing state the loop recurses on the improved
policy instead of returning. -/
theorem c5_returns_iff_stable (env : Env) (discount_factor : ℚ)
    (evalFuel fuel : Nat) (p : List (List ℚ)) (V : List ℚ)
    (h : policy_eval p env 1 defaultTheta evalFuel = some V) :
    ((improveSweep env discount_factor V (List.range env.nS) p true).2 = true ↔
      ∀ s ∈ List.range env.nS,
        argmax (p.getD s []) = argmax (one_step_lookahead env discount_factor s V)) ∧
    policyImproveLoop env discount_factor evalFuel (fuel + 1) p =
      (if (improveSweep env discount_factor V (List.range env.nS) p true).2 then
        some ((improveSweep env discount_factor V (List.range env.nS) p true).1, V)
      else
        policyImproveLoop env discount_factor evalFuel fuel
          (improveSweep env discount_factor V (List.range env.nS) p true).1) := by
  constructor
  · simpa using improveSweep_stable_iff env discount_factor V (List.range env.nS) p true
      (List.nodup_range env.nS)
  · rw [policyImproveLoop, h]

/-- Concrete instantiation of the C5 theorem on the single-state self-loop
environment. -/
theorem c5_returns_iff_stable_witness :
    policy_eval [[(1 : ℚ)]] selfLoopEnv 1 defaultTheta 1 = some [0] ∧
    (((improveSweep selfLoopEnv 1 [0] (List.range selfLoopEnv.nS) [[(1 : ℚ)]] true).2 = true ↔
      ∀ s ∈ List.range selfLoopEnv.nS,
        argmax ([[(1 : ℚ)]].getD s []) = argmax (one_step_lookahead selfLoopEnv 1 s [0])) ∧
    policyImproveLoop selfLoopEnv 1 1 1 [[(1 : ℚ)]] =
      (if (improveSweep selfLoopEnv 1 [0] (List.range selfLoopEnv.nS) [[(1 : ℚ)]] true).2 then
        some ((improveSweep selfLoopEnv 1 [0] (List.range selfLoopEnv.nS) [[(1 : ℚ)]] true).1, [0])
      else
        policyImproveLoop selfLoopEnv 1 1 0
          (improveSweep selfLoopEnv 1 [0] (List.range selfLoopEnv.nS) [[(1 : ℚ)]] true).1)) :=
  ⟨by with_unfolding_all decide,
   c5_returns_iff_stable selfLoopEnv 1 1 0 [[(1 : ℚ)]] [0] (by with_unfolding_all decide)⟩

/-- C8: on the single-state MDP whose only transition is a terminal self-loop
with reward 0, one unit of fuel suffices: the very first sweep has
`delta = 0 < theta` for any positive `theta`, and the returned value vector
is `[0]`, whatever the policy row entry and the discount factor are. -/
theorem c8_self_loop_single_sweep (c discount_factor theta : ℚ) (h : 0 < theta) :
    policy_eval [[c]] selfLoopEnv discount_factor theta 1 = some [0] := by
  have hnS : selfLoopEnv.nS = 1 := rfl
  have hb : stateBackup selfLoopEnv discount_factor [0] [c] 0 = 0 := by
    simp [stateBackup, selfLoopEnv, List.enum]
  have hsweep : sweep [[c]] selfLoopEnv discount_factor [0] = ([0], 0) := by
    have hr : List.range 1 = [0] := rfl
    rw [sweep, hnS, hr]
    simp [sweepAux, hb]
  rw [policy_eval, hnS]
  simp [policyEvalLoop, hsweep, h]

/-- Concrete instantiation of the C8 theorem at `c = 1`, `theta = 1/100000`. -/
theorem c8_self_loop_single_sweep_witness :
    (0 : ℚ) < 1 / 100000 ∧
    policy_eval [[(1 : ℚ)]] selfLoopEnv 1 (1 / 100000) 1 = some [0] :=
  ⟨by norm_num, c8_self_loop_single_sweep 1 1 (1 / 100000) (by norm_num)⟩

theorem sweepAuxSt_eq (nS nA : Nat) (discount_factor : ℚ) :
    ∀ (L : List Nat) (h : Heap) (d : ℚ),
      sweepAuxSt nS nA discount_factor L h d =
        (Heap.mk h.policy h.trans
          (sweepAux h.policy (envOfHeap nS nA h) discount_factor L h.V d).1,
         (sweepAux h.policy (envOfHeap nS nA h) discount_factor L h.V d).2) := by
  intro L
  induction L with
  | nil => intro h d; rfl
  | cons s rest ih =>
    intro h d
    rw [sweepAuxSt, sweepAux, ih]
    rfl

theorem policyEvalLoopSt_eq (nS nA : Nat) (discount_factor theta : ℚ) :
    ∀ (fuel : Nat) (h : Heap),
      policyEvalLoopSt nS nA discount_factor theta fuel h =
        (policyEvalLoop h.policy (envOfHeap nS nA h) discount_factor theta fuel h.V).map
          (fun W => (Heap.mk h.policy h.trans W, W)) := by
  intro fuel
  induction fuel with
  | zero => intro h; rfl
  | succ fuel ih =>
    intro h
    rw [policyEvalLoopSt, policyEvalLoop, sweepAuxSt_eq, sweep]
    dsimp only [envOfHeap]
    by_cases hd :
      (sweepAux h.policy
        (Env.mk nS nA (fun s a => (h.trans.getD s []).getD a []))
        discount_factor (List.range nS) h.V 0).2 < theta
    · rw [if_pos hd, if_pos hd]
      rfl
    · rw [if_neg hd, if_neg hd, ih]
      rfl

theorem policy_eval_st_eq (nS nA : Nat) (discount_factor theta : ℚ) (fuel : Nat)
    (h : Heap) :
    policy_eval_st nS nA discount_factor theta fuel h =
      (policy_eval h.policy (envOfHeap nS nA h) discount_factor theta fuel).map
        (fun W => (Heap.mk h.policy h.trans W, W)) := by
  rw [policy_eval_st, policyEvalLoopSt_eq, policy_eval]
  rfl

theorem improveSweepSt_eq (nS nA : Nat) (discount_factor : ℚ) (W : List ℚ) :
    ∀ (L : List Nat) (h : Heap) (b : Bool),
      improveSweepSt nS nA discount_factor W L h b =
        (Heap.mk (improveSweep (envOfHeap nS nA h) discount_factor W L h.policy b).1
          h.trans h.V,
         (improveSweep (envOfHeap nS nA h) discount_factor W L h.policy b).2) := by
  intro L
  induction L with
  | nil => intro h b; rfl
  | cons s rest ih =>
    intro h b
    rw [improveSweepSt, improveSweep, ih]
    rfl

theorem policyImproveLoopSt_eq (nS nA : Nat) (discount_factor : ℚ)
    (evalFuel : Nat) : ∀ (fuel : Nat) (h : Heap),
      policyImproveLoopSt nS nA discount_factor evalFuel fuel h =
        (policyImproveLoop (envOfHeap nS nA h) discount_factor evalFuel fuel h.policy).map
          (fun pr => (Heap.mk pr.1 h.trans pr.2, pr)) := by
  intro fuel
  induction fuel with
  | zero => intro h; rfl
  | succ fuel ih =>
    intro h
    rw [policyImproveLoopSt, policyImproveLoop, policy_eval_st_eq]
    cases hW : policy_eval h.policy (envOfHeap nS nA h) 1 defaultTheta evalFuel with
    | none => rfl
    | some W =>
      simp only [Option.map, improveSweepSt_eq]
      dsimp only [envOfHeap]
      by_cases hst :
        (improveSweep (Env.mk nS nA (fun s a => (h.trans.getD s []).getD a []))
          discount_factor W (List.range nS) h.policy true).2 = true
      · rw [if_pos hst, if_pos hst]
      · rw [if_neg hst, if_neg hst, ih]
        rfl

/-- C9: the store-passing translations of `policy_eval` and
`policy_improvement`, whose only writes are the statement-by-statement images
of the Python writes `V[s] = v` and `policy[s] = np.eye(nA)[best_a]`, leave
the caller's policy matrix and the whole transition table untouched, and
their results coincide with the pure functions of the arguments alone. -/
theorem c9_no_side_effects (nS nA : Nat) (discount_factor theta : ℚ)
    (fuelE evalFuel fuelI : Nat) (h : Heap)
    (f : List (List ℚ) → Env → ℚ → Option (List ℚ)) :
    policy_eval_st nS nA discount_factor theta fuelE h =
      (policy_eval h.policy (envOfHeap nS nA h) discount_factor theta fuelE).map
        (fun W => (Heap.mk h.policy h.trans W, W)) ∧
    policy_improvement_st nS nA discount_factor evalFuel fuelI h =
      (policy_improvement (envOfHeap nS nA h) f discount_factor evalFuel fuelI).map
        (fun pr => (Heap.mk pr.1 h.trans pr.2, pr)) := by
  constructor
  · exact policy_eval_st_eq nS nA discount_factor theta fuelE h
  · rw [policy_improvement_st, policyImproveLoopSt_eq, policy_improvement]
    rfl

/-- C10: the `policy_eval_fn` parameter of the outer loop is inert — any two
functions supplied for it, all other arguments equal, give identical
results, because the loop invokes the module-level `policy_eval` directly. -/
theorem c10_policy_eval_fn_inert (env : Env)
    (f g : List (List ℚ) → Env → ℚ → Option (List ℚ))
    (discount_factor : ℚ) (evalFuel fuel : Nat) :
    policy_improvement env f discount_factor evalFuel fuel =
      policy_improvement env g discount_factor evalFuel fuel := rfl

set_option maxRecDepth 1000000

/-- C1 (counterexample): on the two-state chain with discount 1 and
`theta = 2`, `policy_eval` and the synchronous (Jacobi) reference return
different vectors after the single sweep both perform — the in-place update
of state 1 already sees state 0's new value, the frozen-vector update does
not — so `evaluate` is not the claimed synchronous evaluator. -/
theorem c1_not_jacobi_counterexample :
    policy_eval [[1], [1]] twoStateEnv 1 2 5 = some [1, 1] ∧
    jacobi_eval [[1], [1]] twoStateEnv 1 2 5 = some [1, 0] ∧
    policy_eval [[1], [1]] twoStateEnv 1 2 5 ≠ jacobi_eval [[1], [1]] twoStateEnv 1 2 5 := by
  with_unfolding_all decide

/-- C2 (code bug): called with `discount_factor = 1/2` on the three-state
chain, the outer loop returns the value vector `[2, 2, 0]` — the evaluation
it runs uses `policy_eval`'s own default discount 1.0 — whereas evaluating
the same (uniform, here degenerate single-action) policy under the supplied
discount 1/2 gives `[1, 2, 0]`. -/
theorem c2_discount_factor_not_forwarded :
    policy_improvement chainEnv (fun p e g => policy_eval p e g defaultTheta 50) (1/2) 50 5 =
      some ([[1], [1], [1]], [2, 2, 0]) ∧
    policy_eval (uniformPolicy 3 1) chainEnv (1/2) defaultTheta 50 = some [1, 2, 0] := by
  with_unfolding_all decide

/-- C7 (code bug): on `firstRoundEnv` the loop is stable in its very first
round and returns the one-hot policy taking action 0 together with
`V = [5/2, 0]` — the evaluation of the uniform starting policy — while the
returned policy's own value function is `[5, 0]`, far outside the stopping
tolerance. -/
theorem c7_returned_value_lags_policy :
    policy_improvement firstRoundEnv (fun _ _ _ => none) 1 50 5 =
      some ([[1, 0], [1, 0]], [5/2, 0]) ∧
    policy_eval [[1, 0], [1, 0]] firstRoundEnv 1 defaultTheta 50 = some [5, 0] := by
  with_unfolding_all decide

set_option maxRecDepth 8000000
set_option maxHeartbeats 40000000

/-- C6: on the 4x4 deterministic absorbing grid with reward -1 per move,
discount 1 and the default `theta = 1/100000`, the outer loop returns (in
three improvement rounds, the first evaluation taking 141 sweeps, certified
sweep by sweep above) a value vector within 2-decimal tolerance of the golden
layout `expected_v` under row-major indexing — in this exact-rational model
it is `expected_v` itself. -/
theorem gridEvalStepNe (p : List (List ℚ)) (fuel : Nat) (V W : List ℚ) (d : ℚ)
    (h1 : sweep p gridworldEnv 1 V = (W, d)) (h2 : ¬ d < defaultTheta) :
    policyEvalLoop p gridworldEnv 1 defaultTheta (fuel + 1) V =
      policyEvalLoop p gridworldEnv 1 defaultTheta fuel W := by
  rw [policyEvalLoop, h1]
  dsimp only
  rw [if_neg h2]

theorem gridEvalStepLast (p : List (List ℚ)) (fuel : Nat) (V W : List ℚ) (d : ℚ)
    (h1 : sweep p gridworldEnv 1 V = (W, d)) (h2 : d < defaultTheta) :
    policyEvalLoop p gridworldEnv 1 defaultTheta (fuel + 1) V = some W := by
  rw [policyEvalLoop, h1]
  dsimp only
  rw [if_pos h2]

theorem gridSweep0 :
    sweep (uniformPolicy 16 4) gridworldEnv 1 gridV0 = (gridV1, (243 : ℚ)/128) := by
  decide!

theorem gridSweep1 :
    sweep (uniformPolicy 16 4) gridworldEnv 1 gridV1 = (gridV2, (883 : ℚ)/512) := by
  decide!

theorem gridSweep2 :
    sweep (uniformPolicy 16 4) gridworldEnv 1 gridV2 = (gridV3, (6031 : ℚ)/4096) := by
  decide!

theorem gridSweep3 :
    sweep (uniformPolicy 16 4) gridworldEnv 1 gridV3 = (gridV4, (92155 : ℚ)/65536) := by
  decide!

theorem gridSweep4 :
    sweep (uniformPolicy 16 4) gridworldEnv 1 gridV4 = (gridV5, (1396397 : ℚ)/1048576) := by
  decide!

theorem gridSweep5 :
    sweep (uniformPolicy 16 4) gridworldEnv 1 gridV5 = (gridV6, (20840299 : ℚ)/16777216) := by
  decide!

theorem gridSweep6 :
    sweep (uniformPolicy 16 4) gridworldEnv 1 gridV6 = (gridV7, (308481469 : ℚ)/268435456) := by
  decide!

theorem gridSweep7 :
    sweep (uniformPolicy 16 4) gridworldEnv 1 gridV7 = (gridV8, (4545959899 : ℚ)/4294967296) := by
  decide!

theorem gridSweep8 :
    sweep (uniformPolicy 16 4) gridworldEnv 1 gridV8 = (gridV9, (66830940621 : ℚ)/68719476736) := by
  decide!

theorem gridSweep9 :
    sweep (uniformPolicy 16 4) gridworldEnv 1 gridV9 = (gridV10, (981210719051 : ℚ)/1099511627776) := by
  decide!

theorem gridSweep10 :
    sweep (uniformPolicy 16 4) gridworldEnv 1 gridV10 = (gridV11, (14395883584221 : ℚ)/17592186044416) := by
  decide!

theorem gridSweep11 :
    sweep (uniformPolicy 16 4) gridworldEnv 1 gridV11 = (gridV12, (211128179012027 : ℚ)/281474976710656) := by
  decide!

theorem gridSweep12 :
    sweep (uniformPolicy 16 4) gridworldEnv 1 gridV12 = (gridV13, (3095725120381165 : ℚ)/4503599627370496) := by
  decide!

theorem gridSweep13 :
    sweep (uniformPolicy 16 4) gridworldEnv 1 gridV13 = (gridV14, (45386696198697771 : ℚ)/72057594037927936) := by
  decide!

theorem gridSweep14 :
    sweep (uniformPolicy 16 4) gridworldEnv 1 gridV14 = (gridV15, (665376511325174781 : ℚ)/1152921504606846976) := by
  decide!

theorem gridSweep15 :
    sweep (uniformPolicy 16 4) gridworldEnv 1 gridV15 = (gridV16, (9754195887603799963 : ℚ)/18446744073709551616) := by
  decide!

theorem gridSweep16 :
    sweep (uniformPolicy 16 4) gridworldEnv 1 gridV16 = (gridV17, (142990556500937235469 : ℚ)/295147905179352825856) := by
  decide!

theorem gridSweep17 :
    sweep (uniformPolicy 16 4) gridworldEnv 1 gridV17 = (gridV18, (2096132860684442373899 : ℚ)/4722366482869645213696) := by
  decide!

theorem gridSweep18 :
    sweep (uniformPolicy 16 4) gridworldEnv 1 gridV18 = (gridV19, (30727543134138373181725 : ℚ)/75557863725914323419136) := by
  decide!

theorem gridSweep19 :
    sweep (uniformPolicy 16 4) gridworldEnv 1 gridV19 = (gridV20, (450438545329275447232891 : ℚ)/1208925819614629174706176) := by
  decide!

theorem gridSweep20 :
    sweep (uniformPolicy 16 4) gridworldEnv 1 gridV20 = (gridV21, (6603018848747656074079021 : ℚ)/19342813113834066795298816) := by
  decide!

theorem gridSweep21 :
    sweep (uniformPolicy 16 4) gridworldEnv 1 gridV21 = (gridV22, (96794155144631812007950059 : ℚ)/309485009821345068724781056) := by
  decide!

theorem gridSweep22 :
    sweep (uniformPolicy 16 4) gridworldEnv 1 gridV22 = (gridV23, (1418912175656095212765821501 : ℚ)/4951760157141521099596496896) := by
  decide!

theorem gridSweep23 :
    sweep (uniformPolicy 16 4) gridworldEnv 1 gridV23 = (gridV24, (20799925535725557966984972123 : ℚ)/79228162514264337593543950336) := by
  decide!

theorem gridSweep24 :
    sweep (uniformPolicy 16 4) gridworldEnv 1 gridV24 = (gridV25, (304907411497626460091018694221 : ℚ)/1267650600228229401496703205376) := by
  decide!

theorem gridSweep25 :
    sweep (uniformPolicy 16 4) gridworldEnv 1 gridV25 = (gridV26, (4469656487941146071334359919307 : ℚ)/20282409603651670423947251286016) := by
  decide!

theorem gridSweep26 :
    sweep (uniformPolicy 16 4) gridworldEnv 1 gridV26 = (gridV27, (65520966336718341200994367534941 : ℚ)/324518553658426726783156020576256) := by
  decide!

theorem gridSweep27 :
    sweep (uniformPolicy 16 4) gridworldEnv 1 gridV27 = (gridV28, (960475808060608478789531801555259 : ℚ)/5192296858534827628530496329220096) := by
  decide!

theorem gridSweep28 :
    sweep (uniformPolicy 16 4) gridworldEnv 1 gridV28 = (gridV29, (14079672773539825926903287043802477 : ℚ)/83076749736557242056487941267521536) := by
  decide!

theorem gridSweep29 :
    sweep (uniformPolicy 16 4) gridworldEnv 1 gridV29 = (gridV30, (206394770523140319354373137023068843 : ℚ)/1329227995784915872903807060280344576) := by
  decide!

theorem gridSweep30 :
    sweep (uniformPolicy 16 4) gridworldEnv 1 gridV30 = (gridV31, (3025553350482477083058477769154021501 : ℚ)/21267647932558653966460912964485513216) := by
  decide!

theorem gridSweep31 :
    sweep (uniformPolicy 16 4) gridworldEnv 1 gridV31 = (gridV32, (44351768380521193607033767862319048475 : ℚ)/340282366920938463463374607431768211456) := by
  decide!

theorem gridSweep32 :
    sweep (uniformPolicy 16 4) gridworldEnv 1 gridV32 = (gridV33, (650155237185944192409931007412328566925 : ℚ)/5444517870735015415413993718908291383296) := by
  decide!

theorem gridSweep33 :
    sweep (uniformPolicy 16 4) gridworldEnv 1 gridV33 = (gridV34, (9530664674891328824510823707912514467467 : ℚ)/87112285931760246646623899502532662132736) := by
  decide!

theorem gridSweep34 :
    sweep (uniformPolicy 16 4) gridworldEnv 1 gridV34 = (gridV35, (139710585901068013378158008725408728362397 : ℚ)/1393796574908163946345982392040522594123776) := by
  decide!

theorem gridSweep35 :
    sweep (uniformPolicy 16 4) gridworldEnv 1 gridV35 = (gridV36, (2048025869650971237676321783206470898813179 : ℚ)/22300745198530623141535718272648361505980416) := by
  decide!

theorem gridSweep36 :
    sweep (uniformPolicy 16 4) gridworldEnv 1 gridV36 = (gridV37, (30022134223235984972854622365600490598182829 : ℚ)/356811923176489970264571492362373784095686656) := by
  decide!

theorem gridSweep37 :
    sweep (uniformPolicy 16 4) gridworldEnv 1 gridV37 = (gridV38, (440096268618462913754054539132386947849031275 : ℚ)/5708990770823839524233143877797980545530986496) := by
  decide!

theorem gridSweep38 :
    sweep (uniformPolicy 16 4) gridworldEnv 1 gridV38 = (gridV39, (6451397632353025666989042379864464697880487613 : ℚ)/91343852333181432387730302044767688728495783936) := by
  decide!

theorem gridSweep39 :
    sweep (uniformPolicy 16 4) gridworldEnv 1 gridV39 = (gridV40, (94571425339936033572617479292498803499489097435 : ℚ)/1461501637330902918203684832716283019655932542976) := by
  decide!

theorem gridSweep40 :
    sweep (uniformPolicy 16 4) gridworldEnv 1 gridV40 = (gridV41, (1386328203658335886979446210468589274058439762637 : ℚ)/23384026197294446691258957323460528314494920687616) := by
  decide!

theorem gridSweep41 :
    sweep (uniformPolicy 16 4) gridworldEnv 1 gridV41 = (gridV42, (20322268394927128156156464081223986048702904611403 : ℚ)/374144419156711147060143317175368453031918731001856) := by
  decide!

theorem gridSweep42 :
    sweep (uniformPolicy 16 4) gridworldEnv 1 gridV42 = (gridV43, (297905352877114924351399401601306649624496238310365 : ℚ)/5986310706507378352962293074805895248510699696029696) := by
  decide!

theorem gridSweep43 :
    sweep (uniformPolicy 16 4) gridworldEnv 1 gridV43 = (gridV44, (4367012458848355733227684891933145500382552377667771 : ℚ)/95780971304118053647396689196894323976171195136475136) := by
  decide!

theorem gridSweep44 :
    sweep (uniformPolicy 16 4) gridworldEnv 1 gridV44 = (gridV45, (64016297899782947384649277431531731402233186614012397 : ℚ)/1532495540865888858358347027150309183618739122183602176) := by
  decide!

theorem gridSweep45 :
    sweep (uniformPolicy 16 4) gridworldEnv 1 gridV45 = (gridV46, (938418755478584502465138540990072499890892341223088683 : ℚ)/24519928653854221733733552434404946937899825954937634816) := by
  decide!

theorem gridSweep46 :
    sweep (uniformPolicy 16 4) gridworldEnv 1 gridV46 = (gridV47, (13756336894276250586470415492470460048187641929547764989 : ℚ)/392318858461667547739736838950479151006397215279002157056) := by
  decide!

theorem gridSweep47 :
    sweep (uniformPolicy 16 4) gridworldEnv 1 gridV47 = (gridV48, (201654968684307849166824925292587993521431927672663783067 : ℚ)/6277101735386680763835789423207666416102355444464034512896) := by
  decide!

theorem gridSweep48 :
    sweep (uniformPolicy 16 4) gridworldEnv 1 gridV48 = (gridV49, (2956072296541827306918645377433394447933099974578677417229 : ℚ)/100433627766186892221372630771322662657637687111424552206336) := by
  decide!

theorem gridSweep49 :
    sweep (uniformPolicy 16 4) gridworldEnv 1 gridV49 = (gridV50, (43333241324996535561413803312767414108832624640097077698059 : ℚ)/1606938044258990275541962092341162602522202993782792835301376) := by
  decide!

theorem gridSweep50 :
    sweep (uniformPolicy 16 4) gridworldEnv 1 gridV50 = (gridV51, (635224587005894184629227408255122026909557410232363190487581 : ℚ)/25711008708143844408671393477458601640355247900524685364822016) := by
  decide!

theorem gridSweep51 :
    sweep (uniformPolicy 16 4) gridworldEnv 1 gridV51 = (gridV52, (9311795369990970545311225321809162394275224293027881062336635 : ℚ)/411376139330301510538742295639337626245683966408394965837152256) := by
  decide!

theorem gridSweep52 :
    sweep (uniformPolicy 16 4) gridworldEnv 1 gridV52 = (gridV53, (136502167558227962145170299853637228546156914254827627178619949 : ℚ)/6582018229284824168619876730229402019930943462534319453394436096) := by
  decide!

theorem gridSweep53 :
    sweep (uniformPolicy 16 4) gridworldEnv 1 gridV53 = (gridV54, (2000993472015326895998254922173166720342975942019759216143721963 : ℚ)/105312291668557186697918027683670432318895095400549111254310977536) := by
  decide!

theorem gridSweep54 :
    sweep (uniformPolicy 16 4) gridworldEnv 1 gridV54 = (gridV55, (29332683478011166789034477493508659427047472274593402588955136829 : ℚ)/1684996666696914987166688442938726917102321526408785780068975640576) := by
  decide!

theorem gridSweep55 :
    sweep (uniformPolicy 16 4) gridworldEnv 1 gridV55 = (gridV56, (429989568708896810249379004392882269865021533198579764570854434395 : ℚ)/26959946667150639794667015087019630673637144422540572481103610249216) := by
  decide!

theorem gridSweep56 :
    sweep (uniformPolicy 16 4) gridworldEnv 1 gridV56 = (gridV57, (6303242911173263219294259869192139317358034528600646932142869165901 : ℚ)/431359146674410236714672241392314090778194310760649159697657763987456) := by
  decide!

theorem gridSweep57 :
    sweep (uniformPolicy 16 4) gridworldEnv 1 gridV57 = (gridV58, (92399616382679750703063491297654265769191454429168591017688629459403 : ℚ)/6901746346790563787434755862277025452451108972170386555162524223799296) := by
  decide!

theorem gridSweep58 :
    sweep (uniformPolicy 16 4) gridworldEnv 1 gridV58 = (gridV59, (1354491525708502903973613876008590512400686459675554307139696244961373 : ℚ)/110427941548649020598956093796432407239217743554726184882600387580788736) := by
  decide!

theorem gridSweep59 :
    sweep (uniformPolicy 16 4) gridworldEnv 1 gridV59 = (gridV60, (19855572620754422123096834516967670348379208405214396764162887115345979 : ℚ)/1766847064778384329583297500742918515827483896875618958121606201292619776) := by
  decide!

theorem gridSweep60 :
    sweep (uniformPolicy 16 4) gridworldEnv 1 gridV60 = (gridV61, (291064031494647336108603420892184604935268696426457737171162315921215085 : ℚ)/28269553036454149273332760011886696253239742350009903329945699220681916416) := by
  decide!

theorem gridSweep61 :
    sweep (uniformPolicy 16 4) gridworldEnv 1 gridV61 = (gridV62, (4266725117832342941106977499424920904074620297182194315645426103149992363 : ℚ)/452312848583266388373324160190187140051835877600158453279131187530910662656) := by
  decide!

theorem gridSweep62 :
    sweep (uniformPolicy 16 4) gridworldEnv 1 gridV62 = (gridV63, (62546179744906780630004024969992196553721042053115013772126306171092607357 : ℚ)/7237005577332262213973186563042994240829374041602535252466099000494570602496) := by
  decide!

theorem gridSweep63 :
    sweep (uniformPolicy 16 4) gridworldEnv 1 gridV63 = (gridV64, (916868205156286946193578924946067500636324882777839155462231813803543709211 : ℚ)/115792089237316195423570985008687907853269984665640564039457584007913129639936) := by
  decide!

theorem gridSweep64 :
    sweep (uniformPolicy 16 4) gridworldEnv 1 gridV64 = (gridV65, (13440426082857060880731182848299092667312654151432781950093255580018839763341 : ℚ)/1852673427797059126777135760139006525652319754650249024631321344126610074238976) := by
  decide!

theorem gridSweep65 :
    sweep (uniformPolicy 16 4) gridworldEnv 1 gridV65 = (gridV66, (197024013127330678654350248117990347879226375853697143334669237610940566766987 : ℚ)/29642774844752946028434172162224104410437116074403984394101141506025761187823616) := by
  decide!

theorem gridSweep66 :
    sweep (uniformPolicy 16 4) gridworldEnv 1 gridV66 = (gridV67, (2888186840915005121509730398142512041681708589932342160485261461924205715007133 : ℚ)/474284397516047136454946754595585670566993857190463750305618264096412179005177856) := by
  decide!

theorem gridSweep67 :
    sweep (uniformPolicy 16 4) gridworldEnv 1 gridV67 = (gridV68, (42338104354029463075839112926083410373376624624448744577534863901530669813450747 : ℚ)/7588550360256754183279148073529370729071901715047420004889892225542594864082845696) := by
  decide!

theorem gridSweep68 :
    sweep (uniformPolicy 16 4) gridworldEnv 1 gridV68 = (gridV69, (620636814384488613766425946650308426976098532668515107075714953328485046297098413 : ℚ)/121416805764108066932466369176469931665150427440758720078238275608681517825325531136) := by
  decide!

theorem gridSweep69 :
    sweep (uniformPolicy 16 4) gridworldEnv 1 gridV69 = (gridV70, (9097952335049840501415784470854213509440117882912955180174322000725464395602132331 : ℚ)/1942668892225729070919461906823518906642406839052139521251812409738904285205208498176) := by
  decide!

theorem gridSweep70 :
    sweep (uniformPolicy 16 4) gridworldEnv 1 gridV70 = (gridV71, (133367429666459629437509671145205658161813458625195943825022147670946282416390324157 : ℚ)/31082702275611665134711390509176302506278509424834232340028998555822468563283335970816) := by
  decide!

theorem gridSweep71 :
    sweep (uniformPolicy 16 4) gridworldEnv 1 gridV71 = (gridV72, (1955041160999951076576445887077858615782436524694179771515583988262082663414218692059 : ℚ)/497323236409786642155382248146820840100456150797347717440463976893159497012533375533056) := by
  decide!

theorem gridSweep72 :
    sweep (uniformPolicy 16 4) gridworldEnv 1 gridV72 = (gridV73, (28659065791123005445924298172751341729654654493284543204139116915804947789400015440845 : ℚ)/7957171782556586274486115970349133441607298412757563479047423630290551952200534008528896) := by
  decide!

theorem gridSweep73 :
    sweep (uniformPolicy 16 4) gridworldEnv 1 gridV73 = (gridV74, (420114966581993846554418953914365014074088878374030817571691892228639306301289329983819 : ℚ)/127314748520905380391777855525586135065716774604121015664758778084648831235208544136462336) := by
  decide!

theorem gridSweep74 :
    sweep (uniformPolicy 16 4) gridworldEnv 1 gridV74 = (gridV75, (6158490525565515583152440305399552940893248643774193547368139093951994519225461631380701 : ℚ)/2037035976334486086268445688409378161051468393665936250636140449354381299763336706183397376) := by
  decide!

theorem gridSweep75 :
    sweep (uniformPolicy 16 4) gridworldEnv 1 gridV75 = (gridV76, (90277682468801086863058551379476578468167582570890028138268143329222426565090940868538299 : ℚ)/32592575621351777380295131014550050576823494298654980010178247189670100796213387298934358016) := by
  decide!

theorem gridSweep76 :
    sweep (uniformPolicy 16 4) gridworldEnv 1 gridV76 = (gridV77, (1323385969030013196925817503373451213235472882734557230275318711833687287990864949271229165 : ℚ)/521481209941628438084722096232800809229175908778479680162851955034721612739414196782949728256) := by
  decide!

theorem gridSweep77 :
    sweep (uniformPolicy 16 4) gridworldEnv 1 gridV77 = (gridV78, (19399594397327969832245012488877108795218061337924444925217736007382372274296167174172512555 : ℚ)/8343699359066055009355553539724812947666814540455674882605631280555545803830627148527195652096) := by
  decide!

theorem gridSweep78 :
    sweep (uniformPolicy 16 4) gridworldEnv 1 gridV78 = (gridV79, (284379819333193798981101036259879859161992168819846172332123299523976662205738080555791789565 : ℚ)/133499189745056880149688856635597007162669032647290798121690100488888732861290034376435130433536) := by
  decide!

theorem gridSweep79 :
    sweep (uniformPolicy 16 4) gridworldEnv 1 gridV79 = (gridV80, (4168740850330301076652836295208558591897280774218783871020027652933567967906890724120641279387 : ℚ)/2135987035920910082395021706169552114602704522356652769947041607822219725780640550022962086936576) := by
  decide!

theorem gridSweep80 :
    sweep (uniformPolicy 16 4) gridworldEnv 1 gridV80 = (gridV81, (61109822483047532194963301024967588091904322941038975817105041045961103899544418616853139140109 : ℚ)/34175792574734561318320347298712833833643272357706444319152665725155515612490248800367393390985216) := by
  decide!

theorem gridSweep81 :
    sweep (uniformPolicy 16 4) gridworldEnv 1 gridV81 = (gridV82, (895812557792767041626785126379943862931354540317369052413649509870362888364832458733238756945163 : ℚ)/546812681195752981093125556779405341338292357723303109106442651602488249799843980805878294255763456) := by
  decide!

theorem gridSweep82 :
    sweep (uniformPolicy 16 4) gridworldEnv 1 gridV82 = (gridV83, (13131770083636480870557872923687360054910228261829649088751557420015688401388755953110540328305437 : ℚ)/8749002899132047697490008908470485461412677723572849745703082425639811996797503692894052708092215296) := by
  decide!

theorem gridSweep83 :
    sweep (uniformPolicy 16 4) gridworldEnv 1 gridV83 = (gridV84, (192499406298100019770461275976004583198504584791331013820126768966586115768587948280969002598451067 : ℚ)/139984046386112763159840142535527767382602843577165595931249318810236991948760059086304843329475444736) := by
  decide!

theorem gridSweep84 :
    sweep (uniformPolicy 16 4) gridworldEnv 1 gridV84 = (gridV85, (2821860357675356767104986554855126997838582118930563001867221250680022228375599686479824554913905965 : ℚ)/2239744742177804210557442280568444278121645497234649534899989100963791871180160945380877493271607115776) := by
  decide!

theorem gridSweep85 :
    sweep (uniformPolicy 16 4) gridworldEnv 1 gridV85 = (gridV86, (41365820452913712006319429019262804293535273815582311701112242958027567446253412313761872687070008555 : ℚ)/35835915874844867368919076489095108449946327955754392558399825615420669938882575126094039892345713852416) := by
  decide!

theorem gridSweep86 :
    sweep (uniformPolicy 16 4) gridworldEnv 1 gridV86 = (gridV87, (606384046286514669222242366308450634637541077539071031588438162849775756732000630952845717401596783677 : ℚ)/573374653997517877902705223825521735199141247292070280934397209846730719022121202017504638277531421638656) := by
  decide!

theorem gridSweep87 :
    sweep (uniformPolicy 16 4) gridworldEnv 1 gridV87 = (gridV88, (8889020151536869131887625158142553058724072435023430104702502560880442017167113906559099578744959157595 : ℚ)/9173994463960286046443283581208347763186259956673124494950355357547691504353939232280074212440502746218496) := by
  decide!

theorem gridSweep88 :
    sweep (uniformPolicy 16 4) gridworldEnv 1 gridV88 = (gridV89, (130304680240703993567157018409615752952867011122018583134831399754953857608865704314759179219385250193485 : ℚ)/146783911423364576743092537299333564210980159306769991919205685720763064069663027716481187399048043939495936) := by
  decide!

theorem gridSweep89 :
    sweep (uniformPolicy 16 4) gridworldEnv 1 gridV89 = (gridV90, (1910144133231205715637849773325939086869448279539524165220698164608210457223183593570180048963901740648651 : ℚ)/2348542582773833227889480596789337027375682548908319870707290971532209025114608443463698998384768703031934976) := by
  decide!

theorem gridSweep90 :
    sweep (uniformPolicy 16 4) gridworldEnv 1 gridV90 = (gridV91, (28000917564723396658993287834285635230614176109517305306781783715968057230066323009287917430327909569522013 : ℚ)/37576681324381331646231689548629392438010920782533117931316655544515344401833735095419183974156299248510959616) := by
  decide!

theorem gridSweep91 :
    sweep (uniformPolicy 16 4) gridworldEnv 1 gridV91 = (gridV92, (410467132205427603445796824506082942744580551133727229266924373857172403736091116568549481827863988463341371 : ℚ)/601226901190101306339707032778070279008174732520529886901066488712245510429339761526706943586500787976175353856) := by
  decide!

theorem gridSweep92 :
    sweep (uniformPolicy 16 4) gridworldEnv 1 gridV92 = (gridV93, (6017062342028730658459419206877847402673312780782385200604116484037937893155825469589006944689914593430689645 : ℚ)/9619630419041620901435312524449124464130795720328478190417063819395928166869436184427311097384012607618805661696) := by
  decide!

theorem gridSweep93 :
    sweep (uniformPolicy 16 4) gridworldEnv 1 gridV93 = (gridV94, (88204478232719102862590357113666417876107985387166695231518109859475569335049296423561423117067467887750793387 : ℚ)/153914086704665934422965000391185991426092731525255651046673021110334850669910978950836977558144201721900890587136) := by
  decide!

theorem gridSweep94 :
    sweep (uniformPolicy 16 4) gridworldEnv 1 gridV94 = (gridV95, (1292994743624856636234507322484411038017417310602609322195301085760079211721798841619499567556053837700635982461 : ℚ)/2462625387274654950767440006258975862817483704404090416746768337765357610718575663213391640930307227550414249394176) := by
  decide!

theorem gridSweep95 :
    sweep (uniformPolicy 16 4) gridworldEnv 1 gridV95 = (gridV96, (18954087598937215855940898045707102847866659529629000608921782689317707431103586744369994125934212393324625503515 : ℚ)/39402006196394479212279040100143613805079739270465446667948293404245721771497210611414266254884915640806627990306816) := by
  decide!

theorem gridSweep96 :
    sweep (uniformPolicy 16 4) gridworldEnv 1 gridV96 = (gridV97, (277849108420210872582136350778709072727072917939045735035975596899094396015415286526795710237387674529540941734541 : ℚ)/630432099142311667396464641602297820881275828327447146687172694467931548343955369782628260078158650252906047844909056) := by
  decide!

theorem gridSweep97 :
    sweep (uniformPolicy 16 4) gridworldEnv 1 gridV97 = (gridV98, (4073006766848266725575618090197907042262326124164011831944754712519729726800732108397877757142082675529646087181451 : ℚ)/10086913586276986678343434265636765134100413253239154346994763111486904773503285916522052161250538404046496765518544896) := by
  decide!

theorem gridSweep98 :
    sweep (uniformPolicy 16 4) gridworldEnv 1 gridV98 = (gridV99, (59706450803874710265131689526705394221164774736824154151854195639427941061937823624515415840590245413040083855417245 : ℚ)/161390617380431786853494948250188242145606612051826469551916209783790476376052574664352834580008614464743948248296718336) := by
  decide!

theorem gridSweep99 :
    sweep (uniformPolicy 16 4) gridworldEnv 1 gridV99 = (gridV100, (875240448066830853543616798851559174233689775005939317662322455687932595348807631809557475956531826904138809233147643 : ℚ)/2582249878086908589655919172003011874329705792829223512830659356540647622016841194629645353280137831435903171972747493376) := by
  decide!

theorem gridSweep100 :
    sweep (uniformPolicy 16 4) gridworldEnv 1 gridV100 = (gridV101, (12830202291684594989736603860358539412112606432565975440958774622499692383926437356668850638597349112905829259941429677 : ℚ)/41315998049390537434494706752048189989275292685267576205290549704650361952269459114074325652482205302974450751563959894016) := by
  decide!

theorem gridSweep101 :
    sweep (uniformPolicy 16 4) gridworldEnv 1 gridV101 = (gridV102, (188078705924910788220997959252393097076458495242391798686547611092108609934812351556161981951113547010804044174582901867 : ℚ)/661055968790248598951915308032771039828404682964281219284648795274405791236311345825189210439715284847591212025023358304256) := by
  decide!

theorem gridSweep102 :
    sweep (uniformPolicy 16 4) gridworldEnv 1 gridV102 = (gridV103, (2757057045415029691523663639199809766492452974918421105738797787427876055924480147993685424659838109558666628606403958973 : ℚ)/10576895500643977583230644928524336637254474927428499508554380724390492659780981533203027367035444557561459392400373732868096) := by
  decide!

theorem gridSweep103 :
    sweep (uniformPolicy 16 4) gridworldEnv 1 gridV103 = (gridV104, (40415864806659444619264890568954376003832176915668246281366891693456350804910931058842038197148092580978934373681686131931 : ℚ)/169230328010303641331690318856389386196071598838855992136870091590247882556495704531248437872567112920983350278405979725889536) := by
  decide!

theorem gridSweep104 :
    sweep (uniformPolicy 16 4) gridworldEnv 1 gridV104 = (gridV105, (592458589417501719188567662786761434318614232854890440510020617426470931769005079849656271397149309420285644073053046928589 : ℚ)/2707685248164858261307045101702230179137145581421695874189921465443966120903931272499975005961073806735733604454495675614232576) := by
  decide!

theorem gridSweep105 :
    sweep (uniformPolicy 16 4) gridworldEnv 1 gridV105 = (gridV106, (8684886042986252330730287507568855078083770024821323143231517175831307014398192328978876727784662421074484467337768479346763 : ℚ)/43322963970637732180912721627235682866194329302747133987038743447103457934462900359999600095377180907771737671271930809827721216) := by
  decide!

theorem gridSweep106 :
    sweep (uniformPolicy 16 4) gridworldEnv 1 gridV106 = (gridV107, (127312266083974881834685814573925529568052487083667890087979233596080073148322587563508484229253240473689393707400064959292893 : ℚ)/693167423530203714894603546035770925859109268843954143792619895153655326951406405759993601526034894524347802740350892957243539456) := by
  decide!

theorem gridSweep107 :
    sweep (uniformPolicy 16 4) gridworldEnv 1 gridV107 = (gridV108, (1866278154395177706397439256833887492710743124793293186598538215259519106740548243685840083529738716879299504482583917677653691 : ℚ)/11090678776483259438313656736572334813745748301503266300681918322458485231222502492159897624416558312389564843845614287315896631296) := by
  decide!

theorem gridSweep108 :
    sweep (uniformPolicy 16 4) gridworldEnv 1 gridV108 = (gridV109, (27357883546549204605959448889506387831322318898881640784348732307652481337052203650681948764404966757119520311777711561667607533 : ℚ)/177450860423732151013018507785157357019931972824052260810910693159335763699560039874558361990664932998233037501529828597054346100736) := by
  decide!

theorem gridSweep109 :
    sweep (uniformPolicy 16 4) gridworldEnv 1 gridV109 = (gridV110, (401040857914937195915623551570288691226736144709441359849894202181913847900297143723703771789151807777194172758652052309766127659 : ℚ)/2839213766779714416208296124562517712318911565184836172974571090549372219192960637992933791850638927971728600024477257552869537611776) := by
  decide!

theorem gridSweep110 :
    sweep (uniformPolicy 16 4) gridworldEnv 1 gridV110 = (gridV111, (5878882021099752182401041067799543064660254695888440041117288218504722618602850244718447536998709604158033325039731057485667272445 : ℚ)/45427420268475430659332737993000283397102585042957378767593137448789955507087370207886940669610222847547657600391636120845912601788416) := by
  decide!

theorem gridSweep111 :
    sweep (uniformPolicy 16 4) gridworldEnv 1 gridV111 = (gridV112, (86178884609658711238138783510445084081120994363536653428535635096446299034488164107030728431342755166570648772435052707607414961307 : ℚ)/726838724295606890549323807888004534353641360687318060281490199180639288113397923326191050713763565560762521606266177933534601628614656) := by
  decide!

theorem gridSweep112 :
    sweep (uniformPolicy 16 4) gridworldEnv 1 gridV112 = (gridV113, (1263301445055288345659966001389426049661229363427145780231807863518096646917363312166633944986967232731529047984635849943317394577165 : ℚ)/11629419588729710248789180926208072549658261770997088964503843186890228609814366773219056811420217048972200345700258846936553626057834496) := by
  decide!

theorem gridSweep113 :
    sweep (uniformPolicy 16 4) gridworldEnv 1 gridV113 = (gridV114, (18518811751944070343019583376034719216411920001563809880737137999104155141166994136154636031091878860851902410821182984964623806381067 : ℚ)/186070713419675363980626894819329160794532188335953423432061490990243657757029868371504908982723472783555205531204141550984858016925351936) := by
  decide!

theorem gridSweep114 :
    sweep (uniformPolicy 16 4) gridworldEnv 1 gridV114 = (gridV115, (271468373638195886531735278194900932989866894256986199112402610572595858321933057451294542689660993866011015926772223351307662618295325 : ℚ)/2977131414714805823690030317109266572712515013375254774912983855843898524112477893944078543723575564536883288499266264815757728270805630976) := by
  decide!

theorem gridSweep115 :
    sweep (uniformPolicy 16 4) gridworldEnv 1 gridV115 = (gridV116, (3979471192477063514899876440222110118260277248444163070098229061506796299855552795005446431375862071850364388645361623572331632732866171 : ℚ)/47634102635436893179040485073748265163400240214004076398607741693502376385799646303105256699577209032590132615988260237052123652332890095616) := by
  decide!

theorem gridSweep116 :
    sweep (uniformPolicy 16 4) gridworldEnv 1 gridV116 = (gridV117, (58335307201791307000892906783036491081408666898331536855933104612046472107882495244814956382493392413676828782746020398852781076018595373 : ℚ)/762145642166990290864647761179972242614403843424065222377723867096038022172794340849684107193235344521442121855812163792833978437326241529856) := by
  decide!

theorem gridSweep117 :
    sweep (uniformPolicy 16 4) gridworldEnv 1 gridV117 = (gridV118, (855140771658439050741804688747091024199809180264682558089986803566356515372063554641481515732026781655972735281300059692405301334327968747 : ℚ)/12194330274671844653834364178879555881830461494785043558043581873536608354764709453594945715091765512343073949692994620685343654997219864477696) := by
  decide!

theorem gridSweep118 :
    sweep (uniformPolicy 16 4) gridworldEnv 1 gridV118 = (gridV119, (12535559928107065152987163517122683289696377866707965172798533814424365122162913395408959145035594484527985428532849612723439408743779599677 : ℚ)/195109284394749514461349826862072894109287383916560696928697309976585733676235351257519131441468248197489183195087913930965498479955517831643136) := by
  decide!

theorem gridSweep119 :
    sweep (uniformPolicy 16 4) gridworldEnv 1 gridV119 = (gridV120, (183759525822175026104370534024644889694791390265867059802280350529492200252611193732720668362606700324669730141424081662437154840789974574171 : ℚ)/3121748550315992231381597229793166305748598142664971150859156959625371738819765620120306103063491971159826931121406622895447975679288285306290176) := by
  decide!

theorem gridSweep120 :
    sweep (uniformPolicy 16 4) gridworldEnv 1 gridV120 = (gridV121, (2693741924896185164827388527383738357305967150651639525094366252129906047571640087450162537779785788500954806255487763935416310078047685740877 : ℚ)/49947976805055875702105555676690660891977570282639538413746511354005947821116249921924897649015871538557230897942505966327167610868612564900642816) := by
  decide!

theorem gridSweep121 :
    sweep (uniformPolicy 16 4) gridworldEnv 1 gridV121 = (gridV122, (39487724652518468526414364171711140750152102651766439376365647006763218687264374544388050104407585952483596237868818594493405953366535185291211 : ℚ)/799167628880894011233688890827050574271641124522232614619944181664095165137859998750798362384253944616915694367080095461234681773897801038410285056) := by
  decide!

theorem gridSweep122 :
    sweep (uniformPolicy 16 4) gridworldEnv 1 gridV122 = (gridV123, (578852927157529512464290213577995640736902618268225861832425497522973556901417487590486373789658596668167908432827816634577761689649448525931101 : ℚ)/12786682062094304179739022253232809188346257992355721833919106906625522642205759980012773798148063113870651109873281527379754908382364816614564560896) := by
  decide!

theorem gridSweep123 :
    sweep (uniformPolicy 16 4) gridworldEnv 1 gridV123 = (gridV124, (8485439822815160727574290160058126072581202945633554503313653233456260795534330007156306910119568329336491975726138389006615549128865895384550971 : ℚ)/204586912993508866875824356051724947013540127877691549342705710506008362275292159680204380770369009821930417757972504438076078534117837065833032974336) := by
  decide!

theorem gridSweep124 :
    sweep (uniformPolicy 16 4) gridworldEnv 1 gridV124 = (gridV125, (124388571964537228962030297824790262534725726744236637690317025707286384026615122921526735583640015560485881141205048813888569923643393477235761261 : ℚ)/3273390607896141870013189696827599152216642046043064789483291368096133796404674554883270092325904157150886684127560071009217256545885393053328527589376) := by
  decide!

theorem gridSweep125 :
    sweep (uniformPolicy 16 4) gridworldEnv 1 gridV125 = (gridV126, (1823419546712858309601238501456054597973688889404384133942971473962860148329238189995123374142631130445665043206156349786978622389204325589661349803 : ℚ)/52374249726338269920211035149241586435466272736689036631732661889538140742474792878132321477214466514414186946040961136147476104734166288853256441430016) := by
  decide!

theorem gridSweep126 :
    sweep (uniformPolicy 16 4) gridworldEnv 1 gridV126 = (gridV127, (26729616642615946599570225845823023271722017380578180821346983452603863621585450977837154851422629441468547467624995003592055861192220172677519233917 : ℚ)/837987995621412318723376562387865382967460363787024586107722590232610251879596686050117143635431464230626991136655378178359617675746660621652103062880256) := by
  decide!

theorem gridSweep127 :
    sweep (uniformPolicy 16 4) gridworldEnv 1 gridV127 = (gridV128, (391831055638959002992520012032412335854234579558977868518930990122975601111243192375300264773904056697759603962801354967523074678986196928289975108635 : ℚ)/13407807929942597099574024998205846127479365820592393377723561443721764030073546976801874298166903427690031858186486050853753882811946569946433649006084096) := by
  decide!

theorem gridSweep128 :
    sweep (uniformPolicy 16 4) gridworldEnv 1 gridV128 = (gridV129, (5743874976431959619901584135193056529435713097030019064254684712754779574817316855590146404442327093060424439243183759010642781482069691572944487385997 : ℚ)/214524926879081553593184399971293538039669853129478294043576983099548224481176751628829988770670454843040509730983776813660062124991145119142938384097345536) := by
  decide!

theorem gridSweep129 :
    sweep (uniformPolicy 16 4) gridworldEnv 1 gridV129 = (gridV130, (84199808233885441157011232204596710601877103972851872923511833961838580961573437019615381651787870600749043345944108311525315579580515598531731718644619 : ℚ)/3432398830065304857490950399540696608634717650071652704697231729592771591698828026061279820330727277488648155695740429018560993999858321906287014145557528576) := by
  decide!

theorem gridSweep130 :
    sweep (uniformPolicy 16 4) gridworldEnv 1 gridV130 = (gridV131, (1234290045607343504021426971464284062059077877393398890277769266630626166804057201363313033319565825945136736612949723807257005526511780018298384196769949 : ℚ)/54918381281044877719855206392651145738155482401146443275155707673484345467181248416980477125291636439818370491131846864296975903997733150500592226328920457216) := by
  decide!

theorem gridSweep131 :
    sweep (uniformPolicy 16 4) gridworldEnv 1 gridV131 = (gridV132, (18093531905126961993404050052561176597121685273854412916712322365834361165883360426196723214571641763905387494272840145995468718613562068466141176286037499 : ℚ)/878694100496718043517683302282418331810487718418343092402491322775749527474899974671687634004666183037093927858109549828751614463963730408009475621262727315456) := by
  decide!

theorem gridSweep132 :
    sweep (uniformPolicy 16 4) gridworldEnv 1 gridV132 = (gridV133, (265234170823081587835268635800185229572158563477335961866720261694657404864288330685246656548342399771123861331959252473075056954999718046382112543827921581 : ℚ)/14059105607947488696282932836518693308967803494693489478439861164411992439598399594747002144074658928593502845729752797260025831423419686528151609940203637047296) := by
  decide!

theorem gridSweep133 :
    sweep (uniformPolicy 16 4) gridworldEnv 1 gridV133 = (gridV134, (3888083639008786737576000002803073540985268725861186495076781800395149830805986813413231868452064238188218632890425033273334717473382670454443150852115716971 : ℚ)/224945689727159819140526925384299092943484855915095831655037778630591879033574393515952034305194542857496045531676044756160413302774714984450425759043258192756736) := by
  decide!

theorem gridSweep134 :
    sweep (uniformPolicy 16 4) gridworldEnv 1 gridV134 = (gridV135, (56995651567125525608723592022209717032003108406516186577933525171756827353071617063432587448970346971005219182382496904479454235768865838323945375838146195901 : ℚ)/3599131035634557106248430806148785487095757694641533306480604458089470064537190296255232548883112685719936728506816716098566612844395439751206812144692131084107776) := by
  decide!

theorem gridSweep135 :
    sweep (uniformPolicy 16 4) gridworldEnv 1 gridV135 = (gridV136, (835502679255464710032037440922587478009470911020482814088922393609545884996171586280186094958276734293456567981197440449691581166324874927914692104553414677467 : ℚ)/57586096570152913699974892898380567793532123114264532903689671329431521032595044740083720782129802971518987656109067457577065805510327036019308994315074097345724416) := by
  decide!

theorem gridSweep136 :
    sweep (uniformPolicy 16 4) gridworldEnv 1 gridV136 = (gridV137, (12247683952185856100420371120198298034593128948942680309786451650323823383060401432854254012966099240437800627163596856120165838684477946618982498234196493262285 : ℚ)/921377545122446619199598286374089084696513969828232526459034741270904336521520715841339532514076847544303802497745079321233052888165232576308943909041185557531590656) := by
  decide!

theorem gridSweep137 :
    sweep (uniformPolicy 16 4) gridworldEnv 1 gridV137 = (gridV138, (179539534602455699264766815190453136074404313520467063218575538987268970960767967631523355911590312015678977300402338717199890587890530576999579084594863729057611 : ℚ)/14742040721959145907193572581985425355144223517251720423344555860334469384344331453461432520225229560708860839963921269139728846210643721220943102544658968920505450496) := by
  decide!

theorem gridSweep138 :
    sweep (uniformPolicy 16 4) gridworldEnv 1 gridV138 = (gridV139, (2631880820170369812644034648664170917907800818681538302186683040011685474140346467345070387721156028328283170246060042396279562142871041969762758439677437438451421 : ℚ)/235872651551346334515097161311766805682307576276027526773512893765351510149509303255382920323603672971341773439422740306235661539370299539535089640714543502728087207936) := by
  decide!

theorem gridSweep139 :
    sweep (uniformPolicy 16 4) gridworldEnv 1 gridV139 = (gridV140, (38580899003209933680659418643361125263433446424413442678490457840985131314203085958381693327186094771642203609064200425926390988884605661824936115829280910034120123 : ℚ)/3773962424821541352241554580988268890916921220416440428376206300245624162392148852086126725177658767541468375030763844899770584629924792632561434251432696043649395326976) := by
  decide!

theorem gridSweep140 :
    sweep (uniformPolicy 16 4) gridworldEnv 1 gridV140 = (gridV141, (565559715503960757425679674286886758312513013947809847956455357363321477944627096846735056874978499496545864268137062522555061596483713518072293314999316877178668269 : ℚ)/60383398797144661635864873295812302254670739526663046854019300803929986598274381633378027602842540280663494000492221518396329354078796682120982948022923136698390325231616) := by
  decide!

theorem gridFirstEval :
    policy_eval (uniformPolicy 16 4) gridworldEnv 1 defaultTheta 150 = some gridV141 := by
  have hz : List.replicate gridworldEnv.nS (0 : ℚ) = gridV0 := by
    decide!
  rw [policy_eval, hz]
  rw [show policyEvalLoop (uniformPolicy 16 4) gridworldEnv 1 defaultTheta 150 gridV0 = policyEvalLoop (uniformPolicy 16 4) gridworldEnv 1 defaultTheta 149 gridV1 from gridEvalStepNe (uniformPolicy 16 4) 149 gridV0 gridV1 ((243 : ℚ)/128) gridSweep0 (by decide!)]
  rw [show policyEvalLoop (uniformPolicy 16 4) gridworldEnv 1 defaultTheta 149 gridV1 = policyEvalLoop (uniformPolicy 16 4) gridworldEnv 1 defaultTheta 148 gridV2 from gridEvalStepNe (uniformPolicy 16 4) 148 gridV1 gridV2 ((883 : ℚ)/512) gridSweep1 (by decide!)]
  rw [show policyEvalLoop (uniformPolicy 16 4) gridworldEnv 1 defaultTheta 148 gridV2 = policyEvalLoop (uniformPolicy 16 4) gridworldEnv 1 defaultTheta 147 gridV3 from gridEvalStepNe (uniformPolicy 16 4) 147 gridV2 gridV3 ((6031 : ℚ)/4096) gridSweep2 (by decide!)]
  rw [show policyEvalLoop (uniformPolicy 16 4) gridworldEnv 1 defaultTheta 147 gridV3 = policyEvalLoop (uniformPolicy 16 4) gridworldEnv 1 defaultTheta 146 gridV4 from gridEvalStepNe (uniformPolicy 16 4) 146 gridV3 gridV4 ((92155 : ℚ)/65536) gridSweep3 (by decide!)]
  rw [show policyEvalLoop (uniformPolicy 16 4) gridworldEnv 1 defaultTheta 146 gridV4 = policyEvalLoop (uniformPolicy 16 4) gridworldEnv 1 defaultTheta 145 gridV5 from gridEvalStepNe (uniformPolicy 16 4) 145 gridV4 gridV5 ((1396397 : ℚ)/1048576) gridSweep4 (by decide!)]
  rw [show policyEvalLoop (uniformPolicy 16 4) gridworldEnv 1 defaultTheta 145 gridV5 = policyEvalLoop (uniformPolicy 16 4) gridworldEnv 1 defaultTheta 144 gridV6 from gridEvalStepNe (uniformPolicy 16 4) 144 gridV5 gridV6 ((20840299 : ℚ)/16777216) gridSweep5 (by decide!)]
  rw [show policyEvalLoop (uniformPolicy 16 4) gridworldEnv 1 defaultTheta 144 gridV6 = policyEvalLoop (uniformPolicy 16 4) gridworldEnv 1 defaultTheta 143 gridV7 from gridEvalStepNe (uniformPolicy 16 4) 143 gridV6 gridV7 ((308481469 : ℚ)/268435456) gridSweep6 (by decide!)]
  rw [show policyEvalLoop (uniformPolicy 16 4) gridworldEnv 1 defaultTheta 143 gridV7 = policyEvalLoop (uniformPolicy 16 4) gridworldEnv 1 defaultTheta 142 gridV8 from gridEvalStepNe (uniformPolicy 16 4) 142 gridV7 gridV8 ((4545959899 : ℚ)/4294967296) gridSweep7 (by decide!)]
  rw [show policyEvalLoop (uniformPolicy 16 4) gridworldEnv 1 defaultTheta 142 gridV8 = policyEvalLoop (uniformPolicy 16 4) gridworldEnv 1 defaultTheta 141 gridV9 from gridEvalStepNe (uniformPolicy 16 4) 141 gridV8 gridV9 ((66830940621 : ℚ)/68719476736) gridSweep8 (by decide!)]
  rw [show policyEvalLoop (uniformPolicy 16 4) gridworldEnv 1 defaultTheta 141 gridV9 = policyEvalLoop (uniformPolicy 16 4) gridworldEnv 1 defaultTheta 140 gridV10 from gridEvalStepNe (uniformPolicy 16 4) 140 gridV9 gridV10 ((981210719051 : ℚ)/1099511627776) gridSweep9 (by decide!)]
  rw [show policyEvalLoop (uniformPolicy 16 4) gridworldEnv 1 defaultTheta 140 gridV10 = policyEvalLoop (uniformPolicy 16 4) gridworldEnv 1 defaultTheta 139 gridV11 from gridEvalStepNe (uniformPolicy 16 4) 139 gridV10 gridV11 ((14395883584221 : ℚ)/17592186044416) gridSweep10 (by decide!)]
  rw [show policyEvalLoop (uniformPolicy 16 4) gridworldEnv 1 defaultTheta 139 gridV11 = policyEvalLoop (uniformPolicy 16 4) gridworldEnv 1 defaultTheta 138 gridV12 from gridEvalStepNe (uniformPolicy 16 4) 138 gridV11 gridV12 ((211128179012027 : ℚ)/281474976710656) gridSweep11 (by decide!)]
  rw [show policyEvalLoop (uniformPolicy 16 4) gridworldEnv 1 defaultTheta 138 gridV12 = policyEvalLoop (uniformPolicy 16 4) gridworldEnv 1 defaultTheta 137 gridV13 from gridEvalStepNe (uniformPolicy 16 4) 137 gridV12 gridV13 ((3095725120381165 : ℚ)/4503599627370496) gridSweep12 (by decide!)]
  rw [show policyEvalLoop (uniformPolicy 16 4) gridworldEnv 1 defaultTheta 137 gridV13 = policyEvalLoop (uniformPolicy 16 4) gridworldEnv 1 defaultTheta 136 gridV14 from gridEvalStepNe (uniformPolicy 16 4) 136 gridV13 gridV14 ((45386696198697771 : ℚ)/72057594037927936) gridSweep13 (by decide!)]
  rw [show policyEvalLoop (uniformPolicy 16 4) gridworldEnv 1 defaultTheta 136 gridV14 = policyEvalLoop (uniformPolicy 16 4) gridworldEnv 1 defaultTheta 135 gridV15 from gridEvalStepNe (uniformPolicy 16 4) 135 gridV14 gridV15 ((665376511325174781 : ℚ)/1152921504606846976) gridSweep14 (by decide!)]
  rw [show policyEvalLoop (uniformPolicy 16 4) gridworldEnv 1 defaultTheta 135 gridV15 = policyEvalLoop (uniformPolicy 16 4) gridworldEnv 1 defaultTheta 134 gridV16 from gridEvalStepNe (uniformPolicy 16 4) 134 gridV15 gridV16 ((9754195887603799963 : ℚ)/18446744073709551616) gridSweep15 (by decide!)]
  rw [show policyEvalLoop (uniformPolicy 16 4) gridworldEnv 1 defaultTheta 134 gridV16 = policyEvalLoop (uniformPolicy 16 4) gridworldEnv 1 defaultTheta 133 gridV17 from gridEvalStepNe (uniformPolicy 16 4) 133 gridV16 gridV17 ((142990556500937235469 : ℚ)/295147905179352825856) gridSweep16 (by decide!)]
  rw [show policyEvalLoop (uniformPolicy 16 4) gridworldEnv 1 defaultTheta 133 gridV17 = policyEvalLoop (uniformPolicy 16 4) gridworldEnv 1 defaultTheta 132 gridV18 from gridEvalStepNe (uniformPolicy 16 4) 132 gridV17 gridV18 ((2096132860684442373899 : ℚ)/4722366482869645213696) gridSweep17 (by decide!)]
  rw [show policyEvalLoop (uniformPolicy 16 4) gridworldEnv 1 defaultTheta 132 gridV18 = policyEvalLoop (uniformPolicy 16 4) gridworldEnv 1 defaultTheta 131 gridV19 from gridEvalStepNe (uniformPolicy 16 4) 131 gridV18 gridV19 ((30727543134138373181725 : ℚ)/75557863725914323419136) gridSweep18 (by decide!)]
  rw [show policyEvalLoop (uniformPolicy 16 4) gridworldEnv 1 defaultTheta 131 gridV19 = policyEvalLoop (uniformPolicy 16 4) gridworldEnv 1 defaultTheta 130 gridV20 from gridEvalStepNe (uniformPolicy 16 4) 130 gridV19 gridV20 ((450438545329275447232891 : ℚ)/1208925819614629174706176) gridSweep19 (by decide!)]
  rw [show policyEvalLoop (uniformPolicy 16 4) gridworldEnv 1 defaultTheta 130 gridV20 = policyEvalLoop (uniformPolicy 16 4) gridworldEnv 1 defaultTheta 129 gridV21 from gridEvalStepNe (uniformPolicy 16 4) 129 gridV20 gridV21 ((6603018848747656074079021 : ℚ)/19342813113834066795298816) gridSweep20 (by decide!)]
  rw [show policyEvalLoop (uniformPolicy 16 4) gridworldEnv 1 defaultTheta 129 gridV21 = policyEvalLoop (uniformPolicy 16 4) gridworldEnv 1 defaultTheta 128 gridV22 from gridEvalStepNe (uniformPolicy 16 4) 128 gridV21 gridV22 ((96794155144631812007950059 : ℚ)/309485009821345068724781056) gridSweep21 (by decide!)]
  rw [show policyEvalLoop (uniformPolicy 16 4) gridworldEnv 1 defaultTheta 128 gridV22 = policyEvalLoop (uniformPolicy 16 4) gridworldEnv 1 defaultTheta 127 gridV23 from gridEvalStepNe (uniformPolicy 16 4) 127 gridV22 gridV23 ((1418912175656095212765821501 : ℚ)/4951760157141521099596496896) gridSweep22 (by decide!)]
  rw [show policyEvalLoop (uniformPolicy 16 4) gridworldEnv 1 defaultTheta 127 gridV23 = policyEvalLoop (uniformPolicy 16 4) gridworldEnv 1 defaultTheta 126 gridV24 from gridEvalStepNe (uniformPolicy 16 4) 126 gridV23 gridV24 ((20799925535725557966984972123 : ℚ)/79228162514264337593543950336) gridSweep23 (by decide!)]
  rw [show policyEvalLoop (uniformPolicy 16 4) gridworldEnv 1 defaultTheta 126 gridV24 = policyEvalLoop (uniformPolicy 16 4) gridworldEnv 1 defaultTheta 125 gridV25 from gridEvalStepNe (uniformPolicy 16 4) 125 gridV24 gridV25 ((304907411497626460091018694221 : ℚ)/1267650600228229401496703205376) gridSweep24 (by decide!)]
  rw [show policyEvalLoop (uniformPolicy 16 4) gridworldEnv 1 defaultTheta 125 gridV25 = policyEvalLoop (uniformPolicy 16 4) gridworldEnv 1 defaultTheta 124 gridV26 from gridEvalStepNe (uniformPolicy 16 4) 124 gridV25 gridV26 ((4469656487941146071334359919307 : ℚ)/20282409603651670423947251286016) gridSweep25 (by decide!)]
  rw [show policyEvalLoop (uniformPolicy 16 4) gridworldEnv 1 defaultTheta 124 gridV26 = policyEvalLoop (uniformPolicy 16 4) gridworldEnv 1 defaultTheta 123 gridV27 from gridEvalStepNe (uniformPolicy 16 4) 123 gridV26 gridV27 ((65520966336718341200994367534941 : ℚ)/324518553658426726783156020576256) gridSweep26 (by decide!)]
  rw [show policyEvalLoop (uniformPolicy 16 4) gridworldEnv 1 defaultTheta 123 gridV27 = policyEvalLoop (uniformPolicy 16 4) gridworldEnv 1 defaultTheta 122 gridV28 from gridEvalStepNe (uniformPolicy 16 4) 122 gridV27 gridV28 ((960475808060608478789531801555259 : ℚ)/5192296858534827628530496329220096) gridSweep27 (by decide!)]
  rw [show policyEvalLoop (uniformPolicy 16 4) gridworldEnv 1 defaultTheta 122 gridV28 = policyEvalLoop (uniformPolicy 16 4) gridworldEnv 1 defaultTheta 121 gridV29 from gridEvalStepNe (uniformPolicy 16 4) 121 gridV28 gridV29 ((14079672773539825926903287043802477 : ℚ)/83076749736557242056487941267521536) gridSweep28 (by decide!)]
  rw [show policyEvalLoop (uniformPolicy 16 4) gridworldEnv 1 defaultTheta 121 gridV29 = policyEvalLoop (uniformPolicy 16 4) gridworldEnv 1 defaultTheta 120 gridV30 from gridEvalStepNe (uniformPolicy 16 4) 120 gridV29 gridV30 ((206394770523140319354373137023068843 : ℚ)/1329227995784915872903807060280344576) gridSweep29 (by decide!)]
  rw [show policyEvalLoop (uniformPolicy 16 4) gridworldEnv 1 defaultTheta 120 gridV30 = policyEvalLoop (uniformPolicy 16 4) gridworldEnv 1 defaultTheta 119 gridV31 from gridEvalStepNe (uniformPolicy 16 4) 119 gridV30 gridV31 ((3025553350482477083058477769154021501 : ℚ)/21267647932558653966460912964485513216) gridSweep30 (by decide!)]
  rw [show policyEvalLoop (uniformPolicy 16 4) gridworldEnv 1 defaultTheta 119 gridV31 = policyEvalLoop (uniformPolicy 16 4) gridworldEnv 1 defaultTheta 118 gridV32 from gridEvalStepNe (uniformPolicy 16 4) 118 gridV31 gridV32 ((44351768380521193607033767862319048475 : ℚ)/340282366920938463463374607431768211456) gridSweep31 (by decide!)]
  rw [show policyEvalLoop (uniformPolicy 16 4) gridworldEnv 1 defaultTheta 118 gridV32 = policyEvalLoop (uniformPolicy 16 4) gridworldEnv 1 defaultTheta 117 gridV33 from gridEvalStepNe (uniformPolicy 16 4) 117 gridV32 gridV33 ((650155237185944192409931007412328566925 : ℚ)/5444517870735015415413993718908291383296) gridSweep32 (by decide!)]
  rw [show policyEvalLoop (uniformPolicy 16 4) gridworldEnv 1 defaultTheta 117 gridV33 = policyEvalLoop (uniformPolicy 16 4) gridworldEnv 1 defaultTheta 116 gridV34 from gridEvalStepNe (uniformPolicy 16 4) 116 gridV33 gridV34 ((9530664674891328824510823707912514467467 : ℚ)/87112285931760246646623899502532662132736) gridSweep33 (by decide!)]
  rw [show policyEvalLoop (uniformPolicy 16 4) gridworldEnv 1 defaultTheta 116 gridV34 = policyEvalLoop (uniformPolicy 16 4) gridworldEnv 1 defaultTheta 115 gridV35 from gridEvalStepNe (uniformPolicy 16 4) 115 gridV34 gridV35 ((139710585901068013378158008725408728362397 : ℚ)/1393796574908163946345982392040522594123776) gridSweep34 (by decide!)]
  rw [show policyEvalLoop (uniformPolicy 16 4) gridworldEnv 1 defaultTheta 115 gridV35 = policyEvalLoop (uniformPolicy 16 4) gridworldEnv 1 defaultTheta 114 gridV36 from gridEvalStepNe (uniformPolicy 16 4) 114 gridV35 gridV36 ((2048025869650971237676321783206470898813179 : ℚ)/22300745198530623141535718272648361505980416) gridSweep35 (by decide!)]
  rw [show policyEvalLoop (uniformPolicy 16 4) gridworldEnv 1 defaultTheta 114 gridV36 = policyEvalLoop (uniformPolicy 16 4) gridworldEnv 1 defaultTheta 113 gridV37 from gridEvalStepNe (uniformPolicy 16 4) 113 gridV36 gridV37 ((30022134223235984972854622365600490598182829 : ℚ)/356811923176489970264571492362373784095686656) gridSweep36 (by decide!)]
  rw [show policyEvalLoop (uniformPolicy 16 4) gridworldEnv 1 defaultTheta 113 gridV37 = policyEvalLoop (uniformPolicy 16 4) gridworldEnv 1 defaultTheta 112 gridV38 from gridEvalStepNe (uniformPolicy 16 4) 112 gridV37 gridV38 ((440096268618462913754054539132386947849031275 : ℚ)/5708990770823839524233143877797980545530986496) gridSweep37 (by decide!)]
  rw [show policyEvalLoop (uniformPolicy 16 4) gridworldEnv 1 defaultTheta 112 gridV38 = policyEvalLoop (uniformPolicy 16 4) gridworldEnv 1 defaultTheta 111 gridV39 from gridEvalStepNe (uniformPolicy 16 4) 111 gridV38 gridV39 ((6451397632353025666989042379864464697880487613 : ℚ)/91343852333181432387730302044767688728495783936) gridSweep38 (by decide!)]
  rw [show policyEvalLoop (uniformPolicy 16 4) gridworldEnv 1 defaultTheta 111 gridV39 = policyEvalLoop (uniformPolicy 16 4) gridworldEnv 1 defaultTheta 110 gridV40 from gridEvalStepNe (uniformPolicy 16 4) 110 gridV39 gridV40 ((94571425339936033572617479292498803499489097435 : ℚ)/1461501637330902918203684832716283019655932542976) gridSweep39 (by decide!)]
  rw [show policyEvalLoop (uniformPolicy 16 4) gridworldEnv 1 defaultTheta 110 gridV40 = policyEvalLoop (uniformPolicy 16 4) gridworldEnv 1 defaultTheta 109 gridV41 from gridEvalStepNe (uniformPolicy 16 4) 109 gridV40 gridV41 ((1386328203658335886979446210468589274058439762637 : ℚ)/23384026197294446691258957323460528314494920687616) gridSweep40 (by decide!)]
  rw [show policyEvalLoop (uniformPolicy 16 4) gridworldEnv 1 defaultTheta 109 gridV41 = policyEvalLoop (uniformPolicy 16 4) gridworldEnv 1 defaultTheta 108 gridV42 from gridEvalStepNe (uniformPolicy 16 4) 108 gridV41 gridV42 ((20322268394927128156156464081223986048702904611403 : ℚ)/374144419156711147060143317175368453031918731001856) gridSweep41 (by decide!)]
  rw [show policyEvalLoop (uniformPolicy 16 4) gridworldEnv 1 defaultTheta 108 gridV42 = policyEvalLoop (uniformPolicy 16 4) gridworldEnv 1 defaultTheta 107 gridV43 from gridEvalStepNe (uniformPolicy 16 4) 107 gridV42 gridV43 ((297905352877114924351399401601306649624496238310365 : ℚ)/5986310706507378352962293074805895248510699696029696) gridSweep42 (by decide!)]
  rw [show policyEvalLoop (uniformPolicy 16 4) gridworldEnv 1 defaultTheta 107 gridV43 = policyEvalLoop (uniformPolicy 16 4) gridworldEnv 1 defaultTheta 106 gridV44 from gridEvalStepNe (uniformPolicy 16 4) 106 gridV43 gridV44 ((4367012458848355733227684891933145500382552377667771 : ℚ)/95780971304118053647396689196894323976171195136475136) gridSweep43 (by decide!)]
  rw [show policyEvalLoop (uniformPolicy 16 4) gridworldEnv 1 defaultTheta 106 gridV44 = policyEvalLoop (uniformPolicy 16 4) gridworldEnv 1 defaultTheta 105 gridV45 from gridEvalStepNe (uniformPolicy 16 4) 105 gridV44 gridV45 ((64016297899782947384649277431531731402233186614012397 : ℚ)/1532495540865888858358347027150309183618739122183602176) gridSweep44 (by decide!)]
  rw [show policyEvalLoop (uniformPolicy 16 4) gridworldEnv 1 defaultTheta 105 gridV45 = policyEvalLoop (uniformPolicy 16 4) gridworldEnv 1 defaultTheta 104 gridV46 from gridEvalStepNe (uniformPolicy 16 4) 104 gridV45 gridV46 ((938418755478584502465138540990072499890892341223088683 : ℚ)/24519928653854221733733552434404946937899825954937634816) gridSweep45 (by decide!)]
  rw [show policyEvalLoop (uniformPolicy 16 4) gridworldEnv 1 defaultTheta 104 gridV46 = policyEvalLoop (uniformPolicy 16 4) gridworldEnv 1 defaultTheta 103 gridV47 from gridEvalStepNe (uniformPolicy 16 4) 103 gridV46 gridV47 ((13756336894276250586470415492470460048187641929547764989 : ℚ)/392318858461667547739736838950479151006397215279002157056) gridSweep46 (by decide!)]
  rw [show policyEvalLoop (uniformPolicy 16 4) gridworldEnv 1 defaultTheta 103 gridV47 = policyEvalLoop (uniformPolicy 16 4) gridworldEnv 1 defaultTheta 102 gridV48 from gridEvalStepNe (uniformPolicy 16 4) 102 gridV47 gridV48 ((201654968684307849166824925292587993521431927672663783067 : ℚ)/6277101735386680763835789423207666416102355444464034512896) gridSweep47 (by decide!)]
  rw [show policyEvalLoop (uniformPolicy 16 4) gridworldEnv 1 defaultTheta 102 gridV48 = policyEvalLoop (uniformPolicy 16 4) gridworldEnv 1 defaultTheta 101 gridV49 from gridEvalStepNe (uniformPolicy 16 4) 101 gridV48 gridV49 ((2956072296541827306918645377433394447933099974578677417229 : ℚ)/100433627766186892221372630771322662657637687111424552206336) gridSweep48 (by decide!)]
  rw [show policyEvalLoop (uniformPolicy 16 4) gridworldEnv 1 defaultTheta 101 gridV49 = policyEvalLoop (uniformPolicy 16 4) gridworldEnv 1 defaultTheta 100 gridV50 from gridEvalStepNe (uniformPolicy 16 4) 100 gridV49 gridV50 ((43333241324996535561413803312767414108832624640097077698059 : ℚ)/1606938044258990275541962092341162602522202993782792835301376) gridSweep49 (by decide!)]
  rw [show policyEvalLoop (uniformPolicy 16 4) gridworldEnv 1 defaultTheta 100 gridV50 = policyEvalLoop (uniformPolicy 16 4) gridworldEnv 1 defaultTheta 99 gridV51 from gridEvalStepNe (uniformPolicy 16 4) 99 gridV50 gridV51 ((635224587005894184629227408255122026909557410232363190487581 : ℚ)/25711008708143844408671393477458601640355247900524685364822016) gridSweep50 (by decide!)]
  rw [show policyEvalLoop (uniformPolicy 16 4) gridworldEnv 1 defaultTheta 99 gridV51 = policyEvalLoop (uniformPolicy 16 4) gridworldEnv 1 defaultTheta 98 gridV52 from gridEvalStepNe (uniformPolicy 16 4) 98 gridV51 gridV52 ((9311795369990970545311225321809162394275224293027881062336635 : ℚ)/411376139330301510538742295639337626245683966408394965837152256) gridSweep51 (by decide!)]
  rw [show policyEvalLoop (uniformPolicy 16 4) gridworldEnv 1 defaultTheta 98 gridV52 = policyEvalLoop (uniformPolicy 16 4) gridworldEnv 1 defaultTheta 97 gridV53 from gridEvalStepNe (uniformPolicy 16 4) 97 gridV52 gridV53 ((136502167558227962145170299853637228546156914254827627178619949 : ℚ)/6582018229284824168619876730229402019930943462534319453394436096) gridSweep52 (by decide!)]
  rw [show policyEvalLoop (uniformPolicy 16 4) gridworldEnv 1 defaultTheta 97 gridV53 = policyEvalLoop (uniformPolicy 16 4) gridworldEnv 1 defaultTheta 96 gridV54 from gridEvalStepNe (uniformPolicy 16 4) 96 gridV53 gridV54 ((2000993472015326895998254922173166720342975942019759216143721963 : ℚ)/105312291668557186697918027683670432318895095400549111254310977536) gridSweep53 (by decide!)]
  rw [show policyEvalLoop (uniformPolicy 16 4) gridworldEnv 1 defaultTheta 96 gridV54 = policyEvalLoop (uniformPolicy 16 4) gridworldEnv 1 defaultTheta 95 gridV55 from gridEvalStepNe (uniformPolicy 16 4) 95 gridV54 gridV55 ((29332683478011166789034477493508659427047472274593402588955136829 : ℚ)/1684996666696914987166688442938726917102321526408785780068975640576) gridSweep54 (by decide!)]
  rw [show policyEvalLoop (uniformPolicy 16 4) gridworldEnv 1 defaultTheta 95 gridV55 = policyEvalLoop (uniformPolicy 16 4) gridworldEnv 1 defaultTheta 94 gridV56 from gridEvalStepNe (uniformPolicy 16 4) 94 gridV55 gridV56 ((429989568708896810249379004392882269865021533198579764570854434395 : ℚ)/26959946667150639794667015087019630673637144422540572481103610249216) gridSweep55 (by decide!)]
  rw [show policyEvalLoop (uniformPolicy 16 4) gridworldEnv 1 defaultTheta 94 gridV56 = policyEvalLoop (uniformPolicy 16 4) gridworldEnv 1 defaultTheta 93 gridV57 from gridEvalStepNe (uniformPolicy 16 4) 93 gridV56 gridV57 ((6303242911173263219294259869192139317358034528600646932142869165901 : ℚ)/431359146674410236714672241392314090778194310760649159697657763987456) gridSweep56 (by decide!)]
  rw [show policyEvalLoop (uniformPolicy 16 4) gridworldEnv 1 defaultTheta 93 gridV57 = policyEvalLoop (uniformPolicy 16 4) gridworldEnv 1 defaultTheta 92 gridV58 from gridEvalStepNe (uniformPolicy 16 4) 92 gridV57 gridV58 ((92399616382679750703063491297654265769191454429168591017688629459403 : ℚ)/6901746346790563787434755862277025452451108972170386555162524223799296) gridSweep57 (by decide!)]
  rw [show policyEvalLoop (uniformPolicy 16 4) gridworldEnv 1 defaultTheta 92 gridV58 = policyEvalLoop (uniformPolicy 16 4) gridworldEnv 1 defaultTheta 91 gridV59 from gridEvalStepNe (uniformPolicy 16 4) 91 gridV58 gridV59 ((1354491525708502903973613876008590512400686459675554307139696244961373 : ℚ)/110427941548649020598956093796432407239217743554726184882600387580788736) gridSweep58 (by decide!)]
  rw [show policyEvalLoop (uniformPolicy 16 4) gridworldEnv 1 defaultTheta 91 gridV59 = policyEvalLoop (uniformPolicy 16 4) gridworldEnv 1 defaultTheta 90 gridV60 from gridEvalStepNe (uniformPolicy 16 4) 90 gridV59 gridV60 ((19855572620754422123096834516967670348379208405214396764162887115345979 : ℚ)/1766847064778384329583297500742918515827483896875618958121606201292619776) gridSweep59 (by decide!)]
  rw [show policyEvalLoop (uniformPolicy 16 4) gridworldEnv 1 defaultTheta 90 gridV60 = policyEvalLoop (uniformPolicy 16 4) gridworldEnv 1 defaultTheta 89 gridV61 from gridEvalStepNe (uniformPolicy 16 4) 89 gridV60 gridV61 ((291064031494647336108603420892184604935268696426457737171162315921215085 : ℚ)/28269553036454149273332760011886696253239742350009903329945699220681916416) gridSweep60 (by decide!)]
  rw [show policyEvalLoop (uniformPolicy 16 4) gridworldEnv 1 defaultTheta 89 gridV61 = policyEvalLoop (uniformPolicy 16 4) gridworldEnv 1 defaultTheta 88 gridV62 from gridEvalStepNe (uniformPolicy 16 4) 88 gridV61 gridV62 ((4266725117832342941106977499424920904074620297182194315645426103149992363 : ℚ)/452312848583266388373324160190187140051835877600158453279131187530910662656) gridSweep61 (by decide!)]
  rw [show policyEvalLoop (uniformPolicy 16 4) gridworldEnv 1 defaultTheta 88 gridV62 = policyEvalLoop (uniformPolicy 16 4) gridworldEnv 1 defaultTheta 87 gridV63 from gridEvalStepNe (uniformPolicy 16 4) 87 gridV62 gridV63 ((62546179744906780630004024969992196553721042053115013772126306171092607357 : ℚ)/7237005577332262213973186563042994240829374041602535252466099000494570602496) gridSweep62 (by decide!)]
  rw [show policyEvalLoop (uniformPolicy 16 4) gridworldEnv 1 defaultTheta 87 gridV63 = policyEvalLoop (uniformPolicy 16 4) gridworldEnv 1 defaultTheta 86 gridV64 from gridEvalStepNe (uniformPolicy 16 4) 86 gridV63 gridV64 ((916868205156286946193578924946067500636324882777839155462231813803543709211 : ℚ)/115792089237316195423570985008687907853269984665640564039457584007913129639936) gridSweep63 (by decide!)]
  rw [show policyEvalLoop (uniformPolicy 16 4) gridworldEnv 1 defaultTheta 86 gridV64 = policyEvalLoop (uniformPolicy 16 4) gridworldEnv 1 defaultTheta 85 gridV65 from gridEvalStepNe (uniformPolicy 16 4) 85 gridV64 gridV65 ((13440426082857060880731182848299092667312654151432781950093255580018839763341 : ℚ)/1852673427797059126777135760139006525652319754650249024631321344126610074238976) gridSweep64 (by decide!)]
  rw [show policyEvalLoop (uniformPolicy 16 4) gridworldEnv 1 defaultTheta 85 gridV65 = policyEvalLoop (uniformPolicy 16 4) gridworldEnv 1 defaultTheta 84 gridV66 from gridEvalStepNe (uniformPolicy 16 4) 84 gridV65 gridV66 ((197024013127330678654350248117990347879226375853697143334669237610940566766987 : ℚ)/29642774844752946028434172162224104410437116074403984394101141506025761187823616) gridSweep65 (by decide!)]
  rw [show policyEvalLoop (uniformPolicy 16 4) gridworldEnv 1 defaultTheta 84 gridV66 = policyEvalLoop (uniformPolicy 16 4) gridworldEnv 1 defaultTheta 83 gridV67 from gridEvalStepNe (uniformPolicy 16 4) 83 gridV66 gridV67 ((2888186840915005121509730398142512041681708589932342160485261461924205715007133 : ℚ)/474284397516047136454946754595585670566993857190463750305618264096412179005177856) gridSweep66 (by decide!)]
  rw [show policyEvalLoop (uniformPolicy 16 4) gridworldEnv 1 defaultTheta 83 gridV67 = policyEvalLoop (uniformPolicy 16 4) gridworldEnv 1 defaultTheta 82 gridV68 from gridEvalStepNe (uniformPolicy 16 4) 82 gridV67 gridV68 ((42338104354029463075839112926083410373376624624448744577534863901530669813450747 : ℚ)/7588550360256754183279148073529370729071901715047420004889892225542594864082845696) gridSweep67 (by decide!)]
  rw [show policyEvalLoop (uniformPolicy 16 4) gridworldEnv 1 defaultTheta 82 gridV68 = policyEvalLoop (uniformPolicy 16 4) gridworldEnv 1 defaultTheta 81 gridV69 from gridEvalStepNe (uniformPolicy 16 4) 81 gridV68 gridV69 ((620636814384488613766425946650308426976098532668515107075714953328485046297098413 : ℚ)/121416805764108066932466369176469931665150427440758720078238275608681517825325531136) gridSweep68 (by decide!)]
  rw [show policyEvalLoop (uniformPolicy 16 4) gridworldEnv 1 defaultTheta 81 gridV69 = policyEvalLoop (uniformPolicy 16 4) gridworldEnv 1 defaultTheta 80 gridV70 from gridEvalStepNe (uniformPolicy 16 4) 80 gridV69 gridV70 ((9097952335049840501415784470854213509440117882912955180174322000725464395602132331 : ℚ)/1942668892225729070919461906823518906642406839052139521251812409738904285205208498176) gridSweep69 (by decide!)]
  rw [show policyEvalLoop (uniformPolicy 16 4) gridworldEnv 1 defaultTheta 80 gridV70 = policyEvalLoop (uniformPolicy 16 4) gridworldEnv 1 defaultTheta 79 gridV71 from gridEvalStepNe (uniformPolicy 16 4) 79 gridV70 gridV71 ((133367429666459629437509671145205658161813458625195943825022147670946282416390324157 : ℚ)/31082702275611665134711390509176302506278509424834232340028998555822468563283335970816) gridSweep70 (by decide!)]
  rw [show policyEvalLoop (uniformPolicy 16 4) gridworldEnv 1 defaultTheta 79 gridV71 = policyEvalLoop (uniformPolicy 16 4) gridworldEnv 1 defaultTheta 78 gridV72 from gridEvalStepNe (uniformPolicy 16 4) 78 gridV71 gridV72 ((1955041160999951076576445887077858615782436524694179771515583988262082663414218692059 : ℚ)/497323236409786642155382248146820840100456150797347717440463976893159497012533375533056) gridSweep71 (by decide!)]
  rw [show policyEvalLoop (uniformPolicy 16 4) gridworldEnv 1 defaultTheta 78 gridV72 = policyEvalLoop (uniformPolicy 16 4) gridworldEnv 1 defaultTheta 77 gridV73 from gridEvalStepNe (uniformPolicy 16 4) 77 gridV72 gridV73 ((28659065791123005445924298172751341729654654493284543204139116915804947789400015440845 : ℚ)/7957171782556586274486115970349133441607298412757563479047423630290551952200534008528896) gridSweep72 (by decide!)]
  rw [show policyEvalLoop (uniformPolicy 16 4) gridworldEnv 1 defaultTheta 77 gridV73 = policyEvalLoop (uniformPolicy 16 4) gridworldEnv 1 defaultTheta 76 gridV74 from gridEvalStepNe (uniformPolicy 16 4) 76 gridV73 gridV74 ((420114966581993846554418953914365014074088878374030817571691892228639306301289329983819 : ℚ)/127314748520905380391777855525586135065716774604121015664758778084648831235208544136462336) gridSweep73 (by decide!)]
  rw [show policyEvalLoop (uniformPolicy 16 4) gridworldEnv 1 defaultTheta 76 gridV74 = policyEvalLoop (uniformPolicy 16 4) gridworldEnv 1 defaultTheta 75 gridV75 from gridEvalStepNe (uniformPolicy 16 4) 75 gridV74 gridV75 ((6158490525565515583152440305399552940893248643774193547368139093951994519225461631380701 : ℚ)/2037035976334486086268445688409378161051468393665936250636140449354381299763336706183397376) gridSweep74 (by decide!)]
  rw [show policyEvalLoop (uniformPolicy 16 4) gridworldEnv 1 defaultTheta 75 gridV75 = policyEvalLoop (uniformPolicy 16 4) gridworldEnv 1 defaultTheta 74 gridV76 from gridEvalStepNe (uniformPolicy 16 4) 74 gridV75 gridV76 ((90277682468801086863058551379476578468167582570890028138268143329222426565090940868538299 : ℚ)/32592575621351777380295131014550050576823494298654980010178247189670100796213387298934358016) gridSweep75 (by decide!)]
  rw [show policyEvalLoop (uniformPolicy 16 4) gridworldEnv 1 defaultTheta 74 gridV76 = policyEvalLoop (uniformPolicy 16 4) gridworldEnv 1 defaultTheta 73 gridV77 from gridEvalStepNe (uniformPolicy 16 4) 73 gridV76 gridV77 ((1323385969030013196925817503373451213235472882734557230275318711833687287990864949271229165 : ℚ)/521481209941628438084722096232800809229175908778479680162851955034721612739414196782949728256) gridSweep76 (by decide!)]
  rw [show policyEvalLoop (uniformPolicy 16 4) gridworldEnv 1 defaultTheta 73 gridV77 = policyEvalLoop (uniformPolicy 16 4) gridworldEnv 1 defaultTheta 72 gridV78 from gridEvalStepNe (uniformPolicy 16 4) 72 gridV77 gridV78 ((19399594397327969832245012488877108795218061337924444925217736007382372274296167174172512555 : ℚ)/8343699359066055009355553539724812947666814540455674882605631280555545803830627148527195652096) gridSweep77 (by decide!)]
  rw [show policyEvalLoop (uniformPolicy 16 4) gridworldEnv 1 defaultTheta 72 gridV78 = policyEvalLoop (uniformPolicy 16 4) gridworldEnv 1 defaultTheta 71 gridV79 from gridEvalStepNe (uniformPolicy 16 4) 71 gridV78 gridV79 ((284379819333193798981101036259879859161992168819846172332123299523976662205738080555791789565 : ℚ)/133499189745056880149688856635597007162669032647290798121690100488888732861290034376435130433536) gridSweep78 (by decide!)]
  rw [show policyEvalLoop (uniformPolicy 16 4) gridworldEnv 1 defaultTheta 71 gridV79 = policyEvalLoop (uniformPolicy 16 4) gridworldEnv 1 defaultTheta 70 gridV80 from gridEvalStepNe (uniformPolicy 16 4) 70 gridV79 gridV80 ((4168740850330301076652836295208558591897280774218783871020027652933567967906890724120641279387 : ℚ)/2135987035920910082395021706169552114602704522356652769947041607822219725780640550022962086936576) gridSweep79 (by decide!)]
  rw [show policyEvalLoop (uniformPolicy 16 4) gridworldEnv 1 defaultTheta 70 gridV80 = policyEvalLoop (uniformPolicy 16 4) gridworldEnv 1 defaultTheta 69 gridV81 from gridEvalStepNe (uniformPolicy 16 4) 69 gridV80 gridV81 ((61109822483047532194963301024967588091904322941038975817105041045961103899544418616853139140109 : ℚ)/34175792574734561318320347298712833833643272357706444319152665725155515612490248800367393390985216) gridSweep80 (by decide!)]
  rw [show policyEvalLoop (uniformPolicy 16 4) gridworldEnv 1 defaultTheta 69 gridV81 = policyEvalLoop (uniformPolicy 16 4) gridworldEnv 1 defaultTheta 68 gridV82 from gridEvalStepNe (uniformPolicy 16 4) 68 gridV81 gridV82 ((895812557792767041626785126379943862931354540317369052413649509870362888364832458733238756945163 : ℚ)/546812681195752981093125556779405341338292357723303109106442651602488249799843980805878294255763456) gridSweep81 (by decide!)]
  rw [show policyEvalLoop (uniformPolicy 16 4) gridworldEnv 1 defaultTheta 68 gridV82 = policyEvalLoop (uniformPolicy 16 4) gridworldEnv 1 defaultTheta 67 gridV83 from gridEvalStepNe (uniformPolicy 16 4) 67 gridV82 gridV83 ((13131770083636480870557872923687360054910228261829649088751557420015688401388755953110540328305437 : ℚ)/8749002899132047697490008908470485461412677723572849745703082425639811996797503692894052708092215296) gridSweep82 (by decide!)]
  rw [show policyEvalLoop (uniformPolicy 16 4) gridworldEnv 1 defaultTheta 67 gridV83 = policyEvalLoop (uniformPolicy 16 4) gridworldEnv 1 defaultTheta 66 gridV84 from gridEvalStepNe (uniformPolicy 16 4) 66 gridV83 gridV84 ((192499406298100019770461275976004583198504584791331013820126768966586115768587948280969002598451067 : ℚ)/139984046386112763159840142535527767382602843577165595931249318810236991948760059086304843329475444736) gridSweep83 (by decide!)]
  rw [show policyEvalLoop (uniformPolicy 16 4) gridworldEnv 1 defaultTheta 66 gridV84 = policyEvalLoop (uniformPolicy 16 4) gridworldEnv 1 defaultTheta 65 gridV85 from gridEvalStepNe (uniformPolicy 16 4) 65 gridV84 gridV85 ((2821860357675356767104986554855126997838582118930563001867221250680022228375599686479824554913905965 : ℚ)/2239744742177804210557442280568444278121645497234649534899989100963791871180160945380877493271607115776) gridSweep84 (by decide!)]
  rw [show policyEvalLoop (uniformPolicy 16 4) gridworldEnv 1 defaultTheta 65 gridV85 = policyEvalLoop (uniformPolicy 16 4) gridworldEnv 1 defaultTheta 64 gridV86 from gridEvalStepNe (uniformPolicy 16 4) 64 gridV85 gridV86 ((41365820452913712006319429019262804293535273815582311701112242958027567446253412313761872687070008555 : ℚ)/35835915874844867368919076489095108449946327955754392558399825615420669938882575126094039892345713852416) gridSweep85 (by decide!)]
  rw [show policyEvalLoop (uniformPolicy 16 4) gridworldEnv 1 defaultTheta 64 gridV86 = policyEvalLoop (uniformPolicy 16 4) gridworldEnv 1 defaultTheta 63 gridV87 from gridEvalStepNe (uniformPolicy 16 4) 63 gridV86 gridV87 ((606384046286514669222242366308450634637541077539071031588438162849775756732000630952845717401596783677 : ℚ)/573374653997517877902705223825521735199141247292070280934397209846730719022121202017504638277531421638656) gridSweep86 (by decide!)]
  rw [show policyEvalLoop (uniformPolicy 16 4) gridworldEnv 1 defaultTheta 63 gridV87 = policyEvalLoop (uniformPolicy 16 4) gridworldEnv 1 defaultTheta 62 gridV88 from gridEvalStepNe (uniformPolicy 16 4) 62 gridV87 gridV88 ((8889020151536869131887625158142553058724072435023430104702502560880442017167113906559099578744959157595 : ℚ)/9173994463960286046443283581208347763186259956673124494950355357547691504353939232280074212440502746218496) gridSweep87 (by decide!)]
  rw [show policyEvalLoop (uniformPolicy 16 4) gridworldEnv 1 defaultTheta 62 gridV88 = policyEvalLoop (uniformPolicy 16 4) gridworldEnv 1 defaultTheta 61 gridV89 from gridEvalStepNe (uniformPolicy 16 4) 61 gridV88 gridV89 ((130304680240703993567157018409615752952867011122018583134831399754953857608865704314759179219385250193485 : ℚ)/146783911423364576743092537299333564210980159306769991919205685720763064069663027716481187399048043939495936) gridSweep88 (by decide!)]
  rw [show policyEvalLoop (uniformPolicy 16 4) gridworldEnv 1 defaultTheta 61 gridV89 = policyEvalLoop (uniformPolicy 16 4) gridworldEnv 1 defaultTheta 60 gridV90 from gridEvalStepNe (uniformPolicy 16 4) 60 gridV89 gridV90 ((1910144133231205715637849773325939086869448279539524165220698164608210457223183593570180048963901740648651 : ℚ)/2348542582773833227889480596789337027375682548908319870707290971532209025114608443463698998384768703031934976) gridSweep89 (by decide!)]
  rw [show policyEvalLoop (uniformPolicy 16 4) gridworldEnv 1 defaultTheta 60 gridV90 = policyEvalLoop (uniformPolicy 16 4) gridworldEnv 1 defaultTheta 59 gridV91 from gridEvalStepNe (uniformPolicy 16 4) 59 gridV90 gridV91 ((28000917564723396658993287834285635230614176109517305306781783715968057230066323009287917430327909569522013 : ℚ)/37576681324381331646231689548629392438010920782533117931316655544515344401833735095419183974156299248510959616) gridSweep90 (by decide!)]
  rw [show policyEvalLoop (uniformPolicy 16 4) gridworldEnv 1 defaultTheta 59 gridV91 = policyEvalLoop (uniformPolicy 16 4) gridworldEnv 1 defaultTheta 58 gridV92 from gridEvalStepNe (uniformPolicy 16 4) 58 gridV91 gridV92 ((410467132205427603445796824506082942744580551133727229266924373857172403736091116568549481827863988463341371 : ℚ)/601226901190101306339707032778070279008174732520529886901066488712245510429339761526706943586500787976175353856) gridSweep91 (by decide!)]
  rw [show policyEvalLoop (uniformPolicy 16 4) gridworldEnv 1 defaultTheta 58 gridV92 = policyEvalLoop (uniformPolicy 16 4) gridworldEnv 1 defaultTheta 57 gridV93 from gridEvalStepNe (uniformPolicy 16 4) 57 gridV92 gridV93 ((6017062342028730658459419206877847402673312780782385200604116484037937893155825469589006944689914593430689645 : ℚ)/9619630419041620901435312524449124464130795720328478190417063819395928166869436184427311097384012607618805661696) gridSweep92 (by decide!)]
  rw [show policyEvalLoop (uniformPolicy 16 4) gridworldEnv 1 defaultTheta 57 gridV93 = policyEvalLoop (uniformPolicy 16 4) gridworldEnv 1 defaultTheta 56 gridV94 from gridEvalStepNe (uniformPolicy 16 4) 56 gridV93 gridV94 ((88204478232719102862590357113666417876107985387166695231518109859475569335049296423561423117067467887750793387 : ℚ)/153914086704665934422965000391185991426092731525255651046673021110334850669910978950836977558144201721900890587136) gridSweep93 (by decide!)]
  rw [show policyEvalLoop (uniformPolicy 16 4) gridworldEnv 1 defaultTheta 56 gridV94 = policyEvalLoop (uniformPolicy 16 4) gridworldEnv 1 defaultTheta 55 gridV95 from gridEvalStepNe (uniformPolicy 16 4) 55 gridV94 gridV95 ((1292994743624856636234507322484411038017417310602609322195301085760079211721798841619499567556053837700635982461 : ℚ)/2462625387274654950767440006258975862817483704404090416746768337765357610718575663213391640930307227550414249394176) gridSweep94 (by decide!)]
  rw [show policyEvalLoop (uniformPolicy 16 4) gridworldEnv 1 defaultTheta 55 gridV95 = policyEvalLoop (uniformPolicy 16 4) gridworldEnv 1 defaultTheta 54 gridV96 from gridEvalStepNe (uniformPolicy 16 4) 54 gridV95 gridV96 ((18954087598937215855940898045707102847866659529629000608921782689317707431103586744369994125934212393324625503515 : ℚ)/39402006196394479212279040100143613805079739270465446667948293404245721771497210611414266254884915640806627990306816) gridSweep95 (by decide!)]
  rw [show policyEvalLoop (uniformPolicy 16 4) gridworldEnv 1 defaultTheta 54 gridV96 = policyEvalLoop (uniformPolicy 16 4) gridworldEnv 1 defaultTheta 53 gridV97 from gridEvalStepNe (uniformPolicy 16 4) 53 gridV96 gridV97 ((277849108420210872582136350778709072727072917939045735035975596899094396015415286526795710237387674529540941734541 : ℚ)/630432099142311667396464641602297820881275828327447146687172694467931548343955369782628260078158650252906047844909056) gridSweep96 (by decide!)]
  rw [show policyEvalLoop (uniformPolicy 16 4) gridworldEnv 1 defaultTheta 53 gridV97 = policyEvalLoop (uniformPolicy 16 4) gridworldEnv 1 defaultTheta 52 gridV98 from gridEvalStepNe (uniformPolicy 16 4) 52 gridV97 gridV98 ((4073006766848266725575618090197907042262326124164011831944754712519729726800732108397877757142082675529646087181451 : ℚ)/10086913586276986678343434265636765134100413253239154346994763111486904773503285916522052161250538404046496765518544896) gridSweep97 (by decide!)]
  rw [show policyEvalLoop (uniformPolicy 16 4) gridworldEnv 1 defaultTheta 52 gridV98 = policyEvalLoop (uniformPolicy 16 4) gridworldEnv 1 defaultTheta 51 gridV99 from gridEvalStepNe (uniformPolicy 16 4) 51 gridV98 gridV99 ((59706450803874710265131689526705394221164774736824154151854195639427941061937823624515415840590245413040083855417245 : ℚ)/161390617380431786853494948250188242145606612051826469551916209783790476376052574664352834580008614464743948248296718336) gridSweep98 (by decide!)]
  rw [show policyEvalLoop (uniformPolicy 16 4) gridworldEnv 1 defaultTheta 51 gridV99 = policyEvalLoop (uniformPolicy 16 4) gridworldEnv 1 defaultTheta 50 gridV100 from gridEvalStepNe (uniformPolicy 16 4) 50 gridV99 gridV100 ((875240448066830853543616798851559174233689775005939317662322455687932595348807631809557475956531826904138809233147643 : ℚ)/2582249878086908589655919172003011874329705792829223512830659356540647622016841194629645353280137831435903171972747493376) gridSweep99 (by decide!)]
  rw [show policyEvalLoop (uniformPolicy 16 4) gridworldEnv 1 defaultTheta 50 gridV100 = policyEvalLoop (uniformPolicy 16 4) gridworldEnv 1 defaultTheta 49 gridV101 from gridEvalStepNe (uniformPolicy 16 4) 49 gridV100 gridV101 ((12830202291684594989736603860358539412112606432565975440958774622499692383926437356668850638597349112905829259941429677 : ℚ)/41315998049390537434494706752048189989275292685267576205290549704650361952269459114074325652482205302974450751563959894016) gridSweep100 (by decide!)]
  rw [show policyEvalLoop (uniformPolicy 16 4) gridworldEnv 1 defaultTheta 49 gridV101 = policyEvalLoop (uniformPolicy 16 4) gridworldEnv 1 defaultTheta 48 gridV102 from gridEvalStepNe (uniformPolicy 16 4) 48 gridV101 gridV102 ((188078705924910788220997959252393097076458495242391798686547611092108609934812351556161981951113547010804044174582901867 : ℚ)/661055968790248598951915308032771039828404682964281219284648795274405791236311345825189210439715284847591212025023358304256) gridSweep101 (by decide!)]
  rw [show policyEvalLoop (uniformPolicy 16 4) gridworldEnv 1 defaultTheta 48 gridV102 = policyEvalLoop (uniformPolicy 16 4) gridworldEnv 1 defaultTheta 47 gridV103 from gridEvalStepNe (uniformPolicy 16 4) 47 gridV102 gridV103 ((2757057045415029691523663639199809766492452974918421105738797787427876055924480147993685424659838109558666628606403958973 : ℚ)/10576895500643977583230644928524336637254474927428499508554380724390492659780981533203027367035444557561459392400373732868096) gridSweep102 (by decide!)]
  rw [show policyEvalLoop (uniformPolicy 16 4) gridworldEnv 1 defaultTheta 47 gridV103 = policyEvalLoop (uniformPolicy 16 4) gridworldEnv 1 defaultTheta 46 gridV104 from gridEvalStepNe (uniformPolicy 16 4) 46 gridV103 gridV104 ((40415864806659444619264890568954376003832176915668246281366891693456350804910931058842038197148092580978934373681686131931 : ℚ)/169230328010303641331690318856389386196071598838855992136870091590247882556495704531248437872567112920983350278405979725889536) gridSweep103 (by decide!)]
  rw [show policyEvalLoop (uniformPolicy 16 4) gridworldEnv 1 defaultTheta 46 gridV104 = policyEvalLoop (uniformPolicy 16 4) gridworldEnv 1 defaultTheta 45 gridV105 from gridEvalStepNe (uniformPolicy 16 4) 45 gridV104 gridV105 ((592458589417501719188567662786761434318614232854890440510020617426470931769005079849656271397149309420285644073053046928589 : ℚ)/2707685248164858261307045101702230179137145581421695874189921465443966120903931272499975005961073806735733604454495675614232576) gridSweep104 (by decide!)]
  rw [show policyEvalLoop (uniformPolicy 16 4) gridworldEnv 1 defaultTheta 45 gridV105 = policyEvalLoop (uniformPolicy 16 4) gridworldEnv 1 defaultTheta 44 gridV106 from gridEvalStepNe (uniformPolicy 16 4) 44 gridV105 gridV106 ((8684886042986252330730287507568855078083770024821323143231517175831307014398192328978876727784662421074484467337768479346763 : ℚ)/43322963970637732180912721627235682866194329302747133987038743447103457934462900359999600095377180907771737671271930809827721216) gridSweep105 (by decide!)]
  rw [show policyEvalLoop (uniformPolicy 16 4) gridworldEnv 1 defaultTheta 44 gridV106 = policyEvalLoop (uniformPolicy 16 4) gridworldEnv 1 defaultTheta 43 gridV107 from gridEvalStepNe (uniformPolicy 16 4) 43 gridV106 gridV107 ((127312266083974881834685814573925529568052487083667890087979233596080073148322587563508484229253240473689393707400064959292893 : ℚ)/693167423530203714894603546035770925859109268843954143792619895153655326951406405759993601526034894524347802740350892957243539456) gridSweep106 (by decide!)]
  rw [show policyEvalLoop (uniformPolicy 16 4) gridworldEnv 1 defaultTheta 43 gridV107 = policyEvalLoop (uniformPolicy 16 4) gridworldEnv 1 defaultTheta 42 gridV108 from gridEvalStepNe (uniformPolicy 16 4) 42 gridV107 gridV108 ((1866278154395177706397439256833887492710743124793293186598538215259519106740548243685840083529738716879299504482583917677653691 : ℚ)/11090678776483259438313656736572334813745748301503266300681918322458485231222502492159897624416558312389564843845614287315896631296) gridSweep107 (by decide!)]
  rw [show policyEvalLoop (uniformPolicy 16 4) gridworldEnv 1 defaultTheta 42 gridV108 = policyEvalLoop (uniformPolicy 16 4) gridworldEnv 1 defaultTheta 41 gridV109 from gridEvalStepNe (uniformPolicy 16 4) 41 gridV108 gridV109 ((27357883546549204605959448889506387831322318898881640784348732307652481337052203650681948764404966757119520311777711561667607533 : ℚ)/177450860423732151013018507785157357019931972824052260810910693159335763699560039874558361990664932998233037501529828597054346100736) gridSweep108 (by decide!)]
  rw [show policyEvalLoop (uniformPolicy 16 4) gridworldEnv 1 defaultTheta 41 gridV109 = policyEvalLoop (uniformPolicy 16 4) gridworldEnv 1 defaultTheta 40 gridV110 from gridEvalStepNe (uniformPolicy 16 4) 40 gridV109 gridV110 ((401040857914937195915623551570288691226736144709441359849894202181913847900297143723703771789151807777194172758652052309766127659 : ℚ)/2839213766779714416208296124562517712318911565184836172974571090549372219192960637992933791850638927971728600024477257552869537611776) gridSweep109 (by decide!)]
  rw [show policyEvalLoop (uniformPolicy 16 4) gridworldEnv 1 defaultTheta 40 gridV110 = policyEvalLoop (uniformPolicy 16 4) gridworldEnv 1 defaultTheta 39 gridV111 from gridEvalStepNe (uniformPolicy 16 4) 39 gridV110 gridV111 ((5878882021099752182401041067799543064660254695888440041117288218504722618602850244718447536998709604158033325039731057485667272445 : ℚ)/45427420268475430659332737993000283397102585042957378767593137448789955507087370207886940669610222847547657600391636120845912601788416) gridSweep110 (by decide!)]
  rw [show policyEvalLoop (uniformPolicy 16 4) gridworldEnv 1 defaultTheta 39 gridV111 = policyEvalLoop (uniformPolicy 16 4) gridworldEnv 1 defaultTheta 38 gridV112 from gridEvalStepNe (uniformPolicy 16 4) 38 gridV111 gridV112 ((86178884609658711238138783510445084081120994363536653428535635096446299034488164107030728431342755166570648772435052707607414961307 : ℚ)/726838724295606890549323807888004534353641360687318060281490199180639288113397923326191050713763565560762521606266177933534601628614656) gridSweep111 (by decide!)]
  rw [show policyEvalLoop (uniformPolicy 16 4) gridworldEnv 1 defaultTheta 38 gridV112 = policyEvalLoop (uniformPolicy 16 4) gridworldEnv 1 defaultTheta 37 gridV113 from gridEvalStepNe (uniformPolicy 16 4) 37 gridV112 gridV113 ((1263301445055288345659966001389426049661229363427145780231807863518096646917363312166633944986967232731529047984635849943317394577165 : ℚ)/11629419588729710248789180926208072549658261770997088964503843186890228609814366773219056811420217048972200345700258846936553626057834496) gridSweep112 (by decide!)]
  rw [show policyEvalLoop (uniformPolicy 16 4) gridworldEnv 1 defaultTheta 37 gridV113 = policyEvalLoop (uniformPolicy 16 4) gridworldEnv 1 defaultTheta 36 gridV114 from gridEvalStepNe (uniformPolicy 16 4) 36 gridV113 gridV114 ((18518811751944070343019583376034719216411920001563809880737137999104155141166994136154636031091878860851902410821182984964623806381067 : ℚ)/186070713419675363980626894819329160794532188335953423432061490990243657757029868371504908982723472783555205531204141550984858016925351936) gridSweep113 (by decide!)]
  rw [show policyEvalLoop (uniformPolicy 16 4) gridworldEnv 1 defaultTheta 36 gridV114 = policyEvalLoop (uniformPolicy 16 4) gridworldEnv 1 defaultTheta 35 gridV115 from gridEvalStepNe (uniformPolicy 16 4) 35 gridV114 gridV115 ((271468373638195886531735278194900932989866894256986199112402610572595858321933057451294542689660993866011015926772223351307662618295325 : ℚ)/2977131414714805823690030317109266572712515013375254774912983855843898524112477893944078543723575564536883288499266264815757728270805630976) gridSweep114 (by decide!)]
  rw [show policyEvalLoop (uniformPolicy 16 4) gridworldEnv 1 defaultTheta 35 gridV115 = policyEvalLoop (uniformPolicy 16 4) gridworldEnv 1 defaultTheta 34 gridV116 from gridEvalStepNe (uniformPolicy 16 4) 34 gridV115 gridV116 ((3979471192477063514899876440222110118260277248444163070098229061506796299855552795005446431375862071850364388645361623572331632732866171 : ℚ)/47634102635436893179040485073748265163400240214004076398607741693502376385799646303105256699577209032590132615988260237052123652332890095616) gridSweep115 (by decide!)]
  rw [show policyEvalLoop (uniformPolicy 16 4) gridworldEnv 1 defaultTheta 34 gridV116 = policyEvalLoop (uniformPolicy 16 4) gridworldEnv 1 defaultTheta 33 gridV117 from gridEvalStepNe (uniformPolicy 16 4) 33 gridV116 gridV117 ((58335307201791307000892906783036491081408666898331536855933104612046472107882495244814956382493392413676828782746020398852781076018595373 : ℚ)/762145642166990290864647761179972242614403843424065222377723867096038022172794340849684107193235344521442121855812163792833978437326241529856) gridSweep116 (by decide!)]
  rw [show policyEvalLoop (uniformPolicy 16 4) gridworldEnv 1 defaultTheta 33 gridV117 = policyEvalLoop (uniformPolicy 16 4) gridworldEnv 1 defaultTheta 32 gridV118 from gridEvalStepNe (uniformPolicy 16 4) 32 gridV117 gridV118 ((855140771658439050741804688747091024199809180264682558089986803566356515372063554641481515732026781655972735281300059692405301334327968747 : ℚ)/12194330274671844653834364178879555881830461494785043558043581873536608354764709453594945715091765512343073949692994620685343654997219864477696) gridSweep117 (by decide!)]
  rw [show policyEvalLoop (uniformPolicy 16 4) gridworldEnv 1 defaultTheta 32 gridV118 = policyEvalLoop (uniformPolicy 16 4) gridworldEnv 1 defaultTheta 31 gridV119 from gridEvalStepNe (uniformPolicy 16 4) 31 gridV118 gridV119 ((12535559928107065152987163517122683289696377866707965172798533814424365122162913395408959145035594484527985428532849612723439408743779599677 : ℚ)/195109284394749514461349826862072894109287383916560696928697309976585733676235351257519131441468248197489183195087913930965498479955517831643136) gridSweep118 (by decide!)]
  rw [show policyEvalLoop (uniformPolicy 16 4) gridworldEnv 1 defaultTheta 31 gridV119 = policyEvalLoop (uniformPolicy 16 4) gridworldEnv 1 defaultTheta 30 gridV120 from gridEvalStepNe (uniformPolicy 16 4) 30 gridV119 gridV120 ((183759525822175026104370534024644889694791390265867059802280350529492200252611193732720668362606700324669730141424081662437154840789974574171 : ℚ)/3121748550315992231381597229793166305748598142664971150859156959625371738819765620120306103063491971159826931121406622895447975679288285306290176) gridSweep119 (by decide!)]
  rw [show policyEvalLoop (uniformPolicy 16 4) gridworldEnv 1 defaultTheta 30 gridV120 = policyEvalLoop (uniformPolicy 16 4) gridworldEnv 1 defaultTheta 29 gridV121 from gridEvalStepNe (uniformPolicy 16 4) 29 gridV120 gridV121 ((2693741924896185164827388527383738357305967150651639525094366252129906047571640087450162537779785788500954806255487763935416310078047685740877 : ℚ)/49947976805055875702105555676690660891977570282639538413746511354005947821116249921924897649015871538557230897942505966327167610868612564900642816) gridSweep120 (by decide!)]
  rw [show policyEvalLoop (uniformPolicy 16 4) gridworldEnv 1 defaultTheta 29 gridV121 = policyEvalLoop (uniformPolicy 16 4) gridworldEnv 1 defaultTheta 28 gridV122 from gridEvalStepNe (uniformPolicy 16 4) 28 gridV121 gridV122 ((39487724652518468526414364171711140750152102651766439376365647006763218687264374544388050104407585952483596237868818594493405953366535185291211 : ℚ)/799167628880894011233688890827050574271641124522232614619944181664095165137859998750798362384253944616915694367080095461234681773897801038410285056) gridSweep121 (by decide!)]
  rw [show policyEvalLoop (uniformPolicy 16 4) gridworldEnv 1 defaultTheta 28 gridV122 = policyEvalLoop (uniformPolicy 16 4) gridworldEnv 1 defaultTheta 27 gridV123 from gridEvalStepNe (uniformPolicy 16 4) 27 gridV122 gridV123 ((578852927157529512464290213577995640736902618268225861832425497522973556901417487590486373789658596668167908432827816634577761689649448525931101 : ℚ)/12786682062094304179739022253232809188346257992355721833919106906625522642205759980012773798148063113870651109873281527379754908382364816614564560896) gridSweep122 (by decide!)]
  rw [show policyEvalLoop (uniformPolicy 16 4) gridworldEnv 1 defaultTheta 27 gridV123 = policyEvalLoop (uniformPolicy 16 4) gridworldEnv 1 defaultTheta 26 gridV124 from gridEvalStepNe (uniformPolicy 16 4) 26 gridV123 gridV124 ((8485439822815160727574290160058126072581202945633554503313653233456260795534330007156306910119568329336491975726138389006615549128865895384550971 : ℚ)/204586912993508866875824356051724947013540127877691549342705710506008362275292159680204380770369009821930417757972504438076078534117837065833032974336) gridSweep123 (by decide!)]
  rw [show policyEvalLoop (uniformPolicy 16 4) gridworldEnv 1 defaultTheta 26 gridV124 = policyEvalLoop (uniformPolicy 16 4) gridworldEnv 1 defaultTheta 25 gridV125 from gridEvalStepNe (uniformPolicy 16 4) 25 gridV124 gridV125 ((124388571964537228962030297824790262534725726744236637690317025707286384026615122921526735583640015560485881141205048813888569923643393477235761261 : ℚ)/3273390607896141870013189696827599152216642046043064789483291368096133796404674554883270092325904157150886684127560071009217256545885393053328527589376) gridSweep124 (by decide!)]
  rw [show policyEvalLoop (uniformPolicy 16 4) gridworldEnv 1 defaultTheta 25 gridV125 = policyEvalLoop (uniformPolicy 16 4) gridworldEnv 1 defaultTheta 24 gridV126 from gridEvalStepNe (uniformPolicy 16 4) 24 gridV125 gridV126 ((1823419546712858309601238501456054597973688889404384133942971473962860148329238189995123374142631130445665043206156349786978622389204325589661349803 : ℚ)/52374249726338269920211035149241586435466272736689036631732661889538140742474792878132321477214466514414186946040961136147476104734166288853256441430016) gridSweep125 (by decide!)]
  rw [show policyEvalLoop (uniformPolicy 16 4) gridworldEnv 1 defaultTheta 24 gridV126 = policyEvalLoop (uniformPolicy 16 4) gridworldEnv 1 defaultTheta 23 gridV127 from gridEvalStepNe (uniformPolicy 16 4) 23 gridV126 gridV127 ((26729616642615946599570225845823023271722017380578180821346983452603863621585450977837154851422629441468547467624995003592055861192220172677519233917 : ℚ)/837987995621412318723376562387865382967460363787024586107722590232610251879596686050117143635431464230626991136655378178359617675746660621652103062880256) gridSweep126 (by decide!)]
  rw [show policyEvalLoop (uniformPolicy 16 4) gridworldEnv 1 defaultTheta 23 gridV127 = policyEvalLoop (uniformPolicy 16 4) gridworldEnv 1 defaultTheta 22 gridV128 from gridEvalStepNe (uniformPolicy 16 4) 22 gridV127 gridV128 ((391831055638959002992520012032412335854234579558977868518930990122975601111243192375300264773904056697759603962801354967523074678986196928289975108635 : ℚ)/13407807929942597099574024998205846127479365820592393377723561443721764030073546976801874298166903427690031858186486050853753882811946569946433649006084096) gridSweep127 (by decide!)]
  rw [show policyEvalLoop (uniformPolicy 16 4) gridworldEnv 1 defaultTheta 22 gridV128 = policyEvalLoop (uniformPolicy 16 4) gridworldEnv 1 defaultTheta 21 gridV129 from gridEvalStepNe (uniformPolicy 16 4) 21 gridV128 gridV129 ((5743874976431959619901584135193056529435713097030019064254684712754779574817316855590146404442327093060424439243183759010642781482069691572944487385997 : ℚ)/214524926879081553593184399971293538039669853129478294043576983099548224481176751628829988770670454843040509730983776813660062124991145119142938384097345536) gridSweep128 (by decide!)]
  rw [show policyEvalLoop (uniformPolicy 16 4) gridworldEnv 1 defaultTheta 21 gridV129 = policyEvalLoop (uniformPolicy 16 4) gridworldEnv 1 defaultTheta 20 gridV130 from gridEvalStepNe (uniformPolicy 16 4) 20 gridV129 gridV130 ((84199808233885441157011232204596710601877103972851872923511833961838580961573437019615381651787870600749043345944108311525315579580515598531731718644619 : ℚ)/3432398830065304857490950399540696608634717650071652704697231729592771591698828026061279820330727277488648155695740429018560993999858321906287014145557528576) gridSweep129 (by decide!)]
  rw [show policyEvalLoop (uniformPolicy 16 4) gridworldEnv 1 defaultTheta 20 gridV130 = policyEvalLoop (uniformPolicy 16 4) gridworldEnv 1 defaultTheta 19 gridV131 from gridEvalStepNe (uniformPolicy 16 4) 19 gridV130 gridV131 ((1234290045607343504021426971464284062059077877393398890277769266630626166804057201363313033319565825945136736612949723807257005526511780018298384196769949 : ℚ)/54918381281044877719855206392651145738155482401146443275155707673484345467181248416980477125291636439818370491131846864296975903997733150500592226328920457216) gridSweep130 (by decide!)]
  rw [show policyEvalLoop (uniformPolicy 16 4) gridworldEnv 1 defaultTheta 19 gridV131 = policyEvalLoop (uniformPolicy 16 4) gridworldEnv 1 defaultTheta 18 gridV132 from gridEvalStepNe (uniformPolicy 16 4) 18 gridV131 gridV132 ((18093531905126961993404050052561176597121685273854412916712322365834361165883360426196723214571641763905387494272840145995468718613562068466141176286037499 : ℚ)/878694100496718043517683302282418331810487718418343092402491322775749527474899974671687634004666183037093927858109549828751614463963730408009475621262727315456) gridSweep131 (by decide!)]
  rw [show policyEvalLoop (uniformPolicy 16 4) gridworldEnv 1 defaultTheta 18 gridV132 = policyEvalLoop (uniformPolicy 16 4) gridworldEnv 1 defaultTheta 17 gridV133 from gridEvalStepNe (uniformPolicy 16 4) 17 gridV132 gridV133 ((265234170823081587835268635800185229572158563477335961866720261694657404864288330685246656548342399771123861331959252473075056954999718046382112543827921581 : ℚ)/14059105607947488696282932836518693308967803494693489478439861164411992439598399594747002144074658928593502845729752797260025831423419686528151609940203637047296) gridSweep132 (by decide!)]
  rw [show policyEvalLoop (uniformPolicy 16 4) gridworldEnv 1 defaultTheta 17 gridV133 = policyEvalLoop (uniformPolicy 16 4) gridworldEnv 1 defaultTheta 16 gridV134 from gridEvalStepNe (uniformPolicy 16 4) 16 gridV133 gridV134 ((3888083639008786737576000002803073540985268725861186495076781800395149830805986813413231868452064238188218632890425033273334717473382670454443150852115716971 : ℚ)/224945689727159819140526925384299092943484855915095831655037778630591879033574393515952034305194542857496045531676044756160413302774714984450425759043258192756736) gridSweep133 (by decide!)]
  rw [show policyEvalLoop (uniformPolicy 16 4) gridworldEnv 1 defaultTheta 16 gridV134 = policyEvalLoop (uniformPolicy 16 4) gridworldEnv 1 defaultTheta 15 gridV135 from gridEvalStepNe (uniformPolicy 16 4) 15 gridV134 gridV135 ((56995651567125525608723592022209717032003108406516186577933525171756827353071617063432587448970346971005219182382496904479454235768865838323945375838146195901 : ℚ)/3599131035634557106248430806148785487095757694641533306480604458089470064537190296255232548883112685719936728506816716098566612844395439751206812144692131084107776) gridSweep134 (by decide!)]
  rw [show policyEvalLoop (uniformPolicy 16 4) gridworldEnv 1 defaultTheta 15 gridV135 = policyEvalLoop (uniformPolicy 16 4) gridworldEnv 1 defaultTheta 14 gridV136 from gridEvalStepNe (uniformPolicy 16 4) 14 gridV135 gridV136 ((835502679255464710032037440922587478009470911020482814088922393609545884996171586280186094958276734293456567981197440449691581166324874927914692104553414677467 : ℚ)/57586096570152913699974892898380567793532123114264532903689671329431521032595044740083720782129802971518987656109067457577065805510327036019308994315074097345724416) gridSweep135 (by decide!)]
  rw [show policyEvalLoop (uniformPolicy 16 4) gridworldEnv 1 defaultTheta 14 gridV136 = policyEvalLoop (uniformPolicy 16 4) gridworldEnv 1 defaultTheta 13 gridV137 from gridEvalStepNe (uniformPolicy 16 4) 13 gridV136 gridV137 ((12247683952185856100420371120198298034593128948942680309786451650323823383060401432854254012966099240437800627163596856120165838684477946618982498234196493262285 : ℚ)/921377545122446619199598286374089084696513969828232526459034741270904336521520715841339532514076847544303802497745079321233052888165232576308943909041185557531590656) gridSweep136 (by decide!)]
  rw [show policyEvalLoop (uniformPolicy 16 4) gridworldEnv 1 defaultTheta 13 gridV137 = policyEvalLoop (uniformPolicy 16 4) gridworldEnv 1 defaultTheta 12 gridV138 from gridEvalStepNe (uniformPolicy 16 4) 12 gridV137 gridV138 ((179539534602455699264766815190453136074404313520467063218575538987268970960767967631523355911590312015678977300402338717199890587890530576999579084594863729057611 : ℚ)/14742040721959145907193572581985425355144223517251720423344555860334469384344331453461432520225229560708860839963921269139728846210643721220943102544658968920505450496) gridSweep137 (by decide!)]
  rw [show policyEvalLoop (uniformPolicy 16 4) gridworldEnv 1 defaultTheta 12 gridV138 = policyEvalLoop (uniformPolicy 16 4) gridworldEnv 1 defaultTheta 11 gridV139 from gridEvalStepNe (uniformPolicy 16 4) 11 gridV138 gridV139 ((2631880820170369812644034648664170917907800818681538302186683040011685474140346467345070387721156028328283170246060042396279562142871041969762758439677437438451421 : ℚ)/235872651551346334515097161311766805682307576276027526773512893765351510149509303255382920323603672971341773439422740306235661539370299539535089640714543502728087207936) gridSweep138 (by decide!)]
  rw [show policyEvalLoop (uniformPolicy 16 4) gridworldEnv 1 defaultTheta 11 gridV139 = policyEvalLoop (uniformPolicy 16 4) gridworldEnv 1 defaultTheta 10 gridV140 from gridEvalStepNe (uniformPolicy 16 4) 10 gridV139 gridV140 ((38580899003209933680659418643361125263433446424413442678490457840985131314203085958381693327186094771642203609064200425926390988884605661824936115829280910034120123 : ℚ)/3773962424821541352241554580988268890916921220416440428376206300245624162392148852086126725177658767541468375030763844899770584629924792632561434251432696043649395326976) gridSweep139 (by decide!)]
  exact show policyEvalLoop (uniformPolicy 16 4) gridworldEnv 1 defaultTheta 10 gridV140 = some gridV141 from gridEvalStepLast (uniformPolicy 16 4) 9 gridV140 gridV141 ((565559715503960757425679674286886758312513013947809847956455357363321477944627096846735056874978499496545864268137062522555061596483713518072293314999316877178668269 : ℚ)/60383398797144661635864873295812302254670739526663046854019300803929986598274381633378027602842540280663494000492221518396329354078796682120982948022923136698390325231616) gridSweep140 (by decide!)

theorem gridImproveStepNe (evalFuel fuel : Nat) (p q : List (List ℚ)) (V : List ℚ)
    (h1 : policy_eval p gridworldEnv 1 defaultTheta evalFuel = some V)
    (h2 : improveSweep gridworldEnv 1 V (List.range gridworldEnv.nS) p true = (q, false)) :
    policyImproveLoop gridworldEnv 1 evalFuel (fuel + 1) p =
      policyImproveLoop gridworldEnv 1 evalFuel fuel q := by
  rw [policyImproveLoop, h1]
  dsimp only
  rw [h2]
  dsimp only
  rw [if_neg Bool.false_ne_true]

theorem gridImproveStepStable (evalFuel fuel : Nat) (p q : List (List ℚ)) (V : List ℚ)
    (h1 : policy_eval p gridworldEnv 1 defaultTheta evalFuel = some V)
    (h2 : improveSweep gridworldEnv 1 V (List.range gridworldEnv.nS) p true = (q, true)) :
    policyImproveLoop gridworldEnv 1 evalFuel (fuel + 1) p = some (q, V) := by
  rw [policyImproveLoop, h1]
  dsimp only
  rw [h2]
  dsimp only
  rw [if_pos rfl]

theorem gridSolve :
    policy_improvement gridworldEnv (fun _ _ _ => none) 1 150 3 =
      some (gridPolicy, expected_v) := by
  have hu : uniformPolicy gridworldEnv.nS gridworldEnv.nA = uniformPolicy 16 4 := rfl
  rw [policy_improvement, hu]
  rw [show policyImproveLoop gridworldEnv 1 150 3 (uniformPolicy 16 4) = policyImproveLoop gridworldEnv 1 150 2 gridP1 from gridImproveStepNe 150 2 (uniformPolicy 16 4) gridP1 gridV141 gridFirstEval (by decide!)]
  rw [show policyImproveLoop gridworldEnv 1 150 2 gridP1 = policyImproveLoop gridworldEnv 1 150 1 gridP2 from gridImproveStepNe 150 1 gridP1 gridP2 expected_v (by decide!) (by decide!)]
  exact show policyImproveLoop gridworldEnv 1 150 1 gridP2 = some (gridPolicy, expected_v) from gridImproveStepStable 150 0 gridP2 gridPolicy expected_v (by decide!) (by decide!)

theorem c6_gridworld_golden_values :
    ∃ pol V,
      policy_improvement gridworldEnv (fun _ _ _ => none) 1 150 3 = some (pol, V) ∧
      V.length = expected_v.length ∧
      ∀ i < expected_v.length, |V.getD i 0 - expected_v.getD i 0| ≤ 1 / 100 := by
  refine ⟨gridPolicy, expected_v, gridSolve, rfl, ?_⟩
  decide!
